import Mathlib

/-!
# NPI SPI transport (`npi_lnx_spi.c`) and its configuration file
(`npi_lnx_serial_configuration.c`): shallow embedding

The C functions of `npi_lnx_spi.c` are embedded as pure functions that pass the
file-scope variables (`State`) explicitly.  Every call that leaves the file (GPIO
and SPI HAL, pthread, clock, `poll`, upper-layer callback) is answered by an
environment `Env`, a function of the history of calls made so far, and is appended
to `State.trace`, so that "what the code did to the hardware" is a list of events.
The tracing switched on by `__BIG_DEBUG_ACTIVE` is not modelled.

The functions of `npi_lnx_serial_configuration.c` are embedded as functions of the
content of the configuration file, a list of characters; a C string is the list of
its characters before the terminator, and undefined behaviour (the dereference of
a null pointer, a store outside the block of 128 bytes that holds the line) is the
result `none`.  The parser keeps the offset of `resString` in that block, the
fields of the configuration structure have the width of their C type, and `strtol`
clamps to the range of `long`.
-/

namespace RemoTI

/-! ## Data model -/

/-- An 8-bit unsigned value, `uint8` in the source. -/
abbrev uint8 := Fin 256

/-- The macro `TRUE` of `npi_lnx_spi.c` (line 83). -/
abbrev TRUE : Int := 1

/-- The macro `FALSE` of `npi_lnx_spi.c` (line 87). -/
abbrev FALSE : Int := 0

/-- Modelled from the spec: `hal_rpc.h` is not among the sources; the header is
the fixed 3 bytes `len, subsys, cmd` (`RPC_FRAME_HDR_SZ`). -/
abbrev RPC_FRAME_HDR_SZ : Nat := 3

/-- Modelled from the spec: position of the `subsys` byte (`RPC_POS_CMD0`) in the
3-byte header `len, subsys, cmd`. -/
abbrev RPC_POS_CMD0 : Nat := 1

/-- Constants and build switches that the file takes from headers that are not
among the sources (`hal_rpc.h`, `npi_lnx_error.h`, `npi_lnx_spi.h`) or from the
compiler command line.  They are parameters of every embedded function. -/
structure Consts where
  NPI_LNX_SUCCESS : Int
  NPI_LNX_FAILURE : Int
  RPC_CMD_POLL : uint8
  RPC_CMD_SREQ : uint8
  RPC_CMD_AREQ : uint8
  RPC_CMD_TYPE_MASK : uint8
  RPC_SUBSYSTEM_MASK : uint8
  NPI_LNX_ERROR_SPI_POLL_LOCK_VAR_ERROR : Int
  NPI_LNX_ERROR_SPI_POLL_DATA_SRDY_CLR_TIMEOUT_POSSIBLE_RESET : Int
  NPI_LNX_ERROR_HAL_GPIO_WAIT_SRDY_SET_READ_FAILED : Int
  NPI_LNX_ERROR_I2C_POLL_THREAD_POLL_UNLOCK : Int
  NPI_LNX_ERROR_SPI_POLL_THREAD_POLL_UNLOCK : Int
  NPI_LNX_SPI_NUM_OF_MS_TO_DETECT_RESET_AFTER_SLOW_SRDY_ASSERT : Int
  SRDY_INTERRUPT : Bool
  NPI_LNX_ERROR_SPI_OPEN_ALREADY_OPEN : Int
  NPI_LNX_ERROR_SPI_OPEN_FAILED_POLL_LOCK_MUTEX : Int
  NPI_LNX_ERROR_SPI_OPEN_FAILED_POLL_MUTEX : Int
  NPI_LNX_ERROR_SPI_OPEN_FAILED_SRDY_COND : Int
  NPI_LNX_ERROR_SPI_OPEN_FAILED_SRDY_LOCK_MUTEX : Int
  NPI_LNX_ERROR_SPI_OPEN_FAILED_POLL_COND : Int
  NPI_LNX_ERROR_SPI_OPEN_FAILED_POLL_THREAD : Int
  NPI_LNX_ERROR_SPI_OPEN_FAILED_EVENT_THREAD : Int
  PERFORM_SW_RESET_INSTEAD_OF_HARDWARE_RESET : Bool
  NPI_LNX_ERROR_SPI_EVENT_THREAD_FAILED_POLL : Int

/-- Modelled from the spec: the values of the missing header constants as far as
the spec fixes them.  The literal frames of the spec give SREQ = 0x20, AREQ = 0x40,
SRSP = 0x60 and the POLL preamble byte 0x80, which needs the three top bits as
type field; the reset-detection threshold defaults to 500 ms.  The status and
error codes are not given by the spec: success is 0, failure -1, and the error
codes are distinct placeholders. -/
def specConsts : Consts :=
  { NPI_LNX_SUCCESS := 0
    NPI_LNX_FAILURE := -1
    RPC_CMD_POLL := 0x80
    RPC_CMD_SREQ := 0x20
    RPC_CMD_AREQ := 0x40
    RPC_CMD_TYPE_MASK := 0xE0
    RPC_SUBSYSTEM_MASK := 0x1F
    NPI_LNX_ERROR_SPI_POLL_LOCK_VAR_ERROR := -101
    NPI_LNX_ERROR_SPI_POLL_DATA_SRDY_CLR_TIMEOUT_POSSIBLE_RESET := -102
    NPI_LNX_ERROR_HAL_GPIO_WAIT_SRDY_SET_READ_FAILED := -103
    NPI_LNX_ERROR_I2C_POLL_THREAD_POLL_UNLOCK := -104
    NPI_LNX_ERROR_SPI_POLL_THREAD_POLL_UNLOCK := -105
    NPI_LNX_SPI_NUM_OF_MS_TO_DETECT_RESET_AFTER_SLOW_SRDY_ASSERT := 500
    SRDY_INTERRUPT := true
    NPI_LNX_ERROR_SPI_OPEN_ALREADY_OPEN := -106
    NPI_LNX_ERROR_SPI_OPEN_FAILED_POLL_LOCK_MUTEX := -107
    NPI_LNX_ERROR_SPI_OPEN_FAILED_POLL_MUTEX := -108
    NPI_LNX_ERROR_SPI_OPEN_FAILED_SRDY_COND := -109
    NPI_LNX_ERROR_SPI_OPEN_FAILED_SRDY_LOCK_MUTEX := -110
    NPI_LNX_ERROR_SPI_OPEN_FAILED_POLL_COND := -111
    NPI_LNX_ERROR_SPI_OPEN_FAILED_POLL_THREAD := -112
    NPI_LNX_ERROR_SPI_OPEN_FAILED_EVENT_THREAD := -113
    PERFORM_SW_RESET_INSTEAD_OF_HARDWARE_RESET := false
    NPI_LNX_ERROR_SPI_EVENT_THREAD_FAILED_POLL := -114 }

/-- A `struct timespec`. -/
structure Timespec where
  tv_sec : Int
  tv_nsec : Int
  deriving DecidableEq

/-- The three mutexes of the file. -/
inductive Mutex where
  | npiPollLock
  | npi_poll_mutex
  | npiSrdyLock
  deriving DecidableEq

/-- The condition variables of the file. -/
inductive Cond where
  | npi_srdy_H2L_poll
  | npi_poll_cond
  deriving DecidableEq

/-- The two threads of the file. -/
inductive Thread where
  | npiPollThread
  | npiEventThread
  deriving DecidableEq

/-- The clocks read by the file. -/
inductive ClockId where
  | CLOCK_MONOTONIC
  | CLOCK_REALTIME
  deriving DecidableEq

/-- The calls that leave `npi_lnx_spi.c`, with the arguments that matter.
`HalSpiWrite` carries the bytes handed to the bus, `HalSpiRead` the offset of
the destination inside the message buffer (0 for `pMsg`, 3 for `pMsg->pData`)
and the number of bytes asked for, `NPI_AsynchMsgCback` the frame (header and
`len` payload bytes) its argument points to.  The initialisation and close calls
of the HAL carry no argument: the settings handed to them are not looked at by
this file.  The call `poll` of the event thread carries the descriptor it waits on and
the timeout in milliseconds. -/
inductive Call where
  | HAL_RNP_MRDY_CLR
  | HAL_RNP_MRDY_SET
  | HalGpioWaitSrdyClr
  | HalGpioWaitSrdySet
  | HalSpiWrite (data : List uint8)
  | HalSpiRead (dst : Nat) (len : Nat)
  | HAL_RNP_SRDY_CLR
  | HalGpioSrdyCheck (state : Int)
  | NPI_AsynchMsgCback (frame : List uint8)
  | clock_gettime (clk : ClockId)
  | usleep (usec : Nat)
  | pthread_mutex_lock (m : Mutex)
  | pthread_mutex_unlock (m : Mutex)
  | pthread_cond_wait (m : Mutex)
  | pthread_cond_timedwait (m : Mutex)
  | HalGpioResetInit
  | HalGpioMrdyInit
  | HalGpioSrdyInit
  | HalSpiInit
  | HalSpiClose
  | HalGpioSrdyClose
  | HalGpioMrdyClose
  | HalGpioResetClose
  | pthread_mutex_init (m : Mutex)
  | pthread_mutex_destroy (m : Mutex)
  | pthread_cond_init (c : Cond)
  | pthread_cond_signal (c : Cond)
  | pthread_create (t : Thread)
  | pthread_join (t : Thread)
  | poll (fd : Int) (timeout : Int)
  | pthread_mutex_trylock (m : Mutex)
  | HalGpioMrdyCheck (state : Int)
  | HAL_RNP_SRDY_SET
  deriving DecidableEq

/-- What the environment answers to a call: the returned `int`, the value the
callee stores into `npi_ipc_errno` (if it stores one), the bytes delivered by an
SPI read, the time stored by `clock_gettime`, and the `revents` bits stored by
`poll`. -/
structure Resp where
  ret : Int
  errno : Option Int
  data : List uint8
  time : Timespec
  revents : Nat := 0
  deriving DecidableEq

/-- One call together with its answer. -/
structure Event where
  call : Call
  resp : Resp
  deriving DecidableEq

/-- The environment: the answer to a call, given the history of earlier calls. -/
abbrev Env := List Event → Call → Resp

/-- The file-scope variables of `npi_lnx_spi.c` (lines 95-113), the global
`npi_ipc_errno`, which mutexes are held, and the history of calls.  `lockLog` is a
history variable that no code reads: for every call of `trace`, in order, the value
`PollLockVar` had when the call was made. -/
structure State where
  npiOpenFlag : Int
  earlyMrdyDeAssert : uint8
  detectResetFromSlowSrdyAssert : uint8
  forceRun : uint8
  srdyMrdyHandshakeSupport : uint8
  npi_poll_terminate : Int
  PollLockVar : Int
  npi_ipc_errno : Int
  held : Mutex → Bool
  trace : List Event
  GpioSrdyFd : Int
  lockLog : List Int

/-- A message buffer (`npiMsgData_t *` seen as `uint8 *`): byte 0 is `len`, byte 1
`subSys`, byte 2 `cmdId`, bytes from 3 on are `pData`. -/
abbrev Buf := Nat → uint8

/-- Store one byte: `b[i] = v`. -/
def bufSet (b : Buf) (i : Nat) (v : uint8) : Buf :=
  fun j => if j = i then v else b j

/-- The C call `memset(b + off, 0, n)`. -/
def memset0 (b : Buf) (off n : Nat) : Buf :=
  fun j => if off ≤ j ∧ j < off + n then 0 else b j

/-- Store the bytes `bytes` at `b + off`. -/
def bufStore (b : Buf) (off : Nat) (bytes : List uint8) : Buf :=
  fun j => if off ≤ j ∧ j < off + bytes.length then bytes.getD (j - off) 0 else b j

/-- The `n` bytes at `b + off`. -/
def bufBytes (b : Buf) (off n : Nat) : List uint8 :=
  (List.range n).map (fun i => b (off + i))

/-- The `len` bytes an SPI read of `len` bytes puts into its buffer when the bus
delivers `data`: byte `i` of the transfer, 0 where the bus delivered none. -/
def xferBytes (len : Nat) (data : List uint8) : List uint8 :=
  (List.range len).map (fun i => data.getD i 0)

/-- Whether the callee belongs to the code base that owns `npi_ipc_errno` (HAL and
upper layer); libc and pthread calls do not store into it. -/
def Call.setsErrno : Call → Bool
  | .clock_gettime _ => false
  | .usleep _ => false
  | .pthread_mutex_lock _ => false
  | .pthread_mutex_unlock _ => false
  | .pthread_cond_wait _ => false
  | .pthread_cond_timedwait _ => false
  | .pthread_mutex_init _ => false
  | .pthread_mutex_destroy _ => false
  | .pthread_cond_init _ => false
  | .pthread_cond_signal _ => false
  | .pthread_create _ => false
  | .pthread_join _ => false
  | .poll _ _ => false
  | .pthread_mutex_trylock _ => false
  | _ => true

/-- The state after call `c` has been answered by `r`: the event is appended to
the history, together with the value of `PollLockVar` at the call, and the callee
may have stored into `npi_ipc_errno`. -/
def record (s : State) (c : Call) (r : Resp) : State :=
  { s with
    trace := s.trace ++ [⟨c, r⟩]
    lockLog := s.lockLog ++ [s.PollLockVar]
    npi_ipc_errno := if c.setsErrno then r.errno.getD s.npi_ipc_errno else s.npi_ipc_errno }

/-- Make a call: ask the environment and record the event. -/
def perform (env : Env) (c : Call) (s : State) : Resp × State :=
  (env s.trace c, record s c (env s.trace c))

/-- Mark mutex `m` as held (`b = true`) or free. -/
def setHeld (s : State) (m : Mutex) (b : Bool) : State :=
  { s with held := fun k => if k = m then b else s.held k }

/-- The call `pthread_mutex_lock(&m)`: the mutex is held afterwards when the call
returns 0. -/
def mutex_lock (env : Env) (m : Mutex) (s : State) : Int × State :=
  let x := perform env (.pthread_mutex_lock m) s
  (x.1.ret, if x.1.ret = 0 then setHeld x.2 m true else x.2)

/-- The call `pthread_mutex_unlock(&m)`: the mutex is free afterwards when the call
returns 0. -/
def mutex_unlock (env : Env) (m : Mutex) (s : State) : Int × State :=
  let x := perform env (.pthread_mutex_unlock m) s
  (x.1.ret, if x.1.ret = 0 then setHeld x.2 m false else x.2)

/-- The function `PollLockVarError` (lines 162-167). -/
def PollLockVarError (K : Consts) (s : State) : Int × State :=
  (K.NPI_LNX_FAILURE, { s with npi_ipc_errno := K.NPI_LNX_ERROR_SPI_POLL_LOCK_VAR_ERROR })

/-- The statement `if (PollLockVar) ret = PollLockVarError(...); else PollLockVar = 1;`
(lines 376-388, 673-685, 1252-1265). -/
def pollLockVarSet (K : Consts) (ret : Int) (s : State) : Int × State :=
  if s.PollLockVar ≠ 0 then PollLockVarError K s else (ret, { s with PollLockVar := 1 })

/-- The statement `if (!PollLockVar) ret = PollLockVarError(...); else PollLockVar = 0;`
(lines 435-447, 823-835, 1319-1331, 1359-1371). -/
def pollLockVarClear (K : Consts) (ret : Int) (s : State) : Int × State :=
  if s.PollLockVar = 0 then PollLockVarError K s else (ret, { s with PollLockVar := 0 })

/-- The call `HalSpiWrite(0, b, n)`: the `n` bytes at `b` go to the bus. -/
def HalSpiWrite (env : Env) (b : Buf) (n : Nat) (s : State) : Int × State :=
  let x := perform env (.HalSpiWrite (bufBytes b 0 n)) s
  (x.1.ret, x.2)

/-- The call `HalSpiRead(0, b + dst, n)`: `n` bytes from the bus are stored at
`b + dst`. -/
def HalSpiRead (env : Env) (b : Buf) (dst n : Nat) (s : State) : Int × Buf × State :=
  let x := perform env (.HalSpiRead dst n) s
  (x.1.ret, bufStore b dst (xferBytes n x.1.data), x.2)

/-- A call without arguments that returns a status. -/
def halCall (env : Env) (c : Call) (s : State) : Int × State :=
  let x := perform env c s
  (x.1.ret, x.2)

/-- The local variables a block of a transaction works on: `ret`,
`mRdyAsserted`, the message buffer, and the state. -/
structure Xfer where
  ret : Int
  mRdyAsserted : Bool
  pMsg : Buf
  st : State

/-- The condition `len == 0xFF && subSys == 0xFF && cmdId == 0xFF` on a buffer. -/
def illegalHeader (b : Buf) : Bool :=
  b 0 = 0xFF && b 1 = 0xFF && b 2 = 0xFF

/-- The end of a transaction (lines 583-588 and 815-820):
`if (mRdyAsserted) { mRet = HAL_RNP_MRDY_SET(); if (ret == SUCCESS) ret = mRet; }`. -/
def endOfTransaction (K : Consts) (env : Env) (x : Xfer) : Int × Buf × State :=
  if x.mRdyAsserted then
    let m := halCall env .HAL_RNP_MRDY_SET x.st
    (if x.ret = K.NPI_LNX_SUCCESS then m.1 else x.ret, x.pMsg, m.2)
  else (x.ret, x.pMsg, x.st)

/-! ## `NPI_SPI_SendAsynchData` (lines 361-461) -/

/-- Lines 423-460 of `NPI_SPI_SendAsynchData`: from the wait for SRDY low to the
return. -/
def NPI_SPI_SendAsynchData_tail (K : Consts) (env : Env) (pMsg : Buf) (s : State) :
    Int × Buf × State :=
  -- ret = HalGpioWaitSrdyClr();
  let w := halCall env .HalGpioWaitSrdyClr s
  -- if (ret == NPI_LNX_SUCCESS) ret = HalSpiWrite(0, pMsg, pMsg->len + RPC_FRAME_HDR_SZ);
  let x := if w.1 = K.NPI_LNX_SUCCESS
    then HalSpiWrite env pMsg ((pMsg 0).val + RPC_FRAME_HDR_SZ) w.2 else w
  -- if (ret == NPI_LNX_SUCCESS) ret = HAL_RNP_MRDY_SET(); else (void)HAL_RNP_MRDY_SET();
  let m := halCall env .HAL_RNP_MRDY_SET x.2
  let ret := if x.1 = K.NPI_LNX_SUCCESS then m.1 else x.1
  -- if (!PollLockVar) ret = PollLockVarError(...); else PollLockVar = 0;
  let p := pollLockVarClear K ret m.2
  -- pthread_mutex_unlock(&npiPollLock); and, with SRDY_INTERRUPT, of npiSrdyLock
  let u := mutex_unlock env .npiPollLock p.2
  let u2 := if K.SRDY_INTERRUPT then mutex_unlock env .npiSrdyLock u.2 else u
  (p.1, pMsg, u2.2)

/-- The function `NPI_SPI_SendAsynchData` (lines 361-461). -/
def NPI_SPI_SendAsynchData (K : Consts) (env : Env) (pMsg : Buf) (s : State) :
    Int × Buf × State :=
  -- pthread_mutex_lock(&npiPollLock); and, with SRDY_INTERRUPT, of npiSrdyLock
  let l := mutex_lock env .npiPollLock s
  let l2 := if K.SRDY_INTERRUPT then mutex_lock env .npiSrdyLock l.2 else l
  -- if (PollLockVar) ret = PollLockVarError(...); else PollLockVar = 1;
  let p := pollLockVarSet K K.NPI_LNX_SUCCESS l2.2
  -- pMsg[RPC_POS_CMD0] = (pMsg[RPC_POS_CMD0] & RPC_SUBSYSTEM_MASK) | RPC_CMD_AREQ;
  let pMsg := bufSet pMsg RPC_POS_CMD0
    ((pMsg RPC_POS_CMD0 &&& K.RPC_SUBSYSTEM_MASK) ||| K.RPC_CMD_AREQ)
  if p.1 = K.NPI_LNX_SUCCESS then
    -- ret = HAL_RNP_MRDY_CLR(); if (NPI_LNX_SUCCESS != ret) return ret;
    let c := halCall env .HAL_RNP_MRDY_CLR p.2
    if c.1 ≠ K.NPI_LNX_SUCCESS then (c.1, pMsg, c.2)
    else NPI_SPI_SendAsynchData_tail K env pMsg c.2
  else NPI_SPI_SendAsynchData_tail K env pMsg p.2

/-! ## `npi_spi_pollData` (lines 482-597) -/

/-- The value `diffusecs` of line 539: the difference of two clock readings in
microseconds, with the truncating division of C.  The source computes it in
`long`; the arithmetic is taken to be exact, as it is while the difference of the
seconds times 1000000 fits a `long`. -/
def diffusecs (t1 t2 : Timespec) : Int :=
  (t2.tv_sec - t1.tv_sec) * 1000000 + (t2.tv_nsec - t1.tv_nsec).tdiv 1000

/-- Lines 522-533 of `npi_spi_pollData`:
`if (earlyMrdyDeAssert == TRUE) { mRet = HAL_RNP_MRDY_SET(); if (mRet == SUCCESS)
mRdyAsserted = FALSE; else if (ret == SUCCESS) ret = mRet; }`. -/
def npi_spi_pollData_early (K : Consts) (env : Env) (x : Xfer) : Xfer :=
  if x.st.earlyMrdyDeAssert = 1 then
    let m := halCall env .HAL_RNP_MRDY_SET x.st
    if m.1 = K.NPI_LNX_SUCCESS then { x with mRdyAsserted := false, st := m.2 }
    else if x.ret = K.NPI_LNX_SUCCESS then { x with ret := m.1, st := m.2 }
    else { x with st := m.2 }
  else x

/-- Lines 535-549 of `npi_spi_pollData`: the reset detection from the two clock
readings `t1` (after the write) and `t2` (after the wait for SRDY high). -/
def npi_spi_pollData_detect (K : Consts) (t1 t2 : Timespec) (x : Xfer) : Xfer :=
  if x.st.detectResetFromSlowSrdyAssert = 1 ∧
      diffusecs t1 t2 > K.NPI_LNX_SPI_NUM_OF_MS_TO_DETECT_RESET_AFTER_SLOW_SRDY_ASSERT * 1000 then
    { x with
      ret := K.NPI_LNX_FAILURE
      st := { x.st with
              npi_ipc_errno := K.NPI_LNX_ERROR_SPI_POLL_DATA_SRDY_CLR_TIMEOUT_POSSIBLE_RESET } }
  else x

/-- Lines 553-579 of `npi_spi_pollData`: reading the header and the payload. -/
def npi_spi_pollData_frame (K : Consts) (env : Env) (x : Xfer) : Xfer :=
  if x.ret = K.NPI_LNX_SUCCESS then
    -- memset(pMsg, 0, RPC_FRAME_HDR_SZ); ret = HalSpiRead(0, pMsg, RPC_FRAME_HDR_SZ);
    let h := HalSpiRead env (memset0 x.pMsg 0 RPC_FRAME_HDR_SZ) 0 RPC_FRAME_HDR_SZ x.st
    if h.1 = K.NPI_LNX_SUCCESS then
      if illegalHeader h.2.1 then { x with ret := h.1, pMsg := h.2.1, st := h.2.2 }
      else if 0 < (h.2.1 0).val then
        -- memset(pMsg->pData, 0, pMsg[0]); ret = HalSpiRead(0, pMsg->pData, pMsg->len);
        let p := HalSpiRead env (memset0 h.2.1 3 (h.2.1 0).val) 3 (h.2.1 0).val h.2.2
        { x with ret := p.1, pMsg := p.2.1, st := p.2.2 }
      else { x with ret := h.1, pMsg := h.2.1, st := h.2.2 }
    else { x with ret := h.1, pMsg := h.2.1, st := h.2.2 }
  else x

/-- Lines 506-579 of `npi_spi_pollData`: the block run after a successful write
of the request, with `t1` the clock reading taken after the write. -/
def npi_spi_pollData_read (K : Consts) (env : Env) (pMsg : Buf) (t1 : Timespec) (s : State) :
    Xfer :=
  -- ret = HalGpioWaitSrdySet(); clock_gettime(CLOCK_MONOTONIC, &t2);
  let ws := halCall env .HalGpioWaitSrdySet s
  let t2 := perform env (.clock_gettime .CLOCK_MONOTONIC) ws.2
  npi_spi_pollData_frame K env
    (npi_spi_pollData_detect K t1 t2.1.time
      (npi_spi_pollData_early K env ⟨ws.1, true, pMsg, t2.2⟩))

/-- Lines 499-588 of `npi_spi_pollData`: what follows a successful MRDY assert
(`mRdyAsserted = TRUE`), up to the return. -/
def npi_spi_pollData_body (K : Consts) (env : Env) (pMsg : Buf) (s : State) :
    Int × Buf × State :=
  -- ret = HalSpiWrite(...); clock_gettime(CLOCK_MONOTONIC, &t1);
  let w := HalSpiWrite env pMsg ((pMsg 0).val + RPC_FRAME_HDR_SZ) s
  let t1 := perform env (.clock_gettime .CLOCK_MONOTONIC) w.2
  if w.1 = K.NPI_LNX_SUCCESS then
    endOfTransaction K env (npi_spi_pollData_read K env pMsg t1.1.time t1.2)
  else endOfTransaction K env ⟨w.1, true, pMsg, t1.2⟩

/-- The function `npi_spi_pollData` (lines 482-597). -/
def npi_spi_pollData (K : Consts) (env : Env) (pMsg : Buf) (s : State) : Int × Buf × State :=
  -- ret = HAL_RNP_MRDY_CLR();
  let c := halCall env .HAL_RNP_MRDY_CLR s
  if c.1 = K.NPI_LNX_SUCCESS then npi_spi_pollData_body K env pMsg c.2
  else (c.1, pMsg, c.2)

/-! ## `NPI_SPI_SendSynchData` (lines 618-865) -/

/-- Lines 739-757 of `NPI_SPI_SendSynchData`: the wait for SRDY high and the
early MRDY deassert. -/
def NPI_SPI_SendSynchData_srdySet (K : Consts) (env : Env) (pMsg : Buf) (s : State) : Xfer :=
  -- ret = HalGpioWaitSrdySet();
  let ws := halCall env .HalGpioWaitSrdySet s
  if ws.1 ≠ K.NPI_LNX_SUCCESS then
    -- if (npi_ipc_errno == ..._WAIT_SRDY_SET_READ_FAILED) usleep(5000);
    ⟨ws.1, true, pMsg,
      if ws.2.npi_ipc_errno = K.NPI_LNX_ERROR_HAL_GPIO_WAIT_SRDY_SET_READ_FAILED
      then (perform env (.usleep 5000) ws.2).2 else ws.2⟩
  else if ws.2.earlyMrdyDeAssert = 1 then
    -- ret = HAL_RNP_MRDY_SET(); if (ret == NPI_LNX_SUCCESS) mRdyAsserted = FALSE;
    let m := halCall env .HAL_RNP_MRDY_SET ws.2
    ⟨m.1, if m.1 = K.NPI_LNX_SUCCESS then false else true, pMsg, m.2⟩
  else ⟨ws.1, true, pMsg, ws.2⟩

/-- Lines 759-810 of `NPI_SPI_SendSynchData`: reading the header and the
payload. -/
def NPI_SPI_SendSynchData_frame (K : Consts) (env : Env) (x : Xfer) : Xfer :=
  if x.ret = K.NPI_LNX_SUCCESS then
    -- memset(pMsg, 0, RPC_FRAME_HDR_SZ); ret = HalSpiRead(0, pMsg, RPC_FRAME_HDR_SZ);
    let h := HalSpiRead env (memset0 x.pMsg 0 RPC_FRAME_HDR_SZ) 0 RPC_FRAME_HDR_SZ x.st
    if h.1 ≠ K.NPI_LNX_SUCCESS then { x with ret := h.1, pMsg := h.2.1, st := h.2.2 }
    else if 0 < (h.2.1 0).val then
      if illegalHeader h.2.1 then
        { x with ret := K.NPI_LNX_FAILURE, pMsg := h.2.1, st := h.2.2 }
      else
        -- memset(pMsg->pData, 0, pMsg->len); ret = HalSpiRead(0, pMsg->pData, pMsg->len);
        let p := HalSpiRead env (memset0 h.2.1 3 (h.2.1 0).val) 3 (h.2.1 0).val h.2.2
        { x with ret := p.1, pMsg := p.2.1, st := p.2.2 }
    else { x with ret := h.1, pMsg := h.2.1, st := h.2.2 }
  else x

/-- Lines 712-812 of `NPI_SPI_SendSynchData`: the block run after a successful
MRDY assert, up to (not including) the end of transaction. -/
def NPI_SPI_SendSynchData_xfer (K : Consts) (env : Env) (pMsg : Buf) (s : State) : Xfer :=
  -- ret = HalGpioWaitSrdyClr();
  let wc := halCall env .HalGpioWaitSrdyClr s
  if wc.1 ≠ K.NPI_LNX_SUCCESS then ⟨wc.1, true, pMsg, wc.2⟩
  else
    -- ret = HalSpiWrite(0, pMsg, pMsg->len + RPC_FRAME_HDR_SZ);
    let w := HalSpiWrite env pMsg ((pMsg 0).val + RPC_FRAME_HDR_SZ) wc.2
    if w.1 ≠ K.NPI_LNX_SUCCESS then ⟨w.1, true, pMsg, w.2⟩
    else NPI_SPI_SendSynchData_frame K env (NPI_SPI_SendSynchData_srdySet K env pMsg w.2)

/-- The values of `ret`, `lockRetPoll`, `lockRetSrdy` after lines 633-669. -/
structure SynchLocks where
  ret : Int
  lockRetPoll : Int
  lockRetSrdy : Int
  st : State

/-- Lines 633-669 of `NPI_SPI_SendSynchData`: taking the two mutexes. -/
def NPI_SPI_SendSynchData_lock (K : Consts) (env : Env) (s : State) : SynchLocks :=
  let lp := mutex_lock env .npiPollLock s
  if lp.1 ≠ 0 then ⟨K.NPI_LNX_FAILURE, lp.1, 0, lp.2⟩
  else if K.SRDY_INTERRUPT then
    let l := mutex_lock env .npiSrdyLock lp.2
    ⟨if l.1 ≠ 0 then K.NPI_LNX_FAILURE else K.NPI_LNX_SUCCESS, lp.1, l.1, l.2⟩
  else ⟨K.NPI_LNX_SUCCESS, lp.1, 0, lp.2⟩

/-- Lines 671-821 of `NPI_SPI_SendSynchData`: from the first test of
`PollLockVar` to the end of the transaction, entered with the value of `ret`
left by the locking. -/
def NPI_SPI_SendSynchData_body (K : Consts) (env : Env) (ret : Int) (pMsg : Buf) (s : State) :
    Int × Buf × State :=
  -- if (ret == SUCCESS) { if (PollLockVar) ret = PollLockVarError(...); else PollLockVar = 1; }
  let p : Int × State := if ret = K.NPI_LNX_SUCCESS then pollLockVarSet K ret s else (ret, s)
  if p.1 = K.NPI_LNX_SUCCESS then
    -- pMsg[RPC_POS_CMD0] = ... | RPC_CMD_SREQ; ret = HAL_RNP_MRDY_CLR();
    let b := bufSet pMsg RPC_POS_CMD0
      ((pMsg RPC_POS_CMD0 &&& K.RPC_SUBSYSTEM_MASK) ||| K.RPC_CMD_SREQ)
    let c := halCall env .HAL_RNP_MRDY_CLR p.2
    -- if (SUCCESS == ret) { mRdyAsserted = TRUE; ...; if (mRdyAsserted) {...} }
    if c.1 = K.NPI_LNX_SUCCESS then
      endOfTransaction K env (NPI_SPI_SendSynchData_xfer K env b c.2)
    else (c.1, b, c.2)
  else (p.1, pMsg, p.2)

/-- The function `NPI_SPI_SendSynchData` (lines 618-865). -/
def NPI_SPI_SendSynchData (K : Consts) (env : Env) (pMsg : Buf) (s : State) :
    Int × Buf × State :=
  let lk := NPI_SPI_SendSynchData_lock K env s
  let t := NPI_SPI_SendSynchData_body K env lk.ret pMsg lk.st
  -- if (!PollLockVar) ret = PollLockVarError(...); else PollLockVar = 0;
  let q := pollLockVarClear K t.1 t.2.2
  -- if (!lockRetPoll) pthread_mutex_unlock(&npiPollLock);
  let u := if lk.lockRetPoll = 0 then (mutex_unlock env .npiPollLock q.2).2 else q.2
  -- with SRDY_INTERRUPT: if (lockRetSrdy == 0) pthread_mutex_unlock(&npiSrdyLock);
  let u2 := if K.SRDY_INTERRUPT ∧ lk.lockRetSrdy = 0
    then (mutex_unlock env .npiSrdyLock u).2 else u
  (q.1, t.2.1, u2)

/-! ## One pass of the loop of `npi_poll_entry` (lines 1246-1439) -/

/-- The events added to the history between state `s` and the later state `t`. -/
def eventsSince (s t : State) : List Event :=
  t.trace.drop s.trace.length

/-- The size of `readbuf`, the buffer `npi_poll_entry` passes to
`npi_spi_pollData` (line 1207: `uint8 readbuf[128]`). -/
abbrev readbuf_size : Nat := 128

/-- The array `uint8 readbuf[128]` of `npi_poll_entry` (line 1207). -/
abbrev Readbuf := Fin readbuf_size → uint8

/-- The memory at the address `readbuf`, as `npi_spi_pollData` gets it through the
pointer: the bytes of the array.  The bytes behind the array belong to other
objects; they read as 0 here, and a pass that stores to them has no result (see
`npi_poll_entry_poll`), so that their value is never used. -/
def Readbuf.mem (a : Readbuf) : Buf :=
  fun i => if h : i < readbuf_size then a ⟨i, h⟩ else 0

/-- The array `readbuf` as it is found in the memory `b` at its address. -/
def Readbuf.ofMem (b : Buf) : Readbuf :=
  fun i => b i.val

/-- One past the last index of the message buffer that a call stores into: an SPI
read of `len` bytes to offset `dst` stores into `dst .. dst + len - 1`. -/
def Call.storeEnd : Call → Nat
  | .HalSpiRead dst len => dst + len
  | _ => 0

/-- Whether every store the calls `evs` made through the pointer `readbuf` went to
one of the 128 bytes of the array. -/
def inReadbuf (evs : List Event) : Bool :=
  evs.all (fun e => decide (e.call.storeEnd ≤ readbuf_size))

/-- The local variables of `npi_poll_entry` that live across loop passes. -/
structure PollLocals where
  ret : Int
  readbuf : Readbuf
  pollStatus : Bool

/-- The result of one loop pass: the locals, the state, and (for stating
properties) the value `npi_spi_pollData` returned if the pass called it. -/
structure PollIter where
  ret : Int
  readbuf : Readbuf
  pollStatus : Bool
  st : State
  pollDataRet : Option Int

/-- Lines 1289-1291: the POLL request written into `readbuf`. -/
def pollFrame (K : Consts) (readbuf : Buf) : Buf :=
  bufSet (bufSet (bufSet readbuf 0 0) 1 K.RPC_CMD_POLL) 2 0

/-- Lines 1293-1317: what the pass does with the result `r` of
`npi_spi_pollData`. -/
def npi_poll_entry_deliver (K : Consts) (env : Env) (r : Int × Buf × State) : Int × State :=
  if r.1 = K.NPI_LNX_SUCCESS then
    if r.2.1 RPC_POS_CMD0 &&& K.RPC_CMD_TYPE_MASK = K.RPC_CMD_AREQ then
      -- ret = NPI_AsynchMsgCback(readbuf); if (ret != SUCCESS) npi_poll_terminate = 1;
      let cb := halCall env
        (.NPI_AsynchMsgCback (bufBytes r.2.1 0 ((r.2.1 0).val + RPC_FRAME_HDR_SZ))) r.2.2
      (cb.1, if cb.1 ≠ K.NPI_LNX_SUCCESS then { cb.2 with npi_poll_terminate := 1 } else cb.2)
    else (r.1, r.2.2)
  else (r.1, { r.2.2 with npi_poll_terminate := 1 })

/-- Lines 1293-1356: what the pass does once `npi_spi_pollData` has returned `r`
(its value, the memory at `readbuf` and the state). -/
def npi_poll_entry_polled (K : Consts) (env : Env) (L : PollLocals) (r : Int × Buf × State) :
    PollIter :=
  let c := npi_poll_entry_deliver K env r
  let q := pollLockVarClear K c.1 c.2
  if K.SRDY_INTERRUPT then ⟨q.1, Readbuf.ofMem r.2.1, L.pollStatus, q.2, some r.1⟩
  else
    -- if (0 == pthread_mutex_unlock(&npiPollLock)) pollStatus = TRUE; else {...}
    let u := mutex_unlock env .npiPollLock q.2
    if u.1 = 0 then ⟨q.1, Readbuf.ofMem r.2.1, true, u.2, some r.1⟩
    else ⟨K.NPI_LNX_FAILURE, Readbuf.ofMem r.2.1, L.pollStatus,
          { u.2 with npi_ipc_errno := K.NPI_LNX_ERROR_I2C_POLL_THREAD_POLL_UNLOCK
                     npi_poll_terminate := 1 }, some r.1⟩

/-- Lines 1281-1356: the branch taken when SRDY is found asserted.  `readbuf` has
128 bytes and `npi_spi_pollData` stores as many bytes as the header it has read
announces: when a read has stored behind the array the behaviour of the program is
undefined, and the pass has no result (`none`). -/
def npi_poll_entry_poll (K : Consts) (env : Env) (L : PollLocals) (s : State) :
    Option PollIter :=
  -- ret = npi_spi_pollData((npiMsgData_t *)readbuf);
  let r := npi_spi_pollData K env (pollFrame K L.readbuf.mem) s
  if inReadbuf (eventsSince s r.2.2) then some (npi_poll_entry_polled K env L r) else none

/-- Lines 1357-1402: the branch taken when SRDY is not found asserted. -/
def npi_poll_entry_idle (K : Consts) (env : Env) (L : PollLocals) (ret : Int) (s : State) :
    PollIter :=
  let q := pollLockVarClear K ret s
  if K.SRDY_INTERRUPT then ⟨q.1, L.readbuf, L.pollStatus, q.2, none⟩
  else
    let u := mutex_unlock env .npiPollLock q.2
    if u.1 = 0 then ⟨q.1, L.readbuf, false, u.2, none⟩
    else ⟨K.NPI_LNX_FAILURE, L.readbuf, false,
          { u.2 with npi_ipc_errno := K.NPI_LNX_ERROR_SPI_POLL_THREAD_POLL_UNLOCK
                     npi_poll_terminate := 1 }, none⟩

/-- Lines 1404-1438: how the pass waits before the loop condition is tested
again. -/
def npi_poll_entry_wait (K : Consts) (env : Env) (b : PollIter) : PollIter :=
  if K.SRDY_INTERRUPT then
    if b.st.npi_poll_terminate = 0 then
      { b with st := (perform env (.pthread_cond_wait .npiPollLock) b.st).2 }
    else { b with st := (mutex_unlock env .npiPollLock b.st).2 }
  else if b.pollStatus = false then
    let t := perform env (.clock_gettime .CLOCK_REALTIME) b.st
    { b with st := (perform env (.pthread_cond_timedwait .npi_poll_mutex) t.2).2 }
  else b

/-- Lines 1249-1280: the start of a pass, up to the test of SRDY; the result is
`ret`, the value the SRDY read returned, and the state. -/
def npi_poll_entry_begin (K : Consts) (env : Env) (L : PollLocals) (s : State) :
    Int × Int × State :=
  -- without SRDY_INTERRUPT: pthread_mutex_lock(&npiPollLock);
  let s0 := if K.SRDY_INTERRUPT then s else (mutex_lock env .npiPollLock s).2
  -- if (PollLockVar) ret = PollLockVarError(...); else PollLockVar = 1;
  let p := pollLockVarSet K L.ret s0
  -- the SRDY test: HalGpioSrdyCheck(0) == TRUE, or ret = HAL_RNP_SRDY_CLR(); TRUE == ret
  if K.SRDY_INTERRUPT then
    let c := halCall env (.HalGpioSrdyCheck 0) p.2
    (p.1, c.1, c.2)
  else
    let c := halCall env .HAL_RNP_SRDY_CLR p.2
    (c.1, c.1, c.2)

/-- One pass of the `while (!npi_poll_terminate)` loop of `npi_poll_entry`
(lines 1246-1439); `none` when the pass has stored behind `readbuf`. -/
def npi_poll_entry_iter (K : Consts) (env : Env) (L : PollLocals) (s : State) :
    Option PollIter :=
  let b := npi_poll_entry_begin K env L s
  if b.2.1 = TRUE then (npi_poll_entry_poll K env L b.2.2).map (npi_poll_entry_wait K env)
  else some (npi_poll_entry_wait K env (npi_poll_entry_idle K env L b.1 b.2.2))

/-! ## Opening the device (lines 190-309, 949-980, 1144-1185, 1474-1498) -/

/-- Modelled from the spec: the type `npiSpiCfg_t` is declared in `npi_lnx_spi.h`,
which is not among the sources.  These are the four fields that
`NPI_SPI_OpenDevice` copies (lines 214-217); the GPIO and SPI settings the
structure also holds are only handed on to the HAL. -/
structure npiSpiCfg_t where
  earlyMrdyDeAssert : uint8
  detectResetFromSlowSrdyAssert : uint8
  forceRunOnReset : uint8
  srdyMrdyHandshakeSupport : uint8

/-- The function `npi_initsyncres` (lines 1144-1185). -/
def npi_initsyncres (K : Consts) (env : Env) (s : State) : Int × State :=
  -- if (pthread_mutex_init(&npiPollLock, NULL)) { npi_ipc_errno = ...; return FAILURE; }
  let a := perform env (.pthread_mutex_init .npiPollLock) s
  if a.1.ret ≠ 0 then
    (K.NPI_LNX_FAILURE,
      { a.2 with npi_ipc_errno := K.NPI_LNX_ERROR_SPI_OPEN_FAILED_POLL_LOCK_MUTEX })
  else
    let b := perform env (.pthread_mutex_init .npi_poll_mutex) a.2
    if b.1.ret ≠ 0 then
      (K.NPI_LNX_FAILURE, { b.2 with npi_ipc_errno := K.NPI_LNX_ERROR_SPI_OPEN_FAILED_POLL_MUTEX })
    else if K.SRDY_INTERRUPT then
      let c := perform env (.pthread_cond_init .npi_srdy_H2L_poll) b.2
      if c.1.ret ≠ 0 then
        (K.NPI_LNX_FAILURE,
          { c.2 with npi_ipc_errno := K.NPI_LNX_ERROR_SPI_OPEN_FAILED_SRDY_COND })
      else
        let d := perform env (.pthread_mutex_init .npiSrdyLock) c.2
        if d.1.ret ≠ 0 then
          (K.NPI_LNX_FAILURE,
            { d.2 with npi_ipc_errno := K.NPI_LNX_ERROR_SPI_OPEN_FAILED_SRDY_LOCK_MUTEX })
        else (K.NPI_LNX_SUCCESS, d.2)
    else
      let c := perform env (.pthread_cond_init .npi_poll_cond) b.2
      if c.1.ret ≠ 0 then
        (K.NPI_LNX_FAILURE,
          { c.2 with npi_ipc_errno := K.NPI_LNX_ERROR_SPI_OPEN_FAILED_POLL_COND })
      else (K.NPI_LNX_SUCCESS, c.2)

/-- The function `npi_termpoll` (lines 1474-1498). -/
def npi_termpoll (K : Consts) (env : Env) (s : State) : State :=
  -- npi_poll_terminate = 1; pthread_cond_signal(...);
  let s1 := { s with npi_poll_terminate := 1 }
  let s2 := (perform env
    (.pthread_cond_signal (if K.SRDY_INTERRUPT then .npi_srdy_H2L_poll else .npi_poll_cond)) s1).2
  -- with SRDY_INTERRUPT: pthread_mutex_destroy(&npiSrdyLock);
  let s3 := if K.SRDY_INTERRUPT then (perform env (.pthread_mutex_destroy .npiSrdyLock) s2).2
    else s2
  -- pthread_mutex_destroy(&npi_poll_mutex); pthread_join(npiPollThread, NULL);
  let s4 := (perform env (.pthread_mutex_destroy .npi_poll_mutex) s3).2
  let s5 := (perform env (.pthread_join .npiPollThread) s4).2
  -- with SRDY_INTERRUPT: pthread_join(npiEventThread, NULL);
  if K.SRDY_INTERRUPT then (perform env (.pthread_join .npiEventThread) s5).2 else s5

/-- The function `NPI_SPI_CloseDevice` (lines 327-341). -/
def NPI_SPI_CloseDevice (K : Consts) (env : Env) (s : State) : State :=
  let s1 := npi_termpoll K env s
  let s2 := (perform env .HalSpiClose s1).2
  let s3 := (perform env .HalGpioSrdyClose s2).2
  let s4 := (perform env .HalGpioMrdyClose s3).2
  let s5 := (perform env .HalGpioResetClose s4).2
  { s5 with npiOpenFlag := FALSE }

/-- The function `npi_initThreads` (lines 949-980). -/
def npi_initThreads (K : Consts) (env : Env) (s : State) : Int × State :=
  -- npi_poll_terminate = 0;
  let s0 := { s with npi_poll_terminate := 0 }
  -- if (pthread_create(&npiPollThread, ...)) { NPI_SPI_CloseDevice(); npi_ipc_errno = ...; }
  let a := perform env (.pthread_create .npiPollThread) s0
  if a.1.ret ≠ 0 then
    (K.NPI_LNX_FAILURE,
      { NPI_SPI_CloseDevice K env a.2 with
        npi_ipc_errno := K.NPI_LNX_ERROR_SPI_OPEN_FAILED_POLL_THREAD })
  else if K.SRDY_INTERRUPT then
    let b := perform env (.pthread_create .npiEventThread) a.2
    if b.1.ret ≠ 0 then
      (K.NPI_LNX_FAILURE,
        { NPI_SPI_CloseDevice K env b.2 with
          npi_ipc_errno := K.NPI_LNX_ERROR_SPI_OPEN_FAILED_EVENT_THREAD })
    else (K.NPI_LNX_SUCCESS, b.2)
  else (K.NPI_LNX_SUCCESS, a.2)

/-- Lines 230-246 of `NPI_SPI_OpenDevice`: the chain
`if (FAILURE == (ret = HalGpioResetInit(..))) .. else if (FAILURE == (ret =
HalGpioMrdyInit(..))) .. else if (FAILURE == (GpioSrdyFd = HalGpioSrdyInit(..)))
{ ret = GpioSrdyFd; } else if (FAILURE == (ret = HalSpiInit(..))) ..`. -/
def NPI_SPI_OpenDevice_hal (K : Consts) (env : Env) (s : State) : Int × State :=
  let a := halCall env .HalGpioResetInit s
  if a.1 = K.NPI_LNX_FAILURE then a
  else
    let b := halCall env .HalGpioMrdyInit a.2
    if b.1 = K.NPI_LNX_FAILURE then b
    else
      let c := halCall env .HalGpioSrdyInit b.2
      if c.1 = K.NPI_LNX_FAILURE then (c.1, { c.2 with GpioSrdyFd := c.1 })
      else halCall env .HalSpiInit { c.2 with GpioSrdyFd := c.1 }

/-- Lines 249-301 of `NPI_SPI_OpenDevice`: what follows the HAL initialisation when
it left `ret == NPI_LNX_SUCCESS`. -/
def NPI_SPI_OpenDevice_sync (K : Consts) (env : Env) (s : State) : Int × State :=
  -- if (NPI_LNX_FAILURE == (ret = npi_initsyncres())) ..
  let r := npi_initsyncres K env s
  if r.1 = K.NPI_LNX_FAILURE then r
  else
    -- without PERFORM_SW_RESET_INSTEAD_OF_HARDWARE_RESET:
    -- pthread_mutex_lock(&npiPollLock); if (PollLockVar) ret = PollLockVarError(..);
    -- else PollLockVar = 1;
    let l := if K.PERFORM_SW_RESET_INSTEAD_OF_HARDWARE_RESET then r
      else pollLockVarSet K r.1 (mutex_lock env .npiPollLock r.2).2
    -- if (ret == NPI_LNX_SUCCESS) ret = npi_initThreads();
    if l.1 = K.NPI_LNX_SUCCESS then npi_initThreads K env l.2 else l

/-- The function `NPI_SPI_OpenDevice` (lines 190-309). -/
def NPI_SPI_OpenDevice (K : Consts) (env : Env) (pCfg : npiSpiCfg_t) (s : State) :
    Int × State :=
  -- if (npiOpenFlag) { npi_ipc_errno = ...ALREADY_OPEN; return NPI_LNX_FAILURE; }
  if s.npiOpenFlag ≠ 0 then
    (K.NPI_LNX_FAILURE, { s with npi_ipc_errno := K.NPI_LNX_ERROR_SPI_OPEN_ALREADY_OPEN })
  else
    -- npiOpenFlag = TRUE; and the four flags are copied from pCfg
    let s1 := { s with
      npiOpenFlag := TRUE
      earlyMrdyDeAssert := pCfg.earlyMrdyDeAssert
      detectResetFromSlowSrdyAssert := pCfg.detectResetFromSlowSrdyAssert
      forceRun := pCfg.forceRunOnReset
      srdyMrdyHandshakeSupport := pCfg.srdyMrdyHandshakeSupport }
    let g := NPI_SPI_OpenDevice_hal K env s1
    if g.1 = K.NPI_LNX_SUCCESS then NPI_SPI_OpenDevice_sync K env g.2 else g

/-! ## `NPI_SPI_SynchSlave` (lines 998-1126) -/

/-- Lines 1069-1105 of `NPI_SPI_SynchSlave`: from the wait for SRDY high to the
end of the handshake branch. -/
def NPI_SPI_SynchSlave_tail (K : Consts) (env : Env) (s : State) : Int × State :=
  -- ret = HalGpioWaitSrdySet();
  let ws := halCall env .HalGpioWaitSrdySet s
  -- if (ret == NPI_LNX_SUCCESS) ret = HAL_RNP_MRDY_SET(); else (void)HAL_RNP_MRDY_SET();
  let m := halCall env .HAL_RNP_MRDY_SET ws.2
  let ret := if ws.1 = K.NPI_LNX_SUCCESS then m.1 else ws.1
  -- if (ret == NPI_LNX_SUCCESS) ret = HalGpioSrdyCheck(1);
  let k := if ret = K.NPI_LNX_SUCCESS then halCall env (.HalGpioSrdyCheck 1) m.2 else (ret, m.2)
  -- without PERFORM_SW_RESET_INSTEAD_OF_HARDWARE_RESET:
  -- if (!PollLockVar) ret = PollLockVarError(..); else PollLockVar = 0;
  -- pthread_mutex_unlock(&npiPollLock);
  let q := if K.PERFORM_SW_RESET_INSTEAD_OF_HARDWARE_RESET then k
    else
      let p := pollLockVarClear K k.1 k.2
      (p.1, (mutex_unlock env .npiPollLock p.2).2)
  -- with SRDY_INTERRUPT: pthread_mutex_unlock(&npiSrdyLock);
  (q.1, if K.SRDY_INTERRUPT then (mutex_unlock env .npiSrdyLock q.2).2 else q.2)

/-- The function `NPI_SPI_SynchSlave` (lines 998-1126). -/
def NPI_SPI_SynchSlave (K : Consts) (env : Env) (s : State) : Int × State :=
  if s.srdyMrdyHandshakeSupport = 1 then
    -- with SRDY_INTERRUPT: lockRetSrdy = pthread_mutex_lock(&npiSrdyLock);
    let l := if K.SRDY_INTERRUPT then (mutex_lock env .npiSrdyLock s).2 else s
    -- without PERFORM_SW_RESET_INSTEAD_OF_HARDWARE_RESET:
    -- if (!PollLockVar) ret = PollLockVarError(..); else PollLockVar = 1;
    let p := if K.PERFORM_SW_RESET_INSTEAD_OF_HARDWARE_RESET then l
      else if l.PollLockVar = 0 then (PollLockVarError K l).2 else { l with PollLockVar := 1 }
    -- ret = HalGpioWaitSrdyClr();
    let w := halCall env .HalGpioWaitSrdyClr p
    if w.1 = K.NPI_LNX_SUCCESS then
      -- if (NPI_LNX_SUCCESS != (ret = HAL_RNP_MRDY_CLR())) return ret;
      let c := halCall env .HAL_RNP_MRDY_CLR w.2
      if c.1 ≠ K.NPI_LNX_SUCCESS then c else NPI_SPI_SynchSlave_tail K env c.2
    else NPI_SPI_SynchSlave_tail K env w.2
  else
    -- pthread_mutex_unlock(&npiPollLock); with SRDY_INTERRUPT also of npiSrdyLock
    let u := mutex_unlock env .npiPollLock s
    (K.NPI_LNX_SUCCESS,
      if K.SRDY_INTERRUPT then (mutex_unlock env .npiSrdyLock u.2).2 else u.2)

/-! ## The poll timeout of `npi_event_entry` (lines 1705-1743) -/

/-- The macro `SPI_ISR_POLL_TIMEOUT_MS_MIN` (line 1519). -/
abbrev SPI_ISR_POLL_TIMEOUT_MS_MIN : Int := 3

/-- The macro `SPI_ISR_POLL_TIMEOUT_MS_MAX` (line 1520). -/
abbrev SPI_ISR_POLL_TIMEOUT_MS_MAX : Int := 100

/-- The value `diffPrev` of lines 1712-1720, in microseconds, from the time stamp
just taken (`cur`) and the one of the previous SRDY assert (`prev`). -/
def diffPrev (cur prev : Timespec) : Int :=
  if cur.tv_nsec ≥ prev.tv_nsec then (cur.tv_nsec - prev.tv_nsec).tdiv 1000
  else ((cur.tv_nsec + 1000000000) - prev.tv_nsec).tdiv 1000

/-- Lines 1723-1737 of `npi_event_entry`: the new value of `timeout`. -/
def npi_event_entry_timeout (cur prev : Timespec) (timeout : Int) : Int :=
  if diffPrev cur prev < SPI_ISR_POLL_TIMEOUT_MS_MIN * 1000 then SPI_ISR_POLL_TIMEOUT_MS_MIN
  else if diffPrev cur prev > SPI_ISR_POLL_TIMEOUT_MS_MAX * 1000 then
    if timeout ≠ SPI_ISR_POLL_TIMEOUT_MS_MAX then SPI_ISR_POLL_TIMEOUT_MS_MAX else timeout
  else (diffPrev cur prev).tdiv 1000

/-- Lines 1707-1743 of `npi_event_entry`, run when SRDY was found low: the clock is
read into `curTimeSPIisrPoll`; the result is the new `timeout`, the new
`prevTimeSPIisrPoll` and the state. -/
def npi_event_entry_adjust (env : Env) (timeout : Int) (prevTimeSPIisrPoll : Timespec)
    (s : State) : Int × Timespec × State :=
  -- if (clock_gettime(CLOCK_MONOTONIC, &curTimeSPIisrPoll) == 0) { .. }
  let c := perform env (.clock_gettime .CLOCK_MONOTONIC) s
  if c.1.ret = 0 then
    (npi_event_entry_timeout c.1.time prevTimeSPIisrPoll timeout, c.1.time, c.2)
  -- else if (timeout != SPI_ISR_POLL_TIMEOUT_MS_MAX) timeout = SPI_ISR_POLL_TIMEOUT_MS_MAX;
  else
    (if timeout ≠ SPI_ISR_POLL_TIMEOUT_MS_MAX then SPI_ISR_POLL_TIMEOUT_MS_MAX else timeout,
      prevTimeSPIisrPoll, c.2)

/-! ## The loop of `npi_event_entry` (lines 1517-1808) -/

/-- The bits `POLLERR | POLLHUP | POLLNVAL` of `<poll.h>` on Linux (0x008, 0x010,
0x020), tested on line 1665. -/
abbrev POLLERR_POLLHUP_POLLNVAL : Nat := 0x38

/-- The local variables of `npi_event_entry` (lines 1521-1527) together with the
file-scope variables that only this function writes, `global_srdy` (line 125) and
`prevTimeSPIisrPoll` (line 138).  The counters are unbounded integers. -/
structure EventThread where
  result : Int
  missedInterrupt : Int
  consecutiveTimeout : Int
  whileIt : Int
  ret : Int
  timeout : Int
  global_srdy : Int
  prevTimeSPIisrPoll : Timespec

/-- The call `pthread_mutex_trylock(&m)`: the mutex is held afterwards when the
call returns 0. -/
def mutex_trylock (env : Env) (m : Mutex) (s : State) : Int × State :=
  let x := perform env (.pthread_mutex_trylock m) s
  (x.1.ret, if x.1.ret = 0 then setHeld x.2 m true else x.2)

/-- Lines 1577-1700 of `npi_event_entry`: the `switch (result)` on what `poll`
returned, run with `npiSrdyLock` taken; `revents` is `pollfds[0].revents`. -/
def npi_event_entry_switch (K : Consts) (env : Env) (revents : Nat) (L : EventThread)
    (s : State) : EventThread × State :=
  if L.result = 0 then
    -- case 0: result = 2; val = HalGpioSrdyCheck(1);
    let v := halCall env (.HalGpioSrdyCheck 1) s
    if K.NPI_LNX_FAILURE = v.1 then
      -- ret = val; npi_poll_terminate = 1;
      ({ L with result := 2, ret := v.1 }, { v.2 with npi_poll_terminate := 1 })
    else if v.1 = 0 then
      -- if (!val) { missedInterrupt++; consecutiveTimeout = 0; }
      ({ L with
          missedInterrupt := L.missedInterrupt + 1
          consecutiveTimeout := 0
          result := v.1
          global_srdy := v.1 }, v.2)
    else
      -- consecutiveTimeout++;
      -- if ((timeout < SPI_ISR_POLL_TIMEOUT_MS_MAX) && (consecutiveTimeout > 100))
      --   { consecutiveTimeout = 0; timeout = SPI_ISR_POLL_TIMEOUT_MS_MAX; }
      -- missedInterrupt = 0;
      if L.timeout < SPI_ISR_POLL_TIMEOUT_MS_MAX ∧ L.consecutiveTimeout + 1 > 100 then
        ({ L with
            consecutiveTimeout := 0
            timeout := SPI_ISR_POLL_TIMEOUT_MS_MAX
            missedInterrupt := 0
            result := v.1
            global_srdy := v.1 }, v.2)
      else
        ({ L with
            consecutiveTimeout := L.consecutiveTimeout + 1
            missedInterrupt := 0
            result := v.1
            global_srdy := v.1 }, v.2)
  else if L.result = -1 then
    -- case -1: npi_ipc_errno = ..; ret = NPI_LNX_FAILURE; consecutiveTimeout = 0;
    -- npi_poll_terminate = 1;
    ({ L with ret := K.NPI_LNX_FAILURE, consecutiveTimeout := 0 },
      { s with
        npi_ipc_errno := K.NPI_LNX_ERROR_SPI_EVENT_THREAD_FAILED_POLL
        npi_poll_terminate := 1 })
  else
    -- default: consecutiveTimeout = 0;
    -- if (missedInterrupt) { if ((revents & (POLLERR | POLLHUP | POLLNVAL)) != 0) {}
    --   else { missedInterrupt = 0; if (timeout != MAX) timeout = MAX; } }
    let clear := decide (L.missedInterrupt ≠ 0 ∧ revents &&& POLLERR_POLLHUP_POLLNVAL = 0)
    -- result = global_srdy = HalGpioSrdyCheck(1);
    let v := halCall env (.HalGpioSrdyCheck 1) s
    ({ L with
        consecutiveTimeout := 0
        missedInterrupt := if clear then 0 else L.missedInterrupt
        timeout :=
          if clear ∧ L.timeout ≠ SPI_ISR_POLL_TIMEOUT_MS_MAX then SPI_ISR_POLL_TIMEOUT_MS_MAX
          else L.timeout
        result := v.1
        global_srdy := v.1 }, v.2)

/-- Lines 1705-1807 of `npi_event_entry`: what follows the switch.  With SRDY found
low the timeout is adjusted from the clock, MRDY is read, and unless that read
failed the poll thread is signalled; in every case `npiSrdyLock` is released. -/
def npi_event_entry_srdy (K : Consts) (env : Env) (L : EventThread) (s : State) :
    EventThread × State :=
  if FALSE = L.result then
    let a := npi_event_entry_adjust env L.timeout L.prevTimeSPIisrPoll s
    -- if (NPI_LNX_FAILURE == (ret = HalGpioMrdyCheck(1))) npi_poll_terminate = 1;
    let m := halCall env (.HalGpioMrdyCheck 1) a.2.2
    if m.1 ≠ K.NPI_LNX_FAILURE then
      -- if (missedInterrupt > 0) { if (timeout > MIN) timeout = MIN; }
      let timeout :=
        if L.missedInterrupt > 0 ∧ a.1 > SPI_ISR_POLL_TIMEOUT_MS_MIN then
          SPI_ISR_POLL_TIMEOUT_MS_MIN
        else a.1
      -- pthread_mutex_unlock(&npiSrdyLock); pthread_mutex_lock(&npiPollLock);
      -- pthread_cond_signal(&npi_srdy_H2L_poll); pthread_mutex_unlock(&npiPollLock);
      let u := mutex_unlock env .npiSrdyLock m.2
      let l := mutex_lock env .npiPollLock u.2
      let g := perform env (.pthread_cond_signal .npi_srdy_H2L_poll) l.2
      let v := mutex_unlock env .npiPollLock g.2
      ({ L with ret := m.1, timeout := timeout, prevTimeSPIisrPoll := a.2.1 }, v.2)
    else
      -- npi_poll_terminate = 1; .. pthread_mutex_unlock(&npiSrdyLock);
      ({ L with ret := m.1, timeout := a.1, prevTimeSPIisrPoll := a.2.1 },
        (mutex_unlock env .npiSrdyLock { m.2 with npi_poll_terminate := 1 }).2)
  else
    -- pthread_mutex_unlock(&npiSrdyLock);
    (L, (mutex_unlock env .npiSrdyLock s).2)

/-- One pass of the loop of `npi_event_entry` (lines 1541-1807).  `bigDebug` is the
value of the global `__BIG_DEBUG_ACTIVE`: the tracing it switches on is not
modelled, but with it set a pass on which the try-lock fails reads SRDY once more
for the trace text. -/
def npi_event_entry_pass (K : Consts) (env : Env) (bigDebug : Bool) (L : EventThread)
    (s : State) : EventThread × State :=
  -- whileIt++; .. result = poll(pollfds, 1, timeout);
  let p := perform env (.poll s.GpioSrdyFd L.timeout) s
  let L1 := { L with whileIt := L.whileIt + 1, result := p.1.ret }
  -- if (pthread_mutex_trylock(&npiSrdyLock) != 0) { .. continue; }
  let t := mutex_trylock env .npiSrdyLock p.2
  if t.1 ≠ 0 then
    (L1, if bigDebug then (halCall env .HAL_RNP_SRDY_SET t.2).2 else t.2)
  else
    let w := npi_event_entry_switch K env p.1.revents L1 t.2
    npi_event_entry_srdy K env w.1 w.2

/-- Lines 1521-1535 of `npi_event_entry`: the initial values of the local
variables and the wait for the end of the initialisation (lock and unlock of
`npiPollLock`).  `global_srdy` and `prevTimeSPIisrPoll` keep the values `srdy` and
`prev` they have when the thread starts. -/
def npi_event_entry_start (K : Consts) (env : Env) (srdy : Int) (prev : Timespec)
    (s : State) : EventThread × State :=
  ({ result := -1
     missedInterrupt := 0
     consecutiveTimeout := 0
     whileIt := 0
     ret := K.NPI_LNX_SUCCESS
     timeout := SPI_ISR_POLL_TIMEOUT_MS_MAX
     global_srdy := srdy
     prevTimeSPIisrPoll := prev },
    (mutex_unlock env .npiPollLock (mutex_lock env .npiPollLock s).2).2)

/-- The loop `while (!npi_poll_terminate)` of `npi_event_entry` (line 1541), cut
after `n` passes: the local variables and the state at the start of pass `n + 1`,
or at the exit of the loop when `npi_poll_terminate` was set before. -/
def npi_event_entry_loop (K : Consts) (env : Env) (bigDebug : Bool) :
    Nat → EventThread → State → EventThread × State
  | 0, L, s => (L, s)
  | n + 1, L, s =>
    if s.npi_poll_terminate ≠ 0 then (L, s)
    else
      let r := npi_event_entry_pass K env bigDebug L s
      npi_event_entry_loop K env bigDebug n r.1 r.2

/-! ## `SerialConfigParser` (`npi_lnx_serial_configuration.c`, lines 526-657)

A C string is the list of its characters before the terminating NUL, an open file
the list of the characters not yet read.  `malloc` is taken to succeed.  The line
buffer is the block of 128 bytes of line 535; the pointer `resString` into it is
followed by its offset, which line 586 moves forward at every matched section
header. -/

/-- The NUL character that ends a C string. -/
abbrev NUL : Char := Char.ofNat 0

/-- The double quote character. -/
abbrev DQUOTE : Char := Char.ofNat 34

/-- The strings that successive calls `fgets(buf, n, fd)` store until the end of the
file is reached: each call reads up to and including the next newline, but at most
`n - 1` characters.  `room` is the number of characters the call under way may
still read. -/
def fgetsLines (n : Nat) : Nat → List Char → List (List Char)
  | _, [] => []
  | room, c :: cs =>
    if c = '\n' ∨ room ≤ 1 then [c] :: fgetsLines n (n - 1) cs
    else
      match fgetsLines n (room - 1) cs with
      | [] => [[c]]
      | l :: ls => (c :: l) :: ls

/-- The C string that starts at the beginning of a buffer holding the characters
`buf`: it ends before the first NUL. -/
def cstr (buf : List Char) : List Char :=
  buf.takeWhile (fun c => c ≠ NUL)

/-- The C function `strstr`: the part of `haystack` from the first occurrence of
`needle` on, `none` (a null pointer) if there is no occurrence. -/
def strstr : List Char → List Char → Option (List Char)
  | [], needle => if needle = [] then some [] else none
  | c :: cs, needle =>
    if needle.isPrefixOf (c :: cs) then some (c :: cs) else strstr cs needle

/-- The C function `strtok`, called on the string `s`, or called with `NULL` when
the characters left over by the call before are `s`: the token, `none` (a null
pointer) if `s` holds nothing but delimiters, and the characters left over after
the delimiter that ended the token. -/
def strtok (s delim : List Char) : Option (List Char) × List Char :=
  let q := s.dropWhile (fun c => c ∈ delim)
  if q = [] then (none, [])
  else (some (q.takeWhile (fun c => c ∉ delim)), (q.dropWhile (fun c => c ∉ delim)).tail)

/-- Lines 615-628 of `SerialConfigParser`: the value on a line, from `psStr`, the
part of the line that starts at the key.  `none` stands for the dereference of a
null pointer, by `strlen(psStr)` of line 619 or by the `strcpy` of line 628.  The
characters at `psStr + strlen(psStr) + 1` are those left over by `strtok` when a
delimiter ended the token; when the token ran to the end of the line the byte at
that address is the terminator `fgets` stored, so that the comparison fails as it
does on an empty rest. -/
def SerialConfigParser_value (psStr : List Char) : Option (List Char) :=
  -- psStr = strtok(psStr, "=");
  match strtok psStr ['='] with
  | (none, _) => none
  | (some _, rest) =>
    -- if (strncmp(psStr+strlen(psStr)+1, <two double quotes>, 2) == 0)
    --   psStr = psStr+strlen(psStr);
    if rest.take 2 = [DQUOTE, DQUOTE] then some []
    -- else psStr = strtok(NULL, <the delimiters = ; and double quote>);
    else (strtok rest ['=', ';', DQUOTE]).1

/-- What the body of the loop of `SerialConfigParser` does with one line: go on with
the next line (with the new values of `sectionFound` and `invalidLineLen`, and with
`resString` pointing `offset` bytes into the block of 128 bytes that `malloc`
returned), leave the loop with the value found, or run into undefined behaviour:
the dereference of a null pointer or a store outside the block. -/
inductive ParseStep where
  | next (sectionFound invalidLineLen : Bool) (offset : Nat)
  | found (value : List Char)
  | fault
  deriving DecidableEq

/-- Lines 554-646 of `SerialConfigParser`: the call `fgets(resString, 128, fd)` that
has stored the characters `buf` and a terminator at `resString`, which points
`offset` bytes into the block of 128 bytes, and the body of the loop run on them. -/
def SerialConfigParser_line (section_ key : List Char) (sectionFound invalidLineLen : Bool)
    (offset : Nat) (buf : List Char) : ParseStep :=
  -- fgets stores buf and the terminator from resString on: the block ends at byte 128
  if 128 < offset + buf.length + 1 then .fault
  -- if (strlen(resString) == 128) invalidLineLen = TRUE;
  else if (cstr buf).length = 128 then .next sectionFound true offset
  else if invalidLineLen = false then
    -- resString[strlen(resString) - 1] = '\0';  on an empty string the index is
    -- (size_t)0 - 1, outside the block
    if (cstr buf).length = 0 then .fault
    else
      let resString := (cstr buf).dropLast
      if resString.head? = some '[' then
        -- psStr = strstr(resString, section);
        match strstr resString section_ with
        -- resString = psStr; sectionFound = TRUE;
        | some psStr => .next true invalidLineLen (offset + (resString.length - psStr.length))
        -- sectionFound = FALSE;
        | none => .next false invalidLineLen offset
      else if sectionFound = true then
        -- if ((resString[0] != '#') && (strlen(resString) > 0))
        if resString.head? ≠ some '#' ∧ resString.length > 0 then
          -- psStr = strstr(resString, key);
          match strstr resString key with
          | some psStr =>
            match SerialConfigParser_value psStr with
            | some value => .found value
            | none => .fault
          | none => .next sectionFound invalidLineLen offset
        else .next sectionFound invalidLineLen offset
      else .next sectionFound invalidLineLen offset
  -- else invalidLineLen = FALSE;
  else .next sectionFound false offset

/-- The loop of `SerialConfigParser` (line 554) over the strings that `fgets`
stores: the step at which it ends, `next` with the final values of `sectionFound`,
`invalidLineLen` and the offset of `resString` when the end of the file is
reached. -/
def SerialConfigParser_loop (section_ key : List Char) :
    Bool → Bool → Nat → List (List Char) → ParseStep
  | sectionFound, invalidLineLen, offset, [] => .next sectionFound invalidLineLen offset
  | sectionFound, invalidLineLen, offset, buf :: rest =>
    match SerialConfigParser_line section_ key sectionFound invalidLineLen offset buf with
    | .next sf inv off => SerialConfigParser_loop section_ key sf inv off rest
    | r => r

/-- The search of `SerialConfigParser` through the whole file `file`, from its
start (`fseek` of line 551) with `fgets(resString, 128, fd)`, `resString` pointing
to the start of the block (line 535). -/
def SerialConfigParser_search (file section_ key : List Char) : ParseStep :=
  SerialConfigParser_loop section_ key false false 0 (fgetsLines 128 127 file)

/-- The numeric objects that `getSerialConfiguration` assigns to and whose type is
declared in a header that is not among the sources: fields of `npiSerialCfg_t`, of
`halGpioCfg_t`, of `npiUartCfg_t` and of `halSpiCfg_t`, and `int_`, the type `int`
of the value of `atoi`. -/
inductive CfgField where
  | devIdx
  | debugSupported
  | gpio_active_high_low
  | levelshifter_active_high_low
  | uart_speed
  | uart_flowcontrol
  | spi_speed
  | spi_mode
  | spi_bitsPerWord
  | spi_useFullDuplexAPI
  | int_
  deriving DecidableEq

/-- Constants, macros and build switches that `npi_lnx_serial_configuration.c` takes
from headers that are not among the sources (`npi_lnx.h`, `npi_lnx_error.h`,
`npi_lnx_serial_configuration.h`) or from the compiler command line.
`sizeof_port` is `sizeof(serialCfg->port)`.  `LONG_MAX` is the largest `long`, to
which `strtol` clamps.  `conv f v` is the value an object of the kind `f` holds
after the integer `v` was assigned to it: the conversion to its type. -/
structure CfgConsts where
  LONG_MAX : Int
  conv : CfgField → Int → Int
  NPI_LNX_ERROR_IPC_SERIAL_CFG_FILE_DOES_NOT_EXIST : Int
  NPI_LNX_ERROR_IPC_OPEN_REMOTI_RNP_CFG : Int
  NPI_LNX_ERROR_IPC_REMOTI_RNP_CFG_PARSER_DEVICE_KEY : Int
  NPI_LNX_ERROR_IPC_REMOTI_RNP_CFG_PARSER_DEVICE_PATH : Int
  NPI_LNX_ERROR_IPC_REMOTI_RNP_CFG_PARSER_LOG_PATH : Int
  NPI_LNX_ERROR_IPC_REMOTI_RNP_CFG_PARSER_DEVICE_GPIO : Int → Int → Int → Int
  NPI_LNX_UINT8_ERROR : Int
  NPI_PORT : List Char
  sizeof_port : Nat
  SERIAL_CFG_MAX_NUM_OF_GPIOS : Nat
  NPI_UART : Bool
  NPI_SPI : Bool
  NPI_I2C : Bool
  USE_BCM_NEXUS_GPIO : Bool

/-- Modelled from the spec: the values of the missing constants.  The spec gives
none of them; the error codes are distinct placeholders, the default port is
"2533", the port field has 128 bytes and the build is one for SPI.  `long` and `int`
have 32 bits, the two speeds are unsigned 32-bit numbers and every other field is
an unsigned 8-bit number. -/
def specCfgConsts : CfgConsts :=
  { LONG_MAX := 2147483647
    conv := fun f v =>
      match f with
      | .int_ => (v + 2147483648) % 4294967296 - 2147483648
      | .uart_speed => v % 4294967296
      | .spi_speed => v % 4294967296
      | _ => v % 256
    NPI_LNX_ERROR_IPC_SERIAL_CFG_FILE_DOES_NOT_EXIST := -201
    NPI_LNX_ERROR_IPC_OPEN_REMOTI_RNP_CFG := -202
    NPI_LNX_ERROR_IPC_REMOTI_RNP_CFG_PARSER_DEVICE_KEY := -203
    NPI_LNX_ERROR_IPC_REMOTI_RNP_CFG_PARSER_DEVICE_PATH := -204
    NPI_LNX_ERROR_IPC_REMOTI_RNP_CFG_PARSER_LOG_PATH := -205
    NPI_LNX_ERROR_IPC_REMOTI_RNP_CFG_PARSER_DEVICE_GPIO := fun gpioIdx _ _ => -210 - gpioIdx
    NPI_LNX_UINT8_ERROR := 255
    NPI_PORT := "2533".toList
    sizeof_port := 128
    SERIAL_CFG_MAX_NUM_OF_GPIOS := 5
    NPI_UART := false
    NPI_SPI := true
    NPI_I2C := false
    USE_BCM_NEXUS_GPIO := false }

/-- Modelled from the spec: `NPI_SERVER_DEVICE_INDEX_UART` of the absent `npi_lnx.h`;
the spec gives the device keys UART = 0, SPI = 1, I2C = 2, UART_USB = 3. -/
abbrev NPI_SERVER_DEVICE_INDEX_UART : Int := 0

/-- Modelled from the spec: `NPI_SERVER_DEVICE_INDEX_SPI`, device key 1. -/
abbrev NPI_SERVER_DEVICE_INDEX_SPI : Int := 1

/-- Modelled from the spec: `NPI_SERVER_DEVICE_INDEX_I2C`, device key 2. -/
abbrev NPI_SERVER_DEVICE_INDEX_I2C : Int := 2

/-- Modelled from the spec: `NPI_SERVER_DEVICE_INDEX_UART_USB`, device key 3. -/
abbrev NPI_SERVER_DEVICE_INDEX_UART_USB : Int := 3

/-- The function `SerialConfigParser` (lines 526-657), on the file `serialCfgFd`
(`none` is the null pointer): the returned `int`, the string at `resultString` and
`npi_ipc_errno` afterwards.  The result `none` stands for undefined behaviour: the
dereference of a null pointer or a store outside the block of 128 bytes. -/
def SerialConfigParser (K : Consts) (C : CfgConsts) (serialCfgFd : Option (List Char))
    (section_ key resultString : List Char) (npi_ipc_errno : Int) :
    Option (Int × List Char × Int) :=
  match serialCfgFd with
  | some file =>
    match SerialConfigParser_search file section_ key with
    -- res = NPI_LNX_SUCCESS; strcpy(resultString, resString); break;
    | .found value => some (K.NPI_LNX_SUCCESS, value, npi_ipc_errno)
    | .next _ _ _ => some (K.NPI_LNX_FAILURE, resultString, npi_ipc_errno)
    | .fault => none
  -- npi_ipc_errno = NPI_LNX_ERROR_IPC_SERIAL_CFG_FILE_DOES_NOT_EXIST; return NPI_LNX_FAILURE;
  | none =>
    some (K.NPI_LNX_FAILURE, resultString, C.NPI_LNX_ERROR_IPC_SERIAL_CFG_FILE_DOES_NOT_EXIST)

/-! ## `strtol` and `atoi` -/

/-- The C function `isspace` in the "C" locale. -/
def isspace (c : Char) : Bool :=
  c = ' ' ∨ c = '\t' ∨ c = '\n' ∨ c = Char.ofNat 11 ∨ c = Char.ofNat 12 ∨ c = '\r'

/-- The value of the character `c` as a digit in base `base`, if it is one. -/
def digitValue (base : Nat) (c : Char) : Option Nat :=
  let v :=
    if '0' ≤ c ∧ c ≤ '9' then c.toNat - '0'.toNat
    else if 'a' ≤ c ∧ c ≤ 'z' then c.toNat - 'a'.toNat + 10
    else if 'A' ≤ c ∧ c ≤ 'Z' then c.toNat - 'A'.toNat + 10
    else base
  if v < base then some v else none

/-- The digits at the start of `s`, most significant first. -/
def leadingDigits (base : Nat) : List Char → List Nat
  | [] => []
  | c :: cs =>
    match digitValue base c with
    | some v => v :: leadingDigits base cs
    | none => []

/-- The C function `strtol(s, NULL, base)` for base 10 or 16: white space is
skipped, a sign and (base 16) a prefix `0x` are accepted, and the digits that
follow are converted; the value is 0 if there is none.  A value outside the range
of `long` is replaced by the nearest `long`, `LONG_MAX` or `-LONG_MAX - 1`. -/
def strtol (C : CfgConsts) (s : List Char) (base : Nat) : Int :=
  let s1 := s.dropWhile isspace
  let neg := s1.head? = some '-'
  let s2 := if s1.head? = some '-' ∨ s1.head? = some '+' then s1.tail else s1
  let s3 :=
    match s2 with
    | '0' :: x :: d :: r =>
      if base = 16 ∧ (x = 'x' ∨ x = 'X') ∧ (digitValue 16 d).isSome then d :: r else s2
    | _ => s2
  let v : Nat := (leadingDigits base s3).foldl (fun a d => a * base + d) 0
  max (-C.LONG_MAX - 1) (min C.LONG_MAX (if neg then -(v : Int) else (v : Int)))

/-- The C function `atoi`, which returns `(int) strtol(s, NULL, 10)`. -/
def atoi (C : CfgConsts) (s : List Char) : Int :=
  C.conv .int_ (strtol C s 10)

/-- The conversion of an integer to `uint8`: its value modulo 256. -/
def toUint8 (v : Int) : uint8 :=
  Fin.ofNat (v % 256).toNat

/-! ## `getSerialConfiguration` (`npi_lnx_serial_configuration.c`, lines 100-505) -/

/-- Modelled from the spec: the settings of one pin, a member of `halGpioCfg_t`,
which the absent `hal_gpio.h` declares.  These are the fields that
`getSerialConfiguration` stores into; the level shifter has no `edge`. -/
structure halGpioPin where
  value : List Char
  direction : List Char
  edge : List Char
  active_high_low : Int

/-- Modelled from the spec: the type `halGpioCfg_t` of the absent `hal_gpio.h`, a
GPIO and its level shifter. -/
structure halGpioCfg_t where
  gpio : halGpioPin
  levelshifter : halGpioPin

/-- Modelled from the spec: the type `npiSerialCfg_t` of the absent
`npi_lnx_serial_configuration.h`, with the fields that `getSerialConfiguration`
stores into.  The members of the union `serial` are separate fields.  The four
fields of `npiSpiCfg_t` that `NPI_SPI_OpenDevice` copies into `uint8` variables are
`uint8`; the type of every other numeric field is unknown, and the field holds the
value assigned to it after the conversion `CfgConsts.conv` to that type. -/
structure npiSerialCfg_t where
  devIdx : Int
  devPath : List Char
  logPath : List Char
  debugSupported : Int
  port : List Char
  gpioCfg : Nat → halGpioCfg_t
  npiUartCfg_speed : Int
  npiUartCfg_flowcontrol : Int
  spiCfg_speed : Int
  spiCfg_mode : Int
  spiCfg_bitsPerWord : Int
  spiCfg_useFullDuplexAPI : Int
  forceRunOnReset : uint8
  earlyMrdyDeAssert : uint8
  detectResetFromSlowSrdyAssert : uint8
  srdyMrdyHandshakeSupport : uint8

/-- The variables `getSerialConfiguration` works on: `retVal`, the string in
`strBuf`, the global `npi_ipc_errno`, the structure `serialCfg` points to, and the
arguments of the calls of `sleep` made so far. -/
structure CfgRun where
  retVal : Int
  strBuf : List Char
  npi_ipc_errno : Int
  serialCfg : npiSerialCfg_t
  slept : List Int

/-- The table `sectionNamesArray` (lines 56-78). -/
def sectionNamesArray (gpioIdx part : Nat) : List Char :=
  match gpioIdx, part with
  | 0, 0 => "GPIO_SRDY.GPIO".toList
  | 0, _ => "GPIO_SRDY.LEVEL_SHIFTER".toList
  | 1, 0 => "GPIO_MRDY.GPIO".toList
  | 1, _ => "GPIO_MRDY.LEVEL_SHIFTER".toList
  | 2, 0 => "GPIO_RESET.GPIO".toList
  | 2, _ => "GPIO_RESET.LEVEL_SHIFTER".toList
  | 3, 0 => "GPIO_DD.GPIO".toList
  | 3, _ => "GPIO_DD.LEVEL_SHIFTER".toList
  | _, 0 => "GPIO_DC.GPIO".toList
  | _, _ => "GPIO_DC.LEVEL_SHIFTER".toList

/-- The macro `IDX_GPIO` (line 53). -/
abbrev IDX_GPIO : Nat := 0

/-- The macro `IDX_LEVEL_SHIFTER` (line 54). -/
abbrev IDX_LEVEL_SHIFTER : Nat := 1

/-- The expression `strBuf[0] - '0'`: the first character of the string (the
terminator if the string is empty) minus the code of the digit 0. -/
def firstDigit (strBuf : List Char) : Int :=
  ((strBuf.head?.getD NUL).toNat : Int) - ('0'.toNat : Int)

/-- The call `memcpy(dst, src, strlen(src))` seen on the strings: the characters of
`src` replace the first characters of `dst`; no terminator is stored. -/
def memcpyStr (dst src : List Char) : List Char :=
  src ++ dst.drop src.length

/-- The call `strncpy(dst, src, n)` seen on the strings: a terminator is stored only
when `src` is shorter than `n`. -/
def strncpy (dst src : List Char) (n : Nat) : List Char :=
  if src.length < n then src else src.take n ++ dst.drop n

/-- One call `SerialConfigParser(serialCfgFd, section, key, strBuf)` of
`getSerialConfiguration` followed by the statements `upd` that depend on the value
it returned.  The result `none` stands for undefined behaviour inside the parser
(the dereference of a null pointer, a store outside the line buffer). -/
def cfgStep (K : Consts) (C : CfgConsts) (serialCfgFd : Option (List Char))
    (section_ key : List Char) (upd : Int → CfgRun → CfgRun) (r : CfgRun) : Option CfgRun :=
  match SerialConfigParser K C serialCfgFd section_ key r.strBuf r.npi_ipc_errno with
  | some p => some (upd p.1 { r with strBuf := p.2.1, npi_ipc_errno := p.2.2 })
  | none => none

/-- Lines 129-140: the optional start-up delay. -/
def set_delaySeconds (K : Consts) (C : CfgConsts) (res : Int) (r : CfgRun) : CfgRun :=
  -- if (NPI_LNX_FAILURE != res) { delaySeconds = atoi(strBuf); if (delaySeconds > 0) sleep(..); }
  if K.NPI_LNX_FAILURE ≠ res ∧ atoi C r.strBuf > 0 then
    { r with slept := r.slept ++ [atoi C r.strBuf] }
  else r

/-- Lines 142-150: the device key. -/
def set_devIdx (K : Consts) (C : CfgConsts) (res : Int) (r : CfgRun) : CfgRun :=
  -- if (NPI_LNX_FAILURE == res) { npi_ipc_errno = ..; retVal = NPI_LNX_FAILURE; }
  let r1 :=
    if K.NPI_LNX_FAILURE = res then
      { r with
        npi_ipc_errno := C.NPI_LNX_ERROR_IPC_REMOTI_RNP_CFG_PARSER_DEVICE_KEY
        retVal := K.NPI_LNX_FAILURE }
    else r
  -- serialCfg->devIdx = strBuf[0] - '0';
  { r1 with serialCfg := { r1.serialCfg with devIdx := C.conv .devIdx (firstDigit r1.strBuf) } }

/-- Lines 159-166: the path of the device. -/
def set_devPath (K : Consts) (C : CfgConsts) (res : Int) (r : CfgRun) : CfgRun :=
  let r1 :=
    if K.NPI_LNX_FAILURE = res then
      { r with
        npi_ipc_errno := C.NPI_LNX_ERROR_IPC_REMOTI_RNP_CFG_PARSER_DEVICE_PATH
        retVal := K.NPI_LNX_FAILURE }
    else r
  -- memcpy(serialCfg->devPath, strBuf, strlen(strBuf));
  { r1 with serialCfg := { r1.serialCfg with devPath := memcpyStr r1.serialCfg.devPath r1.strBuf } }

/-- Lines 172-179: the path of the log file. -/
def set_logPath (K : Consts) (C : CfgConsts) (res : Int) (r : CfgRun) : CfgRun :=
  let r1 :=
    if K.NPI_LNX_FAILURE = res then
      { r with
        npi_ipc_errno := C.NPI_LNX_ERROR_IPC_REMOTI_RNP_CFG_PARSER_LOG_PATH
        retVal := K.NPI_LNX_FAILURE }
    else r
  -- strcpy(serialCfg->logPath, strBuf);
  { r1 with serialCfg := { r1.serialCfg with logPath := r1.strBuf } }

/-- Lines 188-197: whether the debug interface is supported. -/
def set_debugSupported (K : Consts) (C : CfgConsts) (res : Int) (r : CfgRun) : CfgRun :=
  -- if (NPI_LNX_FAILURE == res) serialCfg->debugSupported = 0;
  -- else serialCfg->debugSupported = strBuf[0] - '0';
  { r with serialCfg := { r.serialCfg with
      debugSupported :=
        C.conv .debugSupported (if K.NPI_LNX_FAILURE = res then 0 else firstDigit r.strBuf) } }

/-- Lines 129-197 of `getSerialConfiguration`: the keys of the sections `STARTUP`,
`DEVICE`, `LOG` and `DEBUG`. -/
def getSerialConfiguration_device (K : Consts) (C : CfgConsts)
    (serialCfgFd : Option (List Char)) (r : CfgRun) : Option CfgRun :=
  cfgStep K C serialCfgFd "STARTUP".toList "delaySeconds".toList (set_delaySeconds K C) r
    >>= cfgStep K C serialCfgFd "DEVICE".toList "deviceKey".toList (set_devIdx K C)
    >>= cfgStep K C serialCfgFd "DEVICE".toList "devPath".toList (set_devPath K C)
    >>= cfgStep K C serialCfgFd "LOG".toList "log".toList (set_logPath K C)
    >>= cfgStep K C serialCfgFd "DEBUG".toList "supported".toList (set_debugSupported K C)

/-- The value of `gpioStart` after lines 199-219, from `serialCfg->devIdx` and
`serialCfg->debugSupported`. -/
def gpioStart (devIdx debugSupported : Int) : Nat :=
  if debugSupported ≠ 0 then
    if devIdx = NPI_SERVER_DEVICE_INDEX_UART then 2 else 0
  else if devIdx = NPI_SERVER_DEVICE_INDEX_SPI ∨ devIdx = NPI_SERVER_DEVICE_INDEX_I2C then 0
  else if devIdx = NPI_SERVER_DEVICE_INDEX_UART then 2
  else 0

/-- The value of `gpioEnd` after lines 199-219. -/
def gpioEnd (devIdx debugSupported : Int) : Nat :=
  if debugSupported ≠ 0 then 5
  else if devIdx = NPI_SERVER_DEVICE_INDEX_SPI ∨ devIdx = NPI_SERVER_DEVICE_INDEX_I2C then 3
  else if devIdx = NPI_SERVER_DEVICE_INDEX_UART then 3
  else 0

/-- Change the entry `gpioCfg[gpioIdx]` of the configuration. -/
def setGpio (cfg : npiSerialCfg_t) (gpioIdx : Nat) (f : halGpioCfg_t → halGpioCfg_t) :
    npiSerialCfg_t :=
  { cfg with gpioCfg := fun j => if j = gpioIdx then f (cfg.gpioCfg j) else cfg.gpioCfg j }

/-- A key of a GPIO that must be present (lines 234-251, 255-272, 282-299): the
value is copied by `memcpy` into the field that `store` changes; a missing key sets
`npi_ipc_errno` and makes the function fail, unless `optional` (the key is not
needed with `USE_BCM_NEXUS_GPIO`). -/
def set_gpio_string (K : Consts) (C : CfgConsts) (gpioIdx : Nat) (optional : Bool)
    (store : (List Char → List Char) → halGpioCfg_t → halGpioCfg_t) (res : Int) (r : CfgRun) :
    CfgRun :=
  if K.NPI_LNX_SUCCESS = res then
    { r with serialCfg := setGpio r.serialCfg gpioIdx (store (fun dst => memcpyStr dst r.strBuf)) }
  else if optional then r
  else
    { r with
      npi_ipc_errno :=
        C.NPI_LNX_ERROR_IPC_REMOTI_RNP_CFG_PARSER_DEVICE_GPIO gpioIdx 0 r.serialCfg.devIdx
      retVal := K.NPI_LNX_FAILURE }

/-- An optional numeric key of a GPIO (lines 306-318, 360-371): when it is present
the number `num strBuf` is stored by `store`. -/
def set_gpio_number (K : Consts) (gpioIdx : Nat) (num : List Char → Int)
    (store : Int → halGpioCfg_t → halGpioCfg_t) (res : Int) (r : CfgRun) : CfgRun :=
  if K.NPI_LNX_SUCCESS = res then
    { r with serialCfg := setGpio r.serialCfg gpioIdx (store (num r.strBuf)) }
  else r

/-- Lines 228-372 of `getSerialConfiguration`: the body of the loop over the GPIOs,
for the GPIO `gpioIdx`. -/
def getSerialConfiguration_gpio (K : Consts) (C : CfgConsts)
    (serialCfgFd : Option (List Char)) (gpioIdx : Nat) (r : CfgRun) : Option CfgRun :=
  -- gpio.value (mandatory)
  cfgStep K C serialCfgFd (sectionNamesArray gpioIdx IDX_GPIO) "value".toList
      (set_gpio_string K C gpioIdx false
        (fun f g => { g with gpio := { g.gpio with value := f g.gpio.value } })) r
    -- gpio.direction (mandatory unless USE_BCM_NEXUS_GPIO)
    >>= cfgStep K C serialCfgFd (sectionNamesArray gpioIdx IDX_GPIO) "direction".toList
      (set_gpio_string K C gpioIdx C.USE_BCM_NEXUS_GPIO
        (fun f g => { g with gpio := { g.gpio with direction := f g.gpio.direction } }))
    -- with SRDY_INTERRUPT, if (gpioIdx == 0): gpio.edge (mandatory unless USE_BCM_NEXUS_GPIO)
    >>= (fun r1 =>
      if K.SRDY_INTERRUPT ∧ gpioIdx = 0 then
        cfgStep K C serialCfgFd (sectionNamesArray gpioIdx IDX_GPIO) "edge".toList
          (set_gpio_string K C gpioIdx C.USE_BCM_NEXUS_GPIO
            (fun f g => { g with gpio := { g.gpio with edge := f g.gpio.edge } })) r1
      else some r1)
    -- gpio.active_high_low = strBuf[0] - '0' (optional)
    >>= cfgStep K C serialCfgFd (sectionNamesArray gpioIdx IDX_GPIO) "active_high_low".toList
      (set_gpio_number K gpioIdx
          (fun b => C.conv .gpio_active_high_low (firstDigit b))
        (fun v g => { g with gpio := { g.gpio with active_high_low := v } }))
    -- without USE_BCM_NEXUS_GPIO: the level shifter (all keys optional)
    >>= (fun r2 =>
      if C.USE_BCM_NEXUS_GPIO then some r2
      else
        cfgStep K C serialCfgFd (sectionNamesArray gpioIdx IDX_LEVEL_SHIFTER) "value".toList
            (set_gpio_string K C gpioIdx true
              (fun f g => { g with levelshifter :=
                { g.levelshifter with value := f g.levelshifter.value } })) r2
          >>= cfgStep K C serialCfgFd (sectionNamesArray gpioIdx IDX_LEVEL_SHIFTER)
            "direction".toList
            (set_gpio_string K C gpioIdx true
              (fun f g => { g with levelshifter :=
                { g.levelshifter with direction := f g.levelshifter.direction } }))
          >>= cfgStep K C serialCfgFd (sectionNamesArray gpioIdx IDX_LEVEL_SHIFTER)
            "active_high_low".toList
            (set_gpio_number K gpioIdx
              (fun b => C.conv .levelshifter_active_high_low (atoi C b))
              (fun v g => { g with levelshifter :=
                { g.levelshifter with active_high_low := v } })))

/-- The loop `for (gpioIdx = gpioStart; gpioIdx < gpioEnd; gpioIdx++)` of line 226:
`count` passes starting with `gpioIdx`. -/
def getSerialConfiguration_gpios (K : Consts) (C : CfgConsts)
    (serialCfgFd : Option (List Char)) : Nat → Nat → CfgRun → Option CfgRun
  | 0, _, r => some r
  | count + 1, gpioIdx, r =>
    getSerialConfiguration_gpio K C serialCfgFd gpioIdx r
      >>= getSerialConfiguration_gpios K C serialCfgFd count (gpioIdx + 1)

/-- A numeric key with a default (lines 384-399, 406-474): when the key is present
the number `strtol(strBuf, NULL, base)` is stored by `store`, else `dflt`. -/
def set_number (K : Consts) (C : CfgConsts) (base : Nat) (dflt : Int)
    (store : Int → npiSerialCfg_t → npiSerialCfg_t) (res : Int) (r : CfgRun) : CfgRun :=
  { r with serialCfg :=
      store (if K.NPI_LNX_SUCCESS = res then strtol C r.strBuf base else dflt) r.serialCfg }

/-- Lines 384-399 of `getSerialConfiguration`, compiled in with `NPI_UART`: the keys
of the section `UART`, converted by `atoi`. -/
def getSerialConfiguration_uart (K : Consts) (C : CfgConsts)
    (serialCfgFd : Option (List Char)) (r : CfgRun) : Option CfgRun :=
  cfgStep K C serialCfgFd "UART".toList "speed".toList
      (set_number K C 10 115200 (fun v c => { c with npiUartCfg_speed := C.conv .uart_speed v })) r
    >>= cfgStep K C serialCfgFd "UART".toList "flowcontrol".toList
      (set_number K C 10 0 (fun v c => { c with npiUartCfg_flowcontrol := C.conv .uart_flowcontrol v }))

/-- Lines 406-476 of `getSerialConfiguration`, compiled in with `NPI_SPI`: the keys
of the sections `SPI` and `MRDY_SRDY`. -/
def getSerialConfiguration_spi (K : Consts) (C : CfgConsts)
    (serialCfgFd : Option (List Char)) (r : CfgRun) : Option CfgRun :=
  cfgStep K C serialCfgFd "SPI".toList "speed".toList
      (set_number K C 10 500000 (fun v c => { c with spiCfg_speed := C.conv .spi_speed v })) r
    >>= cfgStep K C serialCfgFd "SPI".toList "mode".toList
      (set_number K C 16 0 (fun v c => { c with spiCfg_mode := C.conv .spi_mode v }))
    >>= cfgStep K C serialCfgFd "SPI".toList "bitsPerWord".toList
      (set_number K C 10 8 (fun v c => { c with spiCfg_bitsPerWord := C.conv .spi_bitsPerWord v }))
    >>= cfgStep K C serialCfgFd "SPI".toList "forceRunOnReset".toList
      (set_number K C 16 C.NPI_LNX_UINT8_ERROR (fun v c => { c with forceRunOnReset := toUint8 v }))
    >>= cfgStep K C serialCfgFd "MRDY_SRDY".toList "useFullDuplexAPI".toList
      (set_number K C 10 TRUE (fun v c => { c with spiCfg_useFullDuplexAPI := C.conv .spi_useFullDuplexAPI v }))
    >>= cfgStep K C serialCfgFd "MRDY_SRDY".toList "earlyMrdyDeAssert".toList
      (set_number K C 10 TRUE (fun v c => { c with earlyMrdyDeAssert := toUint8 v }))
    >>= cfgStep K C serialCfgFd "MRDY_SRDY".toList "detectResetFromSlowSrdyAssert".toList
      (set_number K C 10 TRUE (fun v c => { c with detectResetFromSlowSrdyAssert := toUint8 v }))
    >>= cfgStep K C serialCfgFd "MRDY_SRDY".toList "srdyMrdyHandshakeSupport".toList
      (set_number K C 10 TRUE (fun v c => { c with srdyMrdyHandshakeSupport := toUint8 v }))

/-- Lines 376-490 of `getSerialConfiguration`: the `switch (serialCfg->devIdx)`.
The pointers `gpioCfg` stored for SPI and I2C are not modelled. -/
def getSerialConfiguration_serial (K : Consts) (C : CfgConsts)
    (serialCfgFd : Option (List Char)) (r : CfgRun) : Option CfgRun :=
  if r.serialCfg.devIdx = NPI_SERVER_DEVICE_INDEX_UART_USB ∨
      r.serialCfg.devIdx = NPI_SERVER_DEVICE_INDEX_UART then
    if C.NPI_UART then getSerialConfiguration_uart K C serialCfgFd r else some r
  else if r.serialCfg.devIdx = NPI_SERVER_DEVICE_INDEX_SPI then
    if C.NPI_SPI then getSerialConfiguration_spi K C serialCfgFd r else some r
  else if r.serialCfg.devIdx = NPI_SERVER_DEVICE_INDEX_I2C then some r
  -- default: retVal = NPI_LNX_FAILURE;
  else some { r with retVal := K.NPI_LNX_FAILURE }

/-- Lines 493-502: the port, `NPI_PORT` when the key is missing. -/
def set_port (K : Consts) (C : CfgConsts) (res : Int) (r : CfgRun) : CfgRun :=
  { r with serialCfg := { r.serialCfg with
      port :=
        if K.NPI_LNX_FAILURE = res then strncpy r.serialCfg.port C.NPI_PORT (C.sizeof_port - 1)
        else strncpy r.serialCfg.port r.strBuf (C.sizeof_port - 1) } }

/-- Lines 102-125 of `getSerialConfiguration`: `retVal = NPI_LNX_SUCCESS`, the
`memset` of `strBuf`, `devPath`, `logPath` and `gpioCfg`, and, when `fopen` returned
the null pointer, the store to `npi_ipc_errno`. -/
def getSerialConfiguration_init (K : Consts) (C : CfgConsts) (serialCfgFd : Option (List Char))
    (serialCfg : npiSerialCfg_t) (npi_ipc_errno : Int) : CfgRun :=
  { retVal := K.NPI_LNX_SUCCESS
    strBuf := []
    npi_ipc_errno :=
      if serialCfgFd.isNone then C.NPI_LNX_ERROR_IPC_OPEN_REMOTI_RNP_CFG else npi_ipc_errno
    serialCfg := { serialCfg with
      devPath := []
      logPath := []
      gpioCfg := fun j =>
        if j < C.SERIAL_CFG_MAX_NUM_OF_GPIOS then ⟨⟨[], [], [], 0⟩, ⟨[], [], [], 0⟩⟩
        else serialCfg.gpioCfg j }
    slept := [] }

/-- Lines 199-374 of `getSerialConfiguration`: the GPIOs `gpioStart` to
`gpioEnd - 1`, for UART, SPI and I2C. -/
def getSerialConfiguration_gpioPart (K : Consts) (C : CfgConsts)
    (serialCfgFd : Option (List Char)) (r : CfgRun) : Option CfgRun :=
  if r.serialCfg.devIdx = NPI_SERVER_DEVICE_INDEX_UART ∨
      r.serialCfg.devIdx = NPI_SERVER_DEVICE_INDEX_SPI ∨
      r.serialCfg.devIdx = NPI_SERVER_DEVICE_INDEX_I2C then
    getSerialConfiguration_gpios K C serialCfgFd
      (gpioEnd r.serialCfg.devIdx r.serialCfg.debugSupported -
        gpioStart r.serialCfg.devIdx r.serialCfg.debugSupported)
      (gpioStart r.serialCfg.devIdx r.serialCfg.debugSupported) r
  else some r

/-- The function `getSerialConfiguration` (lines 100-505).  `serialCfgFd` is what
`fopen(configFilePath, "r")` returns, the content of the file or `none` for the
null pointer; `serialCfg` and `npi_ipc_errno` are the structure and the global as
they are on entry.  The value returned is `retVal` of the result; the result `none`
stands for undefined behaviour inside `SerialConfigParser` (the dereference of a
null pointer, a store outside the line buffer). -/
def getSerialConfiguration (K : Consts) (C : CfgConsts) (serialCfgFd : Option (List Char))
    (serialCfg : npiSerialCfg_t) (npi_ipc_errno : Int) : Option CfgRun :=
  getSerialConfiguration_device K C serialCfgFd
      (getSerialConfiguration_init K C serialCfgFd serialCfg npi_ipc_errno)
    >>= getSerialConfiguration_gpioPart K C serialCfgFd
    >>= getSerialConfiguration_serial K C serialCfgFd
    >>= cfgStep K C serialCfgFd "PORT".toList "port".toList (set_port K C)

/-! ## Reading the history -/

/-- The GPIO and SPI calls of the HAL. -/
def Call.isHal : Call → Bool
  | .HAL_RNP_MRDY_CLR => true
  | .HAL_RNP_MRDY_SET => true
  | .HalGpioWaitSrdyClr => true
  | .HalGpioWaitSrdySet => true
  | .HalSpiWrite _ => true
  | .HalSpiRead _ _ => true
  | .HAL_RNP_SRDY_CLR => true
  | .HalGpioSrdyCheck _ => true
  | .HalGpioResetInit => true
  | .HalGpioMrdyInit => true
  | .HalGpioSrdyInit => true
  | .HalSpiInit => true
  | .HalSpiClose => true
  | .HalGpioSrdyClose => true
  | .HalGpioMrdyClose => true
  | .HalGpioResetClose => true
  | .HalGpioMrdyCheck _ => true
  | .HAL_RNP_SRDY_SET => true
  | _ => false

/-- The HAL calls of a transaction that return a status (`NPI_LNX_SUCCESS` or an
error); the two reads of the SRDY level return `TRUE` or `FALSE` instead. -/
def Call.isHalStatus : Call → Bool
  | .HAL_RNP_MRDY_CLR => true
  | .HAL_RNP_MRDY_SET => true
  | .HalGpioWaitSrdyClr => true
  | .HalGpioWaitSrdySet => true
  | .HalSpiWrite _ => true
  | .HalSpiRead _ _ => true
  | _ => false

/-- The SPI transfers. -/
def Call.isSpi : Call → Bool
  | .HalSpiWrite _ => true
  | .HalSpiRead _ _ => true
  | _ => false

/-- The SPI reads. -/
def Call.isSpiRead : Call → Bool
  | .HalSpiRead _ _ => true
  | _ => false

/-- The SPI writes. -/
def Call.isSpiWrite : Call → Bool
  | .HalSpiWrite _ => true
  | _ => false

/-- The calls of the upper-layer callback. -/
def Call.isCback : Call → Bool
  | .NPI_AsynchMsgCback _ => true
  | _ => false

/-- The HAL calls among the events, in order. -/
def halCalls (evs : List Event) : List Call :=
  (evs.map Event.call).filter Call.isHal

/-- The SPI transfers among the events, in order. -/
def spiCalls (evs : List Event) : List Call :=
  (evs.map Event.call).filter Call.isSpi

/-- The callback calls among the events, in order. -/
def cbackCalls (evs : List Event) : List Call :=
  (evs.map Event.call).filter Call.isCback

/-- The bytes an event stored into the message buffer: those of an SPI read. -/
def Event.readBytes (e : Event) : List uint8 :=
  match e.call with
  | .HalSpiRead _ len => xferBytes len e.resp.data
  | _ => []

/-- The bytes stored by the SPI reads among the events, in order. -/
def spiReadBytes (evs : List Event) : List uint8 :=
  (evs.map Event.readBytes).flatten

/-- The time an event stored, if it is a `clock_gettime(CLOCK_MONOTONIC, ..)`. -/
def Event.monotonic (e : Event) : Option Timespec :=
  match e.call with
  | .clock_gettime .CLOCK_MONOTONIC => some e.resp.time
  | _ => none

/-- The times stored by the `clock_gettime(CLOCK_MONOTONIC, ..)` calls among the
events, in order. -/
def clockReadings (evs : List Event) : List Timespec :=
  evs.filterMap Event.monotonic

/-- Every HAL call that returns a status reports success and leaves
`npi_ipc_errno` alone. -/
def HalSucceeds (K : Consts) (env : Env) : Prop :=
  ∀ tr c, Call.isHalStatus c = true →
    (env tr c).ret = K.NPI_LNX_SUCCESS ∧ (env tr c).errno = none

/-- Every pthread mutex call returns 0. -/
def MutexSucceeds (env : Env) : Prop :=
  ∀ tr m, (env tr (.pthread_mutex_lock m)).ret = 0 ∧ (env tr (.pthread_mutex_unlock m)).ret = 0

/-- A message buffer holding the given bytes, 0 beyond them. -/
def bufOfList (l : List uint8) : Buf :=
  fun i => l.getD i 0

/-- A state as after a successful open and synchronisation: flags as given, no
transaction under way, nothing held, empty history. -/
def idleState (early detect : uint8) : State :=
  { npiOpenFlag := 1
    earlyMrdyDeAssert := early
    detectResetFromSlowSrdyAssert := detect
    forceRun := 0xFF
    srdyMrdyHandshakeSupport := 1
    npi_poll_terminate := 0
    PollLockVar := 0
    npi_ipc_errno := 0
    held := fun _ => false
    trace := []
    GpioSrdyFd := 0
    lockLog := [] }

/-- An answer with the given status that stores no error code. -/
def okResp (ret : Int) (data : List uint8) (time : Timespec) : Resp :=
  { ret := ret, errno := none, data := data, time := time }

/-- A clock reading `ns` nanoseconds after `t`. -/
def Timespec.addNs (t : Timespec) (ns : Int) : Timespec :=
  ⟨(t.tv_sec * 1000000000 + t.tv_nsec + ns) / 1000000000,
   (t.tv_sec * 1000000000 + t.tv_nsec + ns) % 1000000000⟩

/-- The time at which the last call of a history returned (0 for the empty
history). -/
def lastTime (tr : List Event) : Timespec :=
  match tr.getLast? with
  | some e => e.resp.time
  | none => ⟨0, 0⟩

/-- A slave and a host on which nothing fails: every HAL status call succeeds,
SRDY reads as asserted (low) and MRDY as deasserted (high), the mutex calls and
the callback succeed, `poll` reports one event, the header read delivers `hdr`,
the payload read delivers `payload`, the wait for SRDY high takes `srdyHighNs`
nanoseconds and every other call no time. -/
def slaveEnv (K : Consts) (hdr payload : List uint8) (srdyHighNs : Int) : Env :=
  fun tr c =>
    match c with
    | .HalSpiRead 0 _ => okResp K.NPI_LNX_SUCCESS hdr (lastTime tr)
    | .HalSpiRead (_ + 1) _ => okResp K.NPI_LNX_SUCCESS payload (lastTime tr)
    | .HalGpioWaitSrdySet => okResp K.NPI_LNX_SUCCESS [] ((lastTime tr).addNs srdyHighNs)
    | .HAL_RNP_SRDY_CLR => okResp TRUE [] (lastTime tr)
    | .HalGpioSrdyCheck st => okResp (if st = 0 then TRUE else FALSE) [] (lastTime tr)
    | .clock_gettime _ => okResp 0 [] (lastTime tr)
    | .usleep _ => okResp 0 [] (lastTime tr)
    | .pthread_mutex_lock _ => okResp 0 [] (lastTime tr)
    | .pthread_mutex_unlock _ => okResp 0 [] (lastTime tr)
    | .pthread_cond_wait _ => okResp 0 [] (lastTime tr)
    | .pthread_cond_timedwait _ => okResp 0 [] (lastTime tr)
    | .pthread_mutex_init _ => okResp 0 [] (lastTime tr)
    | .pthread_mutex_destroy _ => okResp 0 [] (lastTime tr)
    | .pthread_cond_init _ => okResp 0 [] (lastTime tr)
    | .pthread_cond_signal _ => okResp 0 [] (lastTime tr)
    | .pthread_create _ => okResp 0 [] (lastTime tr)
    | .pthread_join _ => okResp 0 [] (lastTime tr)
    | .poll _ _ => okResp 1 [] (lastTime tr)
    | .pthread_mutex_trylock _ => okResp 0 [] (lastTime tr)
    | .HalGpioMrdyCheck _ => okResp TRUE [] (lastTime tr)
    | .HAL_RNP_SRDY_SET => okResp FALSE [] (lastTime tr)
    | _ => okResp K.NPI_LNX_SUCCESS [] (lastTime tr)

/-! ## Properties of histories used in the proofs -/

/-- No event of `evs` is the call `c`. -/
def noCall (c : Call) (evs : List Event) : Prop :=
  ∀ e ∈ evs, e.call ≠ c

/-- Some event of `evs` is the call `c`. -/
def hasCall (c : Call) (evs : List Event) : Prop :=
  ∃ e ∈ evs, e.call = c

/-- Whether every successful MRDY assert in `evs` is followed, later in `evs`, by
an MRDY deassert call. -/
def mrdyReleased (K : Consts) : List Event → Bool
  | [] => true
  | e :: evs =>
    if e.call = .HAL_RNP_MRDY_CLR ∧ e.resp.ret = K.NPI_LNX_SUCCESS then
      evs.any (fun e2 => e2.call = .HAL_RNP_MRDY_SET) && mrdyReleased K evs
    else mrdyReleased K evs

/-- The facts about MRDY that hold inside a transaction, `s0` being the state
right after the successful assert: no second assert, and `mRdyAsserted` is only
cleared after a deassert call. -/
def TxInv (s0 : State) (x : Xfer) : Prop :=
  ∃ evs, x.st.trace = s0.trace ++ evs ∧ noCall .HAL_RNP_MRDY_CLR evs ∧
    (x.mRdyAsserted = false → hasCall .HAL_RNP_MRDY_SET evs)

/-- No event of `evs` is a call of the GPIO or SPI HAL. -/
def noHal (evs : List Event) : Prop :=
  ∀ e ∈ evs, e.call.isHal = false

/-- No event of `evs` is an SPI read. -/
def noRead (evs : List Event) : Prop :=
  ∀ e ∈ evs, e.call.isSpiRead = false

/-- The SPI reads among the events, in order. -/
def readCalls (evs : List Event) : List Call :=
  (spiCalls evs).filter Call.isSpiRead

/-- The property of C5 for a history `evs` and a return value `ret`: if the
header read of `evs` delivered `FF FF FF`, then `ret` is not success and the
header read is the only SPI read of `evs`. -/
def hdrFFRejected (K : Consts) (evs : List Event) (ret : Int) : Prop :=
  ∀ e ∈ evs, e.call = .HalSpiRead 0 3 → e.readBytes = [0xFF, 0xFF, 0xFF] →
    ret ≠ K.NPI_LNX_SUCCESS ∧ readCalls evs = [.HalSpiRead 0 3]

/-- Since state `s0` the transaction `x` has made no SPI read. -/
def NoReadInv (s0 : State) (x : Xfer) : Prop :=
  ∃ evs, x.st.trace = s0.trace ++ evs ∧ noRead evs

/-- Since state `s0` the transaction `x` has the property of C5. -/
def HdrInv (K : Consts) (s0 : State) (x : Xfer) : Prop :=
  ∃ evs, x.st.trace = s0.trace ++ evs ∧ hdrFFRejected K evs x.ret

/-- Every call in `evs` satisfies `p`. -/
def allCalls (p : Call → Bool) (evs : List Event) : Prop :=
  ∀ e ∈ evs, p e.call = true

/-- A call that is neither an SPI read nor the upper-layer callback. -/
def Call.isQuiet (c : Call) : Bool :=
  !c.isSpiRead && !c.isCback

/-- The frame a buffer holds after a poll: the 3 header bytes when the header is
`FF FF FF` (no payload was read), the header and `len` payload bytes otherwise. -/
def frameBytes (b : Buf) : List uint8 :=
  if illegalHeader b then bufBytes b 0 3 else bufBytes b 0 ((b 0).val + 3)

/-- Since state `s0` the transaction `x` has made only calls that are neither SPI
reads nor callbacks. -/
def QuietInv (s0 : State) (x : Xfer) : Prop :=
  ∃ evs, x.st.trace = s0.trace ++ evs ∧ allCalls Call.isQuiet evs

/-- Since state `s0` the transaction `x` has called no callback, and if its `ret`
is success, the bytes it read from the bus are the frame its buffer holds. -/
def FrameInv (K : Consts) (s0 : State) (x : Xfer) : Prop :=
  ∃ evs, x.st.trace = s0.trace ++ evs ∧ cbackCalls evs = [] ∧
    (x.ret = K.NPI_LNX_SUCCESS → spiReadBytes evs = frameBytes x.pMsg)

/-- The property of C3 for a history `evs`: the callback is called exactly once,
with exactly the bytes read from the bus, when the type bits of the second byte
read are AREQ, and not at all otherwise. -/
def deliversFrame (K : Consts) (evs : List Event) : Prop :=
  cbackCalls evs =
    if (spiReadBytes evs).getD 1 0 &&& K.RPC_CMD_TYPE_MASK = K.RPC_CMD_AREQ
    then [.NPI_AsynchMsgCback (spiReadBytes evs)] else []

/-- The HAL calls among the events, each with the time at which it returned. -/
def halTimes (evs : List Event) : List (Call × Timespec) :=
  (evs.filter (fun e => e.call.isHal)).map (fun e => (e.call, e.resp.time))

/-- The state at program start, from the initialisers of lines 95-113: the device
is not open, the three flags are `TRUE`, `forceRun` is `NPI_LNX_UINT8_ERROR`
(taken as 0xFF), `PollLockVar` is 0, nothing is held and nothing was called. -/
def startState : State :=
  { idleState 1 1 with npiOpenFlag := FALSE }

/-- The environment `env` with the answer to the call `c` replaced by `r`. -/
def answering (env : Env) (c : Call) (r : Resp) : Env :=
  fun tr c2 => if c2 = c then r else env tr c2

/-- The `HAL_RNP_MRDY_SET` calls among the events. -/
def mrdySetCalls (evs : List Event) : List Call :=
  (evs.map Event.call).filter (fun c => c = .HAL_RNP_MRDY_SET)

/-- The timeout the spec asks of the event thread: the elapsed time between the
two time stamps in whole milliseconds, clamped to 3 .. 100. -/
def specTimeout (cur prev : Timespec) : Int :=
  max 3 (min 100
    (((cur.tv_sec - prev.tv_sec) * 1000000000 + (cur.tv_nsec - prev.tv_nsec)) / 1000000))

/-- An environment in which nothing fails, SRDY reads low and the slave sends
nothing (`slaveEnv` with the spec's constants). -/
def quietEnv : Env :=
  slaveEnv specConsts [] [] 0

/-- An answer reporting failure (-1, `NPI_LNX_FAILURE` of the spec's constants). -/
def failResp : Resp :=
  okResp (-1) [] ⟨0, 0⟩

/-- A configuration with `earlyMrdyDeAssert` and `detectResetFromSlowSrdyAssert`
set, no force-run byte, and `srdyMrdyHandshakeSupport` as given. -/
def cfgWith (handshake : uint8) : npiSpiCfg_t :=
  ⟨1, 1, 0xFF, handshake⟩

/-- The state after `NPI_SPI_OpenDevice` was called at program start with the
configuration `cfgWith handshake`, nothing failing. -/
def openedState (handshake : uint8) : State :=
  (NPI_SPI_OpenDevice specConsts quietEnv (cfgWith handshake) startState).2

/-- The state after `NPI_SPI_OpenDevice` and then `NPI_SPI_SynchSlave`, nothing
failing. -/
def synchedState (handshake : uint8) : State :=
  (NPI_SPI_SynchSlave specConsts quietEnv (openedState handshake)).2

/-- The events of the poll transaction of a pass of the poll thread: those of the
call of `npi_spi_pollData` of line 1292, none when SRDY is not found asserted. -/
def pollEvents (K : Consts) (env : Env) (L : PollLocals) (s : State) : List Event :=
  if (npi_poll_entry_begin K env L s).2.1 = TRUE then
    eventsSince (npi_poll_entry_begin K env L s).2.2
      (npi_spi_pollData K env (pollFrame K L.readbuf.mem) (npi_poll_entry_begin K env L s).2.2).2.2
  else []

/-- The memory at `readbuf` after the poll transaction of a pass in which SRDY is
found asserted: what `npi_spi_pollData` has stored through the pointer, the bytes
behind the array included. -/
def pollMemory (K : Consts) (env : Env) (L : PollLocals) (s : State) : Buf :=
  (npi_spi_pollData K env (pollFrame K L.readbuf.mem) (npi_poll_entry_begin K env L s).2.2).2.1

/-- The locals of `npi_poll_entry` before its first pass: `ret` is
`NPI_LNX_SUCCESS` of the spec's constants, `readbuf` holds zeros. -/
def freshLocals : PollLocals :=
  ⟨0, fun _ => 0, false⟩

/-- An idle state in which `PollLockVar` is already 1. -/
def busyState : State :=
  { idleState 1 1 with PollLockVar := 1 }

/-- An environment in which every `poll` times out (returns 0) and SRDY reads high
(deasserted); everything else as in `quietEnv`, in particular the try-lock of
`npiSrdyLock` succeeds. -/
def timeoutEnv : Env :=
  fun tr c =>
    match c with
    | .poll _ _ => okResp 0 [] (lastTime tr)
    | .HalGpioSrdyCheck _ => okResp TRUE [] (lastTime tr)
    | _ => quietEnv tr c

/-- The event thread in rapid-poll mode: `timeout` 3 ms, `consecutiveTimeout` 0. -/
def rapidPoll : EventThread :=
  { result := -1
    missedInterrupt := 0
    consecutiveTimeout := 0
    whileIt := 0
    ret := 0
    timeout := SPI_ISR_POLL_TIMEOUT_MS_MIN
    global_srdy := 1
    prevTimeSPIisrPoll := ⟨0, 0⟩ }

/-- The timeout a call hands to `poll`, if the call is a `poll`. -/
def Call.pollTimeout : Call → Option Int
  | .poll _ t => some t
  | _ => none

/-- The timeouts handed to `poll` by the events, in order. -/
def pollTimeouts (evs : List Event) : List Int :=
  evs.filterMap (fun e => e.call.pollTimeout)

/-- The calls made between state `s` and the later state `t`, each with the value
`PollLockVar` had when it was made. -/
def callsWithLockVar (s t : State) : List (Call × Int) :=
  ((eventsSince s t).map Event.call).zip (t.lockLog.drop s.lockLog.length)

/-- Between `s` and `t` calls were only added, and every GPIO or SPI call among
them was made while `PollLockVar` was 1. -/
def LockedCalls (s t : State) : Prop :=
  ∃ (evs : List Event) (log : List Int),
    t.trace = s.trace ++ evs ∧ t.lockLog = s.lockLog ++ log ∧ log.length = evs.length ∧
    ∀ p ∈ (evs.map Event.call).zip log, p.1.isHal = true → p.2 = 1

/-- The invariant of a transaction: calls were only added, every GPIO or SPI call
among them was made while `PollLockVar` was 1, and `PollLockVar` is 1. -/
def LockedInv (s t : State) : Prop :=
  LockedCalls s t ∧ t.PollLockVar = 1

/-- A key as a line of a configuration file can start with it: not empty, without
`=`, NUL or newline, and not starting with `[` (a section) or `#` (a comment). -/
abbrev isKey (k : List Char) : Prop :=
  k ≠ [] ∧ '=' ∉ k ∧ NUL ∉ k ∧ '\n' ∉ k ∧ k.head? ≠ some '[' ∧ k.head? ≠ some '#'

/-- A value free of the delimiters `=`, `;` and double quote, of NUL and of
newline. -/
abbrev isValue (v : List Char) : Prop :=
  '=' ∉ v ∧ ';' ∉ v ∧ DQUOTE ∉ v ∧ NUL ∉ v ∧ '\n' ∉ v

/-- The value that the configuration file holds for `key` in section `section_`, as
`SerialConfigParser` finds it: `none` when the file could not be opened, when the
search reaches the end of the file, and when it ends in undefined behaviour. -/
def cfgValue (serialCfgFd : Option (List Char)) (section_ key : List Char) :
    Option (List Char) :=
  match serialCfgFd with
  | some file =>
    match SerialConfigParser_search file section_ key with
    | .found value => some value
    | _ => none
  | none => none

/-- The search for `key` in section `section_` does not end in undefined behaviour:
the dereference of a null pointer or a store outside the line buffer. -/
def cfgNoFault (serialCfgFd : Option (List Char)) (section_ key : List Char) : Prop :=
  ∀ file, serialCfgFd = some file → SerialConfigParser_search file section_ key ≠ .fault

/-- The number a key stands for: its value converted by `strtol` in base `base` when
the key is present, `dflt` when it is not. -/
def cfgNumber (C : CfgConsts) (serialCfgFd : Option (List Char)) (section_ key : List Char)
    (base : Nat) (dflt : Int) : Int :=
  match cfgValue serialCfgFd section_ key with
  | some value => strtol C value base
  | none => dflt

/-- What `SerialConfigParser` returns for a key, when it returns. -/
def cfgRes (K : Consts) (serialCfgFd : Option (List Char)) (section_ key : List Char) : Int :=
  if (cfgValue serialCfgFd section_ key).isSome then K.NPI_LNX_SUCCESS else K.NPI_LNX_FAILURE

/-- The variables of `getSerialConfiguration` after a call of `SerialConfigParser`
that returned. -/
def cfgIn (C : CfgConsts) (serialCfgFd : Option (List Char)) (section_ key : List Char)
    (r : CfgRun) : CfgRun :=
  { r with
    strBuf := (cfgValue serialCfgFd section_ key).getD r.strBuf
    npi_ipc_errno :=
      if serialCfgFd.isNone then C.NPI_LNX_ERROR_IPC_SERIAL_CFG_FILE_DOES_NOT_EXIST
      else r.npi_ipc_errno }

/-- One call of `SerialConfigParser` that returns, followed by the statements `upd`:
`cfgStep` without the case of undefined behaviour. -/
def cfgApply (K : Consts) (C : CfgConsts) (serialCfgFd : Option (List Char))
    (section_ key : List Char) (upd : Int → CfgRun → CfgRun) (r : CfgRun) : CfgRun :=
  upd (cfgRes K serialCfgFd section_ key) (cfgIn C serialCfgFd section_ key r)

/-- The result of `getSerialConfiguration_device` when every call of the parser
returns. -/
def deviceResult (K : Consts) (C : CfgConsts) (fd : Option (List Char)) (r : CfgRun) : CfgRun :=
  cfgApply K C fd "DEBUG".toList "supported".toList (set_debugSupported K C)
    (cfgApply K C fd "LOG".toList "log".toList (set_logPath K C)
      (cfgApply K C fd "DEVICE".toList "devPath".toList (set_devPath K C)
        (cfgApply K C fd "DEVICE".toList "deviceKey".toList (set_devIdx K C)
          (cfgApply K C fd "STARTUP".toList "delaySeconds".toList (set_delaySeconds K C) r))))

/-- The result of the level-shifter part of `getSerialConfiguration_gpio` when every
call of the parser returns. -/
def shifterResult (K : Consts) (C : CfgConsts) (fd : Option (List Char)) (gpioIdx : Nat)
    (r : CfgRun) : CfgRun :=
  cfgApply K C fd (sectionNamesArray gpioIdx IDX_LEVEL_SHIFTER) "active_high_low".toList
    (set_gpio_number K gpioIdx
              (fun b => C.conv .levelshifter_active_high_low (atoi C b))
      (fun v g => { g with levelshifter := { g.levelshifter with active_high_low := v } }))
    (cfgApply K C fd (sectionNamesArray gpioIdx IDX_LEVEL_SHIFTER) "direction".toList
      (set_gpio_string K C gpioIdx true
        (fun f g => { g with levelshifter :=
          { g.levelshifter with direction := f g.levelshifter.direction } }))
      (cfgApply K C fd (sectionNamesArray gpioIdx IDX_LEVEL_SHIFTER) "value".toList
        (set_gpio_string K C gpioIdx true
          (fun f g => { g with levelshifter :=
            { g.levelshifter with value := f g.levelshifter.value } })) r))

/-- The result of `getSerialConfiguration_gpio` when every call of the parser
returns. -/
def gpioResult (K : Consts) (C : CfgConsts) (fd : Option (List Char)) (gpioIdx : Nat)
    (r : CfgRun) : CfgRun :=
  let r2 := cfgApply K C fd (sectionNamesArray gpioIdx IDX_GPIO) "direction".toList
    (set_gpio_string K C gpioIdx C.USE_BCM_NEXUS_GPIO
      (fun f g => { g with gpio := { g.gpio with direction := f g.gpio.direction } }))
    (cfgApply K C fd (sectionNamesArray gpioIdx IDX_GPIO) "value".toList
      (set_gpio_string K C gpioIdx false
        (fun f g => { g with gpio := { g.gpio with value := f g.gpio.value } })) r)
  let r3 :=
    if K.SRDY_INTERRUPT ∧ gpioIdx = 0 then
      cfgApply K C fd (sectionNamesArray gpioIdx IDX_GPIO) "edge".toList
        (set_gpio_string K C gpioIdx C.USE_BCM_NEXUS_GPIO
          (fun f g => { g with gpio := { g.gpio with edge := f g.gpio.edge } })) r2
    else r2
  let r4 := cfgApply K C fd (sectionNamesArray gpioIdx IDX_GPIO) "active_high_low".toList
    (set_gpio_number K gpioIdx
          (fun b => C.conv .gpio_active_high_low (firstDigit b))
      (fun v g => { g with gpio := { g.gpio with active_high_low := v } })) r3
  if C.USE_BCM_NEXUS_GPIO then r4 else shifterResult K C fd gpioIdx r4

/-- The result of `getSerialConfiguration_gpios` when every call of the parser
returns. -/
def gpiosResult (K : Consts) (C : CfgConsts) (fd : Option (List Char)) :
    Nat → Nat → CfgRun → CfgRun
  | 0, _, r => r
  | count + 1, gpioIdx, r =>
    gpiosResult K C fd count (gpioIdx + 1) (gpioResult K C fd gpioIdx r)

/-- The result of `getSerialConfiguration_uart` when every call of the parser
returns. -/
def uartResult (K : Consts) (C : CfgConsts) (fd : Option (List Char)) (r : CfgRun) : CfgRun :=
  cfgApply K C fd "UART".toList "flowcontrol".toList
    (set_number K C 10 0 (fun v c => { c with npiUartCfg_flowcontrol := C.conv .uart_flowcontrol v }))
    (cfgApply K C fd "UART".toList "speed".toList
      (set_number K C 10 115200 (fun v c => { c with npiUartCfg_speed := C.conv .uart_speed v })) r)

/-- The result of `getSerialConfiguration_spi` when every call of the parser
returns. -/
def spiResult (K : Consts) (C : CfgConsts) (fd : Option (List Char)) (r : CfgRun) : CfgRun :=
  cfgApply K C fd "MRDY_SRDY".toList "srdyMrdyHandshakeSupport".toList
    (set_number K C 10 TRUE (fun v c => { c with srdyMrdyHandshakeSupport := toUint8 v }))
  (cfgApply K C fd "MRDY_SRDY".toList "detectResetFromSlowSrdyAssert".toList
    (set_number K C 10 TRUE (fun v c => { c with detectResetFromSlowSrdyAssert := toUint8 v }))
  (cfgApply K C fd "MRDY_SRDY".toList "earlyMrdyDeAssert".toList
    (set_number K C 10 TRUE (fun v c => { c with earlyMrdyDeAssert := toUint8 v }))
  (cfgApply K C fd "MRDY_SRDY".toList "useFullDuplexAPI".toList
    (set_number K C 10 TRUE (fun v c => { c with spiCfg_useFullDuplexAPI := C.conv .spi_useFullDuplexAPI v }))
  (cfgApply K C fd "SPI".toList "forceRunOnReset".toList
    (set_number K C 16 C.NPI_LNX_UINT8_ERROR (fun v c => { c with forceRunOnReset := toUint8 v }))
  (cfgApply K C fd "SPI".toList "bitsPerWord".toList
    (set_number K C 10 8 (fun v c => { c with spiCfg_bitsPerWord := C.conv .spi_bitsPerWord v }))
  (cfgApply K C fd "SPI".toList "mode".toList
    (set_number K C 16 0 (fun v c => { c with spiCfg_mode := C.conv .spi_mode v }))
  (cfgApply K C fd "SPI".toList "speed".toList
    (set_number K C 10 500000 (fun v c => { c with spiCfg_speed := C.conv .spi_speed v })) r)))))))

/-- The result of `getSerialConfiguration_serial` when every call of the parser
returns. -/
def serialResult (K : Consts) (C : CfgConsts) (fd : Option (List Char)) (r : CfgRun) : CfgRun :=
  if r.serialCfg.devIdx = NPI_SERVER_DEVICE_INDEX_UART_USB ∨
      r.serialCfg.devIdx = NPI_SERVER_DEVICE_INDEX_UART then
    if C.NPI_UART then uartResult K C fd r else r
  else if r.serialCfg.devIdx = NPI_SERVER_DEVICE_INDEX_SPI then
    if C.NPI_SPI then spiResult K C fd r else r
  else if r.serialCfg.devIdx = NPI_SERVER_DEVICE_INDEX_I2C then r
  else { r with retVal := K.NPI_LNX_FAILURE }

/-- The result of `getSerialConfiguration_gpioPart` when every call of the parser
returns. -/
def gpioPartResult (K : Consts) (C : CfgConsts) (fd : Option (List Char)) (r : CfgRun) :
    CfgRun :=
  if r.serialCfg.devIdx = NPI_SERVER_DEVICE_INDEX_UART ∨
      r.serialCfg.devIdx = NPI_SERVER_DEVICE_INDEX_SPI ∨
      r.serialCfg.devIdx = NPI_SERVER_DEVICE_INDEX_I2C then
    gpiosResult K C fd
      (gpioEnd r.serialCfg.devIdx r.serialCfg.debugSupported -
        gpioStart r.serialCfg.devIdx r.serialCfg.debugSupported)
      (gpioStart r.serialCfg.devIdx r.serialCfg.debugSupported) r
  else r

/-- The result of `getSerialConfiguration` when every call of the parser returns. -/
def cfgResult (K : Consts) (C : CfgConsts) (fd : Option (List Char))
    (serialCfg : npiSerialCfg_t) (npi_ipc_errno : Int) : CfgRun :=
  cfgApply K C fd "PORT".toList "port".toList (set_port K C)
    (serialResult K C fd
      (gpioPartResult K C fd
        (deviceResult K C fd (getSerialConfiguration_init K C fd serialCfg npi_ipc_errno))))

/-- The sections and keys that `getSerialConfiguration` may look up. -/
def cfgLookups : List (List Char × List Char) :=
  [("STARTUP".toList, "delaySeconds".toList), ("DEVICE".toList, "deviceKey".toList),
   ("DEVICE".toList, "devPath".toList), ("LOG".toList, "log".toList),
   ("DEBUG".toList, "supported".toList), ("UART".toList, "speed".toList),
   ("UART".toList, "flowcontrol".toList), ("SPI".toList, "speed".toList),
   ("SPI".toList, "mode".toList), ("SPI".toList, "bitsPerWord".toList),
   ("SPI".toList, "forceRunOnReset".toList), ("MRDY_SRDY".toList, "useFullDuplexAPI".toList),
   ("MRDY_SRDY".toList, "earlyMrdyDeAssert".toList),
   ("MRDY_SRDY".toList, "detectResetFromSlowSrdyAssert".toList),
   ("MRDY_SRDY".toList, "srdyMrdyHandshakeSupport".toList), ("PORT".toList, "port".toList)] ++
  (List.range 5).flatMap (fun gpioIdx =>
    [(sectionNamesArray gpioIdx IDX_GPIO, "value".toList),
     (sectionNamesArray gpioIdx IDX_GPIO, "direction".toList),
     (sectionNamesArray gpioIdx IDX_GPIO, "edge".toList),
     (sectionNamesArray gpioIdx IDX_GPIO, "active_high_low".toList),
     (sectionNamesArray gpioIdx IDX_LEVEL_SHIFTER, "value".toList),
     (sectionNamesArray gpioIdx IDX_LEVEL_SHIFTER, "direction".toList),
     (sectionNamesArray gpioIdx IDX_LEVEL_SHIFTER, "active_high_low".toList)])

/-- None of the searches that `getSerialConfiguration` may make in the file ends in
the dereference of a null pointer or in a store outside the line buffer. -/
def cfgFaultFree (file : List Char) : Bool :=
  cfgLookups.all (fun p => SerialConfigParser_search file p.1 p.2 != .fault)

/-- The fields of the configuration that only one statement of
`getSerialConfiguration` stores into: `devIdx`, `debugSupported` and `port`. -/
def cfgCore (r : CfgRun) : Int × Int × List Char :=
  (r.serialCfg.devIdx, r.serialCfg.debugSupported, r.serialCfg.port)

/-- The statements `upd` leave `devIdx`, `debugSupported` and `port` as they are. -/
def keepsCore (upd : Int → CfgRun → CfgRun) : Prop :=
  ∀ res r, cfgCore (upd res r) = cfgCore r

/-- The statements `upd` leave `retVal` as it is. -/
def keepsRetVal (upd : Int → CfgRun → CfgRun) : Prop :=
  ∀ res r, (upd res r).retVal = r.retVal

/-- The statements `upd` do not change `retVal` once it is `NPI_LNX_FAILURE`. -/
def keepsFailure (K : Consts) (upd : Int → CfgRun → CfgRun) : Prop :=
  ∀ res r, r.retVal = K.NPI_LNX_FAILURE → (upd res r).retVal = K.NPI_LNX_FAILURE

/-- A configuration structure with nothing in it. -/
def blankCfg : npiSerialCfg_t :=
  { devIdx := 0
    devPath := []
    logPath := []
    debugSupported := 0
    port := []
    gpioCfg := fun _ => ⟨⟨[], [], [], 0⟩, ⟨[], [], [], 0⟩⟩
    npiUartCfg_speed := 0
    npiUartCfg_flowcontrol := 0
    spiCfg_speed := 0
    spiCfg_mode := 0
    spiCfg_bitsPerWord := 0
    spiCfg_useFullDuplexAPI := 0
    forceRunOnReset := 0
    earlyMrdyDeAssert := 0
    detectResetFromSlowSrdyAssert := 0
    srdyMrdyHandshakeSupport := 0 }

/-- A configuration file for SPI with the device key `deviceKey` and the log line
`logLine`: the sections `DEVICE`, `LOG`, the three GPIOs and `SPI` (speed 2000000,
mode "10", bitsPerWord "10"); no `PORT`, `DEBUG`, `STARTUP` or `MRDY_SRDY`
section. -/
def cfgFile (deviceKey logLine : String) : List Char :=
  ("[DEVICE]\ndeviceKey=" ++ deviceKey ++ "\ndevPath=\x22/dev/spidev4.0\x22\n" ++
   "[LOG]\n" ++ logLine ++ "\n" ++
   "[GPIO_SRDY.GPIO]\nvalue=\x22/sys/class/gpio/gpio2/value\x22\n" ++
   "direction=\x22in\x22\nedge=\x22both\x22\n" ++
   "[GPIO_MRDY.GPIO]\nvalue=\x22/sys/class/gpio/gpio3/value\x22\ndirection=\x22out\x22\n" ++
   "[GPIO_RESET.GPIO]\nvalue=\x22/sys/class/gpio/gpio4/value\x22\ndirection=\x22out\x22\n" ++
   "[SPI]\nspeed=2000000\nmode=\x2210\x22\nbitsPerWord=\x2210\x22\n").toList

/-- The calls of `clock_gettime`. -/
def Call.isClock : Call → Bool
  | .clock_gettime _ => true
  | _ => false

/-- Between the states `s` and `t` only calls that satisfy `p` were made. -/
def OnlyCalls (p : Call → Bool) (s t : State) : Prop :=
  ∃ evs, t.trace = s.trace ++ evs ∧ allCalls p evs

@[simp] theorem record_trace (s : State) (c : Call) (r : Resp) :
    (record s c r).trace = s.trace ++ [⟨c, r⟩] := rfl

@[simp] theorem record_PollLockVar (s : State) (c : Call) (r : Resp) :
    (record s c r).PollLockVar = s.PollLockVar := rfl

@[simp] theorem record_early (s : State) (c : Call) (r : Resp) :
    (record s c r).earlyMrdyDeAssert = s.earlyMrdyDeAssert := rfl

@[simp] theorem record_detect (s : State) (c : Call) (r : Resp) :
    (record s c r).detectResetFromSlowSrdyAssert = s.detectResetFromSlowSrdyAssert := rfl

@[simp] theorem record_terminate (s : State) (c : Call) (r : Resp) :
    (record s c r).npi_poll_terminate = s.npi_poll_terminate := rfl

@[simp] theorem record_held (s : State) (c : Call) (r : Resp) :
    (record s c r).held = s.held := rfl

theorem record_errno (s : State) (c : Call) (r : Resp) :
    (record s c r).npi_ipc_errno =
      if c.setsErrno then r.errno.getD s.npi_ipc_errno else s.npi_ipc_errno := rfl

@[simp] theorem perform_fst (env : Env) (c : Call) (s : State) :
    (perform env c s).1 = env s.trace c := rfl

@[simp] theorem perform_snd (env : Env) (c : Call) (s : State) :
    (perform env c s).2 = record s c (env s.trace c) := rfl

@[simp] theorem setHeld_trace (s : State) (m : Mutex) (b : Bool) :
    (setHeld s m b).trace = s.trace := rfl

@[simp] theorem setHeld_PollLockVar (s : State) (m : Mutex) (b : Bool) :
    (setHeld s m b).PollLockVar = s.PollLockVar := rfl

@[simp] theorem setHeld_early (s : State) (m : Mutex) (b : Bool) :
    (setHeld s m b).earlyMrdyDeAssert = s.earlyMrdyDeAssert := rfl

@[simp] theorem setHeld_detect (s : State) (m : Mutex) (b : Bool) :
    (setHeld s m b).detectResetFromSlowSrdyAssert = s.detectResetFromSlowSrdyAssert := rfl

@[simp] theorem setHeld_terminate (s : State) (m : Mutex) (b : Bool) :
    (setHeld s m b).npi_poll_terminate = s.npi_poll_terminate := rfl

@[simp] theorem setHeld_errno (s : State) (m : Mutex) (b : Bool) :
    (setHeld s m b).npi_ipc_errno = s.npi_ipc_errno := rfl

@[simp] theorem mutex_lock_fst (env : Env) (m : Mutex) (s : State) :
    (mutex_lock env m s).1 = (env s.trace (.pthread_mutex_lock m)).ret := rfl

@[simp] theorem mutex_lock_trace (env : Env) (m : Mutex) (s : State) :
    (mutex_lock env m s).2.trace =
      s.trace ++ [⟨.pthread_mutex_lock m, env s.trace (.pthread_mutex_lock m)⟩] := by
  unfold mutex_lock; dsimp only; split <;> rfl

@[simp] theorem mutex_lock_PollLockVar (env : Env) (m : Mutex) (s : State) :
    (mutex_lock env m s).2.PollLockVar = s.PollLockVar := by
  unfold mutex_lock; dsimp only; split <;> rfl

@[simp] theorem mutex_lock_early (env : Env) (m : Mutex) (s : State) :
    (mutex_lock env m s).2.earlyMrdyDeAssert = s.earlyMrdyDeAssert := by
  unfold mutex_lock; dsimp only; split <;> rfl

@[simp] theorem mutex_lock_detect (env : Env) (m : Mutex) (s : State) :
    (mutex_lock env m s).2.detectResetFromSlowSrdyAssert = s.detectResetFromSlowSrdyAssert := by
  unfold mutex_lock; dsimp only; split <;> rfl

@[simp] theorem mutex_lock_terminate (env : Env) (m : Mutex) (s : State) :
    (mutex_lock env m s).2.npi_poll_terminate = s.npi_poll_terminate := by
  unfold mutex_lock; dsimp only; split <;> rfl

@[simp] theorem mutex_lock_errno (env : Env) (m : Mutex) (s : State) :
    (mutex_lock env m s).2.npi_ipc_errno = s.npi_ipc_errno := by
  unfold mutex_lock; dsimp only; split <;> rfl

@[simp] theorem mutex_unlock_fst (env : Env) (m : Mutex) (s : State) :
    (mutex_unlock env m s).1 = (env s.trace (.pthread_mutex_unlock m)).ret := rfl

@[simp] theorem mutex_unlock_trace (env : Env) (m : Mutex) (s : State) :
    (mutex_unlock env m s).2.trace =
      s.trace ++ [⟨.pthread_mutex_unlock m, env s.trace (.pthread_mutex_unlock m)⟩] := by
  unfold mutex_unlock; dsimp only; split <;> rfl

@[simp] theorem mutex_unlock_PollLockVar (env : Env) (m : Mutex) (s : State) :
    (mutex_unlock env m s).2.PollLockVar = s.PollLockVar := by
  unfold mutex_unlock; dsimp only; split <;> rfl

@[simp] theorem mutex_unlock_terminate (env : Env) (m : Mutex) (s : State) :
    (mutex_unlock env m s).2.npi_poll_terminate = s.npi_poll_terminate := by
  unfold mutex_unlock; dsimp only; split <;> rfl

@[simp] theorem mutex_unlock_errno (env : Env) (m : Mutex) (s : State) :
    (mutex_unlock env m s).2.npi_ipc_errno = s.npi_ipc_errno := by
  unfold mutex_unlock; dsimp only; split <;> rfl

@[simp] theorem halCall_fst (env : Env) (c : Call) (s : State) :
    (halCall env c s).1 = (env s.trace c).ret := rfl

@[simp] theorem halCall_snd (env : Env) (c : Call) (s : State) :
    (halCall env c s).2 = record s c (env s.trace c) := rfl

@[simp] theorem HalSpiWrite_fst (env : Env) (b : Buf) (n : Nat) (s : State) :
    (HalSpiWrite env b n s).1 = (env s.trace (.HalSpiWrite (bufBytes b 0 n))).ret := rfl

@[simp] theorem HalSpiWrite_snd (env : Env) (b : Buf) (n : Nat) (s : State) :
    (HalSpiWrite env b n s).2 =
      record s (.HalSpiWrite (bufBytes b 0 n)) (env s.trace (.HalSpiWrite (bufBytes b 0 n))) := rfl

@[simp] theorem HalSpiRead_fst (env : Env) (b : Buf) (dst n : Nat) (s : State) :
    (HalSpiRead env b dst n s).1 = (env s.trace (.HalSpiRead dst n)).ret := rfl

@[simp] theorem HalSpiRead_buf (env : Env) (b : Buf) (dst n : Nat) (s : State) :
    (HalSpiRead env b dst n s).2.1 =
      bufStore b dst (xferBytes n (env s.trace (.HalSpiRead dst n)).data) := rfl

@[simp] theorem HalSpiRead_st (env : Env) (b : Buf) (dst n : Nat) (s : State) :
    (HalSpiRead env b dst n s).2.2 =
      record s (.HalSpiRead dst n) (env s.trace (.HalSpiRead dst n)) := rfl

@[simp] theorem pollLockVarSet_trace (K : Consts) (ret : Int) (s : State) :
    (pollLockVarSet K ret s).2.trace = s.trace := by
  unfold pollLockVarSet PollLockVarError; split <;> rfl

@[simp] theorem pollLockVarClear_trace (K : Consts) (ret : Int) (s : State) :
    (pollLockVarClear K ret s).2.trace = s.trace := by
  unfold pollLockVarClear PollLockVarError; split <;> rfl

@[simp] theorem pollLockVarClear_PollLockVar (K : Consts) (ret : Int) (s : State) :
    (pollLockVarClear K ret s).2.PollLockVar = 0 := by
  unfold pollLockVarClear PollLockVarError; split <;> simp_all

@[simp] theorem pollLockVarClear_terminate (K : Consts) (ret : Int) (s : State) :
    (pollLockVarClear K ret s).2.npi_poll_terminate = s.npi_poll_terminate := by
  unfold pollLockVarClear PollLockVarError; split <;> rfl

/-! ## Lemmas on buffers -/

@[simp] theorem xferBytes_length (n : Nat) (data : List uint8) :
    (xferBytes n data).length = n := by
  simp [xferBytes]

@[simp] theorem bufBytes_length (b : Buf) (off n : Nat) : (bufBytes b off n).length = n := by
  simp [bufBytes]

theorem xferBytes_eq (n : Nat) (p : List uint8) (h : p.length = n) : xferBytes n p = p := by
  subst h
  unfold xferBytes
  apply List.ext_getElem
  · simp
  · intro i h1 h2
    simp [List.getElem?_eq_getElem h2]

theorem bufBytes_frame (b : Buf) (n : Nat) :
    bufBytes b 0 (n + 3) = [b 0, b 1, b 2] ++ bufBytes b 3 n := by
  unfold bufBytes
  apply List.ext_getElem
  · simp
  · intro i h1 h2
    match i with
    | 0 => simp
    | 1 => simp
    | 2 => simp
    | k + 3 => simp [Nat.add_comm]

theorem bufBytes_bufSet (b : Buf) (i off n : Nat) (v : uint8) (h : i < off) :
    bufBytes (bufSet b i v) off n = bufBytes b off n := by
  unfold bufBytes bufSet
  apply List.map_congr_left
  intro a _
  have : off + a ≠ i := by omega
  simp [this]

theorem bufBytes_bufStore (b : Buf) (off : Nat) (l : List uint8) :
    bufBytes (bufStore b off l) off l.length = l := by
  unfold bufBytes bufStore
  apply List.ext_getElem
  · simp
  · intro i h1 h2
    simp at h1
    simp [h1, List.getD_eq_getElem _ _ h1]

theorem bufBytes_bufStore_xfer (b : Buf) (off n : Nat) (data : List uint8) :
    bufBytes (bufStore b off (xferBytes n data)) off n = xferBytes n data := by
  have h := bufBytes_bufStore b off (xferBytes n data)
  rwa [xferBytes_length] at h

theorem bufStore_low (b : Buf) (off i : Nat) (l : List uint8) (h : i < off) :
    bufStore b off l i = b i := by
  have : ¬ off ≤ i := by omega
  simp [bufStore, this]

theorem memset0_low (b : Buf) (off n i : Nat) (h : i < off) :
    memset0 b off n i = b i := by
  have : ¬ off ≤ i := by omega
  simp [memset0, this]

@[simp] theorem bufStore_hdr0 (b : Buf) (h0 h1 h2 : uint8) :
    bufStore b 0 [h0, h1, h2] 0 = h0 := by
  simp [bufStore]

@[simp] theorem bufStore_hdr1 (b : Buf) (h0 h1 h2 : uint8) :
    bufStore b 0 [h0, h1, h2] 1 = h1 := by
  simp [bufStore]

@[simp] theorem bufStore_hdr2 (b : Buf) (h0 h1 h2 : uint8) :
    bufStore b 0 [h0, h1, h2] 2 = h2 := by
  simp [bufStore]

/-! ## Lemmas on histories -/

theorem eventsSince_ext (s t : State) (evs : List Event) (h : t.trace = s.trace ++ evs) :
    eventsSince s t = evs := by
  simp [eventsSince, h]

theorem hs_ret {K : Consts} {env : Env} (hal : HalSucceeds K env) (tr : List Event) (c : Call)
    (h : c.isHalStatus = true) : (env tr c).ret = K.NPI_LNX_SUCCESS := (hal tr c h).1

theorem hs_errno {K : Consts} {env : Env} (hal : HalSucceeds K env) (tr : List Event) (c : Call)
    (h : c.isHalStatus = true) : (env tr c).errno = none := (hal tr c h).2

theorem slaveEnv_succeeds (K : Consts) (hdr payload : List uint8) (ns : Int) :
    HalSucceeds K (slaveEnv K hdr payload ns) := by
  intro tr c h
  cases c <;> simp [Call.isHalStatus] at h <;> simp [slaveEnv, okResp]
  case HalSpiRead dst len => cases dst <;> simp [okResp]

theorem slaveEnv_mutex (K : Consts) (hdr payload : List uint8) (ns : Int) :
    MutexSucceeds (slaveEnv K hdr payload ns) := by
  intro tr m
  simp [slaveEnv, okResp]

/-! ## MRDY is released -/

@[simp] theorem noCall_nil (c : Call) : noCall c [] := by
  intro e h; simp at h

@[simp] theorem noCall_append (c : Call) (a b : List Event) :
    noCall c (a ++ b) ↔ noCall c a ∧ noCall c b := by
  simp only [noCall, List.mem_append]
  constructor
  · intro h; exact ⟨fun e he => h e (Or.inl he), fun e he => h e (Or.inr he)⟩
  · rintro ⟨h1, h2⟩ e (he | he)
    · exact h1 e he
    · exact h2 e he

@[simp] theorem noCall_cons (c : Call) (e : Event) (l : List Event) :
    noCall c (e :: l) ↔ e.call ≠ c ∧ noCall c l := by
  simp [noCall]

@[simp] theorem hasCall_nil (c : Call) : ¬ hasCall c [] := by
  simp [hasCall]

@[simp] theorem hasCall_append (c : Call) (a b : List Event) :
    hasCall c (a ++ b) ↔ hasCall c a ∨ hasCall c b := by
  simp only [hasCall, List.mem_append]
  constructor
  · rintro ⟨e, he | he, h⟩
    · exact Or.inl ⟨e, he, h⟩
    · exact Or.inr ⟨e, he, h⟩
  · rintro (⟨e, he, h⟩ | ⟨e, he, h⟩)
    · exact ⟨e, Or.inl he, h⟩
    · exact ⟨e, Or.inr he, h⟩

@[simp] theorem hasCall_cons (c : Call) (e : Event) (l : List Event) :
    hasCall c (e :: l) ↔ e.call = c ∨ hasCall c l := by
  simp [hasCall]

theorem any_set_of_hasCall (evs : List Event) (h : hasCall .HAL_RNP_MRDY_SET evs) :
    evs.any (fun e2 => e2.call = .HAL_RNP_MRDY_SET) = true := by
  obtain ⟨e, he, hc⟩ := h
  simp only [List.any_eq_true, decide_eq_true_eq]
  exact ⟨e, he, hc⟩

theorem mrdyReleased_of_noCall (K : Consts) (evs : List Event)
    (h : noCall .HAL_RNP_MRDY_CLR evs) : mrdyReleased K evs = true := by
  induction evs with
  | nil => rfl
  | cons e l ih =>
    simp only [noCall_cons] at h
    simp [mrdyReleased, h.1, ih h.2]

theorem mrdyReleased_append_left (K : Consts) (a b : List Event)
    (ha : noCall .HAL_RNP_MRDY_CLR a) (hb : mrdyReleased K b = true) :
    mrdyReleased K (a ++ b) = true := by
  induction a with
  | nil => simpa using hb
  | cons e l ih =>
    simp only [noCall_cons] at ha
    simp [mrdyReleased, ha.1, ih ha.2]

theorem mrdyReleased_append_right (K : Consts) (a b : List Event)
    (ha : mrdyReleased K a = true) (hb : noCall .HAL_RNP_MRDY_CLR b) :
    mrdyReleased K (a ++ b) = true := by
  induction a with
  | nil => simpa using mrdyReleased_of_noCall K b hb
  | cons e l ih =>
    rw [List.cons_append]
    unfold mrdyReleased at ha ⊢
    split_ifs at ha ⊢ with hc
    · rw [Bool.and_eq_true] at ha ⊢
      exact ⟨by rw [List.any_append, Bool.or_eq_true]; exact Or.inl ha.1, ih ha.2⟩
    · exact ih ha

theorem mrdyReleased_assert (K : Consts) (e : Event) (evs : List Event)
    (hc : noCall .HAL_RNP_MRDY_CLR evs) (hs : hasCall .HAL_RNP_MRDY_SET evs) :
    mrdyReleased K (e :: evs) = true := by
  simp [mrdyReleased, any_set_of_hasCall evs hs, mrdyReleased_of_noCall K evs hc]

theorem mrdyReleased_spec (K : Consts) (evs : List Event) (h : mrdyReleased K evs = true) :
    ∀ pre e post, evs = pre ++ e :: post → e.call = .HAL_RNP_MRDY_CLR →
      e.resp.ret = K.NPI_LNX_SUCCESS → ∃ e2 ∈ post, e2.call = .HAL_RNP_MRDY_SET := by
  induction evs with
  | nil => intro pre e post h1; simp at h1
  | cons a l ih =>
    intro pre e post h1 h2 h3
    cases pre with
    | nil =>
      simp only [List.nil_append, List.cons.injEq] at h1
      obtain ⟨rfl, rfl⟩ := h1
      simp only [mrdyReleased, h2, h3, and_self, if_true, Bool.and_eq_true, List.any_eq_true,
        decide_eq_true_eq] at h
      exact h.1
    | cons b pre2 =>
      simp only [List.cons_append, List.cons.injEq] at h1
      obtain ⟨rfl, rfl⟩ := h1
      have hl : mrdyReleased K (pre2 ++ e :: post) = true := by
        simp only [mrdyReleased] at h
        split at h
        · simp only [Bool.and_eq_true] at h; exact h.2
        · exact h
      exact ih hl pre2 e post rfl h2 h3

theorem endOfTransaction_mrdy (K : Consts) (env : Env) (s0 : State) (x : Xfer)
    (h : TxInv s0 x) :
    ∃ evs, (endOfTransaction K env x).2.2.trace = s0.trace ++ evs ∧
      noCall .HAL_RNP_MRDY_CLR evs ∧ hasCall .HAL_RNP_MRDY_SET evs := by
  obtain ⟨evs, h1, h2, h3⟩ := h
  unfold endOfTransaction
  simp only [halCall_fst, halCall_snd]
  split
  · exact ⟨evs ++ [⟨.HAL_RNP_MRDY_SET, env x.st.trace .HAL_RNP_MRDY_SET⟩],
      by simp [h1], by simp [h2], by simp⟩
  · rename_i hm
    exact ⟨evs, h1, h2, h3 (by simpa using hm)⟩

theorem TxInv_step (s0 : State) (x y : Xfer) (new : List Event) (h : TxInv s0 x)
    (ht : y.st.trace = x.st.trace ++ new) (hn : noCall .HAL_RNP_MRDY_CLR new)
    (hm : y.mRdyAsserted = false → x.mRdyAsserted = false ∨ hasCall .HAL_RNP_MRDY_SET new) :
    TxInv s0 y := by
  obtain ⟨evs, h1, h2, h3⟩ := h
  refine ⟨evs ++ new, by rw [ht, h1, List.append_assoc], by simp [h2, hn], fun hy => ?_⟩
  rcases hm hy with hx | hs
  · simp [h3 hx]
  · simp [hs]

theorem pollData_early_mrdy (K : Consts) (env : Env) (s0 : State) (x : Xfer)
    (h : TxInv s0 x) : TxInv s0 (npi_spi_pollData_early K env x) := by
  unfold npi_spi_pollData_early
  simp only [halCall_fst, halCall_snd]
  split_ifs
  all_goals first
    | exact h
    | (apply TxInv_step s0 x _ ?_ h
       · simp only [record_trace]; exact rfl
       · simp
       · simp)

theorem pollData_detect_mrdy (K : Consts) (t1 t2 : Timespec) (s0 : State) (x : Xfer)
    (h : TxInv s0 x) : TxInv s0 (npi_spi_pollData_detect K t1 t2 x) := by
  unfold npi_spi_pollData_detect
  split_ifs
  all_goals exact TxInv_step s0 x _ [] h (by simp) (by simp) (by simp)

theorem pollData_frame_mrdy (K : Consts) (env : Env) (s0 : State) (x : Xfer)
    (h : TxInv s0 x) : TxInv s0 (npi_spi_pollData_frame K env x) := by
  unfold npi_spi_pollData_frame
  simp only [HalSpiRead_fst, HalSpiRead_buf, HalSpiRead_st]
  split_ifs
  all_goals first
    | exact h
    | (apply TxInv_step s0 x _ ?_ h
       · simp only [record_trace, List.append_assoc]; exact rfl
       · simp
       · simp)

theorem TxInv_init (s0 : State) (y : Xfer) (new : List Event)
    (ht : y.st.trace = s0.trace ++ new) (hn : noCall .HAL_RNP_MRDY_CLR new)
    (hm : y.mRdyAsserted = false → hasCall .HAL_RNP_MRDY_SET new) : TxInv s0 y :=
  ⟨new, ht, hn, hm⟩

theorem pollData_read_mrdy (K : Consts) (env : Env) (s0 s : State) (pMsg : Buf) (t1 : Timespec)
    (pre : List Event) (hs : s.trace = s0.trace ++ pre) (hp : noCall .HAL_RNP_MRDY_CLR pre) :
    TxInv s0 (npi_spi_pollData_read K env pMsg t1 s) := by
  unfold npi_spi_pollData_read
  simp only [halCall_fst, halCall_snd, perform_fst, perform_snd]
  apply pollData_frame_mrdy
  apply pollData_detect_mrdy
  apply pollData_early_mrdy
  apply TxInv_init s0 _ ?_
  · simp only [record_trace, hs, List.append_assoc]; exact rfl
  · simp [hp]
  · simp

theorem pollData_body_mrdy (K : Consts) (env : Env) (pMsg : Buf) (s : State) :
    ∃ evs, (npi_spi_pollData_body K env pMsg s).2.2.trace = s.trace ++ evs ∧
      noCall .HAL_RNP_MRDY_CLR evs ∧ hasCall .HAL_RNP_MRDY_SET evs := by
  unfold npi_spi_pollData_body
  simp only [HalSpiWrite_fst, HalSpiWrite_snd, perform_fst, perform_snd]
  split_ifs
  · apply endOfTransaction_mrdy
    apply pollData_read_mrdy K env s _ pMsg _ ?_
    · simp only [record_trace, List.append_assoc]; exact rfl
    · simp
  · apply endOfTransaction_mrdy
    apply TxInv_init s _ ?_
    · simp only [record_trace, List.append_assoc]; exact rfl
    · simp
    · simp

theorem pollData_mrdy (K : Consts) (env : Env) (pMsg : Buf) (s : State) :
    mrdyReleased K (eventsSince s (npi_spi_pollData K env pMsg s).2.2) = true := by
  unfold npi_spi_pollData
  simp only [halCall_fst, halCall_snd]
  split_ifs with hc
  · obtain ⟨evs, h1, h2, h3⟩ := pollData_body_mrdy K env pMsg
      (record s .HAL_RNP_MRDY_CLR (env s.trace .HAL_RNP_MRDY_CLR))
    rw [eventsSince_ext s _ (⟨.HAL_RNP_MRDY_CLR, env s.trace .HAL_RNP_MRDY_CLR⟩ :: evs)
      (by rw [h1]; simp)]
    exact mrdyReleased_assert K _ _ h2 h3
  · rw [eventsSince_ext s _ [⟨.HAL_RNP_MRDY_CLR, env s.trace .HAL_RNP_MRDY_CLR⟩] (by simp)]
    simp [mrdyReleased, hc]

theorem sendSynch_srdySet_mrdy (K : Consts) (env : Env) (s0 s : State) (pMsg : Buf)
    (pre : List Event) (hs : s.trace = s0.trace ++ pre) (hp : noCall .HAL_RNP_MRDY_CLR pre) :
    TxInv s0 (NPI_SPI_SendSynchData_srdySet K env pMsg s) := by
  unfold NPI_SPI_SendSynchData_srdySet
  simp only [halCall_fst, halCall_snd, perform_snd]
  split_ifs
  all_goals
    apply TxInv_init s0 _ ?_
    · simp only [record_trace, hs, List.append_assoc]; exact rfl
    · simp [hp]
    · simp_all

theorem sendSynch_frame_mrdy (K : Consts) (env : Env) (s0 : State) (x : Xfer)
    (h : TxInv s0 x) : TxInv s0 (NPI_SPI_SendSynchData_frame K env x) := by
  unfold NPI_SPI_SendSynchData_frame
  simp only [HalSpiRead_fst, HalSpiRead_buf, HalSpiRead_st]
  split_ifs
  all_goals first
    | exact h
    | (apply TxInv_step s0 x _ ?_ h
       · simp only [record_trace, List.append_assoc]; exact rfl
       · simp
       · simp)

theorem sendSynch_xfer_mrdy (K : Consts) (env : Env) (pMsg : Buf) (s : State) :
    TxInv s (NPI_SPI_SendSynchData_xfer K env pMsg s) := by
  unfold NPI_SPI_SendSynchData_xfer
  simp only [halCall_fst, halCall_snd, HalSpiWrite_fst, HalSpiWrite_snd]
  split_ifs
  · apply TxInv_init s _ ?_
    · simp only [record_trace, List.append_assoc]; exact rfl
    · simp
    · simp
  · apply TxInv_init s _ ?_
    · simp only [record_trace, List.append_assoc]; exact rfl
    · simp
    · simp
  · apply sendSynch_frame_mrdy
    apply sendSynch_srdySet_mrdy K env s _ pMsg ?_
    · simp only [record_trace, List.append_assoc]; exact rfl
    · simp

theorem sendSynch_body_mrdy (K : Consts) (env : Env) (ret : Int) (pMsg : Buf) (s : State) :
    ∃ evs, (NPI_SPI_SendSynchData_body K env ret pMsg s).2.2.trace = s.trace ++ evs ∧
      mrdyReleased K evs = true := by
  unfold NPI_SPI_SendSynchData_body
  simp only [halCall_fst, halCall_snd]
  have hp : ∀ p : Int × State, p.2.trace = s.trace →
      ∃ evs, (if p.1 = K.NPI_LNX_SUCCESS then
          if (env p.2.trace .HAL_RNP_MRDY_CLR).ret = K.NPI_LNX_SUCCESS then
            endOfTransaction K env (NPI_SPI_SendSynchData_xfer K env
              (bufSet pMsg RPC_POS_CMD0
                ((pMsg RPC_POS_CMD0 &&& K.RPC_SUBSYSTEM_MASK) ||| K.RPC_CMD_SREQ))
              (record p.2 .HAL_RNP_MRDY_CLR (env p.2.trace .HAL_RNP_MRDY_CLR)))
          else ((env p.2.trace .HAL_RNP_MRDY_CLR).ret,
            bufSet pMsg RPC_POS_CMD0
              ((pMsg RPC_POS_CMD0 &&& K.RPC_SUBSYSTEM_MASK) ||| K.RPC_CMD_SREQ),
            record p.2 .HAL_RNP_MRDY_CLR (env p.2.trace .HAL_RNP_MRDY_CLR))
        else (p.1, pMsg, p.2)).2.2.trace = s.trace ++ evs ∧ mrdyReleased K evs = true := by
    intro p hpt
    split_ifs with h1 h2
    · obtain ⟨evs, e1, e2, e3⟩ := endOfTransaction_mrdy K env _ _
        (sendSynch_xfer_mrdy K env (bufSet pMsg RPC_POS_CMD0
          ((pMsg RPC_POS_CMD0 &&& K.RPC_SUBSYSTEM_MASK) ||| K.RPC_CMD_SREQ))
          (record p.2 .HAL_RNP_MRDY_CLR (env p.2.trace .HAL_RNP_MRDY_CLR)))
      exact ⟨⟨.HAL_RNP_MRDY_CLR, env p.2.trace .HAL_RNP_MRDY_CLR⟩ :: evs,
        by rw [e1]; simp [hpt], mrdyReleased_assert K _ _ e2 e3⟩
    · exact ⟨[⟨.HAL_RNP_MRDY_CLR, env p.2.trace .HAL_RNP_MRDY_CLR⟩], by simp [hpt],
        by simp [mrdyReleased, h2]⟩
    · exact ⟨[], by simp [hpt], rfl⟩
  apply hp
  split_ifs <;> simp

@[simp] theorem noHal_nil : noHal [] := by
  intro e h; simp at h

@[simp] theorem noHal_cons (e : Event) (l : List Event) :
    noHal (e :: l) ↔ e.call.isHal = false ∧ noHal l := by
  simp [noHal]

theorem noCall_of_noHal (evs : List Event) (h : noHal evs) :
    noCall .HAL_RNP_MRDY_CLR evs := by
  intro e he hc
  have := h e he
  simp [hc, Call.isHal] at this

theorem noRead_of_noHal (evs : List Event) (h : noHal evs) : noRead evs := by
  intro e he
  have := h e he
  cases hc : e.call <;> simp_all [Call.isHal, Call.isSpiRead]

theorem sendSynch_lock_trace (K : Consts) (env : Env) (s : State) :
    ∃ evs, (NPI_SPI_SendSynchData_lock K env s).st.trace = s.trace ++ evs ∧ noHal evs := by
  unfold NPI_SPI_SendSynchData_lock
  simp only [mutex_lock_fst]
  split_ifs
  all_goals
    refine ⟨?_, ?_, ?_⟩
    rotate_left
    · simp only [mutex_lock_trace, List.append_assoc]; exact rfl
    · simp [Call.isHal]

theorem sendSynch_unlock_trace (K : Consts) (env : Env) (lk : SynchLocks) (q : State) :
    ∃ c, (if K.SRDY_INTERRUPT ∧ lk.lockRetSrdy = 0
        then (mutex_unlock env .npiSrdyLock
          (if lk.lockRetPoll = 0 then (mutex_unlock env .npiPollLock q).2 else q)).2
        else (if lk.lockRetPoll = 0 then (mutex_unlock env .npiPollLock q).2 else q)).trace
        = q.trace ++ c ∧ noHal c := by
  split_ifs
  · exact ⟨[_, _], by simp only [mutex_unlock_trace, List.append_assoc]; exact rfl,
      by simp [Call.isHal]⟩
  · exact ⟨[_], by simp only [mutex_unlock_trace, List.append_assoc]; exact rfl,
      by simp [Call.isHal]⟩
  · exact ⟨[_], by simp only [mutex_unlock_trace, List.append_assoc]; exact rfl,
      by simp [Call.isHal]⟩
  · exact ⟨[], by simp, by simp⟩

theorem sendSynch_mrdy (K : Consts) (env : Env) (pMsg : Buf) (s : State) :
    mrdyReleased K (eventsSince s (NPI_SPI_SendSynchData K env pMsg s).2.2) = true := by
  unfold NPI_SPI_SendSynchData
  simp only []
  obtain ⟨a, ha, hna⟩ := sendSynch_lock_trace K env s
  obtain ⟨b, hb, hrb⟩ := sendSynch_body_mrdy K env (NPI_SPI_SendSynchData_lock K env s).ret pMsg
    (NPI_SPI_SendSynchData_lock K env s).st
  obtain ⟨c, hc, hnc⟩ := sendSynch_unlock_trace K env (NPI_SPI_SendSynchData_lock K env s)
    (pollLockVarClear K (NPI_SPI_SendSynchData_body K env
      (NPI_SPI_SendSynchData_lock K env s).ret pMsg (NPI_SPI_SendSynchData_lock K env s).st).1
      (NPI_SPI_SendSynchData_body K env
      (NPI_SPI_SendSynchData_lock K env s).ret pMsg (NPI_SPI_SendSynchData_lock K env s).st).2.2).2
  rw [eventsSince_ext s _ (a ++ b ++ c)
    (by rw [hc, pollLockVarClear_trace, hb, ha]; simp only [List.append_assoc])]
  exact mrdyReleased_append_right K _ _
    (mrdyReleased_append_left K _ _ (noCall_of_noHal a hna) hrb) (noCall_of_noHal c hnc)

/-! ## The illegal header in `NPI_SPI_SendSynchData` -/

@[simp] theorem noRead_nil : noRead [] := by
  intro e h; simp at h

@[simp] theorem noRead_append (a b : List Event) :
    noRead (a ++ b) ↔ noRead a ∧ noRead b := by
  simp only [noRead, List.mem_append]
  constructor
  · intro h; exact ⟨fun e he => h e (Or.inl he), fun e he => h e (Or.inr he)⟩
  · rintro ⟨h1, h2⟩ e (he | he)
    · exact h1 e he
    · exact h2 e he

@[simp] theorem noRead_cons (e : Event) (l : List Event) :
    noRead (e :: l) ↔ e.call.isSpiRead = false ∧ noRead l := by
  simp [noRead]

theorem readCalls_append (a b : List Event) :
    readCalls (a ++ b) = readCalls a ++ readCalls b := by
  simp [readCalls, spiCalls]

theorem readCalls_of_noRead (evs : List Event) (h : noRead evs) : readCalls evs = [] := by
  induction evs with
  | nil => rfl
  | cons e l ih =>
    simp only [noRead_cons] at h
    have := ih h.2
    simp only [readCalls, spiCalls, List.map_cons, List.filter_cons] at this ⊢
    split
    · simp [h.1, this]
    · exact this

theorem not_hdr_of_noRead (evs : List Event) (h : noRead evs) (e : Event) (he : e ∈ evs)
    (hc : e.call = .HalSpiRead 0 3) : False := by
  have := h e he
  simp [hc, Call.isSpiRead] at this

theorem hdrFFRejected_of_noRead (K : Consts) (evs : List Event) (ret : Int) (h : noRead evs) :
    hdrFFRejected K evs ret :=
  fun e he hc _ => (not_hdr_of_noRead evs h e he hc).elim

theorem hdrFFRejected_append (K : Consts) (evs new : List Event) (ret ret2 : Int)
    (h : hdrFFRejected K evs ret) (hn : noRead new)
    (hr : ret ≠ K.NPI_LNX_SUCCESS → ret2 ≠ K.NPI_LNX_SUCCESS) :
    hdrFFRejected K (evs ++ new) ret2 := by
  intro e he hc hb
  rcases List.mem_append.mp he with h1 | h1
  · obtain ⟨a, b⟩ := h e h1 hc hb
    exact ⟨hr a, by rw [readCalls_append, b, readCalls_of_noRead new hn]; rfl⟩
  · exact (not_hdr_of_noRead new hn e h1 hc).elim

theorem hdrFFRejected_prepend (K : Consts) (pre evs : List Event) (ret : Int)
    (hp : noRead pre) (h : hdrFFRejected K evs ret) :
    hdrFFRejected K (pre ++ evs) ret := by
  intro e he hc hb
  rcases List.mem_append.mp he with h1 | h1
  · exact (not_hdr_of_noRead pre hp e h1 hc).elim
  · obtain ⟨a, b⟩ := h e h1 hc hb
    exact ⟨a, by rw [readCalls_append, b, readCalls_of_noRead pre hp]; rfl⟩

theorem xferBytes_three (d : List uint8) :
    xferBytes 3 d = [d.getD 0 0, d.getD 1 0, d.getD 2 0] := rfl

theorem illegalHeader_hdr (b : Buf) (d : List uint8) :
    illegalHeader (bufStore b 0 (xferBytes 3 d)) = true ↔ xferBytes 3 d = [0xFF, 0xFF, 0xFF] := by
  rw [xferBytes_three]
  simp [illegalHeader, and_assoc]

theorem hdr_len (b : Buf) (d : List uint8) (h : xferBytes 3 d = [0xFF, 0xFF, 0xFF]) :
    (bufStore b 0 (xferBytes 3 d) 0).val = 255 := by
  rw [h]; simp; rfl

theorem sendSynch_frame_hdrFF (K : Consts) (env : Env) (x : Xfer)
    (hK : K.NPI_LNX_FAILURE ≠ K.NPI_LNX_SUCCESS) :
    ∃ evs, (NPI_SPI_SendSynchData_frame K env x).st.trace = x.st.trace ++ evs ∧
      hdrFFRejected K evs (NPI_SPI_SendSynchData_frame K env x).ret := by
  unfold NPI_SPI_SendSynchData_frame
  simp only [HalSpiRead_fst, HalSpiRead_buf, HalSpiRead_st, RPC_FRAME_HDR_SZ]
  split_ifs with h1 h2 h3 h4
  · -- the header read fails
    refine ⟨[_], by simp only [record_trace]; exact rfl, ?_⟩
    intro e he hc hb
    simp only [List.mem_singleton] at he
    subst he
    exact ⟨h2, by simp [readCalls, spiCalls, Call.isSpi, Call.isSpiRead]⟩
  · -- illegal header
    refine ⟨[_], by simp only [record_trace]; exact rfl, ?_⟩
    intro e he hc hb
    exact ⟨hK, by
      simp only [List.mem_singleton] at he
      subst he
      simp [readCalls, spiCalls, Call.isSpi, Call.isSpiRead]⟩
  · -- header and payload are read
    refine ⟨[_, _], by simp only [record_trace, List.append_assoc]; exact rfl, ?_⟩
    intro e he hc hb
    simp only [List.mem_cons, List.mem_singleton, List.not_mem_nil, or_false] at he
    rcases he with he | he
    · subst he
      simp only [Event.readBytes] at hb
      exact (h4 ((illegalHeader_hdr _ _).mpr hb)).elim
    · subst he
      simp only [Call.HalSpiRead.injEq] at hc
      omega
  · -- the header has length 0
    refine ⟨[_], by simp only [record_trace]; exact rfl, ?_⟩
    intro e he hc hb
    simp only [List.mem_singleton] at he
    subst he
    simp only [Event.readBytes] at hb
    have := hdr_len (memset0 x.pMsg 0 3) _ hb
    omega
  · exact ⟨[], by simp, hdrFFRejected_of_noRead K [] _ (by simp)⟩

theorem NoReadInv_init (s0 : State) (y : Xfer) (new : List Event)
    (ht : y.st.trace = s0.trace ++ new) (hn : noRead new) : NoReadInv s0 y :=
  ⟨new, ht, hn⟩

theorem HdrInv_of_noRead (K : Consts) (s0 : State) (y : Xfer) (h : NoReadInv s0 y) :
    HdrInv K s0 y := by
  obtain ⟨evs, h1, h2⟩ := h
  exact ⟨evs, h1, hdrFFRejected_of_noRead K evs _ h2⟩

theorem sendSynch_srdySet_noRead (K : Consts) (env : Env) (s0 s : State) (pMsg : Buf)
    (pre : List Event) (hs : s.trace = s0.trace ++ pre) (hp : noRead pre) :
    NoReadInv s0 (NPI_SPI_SendSynchData_srdySet K env pMsg s) := by
  unfold NPI_SPI_SendSynchData_srdySet
  simp only [halCall_fst, halCall_snd, perform_snd]
  split_ifs
  all_goals
    apply NoReadInv_init s0 _ ?_
    · simp only [record_trace, hs, List.append_assoc]; exact rfl
    · simp [hp, Call.isSpiRead]

theorem sendSynch_frame_hdrInv (K : Consts) (env : Env) (s0 : State) (x : Xfer)
    (hK : K.NPI_LNX_FAILURE ≠ K.NPI_LNX_SUCCESS) (h : NoReadInv s0 x) :
    HdrInv K s0 (NPI_SPI_SendSynchData_frame K env x) := by
  obtain ⟨pre, h1, h2⟩ := h
  obtain ⟨evs, h3, h4⟩ := sendSynch_frame_hdrFF K env x hK
  exact ⟨pre ++ evs, by rw [h3, h1, List.append_assoc], hdrFFRejected_prepend K _ _ _ h2 h4⟩

theorem sendSynch_xfer_hdrInv (K : Consts) (env : Env) (pMsg : Buf) (s : State)
    (hK : K.NPI_LNX_FAILURE ≠ K.NPI_LNX_SUCCESS) :
    HdrInv K s (NPI_SPI_SendSynchData_xfer K env pMsg s) := by
  unfold NPI_SPI_SendSynchData_xfer
  simp only [halCall_fst, halCall_snd, HalSpiWrite_fst, HalSpiWrite_snd]
  split_ifs
  · apply HdrInv_of_noRead
    apply NoReadInv_init s _ ?_
    · simp only [record_trace, List.append_assoc]; exact rfl
    · simp [Call.isSpiRead]
  · apply HdrInv_of_noRead
    apply NoReadInv_init s _ ?_
    · simp only [record_trace, List.append_assoc]; exact rfl
    · simp [Call.isSpiRead]
  · apply sendSynch_frame_hdrInv K env s _ hK
    apply sendSynch_srdySet_noRead K env s _ pMsg ?_
    · simp only [record_trace, List.append_assoc]; exact rfl
    · simp [Call.isSpiRead]

theorem endOfTransaction_hdrFF (K : Consts) (env : Env) (s0 : State) (x : Xfer)
    (h : HdrInv K s0 x) :
    ∃ evs2, (endOfTransaction K env x).2.2.trace = s0.trace ++ evs2 ∧
      hdrFFRejected K evs2 (endOfTransaction K env x).1 := by
  obtain ⟨evs, h1, h2⟩ := h
  unfold endOfTransaction
  simp only [halCall_fst, halCall_snd]
  split_ifs with hm hr
  · exact ⟨evs ++ [_], by simp only [record_trace, h1, List.append_assoc]; exact rfl,
      hdrFFRejected_append K _ _ _ _ h2 (by simp [Call.isSpiRead]) (fun hne => (hne hr).elim)⟩
  · exact ⟨evs ++ [_], by simp only [record_trace, h1, List.append_assoc]; exact rfl,
      hdrFFRejected_append K _ _ _ _ h2 (by simp [Call.isSpiRead]) (fun hne => hne)⟩
  · exact ⟨evs, h1, h2⟩

theorem sendSynch_body_hdrFF (K : Consts) (env : Env) (ret : Int) (pMsg : Buf) (s : State)
    (hK : K.NPI_LNX_FAILURE ≠ K.NPI_LNX_SUCCESS) :
    ∃ evs, (NPI_SPI_SendSynchData_body K env ret pMsg s).2.2.trace = s.trace ++ evs ∧
      hdrFFRejected K evs (NPI_SPI_SendSynchData_body K env ret pMsg s).1 := by
  unfold NPI_SPI_SendSynchData_body
  simp only [halCall_fst, halCall_snd]
  have hp : ∀ p : Int × State, p.2.trace = s.trace →
      ∃ evs, (if p.1 = K.NPI_LNX_SUCCESS then
          if (env p.2.trace .HAL_RNP_MRDY_CLR).ret = K.NPI_LNX_SUCCESS then
            endOfTransaction K env (NPI_SPI_SendSynchData_xfer K env
              (bufSet pMsg RPC_POS_CMD0
                ((pMsg RPC_POS_CMD0 &&& K.RPC_SUBSYSTEM_MASK) ||| K.RPC_CMD_SREQ))
              (record p.2 .HAL_RNP_MRDY_CLR (env p.2.trace .HAL_RNP_MRDY_CLR)))
          else ((env p.2.trace .HAL_RNP_MRDY_CLR).ret,
            bufSet pMsg RPC_POS_CMD0
              ((pMsg RPC_POS_CMD0 &&& K.RPC_SUBSYSTEM_MASK) ||| K.RPC_CMD_SREQ),
            record p.2 .HAL_RNP_MRDY_CLR (env p.2.trace .HAL_RNP_MRDY_CLR))
        else (p.1, pMsg, p.2)).2.2.trace = s.trace ++ evs ∧
        hdrFFRejected K evs (if p.1 = K.NPI_LNX_SUCCESS then
          if (env p.2.trace .HAL_RNP_MRDY_CLR).ret = K.NPI_LNX_SUCCESS then
            endOfTransaction K env (NPI_SPI_SendSynchData_xfer K env
              (bufSet pMsg RPC_POS_CMD0
                ((pMsg RPC_POS_CMD0 &&& K.RPC_SUBSYSTEM_MASK) ||| K.RPC_CMD_SREQ))
              (record p.2 .HAL_RNP_MRDY_CLR (env p.2.trace .HAL_RNP_MRDY_CLR)))
          else ((env p.2.trace .HAL_RNP_MRDY_CLR).ret,
            bufSet pMsg RPC_POS_CMD0
              ((pMsg RPC_POS_CMD0 &&& K.RPC_SUBSYSTEM_MASK) ||| K.RPC_CMD_SREQ),
            record p.2 .HAL_RNP_MRDY_CLR (env p.2.trace .HAL_RNP_MRDY_CLR))
        else (p.1, pMsg, p.2)).1 := by
    intro p hpt
    split_ifs with h1 h2
    · obtain ⟨evs, e1, e2⟩ := endOfTransaction_hdrFF K env _ _
        (sendSynch_xfer_hdrInv K env (bufSet pMsg RPC_POS_CMD0
          ((pMsg RPC_POS_CMD0 &&& K.RPC_SUBSYSTEM_MASK) ||| K.RPC_CMD_SREQ))
          (record p.2 .HAL_RNP_MRDY_CLR (env p.2.trace .HAL_RNP_MRDY_CLR)) hK)
      exact ⟨[⟨.HAL_RNP_MRDY_CLR, env p.2.trace .HAL_RNP_MRDY_CLR⟩] ++ evs,
        by rw [e1]; simp [hpt], hdrFFRejected_prepend K _ _ _ (by simp [Call.isSpiRead]) e2⟩
    · exact ⟨[⟨.HAL_RNP_MRDY_CLR, env p.2.trace .HAL_RNP_MRDY_CLR⟩], by simp [hpt],
        hdrFFRejected_of_noRead K _ _ (by simp [Call.isSpiRead])⟩
    · exact ⟨[], by simp [hpt], hdrFFRejected_of_noRead K _ _ (by simp)⟩
  apply hp
  split_ifs <;> simp

theorem pollLockVarClear_ret (K : Consts) (ret : Int) (s : State)
    (hK : K.NPI_LNX_FAILURE ≠ K.NPI_LNX_SUCCESS) (h : ret ≠ K.NPI_LNX_SUCCESS) :
    (pollLockVarClear K ret s).1 ≠ K.NPI_LNX_SUCCESS := by
  unfold pollLockVarClear PollLockVarError
  split_ifs
  · exact hK
  · exact h

theorem sendSynch_hdrFF (K : Consts) (env : Env) (pMsg : Buf) (s : State)
    (hK : K.NPI_LNX_FAILURE ≠ K.NPI_LNX_SUCCESS) :
    hdrFFRejected K (eventsSince s (NPI_SPI_SendSynchData K env pMsg s).2.2)
      (NPI_SPI_SendSynchData K env pMsg s).1 := by
  unfold NPI_SPI_SendSynchData
  simp only []
  obtain ⟨a, ha, hna⟩ := sendSynch_lock_trace K env s
  obtain ⟨b, hb, hrb⟩ := sendSynch_body_hdrFF K env (NPI_SPI_SendSynchData_lock K env s).ret pMsg
    (NPI_SPI_SendSynchData_lock K env s).st hK
  obtain ⟨c, hc, hnc⟩ := sendSynch_unlock_trace K env (NPI_SPI_SendSynchData_lock K env s)
    (pollLockVarClear K (NPI_SPI_SendSynchData_body K env
      (NPI_SPI_SendSynchData_lock K env s).ret pMsg (NPI_SPI_SendSynchData_lock K env s).st).1
      (NPI_SPI_SendSynchData_body K env
      (NPI_SPI_SendSynchData_lock K env s).ret pMsg (NPI_SPI_SendSynchData_lock K env s).st).2.2).2
  rw [eventsSince_ext s _ (a ++ b ++ c)
    (by rw [hc, pollLockVarClear_trace, hb, ha]; simp only [List.append_assoc])]
  exact hdrFFRejected_append K _ _ _ _
    (hdrFFRejected_prepend K _ _ _ (noRead_of_noHal a hna) hrb) (noRead_of_noHal c hnc)
    (pollLockVarClear_ret K _ _ hK)

/-! ## What a successful poll has read -/

@[simp] theorem allCalls_nil (p : Call → Bool) : allCalls p [] := by
  intro e h; simp at h

@[simp] theorem allCalls_append (p : Call → Bool) (a b : List Event) :
    allCalls p (a ++ b) ↔ allCalls p a ∧ allCalls p b := by
  simp only [allCalls, List.mem_append]
  constructor
  · intro h; exact ⟨fun e he => h e (Or.inl he), fun e he => h e (Or.inr he)⟩
  · rintro ⟨h1, h2⟩ e (he | he)
    · exact h1 e he
    · exact h2 e he

@[simp] theorem allCalls_cons (p : Call → Bool) (e : Event) (l : List Event) :
    allCalls p (e :: l) ↔ p e.call = true ∧ allCalls p l := by
  simp [allCalls]

theorem cbackCalls_append (a b : List Event) :
    cbackCalls (a ++ b) = cbackCalls a ++ cbackCalls b := by
  simp [cbackCalls]

theorem spiReadBytes_append (a b : List Event) :
    spiReadBytes (a ++ b) = spiReadBytes a ++ spiReadBytes b := by
  simp [spiReadBytes]

theorem cbackCalls_of_quiet (evs : List Event) (h : allCalls Call.isQuiet evs) :
    cbackCalls evs = [] := by
  induction evs with
  | nil => rfl
  | cons e l ih =>
    simp only [allCalls_cons] at h
    have h1 : e.call.isCback = false := by
      have := h.1
      simp only [Call.isQuiet, Bool.and_eq_true, Bool.not_eq_true'] at this
      exact this.2
    have := ih h.2
    simp only [cbackCalls, List.map_cons, List.filter_cons, h1] at this ⊢
    simpa using this

theorem spiReadBytes_of_quiet (evs : List Event) (h : allCalls Call.isQuiet evs) :
    spiReadBytes evs = [] := by
  induction evs with
  | nil => rfl
  | cons e l ih =>
    simp only [allCalls_cons] at h
    have h1 : e.readBytes = [] := by
      have := h.1
      simp only [Call.isQuiet, Bool.and_eq_true, Bool.not_eq_true'] at this
      unfold Event.readBytes
      cases hc : e.call <;> simp_all [Call.isSpiRead]
    have := ih h.2
    simp only [spiReadBytes, List.map_cons, List.flatten_cons, h1] at this ⊢
    simpa using this

theorem QuietInv_init (s0 : State) (y : Xfer) (new : List Event)
    (ht : y.st.trace = s0.trace ++ new) (hn : allCalls Call.isQuiet new) : QuietInv s0 y :=
  ⟨new, ht, hn⟩

theorem QuietInv_step (s0 : State) (x y : Xfer) (new : List Event) (h : QuietInv s0 x)
    (ht : y.st.trace = x.st.trace ++ new) (hn : allCalls Call.isQuiet new) : QuietInv s0 y := by
  obtain ⟨evs, h1, h2⟩ := h
  exact ⟨evs ++ new, by rw [ht, h1, List.append_assoc], by simp [h2, hn]⟩

theorem FrameInv_of_quiet (K : Consts) (s0 : State) (y : Xfer) (h : QuietInv s0 y)
    (hr : y.ret ≠ K.NPI_LNX_SUCCESS) : FrameInv K s0 y := by
  obtain ⟨evs, h1, h2⟩ := h
  exact ⟨evs, h1, cbackCalls_of_quiet evs h2, fun h => (hr h).elim⟩

theorem pollData_early_quiet (K : Consts) (env : Env) (s0 : State) (x : Xfer)
    (h : QuietInv s0 x) : QuietInv s0 (npi_spi_pollData_early K env x) := by
  unfold npi_spi_pollData_early
  simp only [halCall_fst, halCall_snd]
  split_ifs
  all_goals first
    | exact h
    | (apply QuietInv_step s0 x _ ?_ h
       · simp only [record_trace]; exact rfl
       · simp [Call.isQuiet, Call.isSpiRead, Call.isCback])

theorem pollData_detect_quiet (K : Consts) (t1 t2 : Timespec) (s0 : State) (x : Xfer)
    (h : QuietInv s0 x) : QuietInv s0 (npi_spi_pollData_detect K t1 t2 x) := by
  unfold npi_spi_pollData_detect
  split_ifs
  all_goals exact QuietInv_step s0 x _ [] h (by simp) (by simp)

theorem frameBytes_hdr (b : Buf) (d : List uint8)
    (h : illegalHeader (bufStore b 0 (xferBytes 3 d)) = true ∨
      (bufStore b 0 (xferBytes 3 d) 0).val = 0) :
    frameBytes (bufStore b 0 (xferBytes 3 d)) = xferBytes 3 d := by
  unfold frameBytes
  split_ifs with hi
  · exact bufBytes_bufStore_xfer b 0 3 d
  · rcases h with h | h
    · exact (hi h).elim
    · rw [h]; exact bufBytes_bufStore_xfer b 0 3 d

theorem frameBytes_payload (b : Buf) (d d2 : List uint8)
    (hi : ¬ illegalHeader (bufStore b 0 (xferBytes 3 d)) = true) :
    frameBytes (bufStore (memset0 (bufStore b 0 (xferBytes 3 d)) 3
        (bufStore b 0 (xferBytes 3 d) 0).val) 3
        (xferBytes (bufStore b 0 (xferBytes 3 d) 0).val d2)) =
      xferBytes 3 d ++ xferBytes (bufStore b 0 (xferBytes 3 d) 0).val d2 := by
  generalize hb1 : bufStore b 0 (xferBytes 3 d) = b1 at hi ⊢
  have h0 : ∀ i, i < 3 → bufStore (memset0 b1 3 (b1 0).val) 3 (xferBytes (b1 0).val d2) i = b1 i :=
    fun i hi3 => by rw [bufStore_low _ _ _ _ hi3, memset0_low _ _ _ _ hi3]
  have hill : illegalHeader (bufStore (memset0 b1 3 (b1 0).val) 3 (xferBytes (b1 0).val d2))
      = illegalHeader b1 := by
    simp only [illegalHeader, h0 0 (by omega), h0 1 (by omega), h0 2 (by omega)]
  unfold frameBytes
  rw [hill, if_neg hi, h0 0 (by omega), bufBytes_frame, h0 0 (by omega), h0 1 (by omega),
    h0 2 (by omega), bufBytes_bufStore_xfer]
  have : [b1 0, b1 1, b1 2] = bufBytes b1 0 3 := rfl
  rw [this, ← hb1, bufBytes_bufStore_xfer]

theorem pollData_frame_local (K : Consts) (env : Env) (x : Xfer) :
    ∃ evs, (npi_spi_pollData_frame K env x).st.trace = x.st.trace ++ evs ∧
      cbackCalls evs = [] ∧
      ((npi_spi_pollData_frame K env x).ret = K.NPI_LNX_SUCCESS →
        x.ret = K.NPI_LNX_SUCCESS ∧
        spiReadBytes evs = frameBytes (npi_spi_pollData_frame K env x).pMsg) := by
  unfold npi_spi_pollData_frame
  simp only [HalSpiRead_fst, HalSpiRead_buf, HalSpiRead_st, RPC_FRAME_HDR_SZ]
  split_ifs with hr hh hi hl
  · -- illegal header
    refine ⟨[_], by simp only [record_trace]; exact rfl, by rfl, ?_⟩
    intro _
    simp only [spiReadBytes, Event.readBytes, List.map_cons, List.map_nil, List.flatten_cons,
      List.flatten_nil, List.append_nil]
    exact ⟨hr, (frameBytes_hdr _ _ (Or.inl hi)).symm⟩
  · -- header and payload
    refine ⟨[_, _], by simp only [record_trace, List.append_assoc]; exact rfl, by rfl, ?_⟩
    intro _
    simp only [spiReadBytes, Event.readBytes, List.map_cons, List.map_nil, List.flatten_cons,
      List.flatten_nil, List.append_nil]
    exact ⟨hr, (frameBytes_payload _ _ _ hi).symm⟩
  · -- header of length 0
    refine ⟨[_], by simp only [record_trace]; exact rfl, by rfl, ?_⟩
    intro _
    simp only [spiReadBytes, Event.readBytes, List.map_cons, List.map_nil, List.flatten_cons,
      List.flatten_nil, List.append_nil]
    exact ⟨hr, (frameBytes_hdr _ _ (Or.inr (Nat.eq_zero_of_not_pos hl))).symm⟩
  · -- the header read fails
    exact ⟨[_], by simp only [record_trace]; exact rfl, by rfl, fun hs => (hh hs).elim⟩
  · exact ⟨[], by simp, rfl, fun hs => (hr hs).elim⟩

theorem pollData_frame_inv (K : Consts) (env : Env) (s0 : State) (x : Xfer)
    (h : QuietInv s0 x) : FrameInv K s0 (npi_spi_pollData_frame K env x) := by
  obtain ⟨pre, h1, h2⟩ := h
  obtain ⟨evs, h3, h4, h5⟩ := pollData_frame_local K env x
  refine ⟨pre ++ evs, by rw [h3, h1, List.append_assoc], ?_, ?_⟩
  · rw [cbackCalls_append, cbackCalls_of_quiet pre h2, h4]; rfl
  · intro hs
    rw [spiReadBytes_append, spiReadBytes_of_quiet pre h2, (h5 hs).2]; rfl

theorem pollData_read_frameInv (K : Consts) (env : Env) (s0 s : State) (pMsg : Buf)
    (t1 : Timespec) (pre : List Event) (hs : s.trace = s0.trace ++ pre)
    (hp : allCalls Call.isQuiet pre) :
    FrameInv K s0 (npi_spi_pollData_read K env pMsg t1 s) := by
  unfold npi_spi_pollData_read
  simp only [halCall_fst, halCall_snd, perform_fst, perform_snd]
  apply pollData_frame_inv
  apply pollData_detect_quiet
  apply pollData_early_quiet
  apply QuietInv_init s0 _ ?_
  · simp only [record_trace, hs, List.append_assoc]; exact rfl
  · simp [hp, Call.isQuiet, Call.isSpiRead, Call.isCback]

theorem endOfTransaction_frame (K : Consts) (env : Env) (s0 : State) (x : Xfer)
    (h : FrameInv K s0 x) :
    ∃ evs, (endOfTransaction K env x).2.2.trace = s0.trace ++ evs ∧ cbackCalls evs = [] ∧
      ((endOfTransaction K env x).1 = K.NPI_LNX_SUCCESS →
        spiReadBytes evs = frameBytes (endOfTransaction K env x).2.1) := by
  obtain ⟨evs, h1, h2, h3⟩ := h
  have hq : allCalls Call.isQuiet
      [(⟨.HAL_RNP_MRDY_SET, env x.st.trace .HAL_RNP_MRDY_SET⟩ : Event)] := by
    simp [Call.isQuiet, Call.isSpiRead, Call.isCback]
  unfold endOfTransaction
  simp only [halCall_fst, halCall_snd]
  split_ifs with hm hr
  · refine ⟨evs ++ [⟨.HAL_RNP_MRDY_SET, env x.st.trace .HAL_RNP_MRDY_SET⟩],
      by simp only [record_trace, h1, List.append_assoc], ?_, ?_⟩
    · rw [cbackCalls_append, h2, cbackCalls_of_quiet _ hq]; rfl
    · intro _
      rw [spiReadBytes_append, h3 hr, spiReadBytes_of_quiet _ hq, List.append_nil]
  · refine ⟨evs ++ [⟨.HAL_RNP_MRDY_SET, env x.st.trace .HAL_RNP_MRDY_SET⟩],
      by simp only [record_trace, h1, List.append_assoc], ?_, ?_⟩
    · rw [cbackCalls_append, h2, cbackCalls_of_quiet _ hq]; rfl
    · intro hs; exact (hr hs).elim
  · exact ⟨evs, h1, h2, h3⟩

theorem pollData_body_frame (K : Consts) (env : Env) (pMsg : Buf) (s0 s : State)
    (pre : List Event) (hs : s.trace = s0.trace ++ pre) (hp : allCalls Call.isQuiet pre) :
    ∃ evs, (npi_spi_pollData_body K env pMsg s).2.2.trace = s0.trace ++ evs ∧
      cbackCalls evs = [] ∧
      ((npi_spi_pollData_body K env pMsg s).1 = K.NPI_LNX_SUCCESS →
        spiReadBytes evs = frameBytes (npi_spi_pollData_body K env pMsg s).2.1) := by
  unfold npi_spi_pollData_body
  simp only [HalSpiWrite_fst, HalSpiWrite_snd, perform_fst, perform_snd]
  split_ifs with hw
  · apply endOfTransaction_frame
    apply pollData_read_frameInv K env s0 _ pMsg _ ?_
    · simp only [record_trace, hs, List.append_assoc]; exact rfl
    · simp [hp, Call.isQuiet, Call.isSpiRead, Call.isCback]
  · apply endOfTransaction_frame
    apply FrameInv_of_quiet
    · apply QuietInv_init s0 _ ?_
      · simp only [record_trace, hs, List.append_assoc]; exact rfl
      · simp [hp, Call.isQuiet, Call.isSpiRead, Call.isCback]
    · exact hw

theorem pollData_frame (K : Consts) (env : Env) (pMsg : Buf) (s0 s : State)
    (pre : List Event) (hs : s.trace = s0.trace ++ pre) (hp : allCalls Call.isQuiet pre) :
    ∃ evs, (npi_spi_pollData K env pMsg s).2.2.trace = s0.trace ++ evs ∧
      cbackCalls evs = [] ∧
      ((npi_spi_pollData K env pMsg s).1 = K.NPI_LNX_SUCCESS →
        spiReadBytes evs = frameBytes (npi_spi_pollData K env pMsg s).2.1) := by
  unfold npi_spi_pollData
  simp only [halCall_fst, halCall_snd]
  split_ifs with hc
  · apply pollData_body_frame K env pMsg s0 _ ?_
    · simp only [record_trace, hs, List.append_assoc]; exact rfl
    · simp [hp, Call.isQuiet, Call.isSpiRead, Call.isCback]
  · refine ⟨pre ++ [⟨.HAL_RNP_MRDY_CLR, env s.trace .HAL_RNP_MRDY_CLR⟩],
      by simp only [record_trace, hs, List.append_assoc], ?_, fun h => (hc h).elim⟩
    exact cbackCalls_of_quiet _ (by simp [hp, Call.isQuiet, Call.isSpiRead, Call.isCback])

theorem frameBytes_subsys (b : Buf) : (frameBytes b).getD 1 0 = b 1 := by
  unfold frameBytes
  split_ifs
  · rfl
  · rw [bufBytes_frame]; rfl

theorem frameBytes_legal (b : Buf) (h : illegalHeader b = false) :
    frameBytes b = bufBytes b 0 ((b 0).val + 3) := by
  simp [frameBytes, h]

theorem illegalHeader_subsys (b : Buf) (h : illegalHeader b = true) : b 1 = 0xFF := by
  simp only [illegalHeader, Bool.and_eq_true, decide_eq_true_eq] at h
  exact h.1.2

theorem npi_poll_entry_deliver_spec (K : Consts) (env : Env) (r : Int × Buf × State)
    (hK : (0xFF : uint8) &&& K.RPC_CMD_TYPE_MASK ≠ K.RPC_CMD_AREQ)
    (hr : r.1 = K.NPI_LNX_SUCCESS) :
    ∃ evs, (npi_poll_entry_deliver K env r).2.trace = r.2.2.trace ++ evs ∧
      allCalls (fun c => !c.isSpiRead) evs ∧
      cbackCalls evs = (if r.2.1 1 &&& K.RPC_CMD_TYPE_MASK = K.RPC_CMD_AREQ
        then [.NPI_AsynchMsgCback (frameBytes r.2.1)] else []) := by
  unfold npi_poll_entry_deliver
  simp only [halCall_fst, halCall_snd, RPC_POS_CMD0, RPC_FRAME_HDR_SZ, hr, if_true]
  have hleg : r.2.1 1 &&& K.RPC_CMD_TYPE_MASK = K.RPC_CMD_AREQ → illegalHeader r.2.1 = false := by
    intro h
    cases hi : illegalHeader r.2.1
    · rfl
    · rw [illegalHeader_subsys _ hi] at h
      exact (hK h).elim
  split_ifs with ha hc
  · exact ⟨[_], by simp only [record_trace]; exact rfl, by simp [Call.isSpiRead],
      by rw [frameBytes_legal _ (hleg ha)]; rfl⟩
  · exact ⟨[_], by simp only [record_trace]; exact rfl, by simp [Call.isSpiRead],
      by rw [frameBytes_legal _ (hleg ha)]; rfl⟩
  · exact ⟨[], by simp, by simp, rfl⟩

theorem deliversFrame_quiet (K : Consts) (a evs b : List Event)
    (ha : allCalls Call.isQuiet a) (hb : allCalls Call.isQuiet b)
    (h : deliversFrame K evs) : deliversFrame K (a ++ evs ++ b) := by
  unfold deliversFrame at h ⊢
  rw [cbackCalls_append, cbackCalls_append, spiReadBytes_append, spiReadBytes_append,
    cbackCalls_of_quiet a ha, cbackCalls_of_quiet b hb, spiReadBytes_of_quiet a ha,
    spiReadBytes_of_quiet b hb, List.nil_append, List.append_nil, List.nil_append,
    List.append_nil]
  exact h

theorem spiReadBytes_of_noRead (evs : List Event) (h : allCalls (fun c => !c.isSpiRead) evs) :
    spiReadBytes evs = [] := by
  induction evs with
  | nil => rfl
  | cons e l ih =>
    simp only [allCalls_cons] at h
    have h1 : e.readBytes = [] := by
      have := h.1
      unfold Event.readBytes
      cases hc : e.call <;> simp_all [Call.isSpiRead]
    have := ih h.2
    simp only [spiReadBytes, List.map_cons, List.flatten_cons, h1] at this ⊢
    simpa using this

theorem pollLockVarClear_unlock_quiet (K : Consts) (env : Env) (ret : Int) (s : State) :
    ∃ evs, (mutex_unlock env .npiPollLock (pollLockVarClear K ret s).2).2.trace =
      s.trace ++ evs ∧ allCalls Call.isQuiet evs :=
  ⟨[_], by simp only [mutex_unlock_trace, pollLockVarClear_trace]; exact rfl,
    by simp [Call.isQuiet, Call.isSpiRead, Call.isCback]⟩

theorem npi_poll_entry_poll_spec (K : Consts) (env : Env) (L : PollLocals) (s0 s : State)
    (pre : List Event) (hs : s.trace = s0.trace ++ pre) (hp : allCalls Call.isQuiet pre)
    (hK : (0xFF : uint8) &&& K.RPC_CMD_TYPE_MASK ≠ K.RPC_CMD_AREQ)
    (hpoll : (npi_poll_entry_polled K env L (npi_spi_pollData K env (pollFrame K L.readbuf.mem) s)).pollDataRet = some K.NPI_LNX_SUCCESS) :
    ∃ evs, (npi_poll_entry_polled K env L (npi_spi_pollData K env (pollFrame K L.readbuf.mem) s)).st.trace = s0.trace ++ evs ∧
      deliversFrame K evs := by
  have hr : (npi_spi_pollData K env (pollFrame K L.readbuf.mem) s).1 = K.NPI_LNX_SUCCESS := by
    unfold npi_poll_entry_polled at hpoll
    simp only [] at hpoll
    split_ifs at hpoll <;> simpa using hpoll
  obtain ⟨p, h1, h2, h3⟩ := pollData_frame K env (pollFrame K L.readbuf.mem) s0 s pre hs hp
  obtain ⟨d, h4, h5, h6⟩ := npi_poll_entry_deliver_spec K env
    (npi_spi_pollData K env (pollFrame K L.readbuf.mem) s) hK hr
  have hpd : deliversFrame K (p ++ d) := by
    unfold deliversFrame
    rw [cbackCalls_append, spiReadBytes_append, h2, h3 hr, spiReadBytes_of_noRead d h5,
      List.append_nil, List.nil_append, frameBytes_subsys, h6]
  have hq : ∀ t : List Event, allCalls Call.isQuiet t → deliversFrame K (p ++ d ++ t) := by
    intro t ht
    have := deliversFrame_quiet K [] (p ++ d) t (by simp) ht hpd
    simpa using this
  unfold npi_poll_entry_polled
  simp only [mutex_unlock_fst]
  split_ifs
  · exact ⟨p ++ d ++ [], by simp only [pollLockVarClear_trace, h4, h1, List.append_assoc,
      List.append_nil], hq [] (by simp)⟩
  · exact ⟨p ++ d ++ [_], by
      simp only [mutex_unlock_trace, pollLockVarClear_trace, h4, h1, List.append_assoc]
      exact rfl, hq _ (by simp [Call.isQuiet, Call.isSpiRead, Call.isCback])⟩
  · exact ⟨p ++ d ++ [_], by
      simp only [mutex_unlock_trace, pollLockVarClear_trace, h4, h1, List.append_assoc]
      exact rfl, hq _ (by simp [Call.isQuiet, Call.isSpiRead, Call.isCback])⟩

theorem npi_poll_entry_wait_spec (K : Consts) (env : Env) (b : PollIter) :
    (npi_poll_entry_wait K env b).pollDataRet = b.pollDataRet ∧
    (npi_poll_entry_wait K env b).readbuf = b.readbuf ∧
    ∃ evs, (npi_poll_entry_wait K env b).st.trace = b.st.trace ++ evs ∧
      allCalls Call.isQuiet evs := by
  unfold npi_poll_entry_wait
  simp only [perform_snd]
  split_ifs
  · exact ⟨rfl, rfl, [_], by simp only [record_trace]; exact rfl,
      by simp [Call.isQuiet, Call.isSpiRead, Call.isCback]⟩
  · exact ⟨rfl, rfl, [_], by simp only [mutex_unlock_trace]; exact rfl,
      by simp [Call.isQuiet, Call.isSpiRead, Call.isCback]⟩
  · exact ⟨rfl, rfl, [_, _], by simp only [record_trace, List.append_assoc]; exact rfl,
      by simp [Call.isQuiet, Call.isSpiRead, Call.isCback]⟩
  · exact ⟨rfl, rfl, [], by simp, by simp⟩

theorem npi_poll_entry_begin_spec (K : Consts) (env : Env) (L : PollLocals) (s : State) :
    ∃ evs, (npi_poll_entry_begin K env L s).2.2.trace = s.trace ++ evs ∧
      allCalls Call.isQuiet evs := by
  unfold npi_poll_entry_begin
  simp only [halCall_fst, halCall_snd]
  split_ifs
  · exact ⟨[_], by simp only [record_trace, pollLockVarSet_trace]; exact rfl,
      by simp [Call.isQuiet, Call.isSpiRead, Call.isCback]⟩
  · exact ⟨[_, _], by
      simp only [record_trace, pollLockVarSet_trace, mutex_lock_trace, List.append_assoc]
      exact rfl, by simp [Call.isQuiet, Call.isSpiRead, Call.isCback]⟩

theorem npi_poll_entry_idle_none (K : Consts) (env : Env) (L : PollLocals) (ret : Int)
    (s : State) : (npi_poll_entry_idle K env L ret s).pollDataRet = none := by
  unfold npi_poll_entry_idle
  simp only []
  split_ifs <;> rfl

theorem inReadbuf_append (a b : List Event) :
    inReadbuf (a ++ b) = (inReadbuf a && inReadbuf b) := by
  simp [inReadbuf]

theorem npi_poll_entry_iter_delivers (K : Consts) (env : Env) (L : PollLocals) (s : State)
    (hK : (0xFF : uint8) &&& K.RPC_CMD_TYPE_MASK ≠ K.RPC_CMD_AREQ) (r : PollIter)
    (hr : npi_poll_entry_iter K env L s = some r)
    (hpoll : r.pollDataRet = some K.NPI_LNX_SUCCESS) :
    deliversFrame K (eventsSince s r.st) := by
  unfold npi_poll_entry_iter at hr
  simp only [] at hr
  obtain ⟨a, ha, hqa⟩ := npi_poll_entry_begin_spec K env L s
  split_ifs at hr with hsr
  · unfold npi_poll_entry_poll at hr
    simp only [] at hr
    split_ifs at hr with hin
    · simp only [Option.map_some', Option.some.injEq] at hr
      subst hr
      obtain ⟨w1, _, w, hw, hqw⟩ := npi_poll_entry_wait_spec K env
        (npi_poll_entry_polled K env L (npi_spi_pollData K env (pollFrame K L.readbuf.mem)
          (npi_poll_entry_begin K env L s).2.2))
      rw [w1] at hpoll
      obtain ⟨evs, he, hd⟩ := npi_poll_entry_poll_spec K env L
        (npi_poll_entry_begin K env L s).2.2 (npi_poll_entry_begin K env L s).2.2 []
        (by simp) (by simp) hK hpoll
      rw [eventsSince_ext s _ (a ++ evs ++ w)
        (by rw [hw, he, ha]; simp only [List.append_assoc])]
      exact deliversFrame_quiet K a evs w hqa hqw hd
    · simp at hr
  · simp only [Option.some.injEq] at hr
    subst hr
    obtain ⟨w1, _, _⟩ := npi_poll_entry_wait_spec K env
      (npi_poll_entry_idle K env L (npi_poll_entry_begin K env L s).1
        (npi_poll_entry_begin K env L s).2.2)
    rw [w1, npi_poll_entry_idle_none] at hpoll
    simp at hpoll

/-! ## `npi_spi_pollData` when every HAL call succeeds -/

theorem not_quiet_of_read (evs : List Event) (h : allCalls Call.isQuiet evs) (e : Event)
    (he : e ∈ evs) (dst len : Nat) (hc : e.call = .HalSpiRead dst len) : False := by
  have := h e he
  rw [hc] at this
  simp [Call.isQuiet, Call.isSpiRead] at this

theorem npi_poll_entry_idle_quiet (K : Consts) (env : Env) (L : PollLocals) (ret : Int)
    (s : State) :
    ∃ evs, (npi_poll_entry_idle K env L ret s).st.trace = s.trace ++ evs ∧
      allCalls Call.isQuiet evs := by
  unfold npi_poll_entry_idle
  simp only []
  split_ifs
  · exact ⟨[], by simp, by simp⟩
  · exact ⟨[_], by simp only [mutex_unlock_trace, pollLockVarClear_trace]; exact rfl,
      by simp [Call.isQuiet, Call.isSpiRead, Call.isCback]⟩
  · exact ⟨[_], by simp only [mutex_unlock_trace, pollLockVarClear_trace]; exact rfl,
      by simp [Call.isQuiet, Call.isSpiRead, Call.isCback]⟩

theorem npi_poll_entry_deliver_fail (K : Consts) (env : Env) (r : Int × Buf × State)
    (hr : r.1 ≠ K.NPI_LNX_SUCCESS) :
    (npi_poll_entry_deliver K env r).2.trace = r.2.2.trace := by
  unfold npi_poll_entry_deliver
  rw [if_neg hr]

theorem halCalls_append (a b : List Event) : halCalls (a ++ b) = halCalls a ++ halCalls b := by
  simp [halCalls]

theorem halCalls_of_noHal (evs : List Event) (h : noHal evs) : halCalls evs = [] := by
  simp only [halCalls, List.filter_eq_nil_iff, List.mem_map]
  rintro c ⟨e, he, rfl⟩
  simp [h e he]

theorem bufStore_payload_len (b : Buf) (n : Nat) (l : List uint8) :
    bufStore (memset0 b 3 n) 3 l 0 = b 0 := by
  rw [bufStore_low _ _ _ _ (by omega), memset0_low _ _ _ _ (by omega)]

theorem sendSynch_srdySet_hal (K : Consts) (env : Env) (pMsg : Buf) (s : State)
    (hal : HalSucceeds K env) :
    ∃ evs, (NPI_SPI_SendSynchData_srdySet K env pMsg s).st.trace = s.trace ++ evs ∧
      halCalls evs = [.HalGpioWaitSrdySet] ++
        (if s.earlyMrdyDeAssert = 1 then [.HAL_RNP_MRDY_SET] else []) ∧
      (NPI_SPI_SendSynchData_srdySet K env pMsg s).ret = K.NPI_LNX_SUCCESS ∧
      (NPI_SPI_SendSynchData_srdySet K env pMsg s).mRdyAsserted =
        (if s.earlyMrdyDeAssert = 1 then false else true) := by
  have e2 : ∀ tr, (env tr .HAL_RNP_MRDY_SET).ret = K.NPI_LNX_SUCCESS :=
    fun tr => hs_ret hal tr _ rfl
  have e5 : ∀ tr, (env tr .HalGpioWaitSrdySet).ret = K.NPI_LNX_SUCCESS :=
    fun tr => hs_ret hal tr _ rfl
  unfold NPI_SPI_SendSynchData_srdySet
  simp only [halCall_fst, halCall_snd, e5, e2, ne_eq, not_true_eq_false, if_false, if_true,
    record_early]
  split_ifs with h
  · exact ⟨[_, _], by simp only [record_trace, List.append_assoc]; exact rfl, by rfl, rfl, rfl⟩
  · exact ⟨[_], by simp only [record_trace]; exact rfl, by rfl, rfl, rfl⟩

theorem sendSynch_frame_hal (K : Consts) (env : Env) (x : Xfer) (hal : HalSucceeds K env)
    (hK : K.NPI_LNX_FAILURE ≠ K.NPI_LNX_SUCCESS) (hx : x.ret = K.NPI_LNX_SUCCESS) :
    ∃ evs, (NPI_SPI_SendSynchData_frame K env x).st.trace = x.st.trace ++ evs ∧
      (NPI_SPI_SendSynchData_frame K env x).mRdyAsserted = x.mRdyAsserted ∧
      ((NPI_SPI_SendSynchData_frame K env x).ret = K.NPI_LNX_SUCCESS →
        halCalls evs = [.HalSpiRead 0 3] ++
          (if 0 < ((NPI_SPI_SendSynchData_frame K env x).pMsg 0).val
           then [.HalSpiRead 3 ((NPI_SPI_SendSynchData_frame K env x).pMsg 0).val]
           else [])) := by
  have e6 : ∀ tr a b, (env tr (.HalSpiRead a b)).ret = K.NPI_LNX_SUCCESS :=
    fun tr a b => hs_ret hal tr _ rfl
  unfold NPI_SPI_SendSynchData_frame
  simp only [hx, if_true, HalSpiRead_fst, HalSpiRead_buf, HalSpiRead_st, e6, ne_eq,
    not_true_eq_false, if_false, RPC_FRAME_HDR_SZ]
  generalize hb1 : bufStore (memset0 x.pMsg 0 3) 0
    (xferBytes 3 (env x.st.trace (.HalSpiRead 0 3)).data) = b1
  by_cases hl : 0 < (b1 0).val
  · simp only [hl, if_true]
    cases hi : illegalHeader b1
    · simp only [Bool.false_eq_true, if_false, bufStore_payload_len, hl, if_true]
      exact ⟨[_, _], by simp only [record_trace, List.append_assoc]; exact rfl, trivial,
        fun _ => by rfl⟩
    · simp only [if_true]
      exact ⟨[_], by simp only [record_trace]; exact rfl, trivial, fun h => (hK h).elim⟩
  · simp only [hl, if_false]
    exact ⟨[_], by simp only [record_trace]; exact rfl, trivial, fun _ => by rfl⟩

theorem sendSynch_xfer_hal (K : Consts) (env : Env) (pMsg : Buf) (s : State)
    (hal : HalSucceeds K env) (hK : K.NPI_LNX_FAILURE ≠ K.NPI_LNX_SUCCESS) :
    ∃ evs, (NPI_SPI_SendSynchData_xfer K env pMsg s).st.trace = s.trace ++ evs ∧
      (NPI_SPI_SendSynchData_xfer K env pMsg s).mRdyAsserted =
        (if s.earlyMrdyDeAssert = 1 then false else true) ∧
      ((NPI_SPI_SendSynchData_xfer K env pMsg s).ret = K.NPI_LNX_SUCCESS →
        halCalls evs = [.HalGpioWaitSrdyClr, .HalSpiWrite (bufBytes pMsg 0 ((pMsg 0).val + 3)),
            .HalGpioWaitSrdySet] ++
          (if s.earlyMrdyDeAssert = 1 then [.HAL_RNP_MRDY_SET] else []) ++
          [.HalSpiRead 0 3] ++
          (if 0 < ((NPI_SPI_SendSynchData_xfer K env pMsg s).pMsg 0).val
           then [.HalSpiRead 3 ((NPI_SPI_SendSynchData_xfer K env pMsg s).pMsg 0).val]
           else [])) := by
  have e3 : ∀ tr, (env tr .HalGpioWaitSrdyClr).ret = K.NPI_LNX_SUCCESS :=
    fun tr => hs_ret hal tr _ rfl
  have e4 : ∀ tr d, (env tr (.HalSpiWrite d)).ret = K.NPI_LNX_SUCCESS :=
    fun tr d => hs_ret hal tr _ rfl
  unfold NPI_SPI_SendSynchData_xfer
  simp only [halCall_fst, halCall_snd, HalSpiWrite_fst, HalSpiWrite_snd, e3, e4, ne_eq,
    not_true_eq_false, if_false, RPC_FRAME_HDR_SZ]
  generalize hs2 : record (record s .HalGpioWaitSrdyClr (env s.trace .HalGpioWaitSrdyClr))
      (.HalSpiWrite (bufBytes pMsg 0 ((pMsg 0).val + 3)))
      (env (record s .HalGpioWaitSrdyClr (env s.trace .HalGpioWaitSrdyClr)).trace
        (.HalSpiWrite (bufBytes pMsg 0 ((pMsg 0).val + 3)))) = s2
  obtain ⟨pre, hpre, hpc⟩ : ∃ pre, s2.trace = s.trace ++ pre ∧
      halCalls pre = [.HalGpioWaitSrdyClr, .HalSpiWrite (bufBytes pMsg 0 ((pMsg 0).val + 3))] := by
    refine ⟨[_, _], by rw [← hs2]; simp only [record_trace, List.append_assoc]; exact rfl,
      by rfl⟩
  have h2e : s2.earlyMrdyDeAssert = s.earlyMrdyDeAssert := by rw [← hs2]; rfl
  obtain ⟨a, ha1, ha2, ha3, ha4⟩ := sendSynch_srdySet_hal K env pMsg s2 hal
  obtain ⟨b, hb1, hb2, hb3⟩ := sendSynch_frame_hal K env
    (NPI_SPI_SendSynchData_srdySet K env pMsg s2) hal hK ha3
  refine ⟨pre ++ a ++ b, by rw [hb1, ha1, hpre]; simp only [List.append_assoc],
    by rw [hb2, ha4, h2e], fun h => ?_⟩
  rw [halCalls_append, halCalls_append, hpc, ha2, hb3 h, h2e]
  simp only [List.append_assoc, List.cons_append, List.nil_append]
theorem endOfTransaction_hal (K : Consts) (env : Env) (x : Xfer) :
    ∃ evs, (endOfTransaction K env x).2.2.trace = x.st.trace ++ evs ∧
      halCalls evs = (if x.mRdyAsserted = true then [.HAL_RNP_MRDY_SET] else []) ∧
      (endOfTransaction K env x).2.1 = x.pMsg ∧
      ((endOfTransaction K env x).1 = K.NPI_LNX_SUCCESS → x.ret = K.NPI_LNX_SUCCESS) := by
  unfold endOfTransaction
  simp only [halCall_fst, halCall_snd]
  split_ifs with hm hr
  · exact ⟨[_], by simp only [record_trace]; exact rfl, by rfl, rfl, fun _ => hr⟩
  · exact ⟨[_], by simp only [record_trace]; exact rfl, by rfl, rfl, fun h => h⟩
  · exact ⟨[], by simp, rfl, rfl, fun h => h⟩

theorem bufBytes_tagged (pMsg : Buf) (v : uint8) :
    bufBytes (bufSet pMsg RPC_POS_CMD0 v) 0 ((bufSet pMsg RPC_POS_CMD0 v 0).val + 3) =
      [pMsg 0, v, pMsg 2] ++ bufBytes pMsg 3 (pMsg 0).val := by
  simp [bufBytes_frame, bufSet, bufBytes_bufSet, RPC_POS_CMD0]

theorem pollLockVarSet_early (K : Consts) (ret : Int) (s : State) :
    (pollLockVarSet K ret s).2.earlyMrdyDeAssert = s.earlyMrdyDeAssert := by
  unfold pollLockVarSet PollLockVarError; split <;> rfl

theorem sendSynch_body_hal (K : Consts) (env : Env) (ret : Int) (pMsg : Buf) (s : State)
    (hal : HalSucceeds K env) (hK : K.NPI_LNX_FAILURE ≠ K.NPI_LNX_SUCCESS) :
    ∃ evs, (NPI_SPI_SendSynchData_body K env ret pMsg s).2.2.trace = s.trace ++ evs ∧
      ((NPI_SPI_SendSynchData_body K env ret pMsg s).1 = K.NPI_LNX_SUCCESS →
        halCalls evs = [.HAL_RNP_MRDY_CLR, .HalGpioWaitSrdyClr,
            .HalSpiWrite ([pMsg 0, (pMsg 1 &&& K.RPC_SUBSYSTEM_MASK) ||| K.RPC_CMD_SREQ, pMsg 2]
              ++ bufBytes pMsg 3 (pMsg 0).val),
            .HalGpioWaitSrdySet] ++
          (if s.earlyMrdyDeAssert = 1 then [.HAL_RNP_MRDY_SET] else []) ++
          [.HalSpiRead 0 3] ++
          (if 0 < ((NPI_SPI_SendSynchData_body K env ret pMsg s).2.1 0).val
           then [.HalSpiRead 3 ((NPI_SPI_SendSynchData_body K env ret pMsg s).2.1 0).val]
           else []) ++
          (if s.earlyMrdyDeAssert = 1 then [] else [.HAL_RNP_MRDY_SET])) := by
  have e1 : ∀ tr, (env tr .HAL_RNP_MRDY_CLR).ret = K.NPI_LNX_SUCCESS :=
    fun tr => hs_ret hal tr _ rfl
  unfold NPI_SPI_SendSynchData_body
  simp only [halCall_fst, halCall_snd, e1, if_true]
  have hpt : (if ret = K.NPI_LNX_SUCCESS then pollLockVarSet K ret s else (ret, s)).2.trace =
      s.trace := by
    split_ifs
    · exact pollLockVarSet_trace K ret s
    · rfl
  have hpe : (if ret = K.NPI_LNX_SUCCESS then pollLockVarSet K ret s
      else (ret, s)).2.earlyMrdyDeAssert = s.earlyMrdyDeAssert := by
    split_ifs
    · exact pollLockVarSet_early K ret s
    · rfl
  generalize (if ret = K.NPI_LNX_SUCCESS then pollLockVarSet K ret s else (ret, s)) = p at *
  by_cases h1 : p.1 = K.NPI_LNX_SUCCESS
  · rw [if_pos h1]
    generalize hs1 : record p.2 .HAL_RNP_MRDY_CLR (env p.2.trace .HAL_RNP_MRDY_CLR) = s1
    have h1t : s1.trace = s.trace ++ [⟨.HAL_RNP_MRDY_CLR, env p.2.trace .HAL_RNP_MRDY_CLR⟩] := by
      rw [← hs1]; simp only [record_trace, hpt]
    have h1e : s1.earlyMrdyDeAssert = s.earlyMrdyDeAssert := by
      rw [← hs1]; simp only [record_early, hpe]
    obtain ⟨a, ha1, ha2, ha3⟩ := sendSynch_xfer_hal K env
      (bufSet pMsg RPC_POS_CMD0 ((pMsg RPC_POS_CMD0 &&& K.RPC_SUBSYSTEM_MASK) ||| K.RPC_CMD_SREQ))
      s1 hal hK
    obtain ⟨b, hb1, hb2, hb3, hb4⟩ := endOfTransaction_hal K env
      (NPI_SPI_SendSynchData_xfer K env
        (bufSet pMsg RPC_POS_CMD0
          ((pMsg RPC_POS_CMD0 &&& K.RPC_SUBSYSTEM_MASK) ||| K.RPC_CMD_SREQ)) s1)
    refine ⟨[⟨.HAL_RNP_MRDY_CLR, env p.2.trace .HAL_RNP_MRDY_CLR⟩] ++ a ++ b,
      by rw [hb1, ha1, h1t]; simp only [List.append_assoc], fun h => ?_⟩
    rw [halCalls_append, halCalls_append, hb2, ha3 (hb4 h), ha2, hb3, h1e, bufBytes_tagged]
    have hc : halCalls [(⟨.HAL_RNP_MRDY_CLR, env p.2.trace .HAL_RNP_MRDY_CLR⟩ : Event)] =
        [.HAL_RNP_MRDY_CLR] := rfl
    rw [hc]
    by_cases he : s.earlyMrdyDeAssert = 1
    · simp [he, RPC_POS_CMD0]
    · simp [he, RPC_POS_CMD0]
  · rw [if_neg h1]
    exact ⟨[], by simp only [hpt, List.append_nil], fun h => (h1 h).elim⟩

theorem pollLockVarClear_ret_of_success (K : Consts) (ret : Int) (s : State)
    (hK : K.NPI_LNX_FAILURE ≠ K.NPI_LNX_SUCCESS)
    (h : (pollLockVarClear K ret s).1 = K.NPI_LNX_SUCCESS) : ret = K.NPI_LNX_SUCCESS := by
  by_contra hr
  exact pollLockVarClear_ret K ret s hK hr h

theorem sendSynch_halCalls (K : Consts) (env : Env) (pMsg : Buf) (s : State)
    (hal : HalSucceeds K env) (hK : K.NPI_LNX_FAILURE ≠ K.NPI_LNX_SUCCESS)
    (hret : (NPI_SPI_SendSynchData K env pMsg s).1 = K.NPI_LNX_SUCCESS) :
    halCalls (eventsSince s (NPI_SPI_SendSynchData K env pMsg s).2.2) =
      [.HAL_RNP_MRDY_CLR, .HalGpioWaitSrdyClr,
       .HalSpiWrite ([pMsg 0, (pMsg 1 &&& K.RPC_SUBSYSTEM_MASK) ||| K.RPC_CMD_SREQ, pMsg 2]
          ++ bufBytes pMsg 3 (pMsg 0).val),
       .HalGpioWaitSrdySet] ++
      (if s.earlyMrdyDeAssert = 1 then [.HAL_RNP_MRDY_SET] else []) ++
      [.HalSpiRead 0 3] ++
      (if 0 < ((NPI_SPI_SendSynchData K env pMsg s).2.1 0).val
       then [.HalSpiRead 3 ((NPI_SPI_SendSynchData K env pMsg s).2.1 0).val] else []) ++
      (if s.earlyMrdyDeAssert = 1 then [] else [.HAL_RNP_MRDY_SET]) := by
  unfold NPI_SPI_SendSynchData at hret ⊢
  simp only [] at hret ⊢
  obtain ⟨a, ha, hna⟩ := sendSynch_lock_trace K env s
  have hle : (NPI_SPI_SendSynchData_lock K env s).st.earlyMrdyDeAssert =
      s.earlyMrdyDeAssert := by
    unfold NPI_SPI_SendSynchData_lock
    simp only [mutex_lock_fst]
    split_ifs <;> simp
  obtain ⟨b, hb, hrb⟩ := sendSynch_body_hal K env (NPI_SPI_SendSynchData_lock K env s).ret pMsg
    (NPI_SPI_SendSynchData_lock K env s).st hal hK
  obtain ⟨c, hc, hnc⟩ := sendSynch_unlock_trace K env (NPI_SPI_SendSynchData_lock K env s)
    (pollLockVarClear K (NPI_SPI_SendSynchData_body K env
      (NPI_SPI_SendSynchData_lock K env s).ret pMsg (NPI_SPI_SendSynchData_lock K env s).st).1
      (NPI_SPI_SendSynchData_body K env
      (NPI_SPI_SendSynchData_lock K env s).ret pMsg (NPI_SPI_SendSynchData_lock K env s).st).2.2).2
  rw [eventsSince_ext s _ (a ++ b ++ c)
    (by rw [hc, pollLockVarClear_trace, hb, ha]; simp only [List.append_assoc])]
  rw [halCalls_append, halCalls_append, halCalls_of_noHal a hna, halCalls_of_noHal c hnc,
    hrb (pollLockVarClear_ret_of_success K _ _ hK hret), hle]
  simp only [List.nil_append, List.append_nil]
theorem pollData_early_hal (K : Consts) (env : Env) (x : Xfer) (hal : HalSucceeds K env) :
    ∃ evs, (npi_spi_pollData_early K env x).st.trace = x.st.trace ++ evs ∧
      halCalls evs = (if x.st.earlyMrdyDeAssert = 1 then [.HAL_RNP_MRDY_SET] else []) ∧
      (npi_spi_pollData_early K env x).ret = x.ret ∧
      (npi_spi_pollData_early K env x).pMsg = x.pMsg ∧
      (npi_spi_pollData_early K env x).mRdyAsserted =
        (if x.st.earlyMrdyDeAssert = 1 then false else x.mRdyAsserted) := by
  have e2 : ∀ tr, (env tr .HAL_RNP_MRDY_SET).ret = K.NPI_LNX_SUCCESS :=
    fun tr => hs_ret hal tr _ rfl
  unfold npi_spi_pollData_early
  simp only [halCall_fst, halCall_snd, e2, if_true]
  by_cases h : x.st.earlyMrdyDeAssert = 1
  · simp only [h, if_true]
    exact ⟨[_], by simp only [record_trace]; exact rfl, by rfl, trivial, trivial, trivial⟩
  · simp only [h, if_false]
    exact ⟨[], by simp, rfl, trivial, trivial, trivial⟩

theorem pollData_detect_success (K : Consts) (t1 t2 : Timespec) (x : Xfer)
    (hK : K.NPI_LNX_FAILURE ≠ K.NPI_LNX_SUCCESS)
    (h : (npi_spi_pollData_detect K t1 t2 x).ret = K.NPI_LNX_SUCCESS) :
    npi_spi_pollData_detect K t1 t2 x = x := by
  unfold npi_spi_pollData_detect at h ⊢
  split_ifs at h ⊢
  · exact (hK h).elim
  · rfl

theorem pollData_detect_trace (K : Consts) (t1 t2 : Timespec) (x : Xfer) :
    (npi_spi_pollData_detect K t1 t2 x).st.trace = x.st.trace ∧
    (npi_spi_pollData_detect K t1 t2 x).mRdyAsserted = x.mRdyAsserted := by
  unfold npi_spi_pollData_detect
  split_ifs <;> exact ⟨rfl, rfl⟩

theorem pollData_frame_hal (K : Consts) (env : Env) (x : Xfer) (hal : HalSucceeds K env)
    (hx : x.ret = K.NPI_LNX_SUCCESS) :
    ∃ evs, (npi_spi_pollData_frame K env x).st.trace = x.st.trace ++ evs ∧
      (npi_spi_pollData_frame K env x).mRdyAsserted = x.mRdyAsserted ∧
      halCalls evs = [.HalSpiRead 0 3] ++
        (if illegalHeader (npi_spi_pollData_frame K env x).pMsg = false ∧
            0 < ((npi_spi_pollData_frame K env x).pMsg 0).val
         then [.HalSpiRead 3 ((npi_spi_pollData_frame K env x).pMsg 0).val] else []) := by
  have e6 : ∀ tr a b, (env tr (.HalSpiRead a b)).ret = K.NPI_LNX_SUCCESS :=
    fun tr a b => hs_ret hal tr _ rfl
  have h0 : ∀ (b1 : Buf) (n : Nat) (l : List uint8),
      bufStore (memset0 b1 3 n) 3 l 0 = b1 0 ∧ bufStore (memset0 b1 3 n) 3 l 1 = b1 1 ∧
      bufStore (memset0 b1 3 n) 3 l 2 = b1 2 := fun b1 n l =>
    ⟨by rw [bufStore_low _ _ _ _ (by omega), memset0_low _ _ _ _ (by omega)],
     by rw [bufStore_low _ _ _ _ (by omega), memset0_low _ _ _ _ (by omega)],
     by rw [bufStore_low _ _ _ _ (by omega), memset0_low _ _ _ _ (by omega)]⟩
  unfold npi_spi_pollData_frame
  simp only [HalSpiRead_fst, HalSpiRead_buf, HalSpiRead_st, RPC_FRAME_HDR_SZ, hx, e6, if_true]
  generalize hb1 : bufStore (memset0 x.pMsg 0 3) 0
    (xferBytes 3 (env x.st.trace (.HalSpiRead 0 3)).data) = b1
  cases hi : illegalHeader b1
  · by_cases hl : 0 < (b1 0).val
    · simp only [hl, if_true, Bool.false_eq_true, if_false]
      have hi2 : illegalHeader (bufStore (memset0 b1 3 (b1 0).val) 3
          (xferBytes (b1 0).val (env (record x.st (.HalSpiRead 0 3)
            (env x.st.trace (.HalSpiRead 0 3))).trace (.HalSpiRead 3 (b1 0).val)).data)) = false := by
        simp only [illegalHeader, (h0 _ _ _).1, (h0 _ _ _).2.1, (h0 _ _ _).2.2] at hi ⊢
        exact hi
      simp only [hi2, (h0 _ _ _).1, hl, and_self, if_true]
      exact ⟨[_, _], by simp only [record_trace, List.append_assoc]; exact rfl, trivial,
        by rfl⟩
    · simp only [hl, if_false, Bool.false_eq_true, hi, and_false]
      exact ⟨[_], by simp only [record_trace]; exact rfl, trivial, by rfl⟩
  · simp only [if_true, hi, Bool.true_eq_false, false_and, if_false]
    exact ⟨[_], by simp only [record_trace]; exact rfl, trivial, by rfl⟩

theorem pollData_read_hal (K : Consts) (env : Env) (pMsg : Buf) (t1 : Timespec) (s : State)
    (hal : HalSucceeds K env) (hK : K.NPI_LNX_FAILURE ≠ K.NPI_LNX_SUCCESS) :
    ∃ evs, (npi_spi_pollData_read K env pMsg t1 s).st.trace = s.trace ++ evs ∧
      (npi_spi_pollData_read K env pMsg t1 s).mRdyAsserted =
        (if s.earlyMrdyDeAssert = 1 then false else true) ∧
      ((npi_spi_pollData_read K env pMsg t1 s).ret = K.NPI_LNX_SUCCESS →
        halCalls evs = [.HalGpioWaitSrdySet] ++
          (if s.earlyMrdyDeAssert = 1 then [.HAL_RNP_MRDY_SET] else []) ++
          [.HalSpiRead 0 3] ++
          (if illegalHeader (npi_spi_pollData_read K env pMsg t1 s).pMsg = false ∧
              0 < ((npi_spi_pollData_read K env pMsg t1 s).pMsg 0).val
           then [.HalSpiRead 3 ((npi_spi_pollData_read K env pMsg t1 s).pMsg 0).val]
           else [])) := by
  have e5 : ∀ tr, (env tr .HalGpioWaitSrdySet).ret = K.NPI_LNX_SUCCESS :=
    fun tr => hs_ret hal tr _ rfl
  unfold npi_spi_pollData_read
  simp only [halCall_fst, halCall_snd, perform_fst, perform_snd, e5]
  generalize (env (record s .HalGpioWaitSrdySet (env s.trace .HalGpioWaitSrdySet)).trace
    (.clock_gettime .CLOCK_MONOTONIC)) = r2
  generalize hx0 : (Xfer.mk K.NPI_LNX_SUCCESS true pMsg
    (record (record s .HalGpioWaitSrdySet (env s.trace .HalGpioWaitSrdySet))
      (.clock_gettime .CLOCK_MONOTONIC) r2)) = x0
  obtain ⟨pre, hpre, hpc⟩ : ∃ pre, x0.st.trace = s.trace ++ pre ∧
      halCalls pre = [.HalGpioWaitSrdySet] := by
    refine ⟨[_, _], by rw [← hx0]; simp only [record_trace, List.append_assoc]; exact rfl,
      by rfl⟩
  have hx0r : x0.ret = K.NPI_LNX_SUCCESS := by rw [← hx0]
  have hx0m : x0.mRdyAsserted = true := by rw [← hx0]
  have hx0e : x0.st.earlyMrdyDeAssert = s.earlyMrdyDeAssert := by rw [← hx0]; rfl
  obtain ⟨a, ha1, ha2, ha3, ha4, ha5⟩ := pollData_early_hal K env x0 hal
  generalize npi_spi_pollData_early K env x0 = x1 at *
  obtain ⟨hd1, hd2⟩ := pollData_detect_trace K t1 r2.time x1
  by_cases hs : (npi_spi_pollData_detect K t1 r2.time x1).ret = K.NPI_LNX_SUCCESS
  · have hd := pollData_detect_success K t1 r2.time x1 hK hs
    rw [hd] at hs ⊢
    obtain ⟨f, hf1, hf2, hf3⟩ := pollData_frame_hal K env x1 hal hs
    refine ⟨pre ++ a ++ f, by rw [hf1, ha1, hpre]; simp only [List.append_assoc], by rw [hf2, ha5, hx0e, hx0m], fun _ => ?_⟩
    rw [halCalls_append, halCalls_append, hpc, ha2, hf3, hx0e]
    simp only [List.append_assoc]
  · have hf : npi_spi_pollData_frame K env (npi_spi_pollData_detect K t1 r2.time x1) =
        npi_spi_pollData_detect K t1 r2.time x1 := by
      unfold npi_spi_pollData_frame
      rw [if_neg hs]
    rw [hf]
    exact ⟨pre ++ a, by rw [hd1, ha1, hpre]; simp only [List.append_assoc], by rw [hd2, ha5, hx0e, hx0m],
      fun h => (hs h).elim⟩

theorem pollData_halCalls (K : Consts) (env : Env) (pMsg : Buf) (s : State)
    (hal : HalSucceeds K env) (hK : K.NPI_LNX_FAILURE ≠ K.NPI_LNX_SUCCESS)
    (hret : (npi_spi_pollData K env pMsg s).1 = K.NPI_LNX_SUCCESS) :
    halCalls (eventsSince s (npi_spi_pollData K env pMsg s).2.2) =
      [.HAL_RNP_MRDY_CLR, .HalSpiWrite (bufBytes pMsg 0 ((pMsg 0).val + 3)),
       .HalGpioWaitSrdySet] ++
      (if s.earlyMrdyDeAssert = 1 then [.HAL_RNP_MRDY_SET] else []) ++
      [.HalSpiRead 0 3] ++
      (if illegalHeader (npi_spi_pollData K env pMsg s).2.1 = false ∧
          0 < ((npi_spi_pollData K env pMsg s).2.1 0).val
       then [.HalSpiRead 3 ((npi_spi_pollData K env pMsg s).2.1 0).val] else []) ++
      (if s.earlyMrdyDeAssert = 1 then [] else [.HAL_RNP_MRDY_SET]) := by
  have e1 : ∀ tr, (env tr .HAL_RNP_MRDY_CLR).ret = K.NPI_LNX_SUCCESS :=
    fun tr => hs_ret hal tr _ rfl
  have e4 : ∀ tr d, (env tr (.HalSpiWrite d)).ret = K.NPI_LNX_SUCCESS :=
    fun tr d => hs_ret hal tr _ rfl
  unfold npi_spi_pollData npi_spi_pollData_body at hret ⊢
  simp only [halCall_fst, halCall_snd, HalSpiWrite_fst, HalSpiWrite_snd, perform_fst, perform_snd,
    e1, e4, if_true, RPC_FRAME_HDR_SZ] at hret ⊢
  generalize (env (record (record s .HAL_RNP_MRDY_CLR (env s.trace .HAL_RNP_MRDY_CLR))
      (.HalSpiWrite (bufBytes pMsg 0 ((pMsg 0).val + 3)))
      (env (record s .HAL_RNP_MRDY_CLR (env s.trace .HAL_RNP_MRDY_CLR)).trace
        (.HalSpiWrite (bufBytes pMsg 0 ((pMsg 0).val + 3))))).trace
      (.clock_gettime .CLOCK_MONOTONIC)) = r1 at hret ⊢
  generalize hs3 : record (record (record s .HAL_RNP_MRDY_CLR (env s.trace .HAL_RNP_MRDY_CLR))
      (.HalSpiWrite (bufBytes pMsg 0 ((pMsg 0).val + 3)))
      (env (record s .HAL_RNP_MRDY_CLR (env s.trace .HAL_RNP_MRDY_CLR)).trace
        (.HalSpiWrite (bufBytes pMsg 0 ((pMsg 0).val + 3)))))
      (.clock_gettime .CLOCK_MONOTONIC) r1 = s3 at hret ⊢
  obtain ⟨pre, h3t, hpc⟩ : ∃ pre, s3.trace = s.trace ++ pre ∧
      halCalls pre = [.HAL_RNP_MRDY_CLR, .HalSpiWrite (bufBytes pMsg 0 ((pMsg 0).val + 3))] := by
    refine ⟨[_, _, _], by rw [← hs3]; simp only [record_trace, List.append_assoc]; exact rfl,
      by rfl⟩
  have h3e : s3.earlyMrdyDeAssert = s.earlyMrdyDeAssert := by rw [← hs3]; rfl
  obtain ⟨a, ha1, ha2, ha3⟩ := pollData_read_hal K env pMsg r1.time s3 hal hK
  obtain ⟨b, hb1, hb2, hb3, hb4⟩ := endOfTransaction_hal K env
    (npi_spi_pollData_read K env pMsg r1.time s3)
  rw [eventsSince_ext s _ (pre ++ a ++ b) (by rw [hb1, ha1, h3t]; simp only [List.append_assoc])]
  rw [halCalls_append, halCalls_append, hpc, ha3 (hb4 hret), hb2, ha2, hb3, h3e]
  by_cases he : s.earlyMrdyDeAssert = 1
  · simp [he]
  · simp [he]

/-! ## `NPI_SPI_SynchSlave` and `NPI_SPI_OpenDevice` -/

theorem synchSlave_handshake (K : Consts) (env : Env) (s : State)
    (hH : s.srdyMrdyHandshakeSupport = 1) (hP : s.PollLockVar = 1)
    (hal : HalSucceeds K env) :
    halCalls (eventsSince s (NPI_SPI_SynchSlave K env s).2) =
      [.HalGpioWaitSrdyClr, .HAL_RNP_MRDY_CLR, .HalGpioWaitSrdySet, .HAL_RNP_MRDY_SET,
       .HalGpioSrdyCheck 1] ∧
    ∃ e ∈ eventsSince s (NPI_SPI_SynchSlave K env s).2,
      e.call = .HalGpioSrdyCheck 1 ∧ (NPI_SPI_SynchSlave K env s).1 = e.resp.ret := by
  have e1 : ∀ tr, (env tr .HAL_RNP_MRDY_CLR).ret = K.NPI_LNX_SUCCESS :=
    fun tr => hs_ret hal tr _ rfl
  have e2 : ∀ tr, (env tr .HAL_RNP_MRDY_SET).ret = K.NPI_LNX_SUCCESS :=
    fun tr => hs_ret hal tr _ rfl
  have e3 : ∀ tr, (env tr .HalGpioWaitSrdyClr).ret = K.NPI_LNX_SUCCESS :=
    fun tr => hs_ret hal tr _ rfl
  have e5 : ∀ tr, (env tr .HalGpioWaitSrdySet).ret = K.NPI_LNX_SUCCESS :=
    fun tr => hs_ret hal tr _ rfl
  cases hI : K.SRDY_INTERRUPT <;> cases hW : K.PERFORM_SW_RESET_INSTEAD_OF_HARDWARE_RESET <;>
  simp [NPI_SPI_SynchSlave, NPI_SPI_SynchSlave_tail, pollLockVarClear, PollLockVarError, hI, hW,
    hH, hP, e1, e2, e3, e5, eventsSince, halCalls, Call.isHal]

theorem openDevice_already_open (K : Consts) (env : Env) (pCfg : npiSpiCfg_t) (s : State)
    (h : s.npiOpenFlag ≠ 0) :
    NPI_SPI_OpenDevice K env pCfg s =
      (K.NPI_LNX_FAILURE, { s with npi_ipc_errno := K.NPI_LNX_ERROR_SPI_OPEN_ALREADY_OPEN }) := by
  unfold NPI_SPI_OpenDevice
  rw [if_pos h]
/-! ## The poll timeout of the event thread -/

theorem tdiv_of_nonneg (a b : Int) (ha : 0 ≤ a) (hb : 0 ≤ b) : a.tdiv b = a / b :=
  Int.tdiv_eq_ediv ha hb

theorem npi_event_entry_timeout_below_second (cur prev : Timespec) (timeout : Int)
    (hc : 0 ≤ cur.tv_nsec ∧ cur.tv_nsec < 1000000000)
    (hp : 0 ≤ prev.tv_nsec ∧ prev.tv_nsec < 1000000000)
    (h0 : 0 ≤ (cur.tv_sec - prev.tv_sec) * 1000000000 + (cur.tv_nsec - prev.tv_nsec))
    (h1 : (cur.tv_sec - prev.tv_sec) * 1000000000 + (cur.tv_nsec - prev.tv_nsec) < 1000000000) :
    npi_event_entry_timeout cur prev timeout = specTimeout cur prev := by
  have hd : diffPrev cur prev =
      ((cur.tv_sec - prev.tv_sec) * 1000000000 + (cur.tv_nsec - prev.tv_nsec)) / 1000 := by
    unfold diffPrev
    split_ifs with h
    · rw [tdiv_of_nonneg _ _ (by omega) (by omega)]
      have : cur.tv_sec - prev.tv_sec = 0 := by omega
      rw [this]; simp
    · rw [tdiv_of_nonneg _ _ (by omega) (by omega)]
      have : cur.tv_sec - prev.tv_sec = 1 := by omega
      rw [this]
      congr 1
      omega
  unfold npi_event_entry_timeout specTimeout
  rw [hd]
  generalize (cur.tv_sec - prev.tv_sec) * 1000000000 + (cur.tv_nsec - prev.tv_nsec) = e at *
  simp only [SPI_ISR_POLL_TIMEOUT_MS_MIN, SPI_ISR_POLL_TIMEOUT_MS_MAX]
  split_ifs with a b c
  · omega
  · omega
  · omega
  · rw [tdiv_of_nonneg _ _ (by omega) (by omega)]
    omega

theorem mrdySetCalls_eq (evs : List Event) :
    mrdySetCalls evs = (halCalls evs).filter (fun c => c = Call.HAL_RNP_MRDY_SET) := by
  unfold mrdySetCalls halCalls
  rw [List.filter_filter]
  congr 1
  funext c
  by_cases h : c = .HAL_RNP_MRDY_SET
  · subst h; rfl
  · simp [h]

theorem mrdySetCalls_once (pre mid pay : List Call) (early : Prop) [Decidable early]
    (h1 : pre.filter (fun c => c = Call.HAL_RNP_MRDY_SET) = [])
    (h2 : mid.filter (fun c => c = Call.HAL_RNP_MRDY_SET) = [])
    (h3 : pay.filter (fun c => c = Call.HAL_RNP_MRDY_SET) = []) :
    (pre ++ (if early then [Call.HAL_RNP_MRDY_SET] else []) ++ mid ++ pay ++
      (if early then [] else [Call.HAL_RNP_MRDY_SET])).filter
        (fun c => c = Call.HAL_RNP_MRDY_SET) = [Call.HAL_RNP_MRDY_SET] := by
  simp only [List.filter_append, h1, h2, h3]
  by_cases h : early <;> simp [h]
theorem answering_succeeds (K : Consts) (env : Env) (c : Call) (r : Resp)
    (h : HalSucceeds K env) (hc : c.isHalStatus = false) :
    HalSucceeds K (answering env c r) := by
  intro tr c2 h2
  have hne : c2 ≠ c := by
    intro he
    rw [he, hc] at h2
    exact Bool.noConfusion h2
  simp only [answering, hne, if_false]
  exact h tr c2 h2

/-! ## The poll timeout of the event thread -/

@[simp] theorem pollTimeouts_nil : pollTimeouts [] = [] := rfl

@[simp] theorem pollTimeouts_append (a b : List Event) :
    pollTimeouts (a ++ b) = pollTimeouts a ++ pollTimeouts b := by
  simp [pollTimeouts, List.filterMap_append]

@[simp] theorem pollTimeouts_cons (e : Event) (l : List Event) :
    pollTimeouts (e :: l) = e.call.pollTimeout.toList ++ pollTimeouts l := by
  cases h : e.call.pollTimeout <;> simp [pollTimeouts, List.filterMap_cons, h]

theorem mutex_trylock_trace (env : Env) (m : Mutex) (s : State) :
    (mutex_trylock env m s).2.trace =
      s.trace ++ [⟨.pthread_mutex_trylock m, env s.trace (.pthread_mutex_trylock m)⟩] := by
  unfold mutex_trylock; dsimp only; split <;> rfl

theorem mutex_trylock_terminate (env : Env) (m : Mutex) (s : State) :
    (mutex_trylock env m s).2.npi_poll_terminate = s.npi_poll_terminate := by
  unfold mutex_trylock; dsimp only; split <;> rfl

theorem npi_event_entry_timeout_range (cur prev : Timespec) (timeout : Int)
    (h : 3 ≤ timeout ∧ timeout ≤ 100) :
    3 ≤ npi_event_entry_timeout cur prev timeout ∧
      npi_event_entry_timeout cur prev timeout ≤ 100 := by
  unfold npi_event_entry_timeout
  by_cases h1 : diffPrev cur prev < SPI_ISR_POLL_TIMEOUT_MS_MIN * 1000
  · rw [if_pos h1]; exact ⟨(by decide : (3 : Int) ≤ 3), (by decide : (3 : Int) ≤ 100)⟩
  · rw [if_neg h1]
    by_cases h2 : diffPrev cur prev > SPI_ISR_POLL_TIMEOUT_MS_MAX * 1000
    · rw [if_pos h2]; split <;> first | exact ⟨(by decide : (3 : Int) ≤ 100), (by decide : (100 : Int) ≤ 100)⟩ | exact h
    · rw [if_neg h2]
      have a1 : (3000 : Int) ≤ diffPrev cur prev := by
        simp only [SPI_ISR_POLL_TIMEOUT_MS_MIN] at h1; omega
      have a2 : diffPrev cur prev ≤ 100000 := by
        simp only [SPI_ISR_POLL_TIMEOUT_MS_MAX] at h2; omega
      rw [tdiv_of_nonneg _ _ (by omega) (by decide)]
      omega

theorem npi_event_entry_adjust_range (env : Env) (timeout : Int) (prev : Timespec) (s : State)
    (h : 3 ≤ timeout ∧ timeout ≤ 100) :
    3 ≤ (npi_event_entry_adjust env timeout prev s).1 ∧
      (npi_event_entry_adjust env timeout prev s).1 ≤ 100 := by
  unfold npi_event_entry_adjust
  dsimp only
  split
  · exact npi_event_entry_timeout_range _ _ _ h
  · dsimp only; split <;> first | exact ⟨(by decide : (3 : Int) ≤ 100), (by decide : (100 : Int) ≤ 100)⟩ | exact h

theorem npi_event_entry_adjust_trace (env : Env) (timeout : Int) (prev : Timespec) (s : State) :
    (npi_event_entry_adjust env timeout prev s).2.2.trace =
      s.trace ++ [⟨.clock_gettime .CLOCK_MONOTONIC, env s.trace (.clock_gettime .CLOCK_MONOTONIC)⟩] := by
  unfold npi_event_entry_adjust
  dsimp only
  split <;> rfl

theorem npi_event_entry_switch_range (K : Consts) (env : Env) (revents : Nat) (L : EventThread)
    (s : State) (h : 3 ≤ L.timeout ∧ L.timeout ≤ 100) :
    3 ≤ (npi_event_entry_switch K env revents L s).1.timeout ∧
      (npi_event_entry_switch K env revents L s).1.timeout ≤ 100 := by
  unfold npi_event_entry_switch
  dsimp only
  split
  · split
    · exact h
    · split
      · exact h
      · split
        · exact ⟨(by decide : (3 : Int) ≤ 100), (by decide : (100 : Int) ≤ 100)⟩
        · exact h
  · split
    · exact h
    · dsimp only; split
      · exact ⟨(by decide : (3 : Int) ≤ 100), (by decide : (100 : Int) ≤ 100)⟩
      · exact h

theorem npi_event_entry_switch_polls (K : Consts) (env : Env) (revents : Nat) (L : EventThread)
    (s : State) :
    s.trace <+: (npi_event_entry_switch K env revents L s).2.trace ∧
    pollTimeouts (npi_event_entry_switch K env revents L s).2.trace = pollTimeouts s.trace := by
  unfold npi_event_entry_switch
  dsimp only
  split
  · split
    · simp [Call.pollTimeout]
    · split
      · simp [Call.pollTimeout]
      · split <;> simp [Call.pollTimeout]
  · split
    · simp
    · simp [Call.pollTimeout]

theorem npi_event_entry_srdy_range (K : Consts) (env : Env) (L : EventThread) (s : State)
    (h : 3 ≤ L.timeout ∧ L.timeout ≤ 100) :
    3 ≤ (npi_event_entry_srdy K env L s).1.timeout ∧
      (npi_event_entry_srdy K env L s).1.timeout ≤ 100 := by
  have ha := npi_event_entry_adjust_range env L.timeout L.prevTimeSPIisrPoll s h
  unfold npi_event_entry_srdy
  dsimp only
  split
  · split
    · dsimp only
      split
      · exact ⟨(by decide : (3 : Int) ≤ 3), (by decide : (3 : Int) ≤ 100)⟩
      · exact ha
    · exact ha
  · exact h

theorem npi_event_entry_srdy_polls (K : Consts) (env : Env) (L : EventThread) (s : State) :
    s.trace <+: (npi_event_entry_srdy K env L s).2.trace ∧
    pollTimeouts (npi_event_entry_srdy K env L s).2.trace = pollTimeouts s.trace := by
  unfold npi_event_entry_srdy
  dsimp only
  split
  · split
    · simp [Call.pollTimeout, npi_event_entry_adjust_trace, List.append_assoc]
    · simp [Call.pollTimeout, npi_event_entry_adjust_trace, List.append_assoc]
  · simp [Call.pollTimeout]

theorem npi_event_entry_pass_range (K : Consts) (env : Env) (dbg : Bool) (L : EventThread)
    (s : State) (h : 3 ≤ L.timeout ∧ L.timeout ≤ 100) :
    3 ≤ (npi_event_entry_pass K env dbg L s).1.timeout ∧
      (npi_event_entry_pass K env dbg L s).1.timeout ≤ 100 := by
  unfold npi_event_entry_pass
  dsimp only
  split
  · exact h
  · exact npi_event_entry_srdy_range K env _ _ (npi_event_entry_switch_range K env _ _ _ h)

theorem npi_event_entry_pass_polls (K : Consts) (env : Env) (dbg : Bool) (L : EventThread)
    (s : State) :
    s.trace <+: (npi_event_entry_pass K env dbg L s).2.trace ∧
    pollTimeouts (npi_event_entry_pass K env dbg L s).2.trace =
      pollTimeouts s.trace ++ [L.timeout] := by
  unfold npi_event_entry_pass
  dsimp only
  split
  · cases dbg <;>
      simp [Call.pollTimeout, mutex_trylock_trace, List.append_assoc]
  · have h1 := npi_event_entry_switch_polls K env (env s.trace (.poll s.GpioSrdyFd L.timeout)).revents
      { L with whileIt := L.whileIt + 1, result := (env s.trace (.poll s.GpioSrdyFd L.timeout)).ret }
      (mutex_trylock env .npiSrdyLock (perform env (.poll s.GpioSrdyFd L.timeout) s).2).2
    have h2 := npi_event_entry_srdy_polls K env
      (npi_event_entry_switch K env (env s.trace (.poll s.GpioSrdyFd L.timeout)).revents
        { L with whileIt := L.whileIt + 1, result := (env s.trace (.poll s.GpioSrdyFd L.timeout)).ret }
        (mutex_trylock env .npiSrdyLock (perform env (.poll s.GpioSrdyFd L.timeout) s).2).2).1
      (npi_event_entry_switch K env (env s.trace (.poll s.GpioSrdyFd L.timeout)).revents
        { L with whileIt := L.whileIt + 1, result := (env s.trace (.poll s.GpioSrdyFd L.timeout)).ret }
        (mutex_trylock env .npiSrdyLock (perform env (.poll s.GpioSrdyFd L.timeout) s).2).2).2
    simp only [perform_fst] at h1 h2 ⊢
    refine ⟨?_, ?_⟩
    · refine List.IsPrefix.trans ?_ (h1.1.trans h2.1)
      simp [mutex_trylock_trace, List.append_assoc]
    · rw [h2.2, h1.2]
      simp [Call.pollTimeout, mutex_trylock_trace]

theorem npi_event_entry_loop_polls (K : Consts) (env : Env) (dbg : Bool) (n : Nat) :
    ∀ (L : EventThread) (s : State), 3 ≤ L.timeout ∧ L.timeout ≤ 100 →
      (3 ≤ (npi_event_entry_loop K env dbg n L s).1.timeout ∧
        (npi_event_entry_loop K env dbg n L s).1.timeout ≤ 100) ∧
      s.trace <+: (npi_event_entry_loop K env dbg n L s).2.trace ∧
      ∃ new, pollTimeouts (npi_event_entry_loop K env dbg n L s).2.trace =
          pollTimeouts s.trace ++ new ∧ ∀ t ∈ new, 3 ≤ t ∧ t ≤ 100 := by
  induction n with
  | zero =>
    intro L s h
    exact ⟨h, List.prefix_refl _, [], by simp [npi_event_entry_loop], by simp⟩
  | succ n ih =>
    intro L s h
    unfold npi_event_entry_loop
    split
    · exact ⟨h, List.prefix_refl _, [], by simp, by simp⟩
    · dsimp only
      have hp := npi_event_entry_pass_polls K env dbg L s
      have hr := npi_event_entry_pass_range K env dbg L s h
      obtain ⟨i1, i2, new, i3, i4⟩ := ih (npi_event_entry_pass K env dbg L s).1
        (npi_event_entry_pass K env dbg L s).2 hr
      refine ⟨i1, hp.1.trans i2, L.timeout :: new, ?_, ?_⟩
      · rw [i3, hp.2]; simp
      · intro t ht
        rcases List.mem_cons.1 ht with rfl | ht
        · exact h
        · exact i4 t ht

theorem pollTimeouts_eventsSince (s t : State) (new : List Int) (hp : s.trace <+: t.trace)
    (h : pollTimeouts t.trace = pollTimeouts s.trace ++ new) :
    pollTimeouts (eventsSince s t) = new := by
  obtain ⟨evs, he⟩ := hp
  rw [eventsSince_ext s t evs he.symm]
  rw [← he, pollTimeouts_append] at h
  exact List.append_cancel_left h

/-! ## `PollLockVar` at the calls of `NPI_SPI_SendSynchData` -/

theorem LockedCalls_of_eq (s t : State) (h1 : t.trace = s.trace) (h2 : t.lockLog = s.lockLog) :
    LockedCalls s t :=
  ⟨[], [], by simp [h1], by simp [h2], rfl, by simp⟩

theorem LockedCalls_trans {s t u : State} (h1 : LockedCalls s t) (h2 : LockedCalls t u) :
    LockedCalls s u := by
  obtain ⟨e1, l1, a1, b1, c1, d1⟩ := h1
  obtain ⟨e2, l2, a2, b2, c2, d2⟩ := h2
  refine ⟨e1 ++ e2, l1 ++ l2, by rw [a2, a1, List.append_assoc],
    by rw [b2, b1, List.append_assoc], by simp [c1, c2], ?_⟩
  intro p hp
  rw [List.map_append, List.zip_append (by simp [c1])] at hp
  rcases List.mem_append.1 hp with hp | hp
  · exact d1 p hp
  · exact d2 p hp

theorem LockedCalls_record (s : State) (c : Call) (r : Resp)
    (h : c.isHal = true → s.PollLockVar = 1) : LockedCalls s (record s c r) :=
  ⟨[⟨c, r⟩], [s.PollLockVar], rfl, rfl, rfl, by
    intro p hp
    simp only [List.map_cons, List.map_nil, List.zip_cons_cons, List.zip_nil_right,
      List.mem_singleton] at hp
    subst hp
    exact h⟩

theorem LockedCalls_spec {s t : State} (h : LockedCalls s t) :
    ∀ p ∈ callsWithLockVar s t, p.1.isHal = true → p.2 = 1 := by
  obtain ⟨evs, log, a, b, _, d⟩ := h
  unfold callsWithLockVar
  rw [eventsSince_ext s t evs a, b, List.drop_left]
  exact d

theorem LockedInv_refl (s : State) (h : s.PollLockVar = 1) : LockedInv s s :=
  ⟨LockedCalls_of_eq s s rfl rfl, h⟩

theorem LockedInv_trans {s t u : State} (h1 : LockedInv s t) (h2 : LockedInv t u) :
    LockedInv s u :=
  ⟨LockedCalls_trans h1.1 h2.1, h2.2⟩

theorem LockedInv_record {s t : State} (c : Call) (r : Resp) (h : LockedInv s t) :
    LockedInv s (record t c r) :=
  ⟨LockedCalls_trans h.1 (LockedCalls_record t c r (fun _ => h.2)), h.2⟩

theorem sendSynch_srdySet_locked (K : Consts) (env : Env) (pMsg : Buf) (s0 s : State)
    (h : LockedInv s0 s) : LockedInv s0 (NPI_SPI_SendSynchData_srdySet K env pMsg s).st := by
  unfold NPI_SPI_SendSynchData_srdySet
  simp only [halCall_fst, halCall_snd, perform_snd]
  split
  · dsimp only
    split
    · exact LockedInv_record _ _ (LockedInv_record _ _ h)
    · exact LockedInv_record _ _ h
  · split
    · exact LockedInv_record _ _ (LockedInv_record _ _ h)
    · exact LockedInv_record _ _ h

theorem sendSynch_frame_locked (K : Consts) (env : Env) (s0 : State) (x : Xfer)
    (h : LockedInv s0 x.st) : LockedInv s0 (NPI_SPI_SendSynchData_frame K env x).st := by
  unfold NPI_SPI_SendSynchData_frame
  simp only [HalSpiRead_fst, HalSpiRead_st, HalSpiRead_buf]
  split
  · split
    · exact LockedInv_record _ _ h
    · split
      · split
        · exact LockedInv_record _ _ h
        · exact LockedInv_record _ _ (LockedInv_record _ _ h)
      · exact LockedInv_record _ _ h
  · exact h

theorem sendSynch_xfer_locked (K : Consts) (env : Env) (pMsg : Buf) (s0 s : State)
    (h : LockedInv s0 s) : LockedInv s0 (NPI_SPI_SendSynchData_xfer K env pMsg s).st := by
  unfold NPI_SPI_SendSynchData_xfer
  simp only [halCall_fst, halCall_snd, HalSpiWrite_fst, HalSpiWrite_snd]
  split
  · exact LockedInv_record _ _ h
  · split
    · exact LockedInv_record _ _ (LockedInv_record _ _ h)
    · exact sendSynch_frame_locked K env s0 _
        (sendSynch_srdySet_locked K env _ s0 _ (LockedInv_record _ _ (LockedInv_record _ _ h)))

theorem endOfTransaction_locked (K : Consts) (env : Env) (s0 : State) (x : Xfer)
    (h : LockedInv s0 x.st) : LockedInv s0 (endOfTransaction K env x).2.2 := by
  unfold endOfTransaction
  split
  · exact LockedInv_record _ _ h
  · exact h

theorem sendSynch_body_locked (K : Consts) (env : Env) (ret : Int) (pMsg : Buf) (s : State)
    (h0 : s.PollLockVar = 0) :
    LockedCalls s (NPI_SPI_SendSynchData_body K env ret pMsg s).2.2 := by
  unfold NPI_SPI_SendSynchData_body
  dsimp only
  by_cases hr : ret = K.NPI_LNX_SUCCESS
  · rw [if_pos hr]
    have hp : pollLockVarSet K ret s = (ret, { s with PollLockVar := 1 }) := by
      unfold pollLockVarSet; simp [h0]
    rw [hp]
    dsimp only
    rw [if_pos hr]
    have hi : LockedInv s { s with PollLockVar := 1 } :=
      ⟨LockedCalls_of_eq _ _ rfl rfl, rfl⟩
    simp only [halCall_fst, halCall_snd]
    split
    · exact (endOfTransaction_locked K env s _
        (sendSynch_xfer_locked K env _ s _ (LockedInv_record _ _ hi))).1
    · exact (LockedInv_record _ _ hi).1
  · rw [if_neg hr]
    dsimp only
    rw [if_neg hr]
    exact LockedCalls_of_eq _ _ rfl rfl
theorem sendSynch_srdySet_held (K : Consts) (env : Env) (pMsg : Buf) (s : State) :
    (NPI_SPI_SendSynchData_srdySet K env pMsg s).st.held = s.held := by
  unfold NPI_SPI_SendSynchData_srdySet
  simp only [halCall_fst, halCall_snd, perform_snd]
  split
  · dsimp only; split <;> simp
  · split <;> simp

theorem sendSynch_frame_held (K : Consts) (env : Env) (x : Xfer) :
    (NPI_SPI_SendSynchData_frame K env x).st.held = x.st.held := by
  unfold NPI_SPI_SendSynchData_frame
  simp only [HalSpiRead_fst, HalSpiRead_st, HalSpiRead_buf]
  split
  · split
    · simp
    · split
      · split <;> simp
      · simp
  · rfl

theorem sendSynch_xfer_held (K : Consts) (env : Env) (pMsg : Buf) (s : State) :
    (NPI_SPI_SendSynchData_xfer K env pMsg s).st.held = s.held := by
  unfold NPI_SPI_SendSynchData_xfer
  simp only [halCall_fst, halCall_snd, HalSpiWrite_fst, HalSpiWrite_snd]
  split
  · simp
  · split
    · simp
    · rw [sendSynch_frame_held, sendSynch_srdySet_held]; simp

theorem endOfTransaction_held (K : Consts) (env : Env) (x : Xfer) :
    (endOfTransaction K env x).2.2.held = x.st.held := by
  unfold endOfTransaction
  split <;> simp

theorem pollLockVarSet_held (K : Consts) (r : Int) (s : State) :
    (pollLockVarSet K r s).2.held = s.held := by
  unfold pollLockVarSet PollLockVarError; split <;> rfl

theorem sendSynch_body_held (K : Consts) (env : Env) (ret : Int) (pMsg : Buf) (s : State) :
    (NPI_SPI_SendSynchData_body K env ret pMsg s).2.2.held = s.held := by
  have hq : (if ret = K.NPI_LNX_SUCCESS then pollLockVarSet K ret s else (ret, s)).2.held =
      s.held := by
    split
    · exact pollLockVarSet_held K ret s
    · rfl
  unfold NPI_SPI_SendSynchData_body
  simp only [halCall_fst, halCall_snd]
  generalize (if ret = K.NPI_LNX_SUCCESS then pollLockVarSet K ret s else (ret, s)) = p at *
  split
  · split
    · rw [endOfTransaction_held, sendSynch_xfer_held]; simpa using hq
    · simpa using hq
  · exact hq

theorem mutex_lock_held (env : Env) (m k : Mutex) (s : State) :
    (mutex_lock env m s).2.held k =
      if (env s.trace (.pthread_mutex_lock m)).ret = 0 ∧ k = m then true else s.held k := by
  unfold mutex_lock; simp only [perform_fst, perform_snd]
  by_cases h : (env s.trace (.pthread_mutex_lock m)).ret = 0
  · rw [if_pos h]; simp only [setHeld, record_held, h, true_and]
  · rw [if_neg h]; simp [h]

theorem mutex_unlock_held (env : Env) (m k : Mutex) (s : State) :
    (mutex_unlock env m s).2.held k =
      if (env s.trace (.pthread_mutex_unlock m)).ret = 0 ∧ k = m then false else s.held k := by
  unfold mutex_unlock; simp only [perform_fst, perform_snd]
  by_cases h : (env s.trace (.pthread_mutex_unlock m)).ret = 0
  · rw [if_pos h]; simp only [setHeld, record_held, h, true_and]
  · rw [if_neg h]; simp [h]

theorem mutex_lock_locked (env : Env) (m : Mutex) (s : State) :
    LockedCalls s (mutex_lock env m s).2 := by
  have h : LockedCalls s (record s (.pthread_mutex_lock m) (env s.trace (.pthread_mutex_lock m))) :=
    LockedCalls_record s _ _ (fun h => by simp [Call.isHal] at h)
  unfold mutex_lock; simp only [perform_fst, perform_snd]
  split
  · exact LockedCalls_trans h (LockedCalls_of_eq _ _ rfl rfl)
  · exact h

theorem mutex_unlock_locked (env : Env) (m : Mutex) (s : State) :
    LockedCalls s (mutex_unlock env m s).2 := by
  have h : LockedCalls s (record s (.pthread_mutex_unlock m)
      (env s.trace (.pthread_mutex_unlock m))) :=
    LockedCalls_record s _ _ (fun h => by simp [Call.isHal] at h)
  unfold mutex_unlock; simp only [perform_fst, perform_snd]
  split
  · exact LockedCalls_trans h (LockedCalls_of_eq _ _ rfl rfl)
  · exact h

theorem sendSynch_lock_locked (K : Consts) (env : Env) (s : State) :
    LockedCalls s (NPI_SPI_SendSynchData_lock K env s).st ∧
    (NPI_SPI_SendSynchData_lock K env s).st.PollLockVar = s.PollLockVar ∧
    ((NPI_SPI_SendSynchData_lock K env s).st.held .npiPollLock =
      if (NPI_SPI_SendSynchData_lock K env s).lockRetPoll = 0 then true
      else s.held .npiPollLock) := by
  unfold NPI_SPI_SendSynchData_lock
  dsimp only
  split
  · rename_i h
    refine ⟨mutex_lock_locked _ _ _, by simp, ?_⟩
    rw [mutex_lock_fst] at h
    simp [mutex_lock_held, h]
  · rename_i h
    have h0 : (env s.trace (.pthread_mutex_lock .npiPollLock)).ret = 0 := by
      rw [mutex_lock_fst] at h; exact not_not.1 h
    split
    · refine ⟨LockedCalls_trans (mutex_lock_locked _ _ _) (mutex_lock_locked _ _ _),
        by simp, ?_⟩
      simp [mutex_lock_held, h0]
    · refine ⟨mutex_lock_locked _ _ _, by simp, ?_⟩
      simp [mutex_lock_held, h0]

theorem sendSynch_locked (K : Consts) (env : Env) (pMsg : Buf) (s : State)
    (hfree : s.held .npiPollLock = false) (h0 : s.PollLockVar = 0)
    (hu : ∀ tr, (env tr (.pthread_mutex_unlock .npiPollLock)).ret = 0) :
    LockedCalls s (NPI_SPI_SendSynchData K env pMsg s).2.2 ∧
    (NPI_SPI_SendSynchData K env pMsg s).2.2.PollLockVar = 0 ∧
    (NPI_SPI_SendSynchData K env pMsg s).2.2.held .npiPollLock = false := by
  obtain ⟨l1, l2, l3⟩ := sendSynch_lock_locked K env s
  have b1 := sendSynch_body_locked K env (NPI_SPI_SendSynchData_lock K env s).ret pMsg
    (NPI_SPI_SendSynchData_lock K env s).st (l2.trans h0)
  have b2 := sendSynch_body_held K env (NPI_SPI_SendSynchData_lock K env s).ret pMsg
    (NPI_SPI_SendSynchData_lock K env s).st
  unfold NPI_SPI_SendSynchData
  dsimp only
  generalize NPI_SPI_SendSynchData_lock K env s = lk at *
  generalize NPI_SPI_SendSynchData_body K env lk.ret pMsg lk.st = t at *
  have q1 : LockedCalls t.2.2 (pollLockVarClear K t.1 t.2.2).2 :=
    LockedCalls_of_eq _ _ (by simp) (by unfold pollLockVarClear PollLockVarError; split <;> rfl)
  have q2 : (pollLockVarClear K t.1 t.2.2).2.held = t.2.2.held := by
    unfold pollLockVarClear PollLockVarError; split <;> rfl
  have q3 : (pollLockVarClear K t.1 t.2.2).2.PollLockVar = 0 := by simp
  generalize (pollLockVarClear K t.1 t.2.2).2 = q at *
  have u1 : LockedCalls q (if lk.lockRetPoll = 0 then (mutex_unlock env .npiPollLock q).2 else q) := by
    split
    · exact mutex_unlock_locked _ _ _
    · exact LockedCalls_of_eq _ _ rfl rfl
  have u2 : (if lk.lockRetPoll = 0 then (mutex_unlock env .npiPollLock q).2 else q).PollLockVar = 0 := by
    split
    · simpa using q3
    · exact q3
  have u3 : (if lk.lockRetPoll = 0 then (mutex_unlock env .npiPollLock q).2 else q).held
      .npiPollLock = false := by
    by_cases hl : lk.lockRetPoll = 0
    · rw [if_pos hl, mutex_unlock_held]
      simp [hu]
    · rw [if_neg hl, q2, b2, l3, if_neg hl]; exact hfree
  generalize (if lk.lockRetPoll = 0 then (mutex_unlock env .npiPollLock q).2 else q) = u at *
  split
  · refine ⟨LockedCalls_trans (LockedCalls_trans (LockedCalls_trans (LockedCalls_trans l1 b1) q1) u1)
      (mutex_unlock_locked _ _ _), by simpa using u2, ?_⟩
    rw [mutex_unlock_held]
    simpa using u3
  · exact ⟨LockedCalls_trans (LockedCalls_trans (LockedCalls_trans l1 b1) q1) u1, u2, u3⟩

/-! ## Lemmas on `SerialConfigParser` -/

theorem fgetsLines_cons (n room : Nat) (c : Char) (cs : List Char) :
    fgetsLines n room (c :: cs) =
      if c = '\n' ∨ room ≤ 1 then [c] :: fgetsLines n (n - 1) cs
      else
        match fgetsLines n (room - 1) cs with
        | [] => [[c]]
        | l :: ls => (c :: l) :: ls := by
  rw [fgetsLines]

theorem fgetsLines_ne_nil (n room : Nat) (c : Char) (cs : List Char) :
    fgetsLines n room (c :: cs) ≠ [] := by
  rw [fgetsLines_cons]
  split
  · simp
  · split <;> simp

theorem fgetsLines_append_newline (n : Nat) (pre rest : List Char) :
    ∀ room, fgetsLines n room (pre ++ '\n' :: rest) =
      fgetsLines n room (pre ++ ['\n']) ++ fgetsLines n (n - 1) rest := by
  induction pre with
  | nil => intro room; simp [fgetsLines]
  | cons c p ih =>
    intro room
    simp only [List.cons_append]
    rw [fgetsLines_cons, fgetsLines_cons]
    by_cases h : c = '\n' ∨ room ≤ 1
    · rw [if_pos h, if_pos h, ih]; simp
    · rw [if_neg h, if_neg h, ih (room - 1)]
      cases hq : fgetsLines n (room - 1) (p ++ ['\n']) with
      | nil =>
        exfalso
        cases p with
        | nil => exact fgetsLines_ne_nil _ _ _ _ hq
        | cons d ds => exact fgetsLines_ne_nil _ _ _ _ hq
      | cons l ls => simp

theorem fgetsLines_line (n : Nat) (line : List Char) (hn : '\n' ∉ line) :
    ∀ room, line.length < room → fgetsLines n room (line ++ ['\n']) = [line ++ ['\n']] := by
  induction line with
  | nil => intro room _; simp [fgetsLines]
  | cons c p ih =>
    intro room hr
    simp only [List.cons_append]
    rw [fgetsLines_cons]
    have hc : c ≠ '\n' := fun h => hn (by simp [h])
    have hp : '\n' ∉ p := fun h => hn (by simp [h])
    simp only [List.length_cons] at hr
    rw [if_neg (by simp only [not_or]; exact ⟨hc, by omega⟩), ih hp (room - 1) (by omega)]

theorem fgetsLines_last (n : Nat) (line : List Char) (hn : '\n' ∉ line) :
    ∀ room, line ≠ [] → line.length ≤ room → fgetsLines n room line = [line] := by
  induction line with
  | nil => intro room h; exact absurd rfl h
  | cons c p ih =>
    intro room _ hr
    rw [fgetsLines_cons]
    have hc : c ≠ '\n' := fun h => hn (by simp [h])
    have hp : '\n' ∉ p := fun h => hn (by simp [h])
    simp only [List.length_cons] at hr
    cases p with
    | nil =>
      by_cases h : c = '\n' ∨ room ≤ 1
      · rw [if_pos h]; simp [fgetsLines]
      · rw [if_neg h]; simp [fgetsLines]
    | cons d ds =>
      simp only [List.length_cons] at hr
      rw [if_neg (by simp only [not_or]; exact ⟨hc, by omega⟩),
        ih hp (room - 1) (by simp) (by simp only [List.length_cons]; omega)]

theorem fgetsLines_length (n m : Nat) (hm : 1 ≤ m) (file : List Char) :
    ∀ room, 1 ≤ room → room ≤ m → n - 1 = m →
      (∀ b ∈ fgetsLines n room file, b.length ≤ m) ∧
      (∀ l ls, fgetsLines n room file = l :: ls → l.length ≤ room) := by
  induction file with
  | nil => intro room _ _ _; simp [fgetsLines]
  | cons c cs ih =>
    intro room h1 h2 h3
    rw [fgetsLines_cons]
    by_cases h : c = '\n' ∨ room ≤ 1
    · rw [if_pos h]
      refine ⟨?_, ?_⟩
      · intro b hb
        rcases List.mem_cons.1 hb with rfl | hb
        · simpa using hm
        · exact (ih (n - 1) (by omega) (by omega) h3).1 b hb
      · intro l ls hl
        simp only [List.cons.injEq] at hl
        rw [← hl.1]; simpa using h1
    · rw [if_neg h]
      simp only [not_or, not_le] at h
      obtain ⟨i1, i2⟩ := ih (room - 1) (by omega) (by omega) h3
      cases hq : fgetsLines n (room - 1) cs with
      | nil =>
        refine ⟨?_, ?_⟩
        · intro b hb; simp only [List.mem_singleton] at hb; subst hb; simpa using hm
        · intro l ls hl
          simp only [List.cons.injEq] at hl
          rw [← hl.1]; simpa using h1
      | cons l ls =>
        have hl := i2 l ls hq
        rw [hq] at i1
        refine ⟨?_, ?_⟩
        · intro b hb
          rcases List.mem_cons.1 hb with rfl | hb
          · simp only [List.length_cons]; omega
          · exact i1 b (List.mem_cons_of_mem _ hb)
        · intro l2 ls2 h2
          simp only [List.cons.injEq] at h2
          rw [← h2.1]; simp only [List.length_cons]; omega

theorem fgets_never_128 (file buf : List Char) (h : buf ∈ fgetsLines 128 127 file) :
    (cstr buf).length ≠ 128 := by
  have h1 := (fgetsLines_length 128 127 (by decide) file 127 (by decide) (by decide) rfl).1 buf h
  have h2 : (cstr buf).length ≤ buf.length := by
    unfold cstr; exact (List.takeWhile_sublist _).length_le
  omega

theorem SerialConfigParser_loop_append (section_ key : List Char) (a b : List (List Char)) :
    ∀ sf inv off, SerialConfigParser_loop section_ key sf inv off (a ++ b) =
      match SerialConfigParser_loop section_ key sf inv off a with
      | .next sf2 inv2 off2 => SerialConfigParser_loop section_ key sf2 inv2 off2 b
      | r => r := by
  induction a with
  | nil => intro sf inv off; simp [SerialConfigParser_loop]
  | cons x xs ih =>
    intro sf inv off
    simp only [List.cons_append, SerialConfigParser_loop]
    cases SerialConfigParser_line section_ key sf inv off x with
    | next sf2 inv2 off2 => simp only; exact ih sf2 inv2 off2
    | found v => rfl
    | fault => rfl

theorem cstr_of_not_mem (l : List Char) (h : NUL ∉ l) : cstr l = l := by
  unfold cstr
  rw [List.takeWhile_eq_self_iff]
  intro x hx
  simp only [ne_eq, decide_not, Bool.not_eq_true', decide_eq_false_iff_not]
  intro hc; exact h (hc ▸ hx)

theorem strstr_prefix (k r : List Char) : strstr (k ++ r) k = some (k ++ r) := by
  cases h : k ++ r with
  | nil =>
    have hk : k = [] := (List.append_eq_nil.1 h).1
    simp [strstr, hk]
  | cons c cs =>
    unfold strstr
    rw [if_pos (by rw [List.isPrefixOf_iff_prefix, ← h]; exact List.prefix_append _ _)]

theorem strtok_key (k rest : List Char) (hk : k ≠ []) (he : '=' ∉ k) :
    strtok (k ++ '=' :: rest) ['='] = (some k, rest) := by
  have h1 : (k ++ '=' :: rest).dropWhile (fun c => decide (c ∈ ['='])) = k ++ '=' :: rest := by
    cases k with
    | nil => exact absurd rfl hk
    | cons c cs =>
      rw [List.cons_append, List.dropWhile_cons_of_neg]
      simp only [List.mem_singleton, decide_eq_true_eq]
      intro hc; exact he (by simp [hc])
  have hp : ∀ a ∈ k, (fun c => decide (c ∉ ['='])) a = true := by
    intro a ha
    simp only [List.mem_singleton, decide_not, Bool.not_eq_true', decide_eq_false_iff_not]
    intro hc; exact he (hc ▸ ha)
  unfold strtok
  simp only [h1]
  rw [if_neg (by simp), List.takeWhile_append_of_pos hp, List.dropWhile_append_of_pos hp]
  simp

theorem strtok_value (v : List Char) (hv : v ≠ []) (h1 : '=' ∉ v) (h2 : ';' ∉ v)
    (h3 : DQUOTE ∉ v) : strtok v ['=', ';', DQUOTE] = (some v, []) := by
  have hp : ∀ a ∈ v, a ∉ ['=', ';', DQUOTE] := by
    intro a ha hm
    simp only [List.mem_cons, List.mem_singleton, List.not_mem_nil, or_false] at hm
    rcases hm with rfl | rfl | rfl
    · exact h1 ha
    · exact h2 ha
    · exact h3 ha
  have hd : v.dropWhile (fun c => decide (c ∈ ['=', ';', DQUOTE])) = v := by
    cases v with
    | nil => exact absurd rfl hv
    | cons c cs =>
      rw [List.dropWhile_cons_of_neg]
      simp only [decide_eq_true_eq]
      exact hp c (by simp)
  unfold strtok
  simp only [hd]
  rw [if_neg hv]
  have ht : v.takeWhile (fun c => decide (c ∉ ['=', ';', DQUOTE])) = v := by
    rw [List.takeWhile_eq_self_iff]
    intro x hx; simpa using hp x hx
  have hr : v.dropWhile (fun c => decide (c ∉ ['=', ';', DQUOTE])) = [] := by
    rw [List.dropWhile_eq_nil_iff]
    intro x hx; simpa using hp x hx
  rw [ht, hr]; rfl

theorem strtok_quoted (v : List Char) (hv : v ≠ []) (h1 : '=' ∉ v) (h2 : ';' ∉ v)
    (h3 : DQUOTE ∉ v) : (strtok (DQUOTE :: (v ++ [DQUOTE])) ['=', ';', DQUOTE]).1 = some v := by
  have hp : ∀ a ∈ v, a ∉ ['=', ';', DQUOTE] := by
    intro a ha hm
    simp only [List.mem_cons, List.mem_singleton, List.not_mem_nil, or_false] at hm
    rcases hm with rfl | rfl | rfl
    · exact h1 ha
    · exact h2 ha
    · exact h3 ha
  have hd : (DQUOTE :: (v ++ [DQUOTE])).dropWhile (fun c => decide (c ∈ ['=', ';', DQUOTE])) =
      v ++ [DQUOTE] := by
    rw [List.dropWhile_cons_of_pos (by simp)]
    cases v with
    | nil => exact absurd rfl hv
    | cons c cs =>
      rw [List.cons_append, List.dropWhile_cons_of_neg]
      simp only [decide_eq_true_eq]
      exact hp c (by simp)
  unfold strtok
  simp only [hd]
  rw [if_neg (by simp)]
  have hq : ∀ a ∈ v, (fun c => decide (c ∉ ['=', ';', DQUOTE])) a = true := by
    intro x hx; simpa using hp x hx
  rw [List.takeWhile_append_of_pos hq]
  simp

theorem SerialConfigParser_line_key (section_ k rest : List Char) (last : Char) (off : Nat)
    (hk : isKey k) (hr : NUL ∉ rest) (hl : last ≠ NUL)
    (hfit : off + (k ++ '=' :: rest).length + 2 ≤ 128) :
    SerialConfigParser_line section_ k true false off (k ++ '=' :: rest ++ [last]) =
      match (if rest.take 2 = [DQUOTE, DQUOTE] then some []
        else (strtok rest ['=', ';', DQUOTE]).1) with
      | some value => .found value
      | none => .fault := by
  obtain ⟨k1, k2, k3, _, k5, k6⟩ := hk
  have hnul : NUL ∉ k ++ '=' :: rest ++ [last] := by
    simp only [List.append_assoc, List.cons_append, List.mem_append, List.mem_cons,
      List.mem_singleton, List.not_mem_nil, or_false, not_or]
    exact ⟨k3, by decide, hr, fun h => hl h.symm⟩
  have hd : (k ++ '=' :: rest ++ [last]).dropLast = k ++ '=' :: rest := by
    rw [List.dropLast_concat]
  have hh : (k ++ '=' :: rest).head? = k.head? := List.head?_append_of_ne_nil _ k1
  unfold SerialConfigParser_line
  rw [cstr_of_not_mem _ hnul]
  rw [if_neg (by simp only [List.length_append, List.length_cons, List.length_nil] at hfit ⊢; omega)]
  rw [if_neg (by simp only [List.length_append, List.length_cons, List.length_nil] at hfit ⊢; omega)]
  rw [if_pos rfl]
  rw [if_neg (by simp only [List.length_append, List.length_cons, List.length_nil]; omega)]
  simp only [hd, hh]
  rw [if_neg k5, if_pos trivial, if_pos ⟨k6, by simp⟩, strstr_prefix]
  simp only [SerialConfigParser_value, strtok_key k rest k1 k2]

theorem SerialConfigParser_search_line (section_ k pre rest post : List Char) (off : Nat)
    (hk : isKey k) (hr : NUL ∉ rest) (hn : '\n' ∉ rest)
    (hfit : off + (k ++ '=' :: rest).length + 2 ≤ 128)
    (hpre : SerialConfigParser_search (pre ++ ['\n']) section_ k = .next true false off) :
    SerialConfigParser_search (pre ++ '\n' :: (k ++ '=' :: rest ++ '\n' :: post)) section_ k =
      match (if rest.take 2 = [DQUOTE, DQUOTE] then some []
        else (strtok rest ['=', ';', DQUOTE]).1) with
      | some value => .found value
      | none => .fault := by
  have hline : '\n' ∉ k ++ '=' :: rest := by
    simp only [List.mem_append, List.mem_cons, not_or]
    exact ⟨hk.2.2.2.1, by decide, hn⟩
  unfold SerialConfigParser_search at hpre ⊢
  rw [fgetsLines_append_newline, SerialConfigParser_loop_append, hpre]
  simp only
  rw [fgetsLines_append_newline, fgetsLines_line 128 _ hline 127 (by omega)]
  simp only [List.singleton_append, SerialConfigParser_loop]
  rw [SerialConfigParser_line_key section_ k rest '\n' off hk hr (by decide) hfit]
  generalize (if rest.take 2 = [DQUOTE, DQUOTE] then some []
    else (strtok rest ['=', ';', DQUOTE]).1) = o
  cases o <;> rfl

theorem SerialConfigParser_search_last (section_ k pre rest : List Char) (last : Char)
    (off : Nat)
    (hk : isKey k) (hr : NUL ∉ rest) (hn : '\n' ∉ rest) (hl : last ≠ NUL) (hl2 : last ≠ '\n')
    (hfit : off + (k ++ '=' :: rest).length + 2 ≤ 128)
    (hpre : SerialConfigParser_search (pre ++ ['\n']) section_ k = .next true false off) :
    SerialConfigParser_search (pre ++ '\n' :: (k ++ '=' :: rest ++ [last])) section_ k =
      match (if rest.take 2 = [DQUOTE, DQUOTE] then some []
        else (strtok rest ['=', ';', DQUOTE]).1) with
      | some value => .found value
      | none => .fault := by
  have hline : '\n' ∉ k ++ '=' :: rest ++ [last] := by
    simp only [List.mem_append, List.mem_cons, List.mem_singleton, List.not_mem_nil, or_false,
      not_or]
    exact ⟨⟨hk.2.2.2.1, by decide, hn⟩, fun h => hl2 h.symm⟩
  unfold SerialConfigParser_search at hpre ⊢
  rw [fgetsLines_append_newline, SerialConfigParser_loop_append, hpre]
  simp only
  rw [fgetsLines_last 128 _ hline 127 (by simp)
    (by simp only [List.length_append, List.length_cons, List.length_nil] at hfit ⊢; omega)]
  simp only [SerialConfigParser_loop]
  rw [SerialConfigParser_line_key section_ k rest last off hk hr hl hfit]
  generalize (if rest.take 2 = [DQUOTE, DQUOTE] then some []
    else (strtok rest ['=', ';', DQUOTE]).1) = o
  cases o <;> rfl

/-! ## Lemmas on `getSerialConfiguration` -/

theorem SerialConfigParser_cases (K : Consts) (C : CfgConsts) (fd : Option (List Char))
    (section_ key str : List Char) (e : Int) :
    (SerialConfigParser K C fd section_ key str e = none ∧ ¬ cfgNoFault fd section_ key) ∨
    (SerialConfigParser K C fd section_ key str e =
        some (cfgRes K fd section_ key, (cfgValue fd section_ key).getD str,
          if fd.isNone then C.NPI_LNX_ERROR_IPC_SERIAL_CFG_FILE_DOES_NOT_EXIST else e) ∧
      cfgNoFault fd section_ key) := by
  cases fd with
  | none => right; exact ⟨rfl, fun file h => by simp at h⟩
  | some file =>
    rcases hs : SerialConfigParser_search file section_ key with _ | v | _
    · right
      refine ⟨?_, fun f hf => ?_⟩
      · simp only [SerialConfigParser, cfgRes, cfgValue, hs]; rfl
      · simp only [Option.some.injEq] at hf; subst hf; rw [hs]; simp
    · right
      refine ⟨?_, fun f hf => ?_⟩
      · simp only [SerialConfigParser, cfgRes, cfgValue, hs]; rfl
      · simp only [Option.some.injEq] at hf; subst hf; rw [hs]; simp
    · left
      refine ⟨?_, fun hn => hn file rfl hs⟩
      simp only [SerialConfigParser, hs]

theorem cfgStep_some (K : Consts) (C : CfgConsts) (fd : Option (List Char))
    (section_ key : List Char) (upd : Int → CfgRun → CfgRun) (r r2 : CfgRun)
    (h : cfgStep K C fd section_ key upd r = some r2) :
    r2 = cfgApply K C fd section_ key upd r := by
  unfold cfgStep at h
  rcases SerialConfigParser_cases K C fd section_ key r.strBuf r.npi_ipc_errno with
    ⟨hn, _⟩ | ⟨hs, _⟩
  · rw [hn] at h; simp at h
  · rw [hs] at h; simp only [Option.some.injEq] at h; rw [← h]; rfl

theorem cfgStep_eq (K : Consts) (C : CfgConsts) (fd : Option (List Char))
    (section_ key : List Char) (upd : Int → CfgRun → CfgRun) (r : CfgRun)
    (h : cfgNoFault fd section_ key) :
    cfgStep K C fd section_ key upd r = some (cfgApply K C fd section_ key upd r) := by
  unfold cfgStep
  rcases SerialConfigParser_cases K C fd section_ key r.strBuf r.npi_ipc_errno with
    ⟨_, hn⟩ | ⟨hs, _⟩
  · exact absurd h hn
  · rw [hs]; rfl

theorem cfgRes_of_some (K : Consts) (fd : Option (List Char)) (section_ key v : List Char)
    (h : cfgValue fd section_ key = some v) : cfgRes K fd section_ key = K.NPI_LNX_SUCCESS := by
  unfold cfgRes; rw [h]; rfl

theorem cfgRes_of_none (K : Consts) (fd : Option (List Char)) (section_ key : List Char)
    (h : cfgValue fd section_ key = none) : cfgRes K fd section_ key = K.NPI_LNX_FAILURE := by
  unfold cfgRes; rw [h]; rfl

theorem set_number_cfgNumber (K : Consts) (C : CfgConsts) (fd : Option (List Char))
    (section_ key : List Char) (base : Nat) (dflt : Int)
    (store : Int → npiSerialCfg_t → npiSerialCfg_t) (r : CfgRun)
    (hK : K.NPI_LNX_SUCCESS ≠ K.NPI_LNX_FAILURE) :
    (set_number K C base dflt store (cfgRes K fd section_ key)
        (cfgIn C fd section_ key r)).serialCfg =
      store (cfgNumber C fd section_ key base dflt) r.serialCfg := by
  unfold set_number cfgRes cfgIn cfgNumber
  cases cfgValue fd section_ key with
  | none => simp [hK]
  | some v => simp

theorem bind_some {α β : Type} (x : Option α) (f : α → Option β) (b : β)
    (h : (x >>= f) = some b) : ∃ a, x = some a ∧ f a = some b := by
  cases x with
  | none => simp at h
  | some a => exact ⟨a, rfl, h⟩

theorem some_bind_eq {α β : Type} (a : α) (f : α → Option β) : (some a >>= f) = f a := rfl

theorem getSerialConfiguration_device_some (K : Consts) (C : CfgConsts)
    (fd : Option (List Char)) (r r2 : CfgRun)
    (h : getSerialConfiguration_device K C fd r = some r2) : r2 = deviceResult K C fd r := by
  unfold getSerialConfiguration_device at h
  obtain ⟨r4, h, h5⟩ := bind_some _ _ _ h
  obtain ⟨r3, h, h4⟩ := bind_some _ _ _ h
  obtain ⟨r2b, h, h3⟩ := bind_some _ _ _ h
  obtain ⟨r1, h1, h2⟩ := bind_some _ _ _ h
  rw [cfgStep_some _ _ _ _ _ _ _ _ h5, cfgStep_some _ _ _ _ _ _ _ _ h4,
    cfgStep_some _ _ _ _ _ _ _ _ h3, cfgStep_some _ _ _ _ _ _ _ _ h2,
    cfgStep_some _ _ _ _ _ _ _ _ h1]
  rfl

theorem getSerialConfiguration_spi_some (K : Consts) (C : CfgConsts)
    (fd : Option (List Char)) (r r2 : CfgRun)
    (h : getSerialConfiguration_spi K C fd r = some r2) : r2 = spiResult K C fd r := by
  unfold getSerialConfiguration_spi at h
  obtain ⟨r7, h, h8⟩ := bind_some _ _ _ h
  obtain ⟨r6, h, h7⟩ := bind_some _ _ _ h
  obtain ⟨r5, h, h6⟩ := bind_some _ _ _ h
  obtain ⟨r4, h, h5⟩ := bind_some _ _ _ h
  obtain ⟨r3, h, h4⟩ := bind_some _ _ _ h
  obtain ⟨r2b, h, h3⟩ := bind_some _ _ _ h
  obtain ⟨r1, h1, h2⟩ := bind_some _ _ _ h
  rw [cfgStep_some _ _ _ _ _ _ _ _ h8, cfgStep_some _ _ _ _ _ _ _ _ h7,
    cfgStep_some _ _ _ _ _ _ _ _ h6, cfgStep_some _ _ _ _ _ _ _ _ h5,
    cfgStep_some _ _ _ _ _ _ _ _ h4, cfgStep_some _ _ _ _ _ _ _ _ h3,
    cfgStep_some _ _ _ _ _ _ _ _ h2, cfgStep_some _ _ _ _ _ _ _ _ h1]
  rfl

theorem getSerialConfiguration_uart_some (K : Consts) (C : CfgConsts)
    (fd : Option (List Char)) (r r2 : CfgRun)
    (h : getSerialConfiguration_uart K C fd r = some r2) : r2 = uartResult K C fd r := by
  unfold getSerialConfiguration_uart at h
  obtain ⟨r1, h1, h2⟩ := bind_some _ _ _ h
  rw [cfgStep_some _ _ _ _ _ _ _ _ h2, cfgStep_some _ _ _ _ _ _ _ _ h1]
  rfl

theorem getSerialConfiguration_serial_some (K : Consts) (C : CfgConsts)
    (fd : Option (List Char)) (r r2 : CfgRun)
    (h : getSerialConfiguration_serial K C fd r = some r2) : r2 = serialResult K C fd r := by
  unfold getSerialConfiguration_serial at h
  unfold serialResult
  split at h
  · rw [if_pos (by assumption)]
    split at h
    · rw [if_pos (by assumption)]; exact getSerialConfiguration_uart_some K C fd r r2 h
    · rw [if_neg (by assumption)]; exact (Option.some.inj h).symm
  · rw [if_neg (by assumption)]
    split at h
    · rw [if_pos (by assumption)]
      split at h
      · rw [if_pos (by assumption)]; exact getSerialConfiguration_spi_some K C fd r r2 h
      · rw [if_neg (by assumption)]; exact (Option.some.inj h).symm
    · rw [if_neg (by assumption)]
      split at h
      · rw [if_pos (by assumption)]; exact (Option.some.inj h).symm
      · rw [if_neg (by assumption)]; exact (Option.some.inj h).symm

theorem getSerialConfiguration_gpio_some (K : Consts) (C : CfgConsts)
    (fd : Option (List Char)) (gpioIdx : Nat) (r r2 : CfgRun)
    (h : getSerialConfiguration_gpio K C fd gpioIdx r = some r2) :
    r2 = gpioResult K C fd gpioIdx r := by
  unfold getSerialConfiguration_gpio at h
  obtain ⟨r4, h, h5⟩ := bind_some _ _ _ h
  obtain ⟨r3, h, h4⟩ := bind_some _ _ _ h
  obtain ⟨r2b, h, h3⟩ := bind_some _ _ _ h
  obtain ⟨r1, h1, h2⟩ := bind_some _ _ _ h
  have e1 := cfgStep_some _ _ _ _ _ _ _ _ h1
  have e2 := cfgStep_some _ _ _ _ _ _ _ _ h2
  have e4 := cfgStep_some _ _ _ _ _ _ _ _ h4
  unfold gpioResult
  dsimp only
  rw [← e1, ← e2]
  have e3 : r3 = if K.SRDY_INTERRUPT ∧ gpioIdx = 0 then
      cfgApply K C fd (sectionNamesArray gpioIdx IDX_GPIO) "edge".toList
        (set_gpio_string K C gpioIdx C.USE_BCM_NEXUS_GPIO
          (fun f g => { g with gpio := { g.gpio with edge := f g.gpio.edge } })) r2b
      else r2b := by
    dsimp only at h3
    split at h3
    · rw [if_pos (by assumption)]; exact cfgStep_some _ _ _ _ _ _ _ _ h3
    · rw [if_neg (by assumption)]; exact (Option.some.inj h3).symm
  rw [← e3, ← e4]
  dsimp only at h5
  split at h5
  · rw [if_pos (by assumption)]; exact (Option.some.inj h5).symm
  · rw [if_neg (by assumption)]
    obtain ⟨r6, h, h8⟩ := bind_some _ _ _ h5
    obtain ⟨r5, h6, h7⟩ := bind_some _ _ _ h
    rw [cfgStep_some _ _ _ _ _ _ _ _ h8, cfgStep_some _ _ _ _ _ _ _ _ h7,
      cfgStep_some _ _ _ _ _ _ _ _ h6]
    rfl

theorem getSerialConfiguration_gpios_some (K : Consts) (C : CfgConsts)
    (fd : Option (List Char)) (count : Nat) :
    ∀ (gpioIdx : Nat) (r r2 : CfgRun),
      getSerialConfiguration_gpios K C fd count gpioIdx r = some r2 →
      r2 = gpiosResult K C fd count gpioIdx r := by
  induction count with
  | zero => intro i r r2 h; exact (Option.some.inj h).symm
  | succ n ih =>
    intro i r r2 h
    unfold getSerialConfiguration_gpios at h
    obtain ⟨r1, h1, h2⟩ := bind_some _ _ _ h
    rw [ih _ _ _ h2, getSerialConfiguration_gpio_some _ _ _ _ _ _ h1]
    rfl

theorem getSerialConfiguration_gpioPart_some (K : Consts) (C : CfgConsts)
    (fd : Option (List Char)) (r r2 : CfgRun)
    (h : getSerialConfiguration_gpioPart K C fd r = some r2) :
    r2 = gpioPartResult K C fd r := by
  unfold getSerialConfiguration_gpioPart at h
  unfold gpioPartResult
  split at h
  · rw [if_pos (by assumption)]; exact getSerialConfiguration_gpios_some _ _ _ _ _ _ _ h
  · rw [if_neg (by assumption)]; exact (Option.some.inj h).symm

theorem getSerialConfiguration_some (K : Consts) (C : CfgConsts) (fd : Option (List Char))
    (serialCfg : npiSerialCfg_t) (e : Int) (r : CfgRun)
    (h : getSerialConfiguration K C fd serialCfg e = some r) :
    r = cfgResult K C fd serialCfg e := by
  unfold getSerialConfiguration at h
  obtain ⟨r3, h, h4⟩ := bind_some _ _ _ h
  obtain ⟨r2, h, h3⟩ := bind_some _ _ _ h
  obtain ⟨r1, h1, h2⟩ := bind_some _ _ _ h
  rw [cfgStep_some _ _ _ _ _ _ _ _ h4, getSerialConfiguration_serial_some _ _ _ _ _ h3,
    getSerialConfiguration_gpioPart_some _ _ _ _ _ h2,
    getSerialConfiguration_device_some _ _ _ _ _ h1]
  rfl
theorem cfgLookups_gpio (gpioIdx : Nat) (hi : gpioIdx < 5) (key : List Char)
    (hk : key = "value".toList ∨ key = "direction".toList ∨ key = "edge".toList ∨
      key = "active_high_low".toList) :
    (sectionNamesArray gpioIdx IDX_GPIO, key) ∈ cfgLookups := by
  unfold cfgLookups
  refine List.mem_append_right _ (List.mem_flatMap.2 ⟨gpioIdx, List.mem_range.2 hi, ?_⟩)
  rcases hk with rfl | rfl | rfl | rfl <;> simp

theorem cfgLookups_shifter (gpioIdx : Nat) (hi : gpioIdx < 5) (key : List Char)
    (hk : key = "value".toList ∨ key = "direction".toList ∨
      key = "active_high_low".toList) :
    (sectionNamesArray gpioIdx IDX_LEVEL_SHIFTER, key) ∈ cfgLookups := by
  unfold cfgLookups
  refine List.mem_append_right _ (List.mem_flatMap.2 ⟨gpioIdx, List.mem_range.2 hi, ?_⟩)
  rcases hk with rfl | rfl | rfl <;> simp

theorem cfgLookups_fixed (p : List Char × List Char)
    (hp : p ∈ [("STARTUP".toList, "delaySeconds".toList), ("DEVICE".toList, "deviceKey".toList),
      ("DEVICE".toList, "devPath".toList), ("LOG".toList, "log".toList),
      ("DEBUG".toList, "supported".toList), ("UART".toList, "speed".toList),
      ("UART".toList, "flowcontrol".toList), ("SPI".toList, "speed".toList),
      ("SPI".toList, "mode".toList), ("SPI".toList, "bitsPerWord".toList),
      ("SPI".toList, "forceRunOnReset".toList), ("MRDY_SRDY".toList, "useFullDuplexAPI".toList),
      ("MRDY_SRDY".toList, "earlyMrdyDeAssert".toList),
      ("MRDY_SRDY".toList, "detectResetFromSlowSrdyAssert".toList),
      ("MRDY_SRDY".toList, "srdyMrdyHandshakeSupport".toList),
      ("PORT".toList, "port".toList)]) : p ∈ cfgLookups :=
  List.mem_append_left _ hp

theorem getSerialConfiguration_device_eq (K : Consts) (C : CfgConsts)
    (fd : Option (List Char)) (r : CfgRun) (hf : ∀ p ∈ cfgLookups, cfgNoFault fd p.1 p.2) :
    getSerialConfiguration_device K C fd r = some (deviceResult K C fd r) := by
  unfold getSerialConfiguration_device deviceResult
  rw [cfgStep_eq _ _ _ _ _ _ _ (hf (_, _) (cfgLookups_fixed _ (by simp))), some_bind_eq,
    cfgStep_eq _ _ _ _ _ _ _ (hf (_, _) (cfgLookups_fixed _ (by simp))), some_bind_eq,
    cfgStep_eq _ _ _ _ _ _ _ (hf (_, _) (cfgLookups_fixed _ (by simp))), some_bind_eq,
    cfgStep_eq _ _ _ _ _ _ _ (hf (_, _) (cfgLookups_fixed _ (by simp))), some_bind_eq,
    cfgStep_eq _ _ _ _ _ _ _ (hf (_, _) (cfgLookups_fixed _ (by simp)))]

theorem getSerialConfiguration_uart_eq (K : Consts) (C : CfgConsts)
    (fd : Option (List Char)) (r : CfgRun) (hf : ∀ p ∈ cfgLookups, cfgNoFault fd p.1 p.2) :
    getSerialConfiguration_uart K C fd r = some (uartResult K C fd r) := by
  unfold getSerialConfiguration_uart uartResult
  rw [cfgStep_eq _ _ _ _ _ _ _ (hf (_, _) (cfgLookups_fixed _ (by simp))), some_bind_eq,
    cfgStep_eq _ _ _ _ _ _ _ (hf (_, _) (cfgLookups_fixed _ (by simp)))]

theorem getSerialConfiguration_spi_eq (K : Consts) (C : CfgConsts)
    (fd : Option (List Char)) (r : CfgRun) (hf : ∀ p ∈ cfgLookups, cfgNoFault fd p.1 p.2) :
    getSerialConfiguration_spi K C fd r = some (spiResult K C fd r) := by
  unfold getSerialConfiguration_spi spiResult
  rw [cfgStep_eq _ _ _ _ _ _ _ (hf (_, _) (cfgLookups_fixed _ (by simp))), some_bind_eq,
    cfgStep_eq _ _ _ _ _ _ _ (hf (_, _) (cfgLookups_fixed _ (by simp))), some_bind_eq,
    cfgStep_eq _ _ _ _ _ _ _ (hf (_, _) (cfgLookups_fixed _ (by simp))), some_bind_eq,
    cfgStep_eq _ _ _ _ _ _ _ (hf (_, _) (cfgLookups_fixed _ (by simp))), some_bind_eq,
    cfgStep_eq _ _ _ _ _ _ _ (hf (_, _) (cfgLookups_fixed _ (by simp))), some_bind_eq,
    cfgStep_eq _ _ _ _ _ _ _ (hf (_, _) (cfgLookups_fixed _ (by simp))), some_bind_eq,
    cfgStep_eq _ _ _ _ _ _ _ (hf (_, _) (cfgLookups_fixed _ (by simp))), some_bind_eq,
    cfgStep_eq _ _ _ _ _ _ _ (hf (_, _) (cfgLookups_fixed _ (by simp)))]

theorem getSerialConfiguration_serial_eq (K : Consts) (C : CfgConsts)
    (fd : Option (List Char)) (r : CfgRun) (hf : ∀ p ∈ cfgLookups, cfgNoFault fd p.1 p.2) :
    getSerialConfiguration_serial K C fd r = some (serialResult K C fd r) := by
  unfold getSerialConfiguration_serial serialResult
  split
  · split
    · exact getSerialConfiguration_uart_eq K C fd r hf
    · rfl
  · split
    · split
      · exact getSerialConfiguration_spi_eq K C fd r hf
      · rfl
    · split <;> rfl

theorem getSerialConfiguration_gpio_eq (K : Consts) (C : CfgConsts)
    (fd : Option (List Char)) (gpioIdx : Nat) (r : CfgRun) (hi : gpioIdx < 5)
    (hf : ∀ p ∈ cfgLookups, cfgNoFault fd p.1 p.2) :
    getSerialConfiguration_gpio K C fd gpioIdx r = some (gpioResult K C fd gpioIdx r) := by
  unfold getSerialConfiguration_gpio gpioResult
  rw [cfgStep_eq _ _ _ _ _ _ _ (hf (_, _) (cfgLookups_gpio _ hi _ (by simp))), some_bind_eq,
    cfgStep_eq _ _ _ _ _ _ _ (hf (_, _) (cfgLookups_gpio _ hi _ (by simp))), some_bind_eq]
  dsimp only
  by_cases hs : K.SRDY_INTERRUPT = true ∧ gpioIdx = 0
  · rw [if_pos hs, if_pos hs,
      cfgStep_eq _ _ _ _ _ _ _ (hf (_, _) (cfgLookups_gpio _ hi _ (by simp))), some_bind_eq,
      cfgStep_eq _ _ _ _ _ _ _ (hf (_, _) (cfgLookups_gpio _ hi _ (by simp))), some_bind_eq]
    split
    · rfl
    · unfold shifterResult
      rw [cfgStep_eq _ _ _ _ _ _ _ (hf (_, _) (cfgLookups_shifter _ hi _ (by simp))),
        some_bind_eq,
        cfgStep_eq _ _ _ _ _ _ _ (hf (_, _) (cfgLookups_shifter _ hi _ (by simp))),
        some_bind_eq,
        cfgStep_eq _ _ _ _ _ _ _ (hf (_, _) (cfgLookups_shifter _ hi _ (by simp)))]
  · rw [if_neg hs, if_neg hs, some_bind_eq,
      cfgStep_eq _ _ _ _ _ _ _ (hf (_, _) (cfgLookups_gpio _ hi _ (by simp))), some_bind_eq]
    split
    · rfl
    · unfold shifterResult
      rw [cfgStep_eq _ _ _ _ _ _ _ (hf (_, _) (cfgLookups_shifter _ hi _ (by simp))),
        some_bind_eq,
        cfgStep_eq _ _ _ _ _ _ _ (hf (_, _) (cfgLookups_shifter _ hi _ (by simp))),
        some_bind_eq,
        cfgStep_eq _ _ _ _ _ _ _ (hf (_, _) (cfgLookups_shifter _ hi _ (by simp)))]

theorem getSerialConfiguration_gpios_eq (K : Consts) (C : CfgConsts)
    (fd : Option (List Char)) (hf : ∀ p ∈ cfgLookups, cfgNoFault fd p.1 p.2) (count : Nat) :
    ∀ (gpioIdx : Nat) (r : CfgRun), gpioIdx + count ≤ 5 →
      getSerialConfiguration_gpios K C fd count gpioIdx r =
        some (gpiosResult K C fd count gpioIdx r) := by
  induction count with
  | zero => intro i r _; rfl
  | succ n ih =>
    intro i r hi
    unfold getSerialConfiguration_gpios gpiosResult
    rw [getSerialConfiguration_gpio_eq K C fd i r (by omega) hf, some_bind_eq,
      ih (i + 1) _ (by omega)]

theorem gpio_range (devIdx debugSupported : Int) :
    gpioStart devIdx debugSupported +
      (gpioEnd devIdx debugSupported - gpioStart devIdx debugSupported) ≤ 5 := by
  unfold gpioStart gpioEnd
  split_ifs <;> decide

theorem getSerialConfiguration_gpioPart_eq (K : Consts) (C : CfgConsts)
    (fd : Option (List Char)) (r : CfgRun) (hf : ∀ p ∈ cfgLookups, cfgNoFault fd p.1 p.2) :
    getSerialConfiguration_gpioPart K C fd r = some (gpioPartResult K C fd r) := by
  unfold getSerialConfiguration_gpioPart gpioPartResult
  split
  · exact getSerialConfiguration_gpios_eq K C fd hf _ _ _ (gpio_range _ _)
  · rfl

theorem getSerialConfiguration_eq (K : Consts) (C : CfgConsts) (fd : Option (List Char))
    (serialCfg : npiSerialCfg_t) (e : Int) (hf : ∀ p ∈ cfgLookups, cfgNoFault fd p.1 p.2) :
    getSerialConfiguration K C fd serialCfg e = some (cfgResult K C fd serialCfg e) := by
  unfold getSerialConfiguration cfgResult
  rw [getSerialConfiguration_device_eq K C fd _ hf, some_bind_eq,
    getSerialConfiguration_gpioPart_eq K C fd _ hf, some_bind_eq,
    getSerialConfiguration_serial_eq K C fd _ hf, some_bind_eq,
    cfgStep_eq _ _ _ _ _ _ _ (hf (_, _) (cfgLookups_fixed _ (by simp)))]
theorem cfgApply_core (K : Consts) (C : CfgConsts) (fd : Option (List Char))
    (section_ key : List Char) (upd : Int → CfgRun → CfgRun) (r : CfgRun) (h : keepsCore upd) :
    cfgCore (cfgApply K C fd section_ key upd r) = cfgCore r := by
  unfold cfgApply; rw [h]; rfl

theorem cfgApply_retVal (K : Consts) (C : CfgConsts) (fd : Option (List Char))
    (section_ key : List Char) (upd : Int → CfgRun → CfgRun) (r : CfgRun) (h : keepsRetVal upd) :
    (cfgApply K C fd section_ key upd r).retVal = r.retVal := by
  unfold cfgApply; rw [h]; rfl

theorem cfgApply_failure (K : Consts) (C : CfgConsts) (fd : Option (List Char))
    (section_ key : List Char) (upd : Int → CfgRun → CfgRun) (r : CfgRun)
    (h : keepsFailure K upd) (hr : r.retVal = K.NPI_LNX_FAILURE) :
    (cfgApply K C fd section_ key upd r).retVal = K.NPI_LNX_FAILURE :=
  h _ _ hr

theorem keepsFailure_of_keepsRetVal (K : Consts) (upd : Int → CfgRun → CfgRun)
    (h : keepsRetVal upd) : keepsFailure K upd :=
  fun res r hr => (h res r).trans hr

theorem keepsCore_delaySeconds (K : Consts) (C : CfgConsts) :
    keepsCore (set_delaySeconds K C) := by
  intro res r; unfold set_delaySeconds; split <;> rfl

theorem keepsRetVal_delaySeconds (K : Consts) (C : CfgConsts) :
    keepsRetVal (set_delaySeconds K C) := by
  intro res r; unfold set_delaySeconds; split <;> rfl

theorem set_devIdx_retVal (K : Consts) (C : CfgConsts) (res : Int) (r : CfgRun) :
    (set_devIdx K C res r).retVal =
      if K.NPI_LNX_FAILURE = res then K.NPI_LNX_FAILURE else r.retVal := by
  unfold set_devIdx; dsimp only; split <;> rfl

theorem set_devIdx_core (K : Consts) (C : CfgConsts) (res : Int) (r : CfgRun) :
    cfgCore (set_devIdx K C res r) =
      (C.conv .devIdx (firstDigit r.strBuf), r.serialCfg.debugSupported, r.serialCfg.port) := by
  unfold set_devIdx cfgCore; dsimp only; split <;> rfl

theorem set_devPath_retVal (K : Consts) (C : CfgConsts) (res : Int) (r : CfgRun) :
    (set_devPath K C res r).retVal =
      if K.NPI_LNX_FAILURE = res then K.NPI_LNX_FAILURE else r.retVal := by
  unfold set_devPath; dsimp only; split <;> rfl

theorem keepsCore_devPath (K : Consts) (C : CfgConsts) : keepsCore (set_devPath K C) := by
  intro res r; unfold set_devPath cfgCore; dsimp only; split <;> rfl

theorem set_logPath_retVal (K : Consts) (C : CfgConsts) (res : Int) (r : CfgRun) :
    (set_logPath K C res r).retVal =
      if K.NPI_LNX_FAILURE = res then K.NPI_LNX_FAILURE else r.retVal := by
  unfold set_logPath; dsimp only; split <;> rfl

theorem keepsCore_logPath (K : Consts) (C : CfgConsts) : keepsCore (set_logPath K C) := by
  intro res r; unfold set_logPath cfgCore; dsimp only; split <;> rfl

theorem keepsRetVal_debugSupported (K : Consts) (C : CfgConsts) :
    keepsRetVal (set_debugSupported K C) :=
  fun _ _ => rfl

theorem keepsCore_gpio_string (K : Consts) (C : CfgConsts) (gpioIdx : Nat) (optional : Bool)
    (store : (List Char → List Char) → halGpioCfg_t → halGpioCfg_t) :
    keepsCore (set_gpio_string K C gpioIdx optional store) := by
  intro res r; unfold set_gpio_string cfgCore
  split
  · rfl
  · split <;> rfl

theorem set_gpio_string_retVal (K : Consts) (C : CfgConsts) (gpioIdx : Nat) (optional : Bool)
    (store : (List Char → List Char) → halGpioCfg_t → halGpioCfg_t) (res : Int) (r : CfgRun) :
    (set_gpio_string K C gpioIdx optional store res r).retVal =
      if K.NPI_LNX_SUCCESS = res ∨ optional = true then r.retVal else K.NPI_LNX_FAILURE := by
  unfold set_gpio_string
  by_cases h1 : K.NPI_LNX_SUCCESS = res
  · rw [if_pos h1, if_pos (Or.inl h1)]
  · rw [if_neg h1]
    by_cases h2 : optional = true
    · rw [if_pos h2, if_pos (Or.inr h2)]
    · rw [if_neg h2, if_neg (by simp [h1, h2])]

theorem keepsFailure_gpio_string (K : Consts) (C : CfgConsts) (gpioIdx : Nat) (optional : Bool)
    (store : (List Char → List Char) → halGpioCfg_t → halGpioCfg_t) :
    keepsFailure K (set_gpio_string K C gpioIdx optional store) := by
  intro res r hr
  rw [set_gpio_string_retVal]; split
  · exact hr
  · rfl

theorem keepsRetVal_gpio_string_optional (K : Consts) (C : CfgConsts) (gpioIdx : Nat)
    (store : (List Char → List Char) → halGpioCfg_t → halGpioCfg_t) :
    keepsRetVal (set_gpio_string K C gpioIdx true store) := by
  intro res r
  rw [set_gpio_string_retVal, if_pos (Or.inr rfl)]

theorem keepsCore_gpio_number (K : Consts) (gpioIdx : Nat) (num : List Char → Int)
    (store : Int → halGpioCfg_t → halGpioCfg_t) :
    keepsCore (set_gpio_number K gpioIdx num store) := by
  intro res r; unfold set_gpio_number cfgCore; split <;> rfl

theorem keepsRetVal_gpio_number (K : Consts) (gpioIdx : Nat) (num : List Char → Int)
    (store : Int → halGpioCfg_t → halGpioCfg_t) :
    keepsRetVal (set_gpio_number K gpioIdx num store) := by
  intro res r; unfold set_gpio_number; split <;> rfl

theorem keepsRetVal_number (K : Consts) (C : CfgConsts) (base : Nat) (dflt : Int)
    (store : Int → npiSerialCfg_t → npiSerialCfg_t) :
    keepsRetVal (set_number K C base dflt store) :=
  fun _ _ => rfl

theorem keepsCore_number (K : Consts) (C : CfgConsts) (base : Nat) (dflt : Int)
    (store : Int → npiSerialCfg_t → npiSerialCfg_t)
    (h : ∀ v c, (store v c).devIdx = c.devIdx ∧ (store v c).debugSupported = c.debugSupported ∧
      (store v c).port = c.port) : keepsCore (set_number K C base dflt store) := by
  intro res r
  unfold set_number cfgCore
  dsimp only
  rw [(h _ _).1, (h _ _).2.1, (h _ _).2.2]

theorem keepsRetVal_port (K : Consts) (C : CfgConsts) : keepsRetVal (set_port K C) :=
  fun _ _ => rfl
theorem cfgApply_gpio_string_retVal (K : Consts) (C : CfgConsts) (fd : Option (List Char))
    (section_ key : List Char) (gpioIdx : Nat) (optional : Bool)
    (store : (List Char → List Char) → halGpioCfg_t → halGpioCfg_t) (r : CfgRun) :
    (cfgApply K C fd section_ key (set_gpio_string K C gpioIdx optional store) r).retVal =
      if K.NPI_LNX_SUCCESS = cfgRes K fd section_ key ∨ optional = true then r.retVal
      else K.NPI_LNX_FAILURE := by
  unfold cfgApply; rw [set_gpio_string_retVal]; rfl

theorem shifterResult_core (K : Consts) (C : CfgConsts) (fd : Option (List Char))
    (gpioIdx : Nat) (r : CfgRun) : cfgCore (shifterResult K C fd gpioIdx r) = cfgCore r := by
  unfold shifterResult
  rw [cfgApply_core _ _ _ _ _ _ _ (keepsCore_gpio_number _ _ _ _),
    cfgApply_core _ _ _ _ _ _ _ (keepsCore_gpio_string _ _ _ _ _),
    cfgApply_core _ _ _ _ _ _ _ (keepsCore_gpio_string _ _ _ _ _)]

theorem shifterResult_retVal (K : Consts) (C : CfgConsts) (fd : Option (List Char))
    (gpioIdx : Nat) (r : CfgRun) : (shifterResult K C fd gpioIdx r).retVal = r.retVal := by
  unfold shifterResult
  rw [cfgApply_retVal _ _ _ _ _ _ _ (keepsRetVal_gpio_number _ _ _ _),
    cfgApply_retVal _ _ _ _ _ _ _ (keepsRetVal_gpio_string_optional _ _ _ _),
    cfgApply_retVal _ _ _ _ _ _ _ (keepsRetVal_gpio_string_optional _ _ _ _)]

theorem gpioResult_core (K : Consts) (C : CfgConsts) (fd : Option (List Char))
    (gpioIdx : Nat) (r : CfgRun) : cfgCore (gpioResult K C fd gpioIdx r) = cfgCore r := by
  unfold gpioResult
  dsimp only
  split
  · rw [cfgApply_core _ _ _ _ _ _ _ (keepsCore_gpio_number _ _ _ _)]
    split
    · rw [cfgApply_core _ _ _ _ _ _ _ (keepsCore_gpio_string _ _ _ _ _),
        cfgApply_core _ _ _ _ _ _ _ (keepsCore_gpio_string _ _ _ _ _),
        cfgApply_core _ _ _ _ _ _ _ (keepsCore_gpio_string _ _ _ _ _)]
    · rw [cfgApply_core _ _ _ _ _ _ _ (keepsCore_gpio_string _ _ _ _ _),
        cfgApply_core _ _ _ _ _ _ _ (keepsCore_gpio_string _ _ _ _ _)]
  · rw [shifterResult_core, cfgApply_core _ _ _ _ _ _ _ (keepsCore_gpio_number _ _ _ _)]
    split
    · rw [cfgApply_core _ _ _ _ _ _ _ (keepsCore_gpio_string _ _ _ _ _),
        cfgApply_core _ _ _ _ _ _ _ (keepsCore_gpio_string _ _ _ _ _),
        cfgApply_core _ _ _ _ _ _ _ (keepsCore_gpio_string _ _ _ _ _)]
    · rw [cfgApply_core _ _ _ _ _ _ _ (keepsCore_gpio_string _ _ _ _ _),
        cfgApply_core _ _ _ _ _ _ _ (keepsCore_gpio_string _ _ _ _ _)]

theorem gpioResult_retVal_eq (K : Consts) (C : CfgConsts) (fd : Option (List Char))
    (gpioIdx : Nat) (r : CfgRun) :
    (gpioResult K C fd gpioIdx r).retVal =
      (if K.SRDY_INTERRUPT = true ∧ gpioIdx = 0 then
        (if K.NPI_LNX_SUCCESS = cfgRes K fd (sectionNamesArray gpioIdx IDX_GPIO) "edge".toList ∨
            C.USE_BCM_NEXUS_GPIO = true then
          (if K.NPI_LNX_SUCCESS =
                cfgRes K fd (sectionNamesArray gpioIdx IDX_GPIO) "direction".toList ∨
              C.USE_BCM_NEXUS_GPIO = true then
            (if K.NPI_LNX_SUCCESS =
                  cfgRes K fd (sectionNamesArray gpioIdx IDX_GPIO) "value".toList ∨
                false = true then r.retVal
              else K.NPI_LNX_FAILURE)
            else K.NPI_LNX_FAILURE)
          else K.NPI_LNX_FAILURE)
      else
        (if K.NPI_LNX_SUCCESS =
              cfgRes K fd (sectionNamesArray gpioIdx IDX_GPIO) "direction".toList ∨
            C.USE_BCM_NEXUS_GPIO = true then
          (if K.NPI_LNX_SUCCESS =
                cfgRes K fd (sectionNamesArray gpioIdx IDX_GPIO) "value".toList ∨
              false = true then r.retVal
            else K.NPI_LNX_FAILURE)
          else K.NPI_LNX_FAILURE)) := by
  unfold gpioResult
  dsimp only
  have h4 : ∀ x : CfgRun,
      (if C.USE_BCM_NEXUS_GPIO = true then
        cfgApply K C fd (sectionNamesArray gpioIdx IDX_GPIO) "active_high_low".toList
          (set_gpio_number K gpioIdx
          (fun b => C.conv .gpio_active_high_low (firstDigit b))
            (fun v g => { g with gpio := { g.gpio with active_high_low := v } })) x
      else shifterResult K C fd gpioIdx
        (cfgApply K C fd (sectionNamesArray gpioIdx IDX_GPIO) "active_high_low".toList
          (set_gpio_number K gpioIdx
          (fun b => C.conv .gpio_active_high_low (firstDigit b))
            (fun v g => { g with gpio := { g.gpio with active_high_low := v } })) x)).retVal =
      x.retVal := by
    intro x
    split
    · rw [cfgApply_retVal _ _ _ _ _ _ _ (keepsRetVal_gpio_number _ _ _ _)]
    · rw [shifterResult_retVal, cfgApply_retVal _ _ _ _ _ _ _ (keepsRetVal_gpio_number _ _ _ _)]
  rw [h4]
  split
  · rw [cfgApply_gpio_string_retVal, cfgApply_gpio_string_retVal, cfgApply_gpio_string_retVal]
  · rw [cfgApply_gpio_string_retVal, cfgApply_gpio_string_retVal]

theorem gpioResult_failure (K : Consts) (C : CfgConsts) (fd : Option (List Char))
    (gpioIdx : Nat) (r : CfgRun) (hr : r.retVal = K.NPI_LNX_FAILURE) :
    (gpioResult K C fd gpioIdx r).retVal = K.NPI_LNX_FAILURE := by
  rw [gpioResult_retVal_eq, hr]
  split_ifs <;> rfl

theorem gpioResult_retVal (K : Consts) (C : CfgConsts) (fd : Option (List Char))
    (gpioIdx : Nat) (r : CfgRun)
    (hv : (cfgValue fd (sectionNamesArray gpioIdx IDX_GPIO) "value".toList).isSome)
    (hd : C.USE_BCM_NEXUS_GPIO = false →
      (cfgValue fd (sectionNamesArray gpioIdx IDX_GPIO) "direction".toList).isSome)
    (he : C.USE_BCM_NEXUS_GPIO = false → K.SRDY_INTERRUPT = true → gpioIdx = 0 →
      (cfgValue fd (sectionNamesArray gpioIdx IDX_GPIO) "edge".toList).isSome) :
    (gpioResult K C fd gpioIdx r).retVal = r.retVal := by
  rw [gpioResult_retVal_eq]
  have a1 : K.NPI_LNX_SUCCESS = cfgRes K fd (sectionNamesArray gpioIdx IDX_GPIO) "value".toList := by
    unfold cfgRes; rw [if_pos hv]
  have a2 : K.NPI_LNX_SUCCESS =
        cfgRes K fd (sectionNamesArray gpioIdx IDX_GPIO) "direction".toList ∨
      C.USE_BCM_NEXUS_GPIO = true := by
    cases hb : C.USE_BCM_NEXUS_GPIO with
    | true => exact Or.inr rfl
    | false => left; unfold cfgRes; rw [if_pos (hd hb)]
  by_cases hs : K.SRDY_INTERRUPT = true ∧ gpioIdx = 0
  · have a3 : K.NPI_LNX_SUCCESS =
          cfgRes K fd (sectionNamesArray gpioIdx IDX_GPIO) "edge".toList ∨
        C.USE_BCM_NEXUS_GPIO = true := by
      cases hb : C.USE_BCM_NEXUS_GPIO with
      | true => exact Or.inr rfl
      | false => left; unfold cfgRes; rw [if_pos (he hb hs.1 hs.2)]
    rw [if_pos hs, if_pos a3, if_pos a2, if_pos (Or.inl a1)]
  · rw [if_neg hs, if_pos a2, if_pos (Or.inl a1)]

theorem gpiosResult_core (K : Consts) (C : CfgConsts) (fd : Option (List Char)) (count : Nat) :
    ∀ (gpioIdx : Nat) (r : CfgRun), cfgCore (gpiosResult K C fd count gpioIdx r) = cfgCore r := by
  induction count with
  | zero => intro i r; rfl
  | succ n ih => intro i r; unfold gpiosResult; rw [ih, gpioResult_core]

theorem gpiosResult_failure (K : Consts) (C : CfgConsts) (fd : Option (List Char))
    (count : Nat) :
    ∀ (gpioIdx : Nat) (r : CfgRun), r.retVal = K.NPI_LNX_FAILURE →
      (gpiosResult K C fd count gpioIdx r).retVal = K.NPI_LNX_FAILURE := by
  induction count with
  | zero => intro i r h; exact h
  | succ n ih => intro i r h; unfold gpiosResult; exact ih _ _ (gpioResult_failure K C fd i r h)

theorem gpiosResult_retVal (K : Consts) (C : CfgConsts) (fd : Option (List Char))
    (count : Nat) :
    ∀ (gpioIdx : Nat) (r : CfgRun),
      (∀ j, gpioIdx ≤ j → j < gpioIdx + count →
        (cfgValue fd (sectionNamesArray j IDX_GPIO) "value".toList).isSome ∧
        (C.USE_BCM_NEXUS_GPIO = false →
          (cfgValue fd (sectionNamesArray j IDX_GPIO) "direction".toList).isSome) ∧
        (C.USE_BCM_NEXUS_GPIO = false → K.SRDY_INTERRUPT = true → j = 0 →
          (cfgValue fd (sectionNamesArray j IDX_GPIO) "edge".toList).isSome)) →
      (gpiosResult K C fd count gpioIdx r).retVal = r.retVal := by
  induction count with
  | zero => intro i r _; rfl
  | succ n ih =>
    intro i r h
    unfold gpiosResult
    rw [ih (i + 1) _ (fun j h1 h2 => h j (by omega) (by omega)),
      gpioResult_retVal K C fd i r (h i (le_refl _) (by omega)).1
        (h i (le_refl _) (by omega)).2.1 (h i (le_refl _) (by omega)).2.2]
theorem gpioPartResult_core (K : Consts) (C : CfgConsts) (fd : Option (List Char))
    (r : CfgRun) : cfgCore (gpioPartResult K C fd r) = cfgCore r := by
  unfold gpioPartResult
  split
  · exact gpiosResult_core K C fd _ _ _
  · rfl

theorem gpioPartResult_failure (K : Consts) (C : CfgConsts) (fd : Option (List Char))
    (r : CfgRun) (hr : r.retVal = K.NPI_LNX_FAILURE) :
    (gpioPartResult K C fd r).retVal = K.NPI_LNX_FAILURE := by
  unfold gpioPartResult
  split
  · exact gpiosResult_failure K C fd _ _ _ hr
  · exact hr

theorem gpioPartResult_retVal (K : Consts) (C : CfgConsts) (fd : Option (List Char))
    (r : CfgRun)
    (h : ∀ j, gpioStart r.serialCfg.devIdx r.serialCfg.debugSupported ≤ j →
      j < gpioEnd r.serialCfg.devIdx r.serialCfg.debugSupported →
        (cfgValue fd (sectionNamesArray j IDX_GPIO) "value".toList).isSome ∧
        (C.USE_BCM_NEXUS_GPIO = false →
          (cfgValue fd (sectionNamesArray j IDX_GPIO) "direction".toList).isSome) ∧
        (C.USE_BCM_NEXUS_GPIO = false → K.SRDY_INTERRUPT = true → j = 0 →
          (cfgValue fd (sectionNamesArray j IDX_GPIO) "edge".toList).isSome)) :
    (gpioPartResult K C fd r).retVal = r.retVal := by
  unfold gpioPartResult
  split
  · exact gpiosResult_retVal K C fd _ _ _ (fun j h1 h2 => h j h1 (by omega))
  · rfl

theorem uartResult_core (K : Consts) (C : CfgConsts) (fd : Option (List Char)) (r : CfgRun) :
    cfgCore (uartResult K C fd r) = cfgCore r ∧ (uartResult K C fd r).retVal = r.retVal := by
  unfold uartResult
  refine ⟨?_, ?_⟩
  · simp only [cfgApply, set_number, cfgIn, cfgCore]
  · rw [cfgApply_retVal _ _ _ _ _ _ _ (keepsRetVal_number _ _ _ _ _),
      cfgApply_retVal _ _ _ _ _ _ _ (keepsRetVal_number _ _ _ _ _)]

theorem spiResult_core (K : Consts) (C : CfgConsts) (fd : Option (List Char)) (r : CfgRun) :
    cfgCore (spiResult K C fd r) = cfgCore r ∧ (spiResult K C fd r).retVal = r.retVal := by
  unfold spiResult
  refine ⟨?_, ?_⟩
  · simp only [cfgApply, set_number, cfgIn, cfgCore]
  · rw [cfgApply_retVal _ _ _ _ _ _ _ (keepsRetVal_number _ _ _ _ _),
      cfgApply_retVal _ _ _ _ _ _ _ (keepsRetVal_number _ _ _ _ _),
      cfgApply_retVal _ _ _ _ _ _ _ (keepsRetVal_number _ _ _ _ _),
      cfgApply_retVal _ _ _ _ _ _ _ (keepsRetVal_number _ _ _ _ _),
      cfgApply_retVal _ _ _ _ _ _ _ (keepsRetVal_number _ _ _ _ _),
      cfgApply_retVal _ _ _ _ _ _ _ (keepsRetVal_number _ _ _ _ _),
      cfgApply_retVal _ _ _ _ _ _ _ (keepsRetVal_number _ _ _ _ _),
      cfgApply_retVal _ _ _ _ _ _ _ (keepsRetVal_number _ _ _ _ _)]

theorem cfgApply_number (K : Consts) (C : CfgConsts) (fd : Option (List Char))
    (section_ key : List Char) (base : Nat) (dflt : Int)
    (store : Int → npiSerialCfg_t → npiSerialCfg_t) (r : CfgRun)
    (hK : K.NPI_LNX_SUCCESS ≠ K.NPI_LNX_FAILURE) :
    (cfgApply K C fd section_ key (set_number K C base dflt store) r).serialCfg =
      store (cfgNumber C fd section_ key base dflt) r.serialCfg := by
  unfold cfgApply set_number cfgRes cfgIn cfgNumber
  cases cfgValue fd section_ key with
  | none => simp [hK]
  | some v => simp

theorem spiResult_fields (K : Consts) (C : CfgConsts) (fd : Option (List Char)) (r : CfgRun)
    (hK : K.NPI_LNX_SUCCESS ≠ K.NPI_LNX_FAILURE) :
    (spiResult K C fd r).serialCfg.spiCfg_speed =
      C.conv .spi_speed (cfgNumber C fd "SPI".toList "speed".toList 10 500000) ∧
    (spiResult K C fd r).serialCfg.spiCfg_mode =
      C.conv .spi_mode (cfgNumber C fd "SPI".toList "mode".toList 16 0) ∧
    (spiResult K C fd r).serialCfg.spiCfg_bitsPerWord =
      C.conv .spi_bitsPerWord (cfgNumber C fd "SPI".toList "bitsPerWord".toList 10 8) ∧
    (spiResult K C fd r).serialCfg.forceRunOnReset =
      toUint8 (cfgNumber C fd "SPI".toList "forceRunOnReset".toList 16 C.NPI_LNX_UINT8_ERROR) ∧
    (spiResult K C fd r).serialCfg.spiCfg_useFullDuplexAPI =
      C.conv .spi_useFullDuplexAPI
        (cfgNumber C fd "MRDY_SRDY".toList "useFullDuplexAPI".toList 10 TRUE) ∧
    (spiResult K C fd r).serialCfg.earlyMrdyDeAssert =
      toUint8 (cfgNumber C fd "MRDY_SRDY".toList "earlyMrdyDeAssert".toList 10 TRUE) ∧
    (spiResult K C fd r).serialCfg.detectResetFromSlowSrdyAssert =
      toUint8 (cfgNumber C fd "MRDY_SRDY".toList "detectResetFromSlowSrdyAssert".toList 10
        TRUE) ∧
    (spiResult K C fd r).serialCfg.srdyMrdyHandshakeSupport =
      toUint8 (cfgNumber C fd "MRDY_SRDY".toList "srdyMrdyHandshakeSupport".toList 10 TRUE) := by
  unfold spiResult
  refine ⟨?_, ?_, ?_, ?_, ?_, ?_, ?_, ?_⟩ <;>
    simp only [cfgApply_number _ _ _ _ _ _ _ _ _ hK]

theorem serialResult_core (K : Consts) (C : CfgConsts) (fd : Option (List Char)) (r : CfgRun) :
    cfgCore (serialResult K C fd r) = cfgCore r := by
  unfold serialResult
  split
  · split
    · exact (uartResult_core K C fd r).1
    · rfl
  · split
    · split
      · exact (spiResult_core K C fd r).1
      · rfl
    · split <;> rfl

theorem serialResult_retVal (K : Consts) (C : CfgConsts) (fd : Option (List Char)) (r : CfgRun) :
    (serialResult K C fd r).retVal =
      if r.serialCfg.devIdx = NPI_SERVER_DEVICE_INDEX_UART_USB ∨
          r.serialCfg.devIdx = NPI_SERVER_DEVICE_INDEX_UART ∨
          r.serialCfg.devIdx = NPI_SERVER_DEVICE_INDEX_SPI ∨
          r.serialCfg.devIdx = NPI_SERVER_DEVICE_INDEX_I2C then r.retVal
      else K.NPI_LNX_FAILURE := by
  unfold serialResult
  by_cases h1 : r.serialCfg.devIdx = NPI_SERVER_DEVICE_INDEX_UART_USB ∨
      r.serialCfg.devIdx = NPI_SERVER_DEVICE_INDEX_UART
  · have hc : r.serialCfg.devIdx = NPI_SERVER_DEVICE_INDEX_UART_USB ∨
        r.serialCfg.devIdx = NPI_SERVER_DEVICE_INDEX_UART ∨
        r.serialCfg.devIdx = NPI_SERVER_DEVICE_INDEX_SPI ∨
        r.serialCfg.devIdx = NPI_SERVER_DEVICE_INDEX_I2C := by
      rcases h1 with h | h
      · exact Or.inl h
      · exact Or.inr (Or.inl h)
    rw [if_pos h1, if_pos hc]
    split
    · exact (uartResult_core K C fd r).2
    · rfl
  · rw [if_neg h1]
    by_cases h2 : r.serialCfg.devIdx = NPI_SERVER_DEVICE_INDEX_SPI
    · rw [if_pos h2, if_pos (Or.inr (Or.inr (Or.inl h2)))]
      split
      · exact (spiResult_core K C fd r).2
      · rfl
    · rw [if_neg h2]
      by_cases h3 : r.serialCfg.devIdx = NPI_SERVER_DEVICE_INDEX_I2C
      · rw [if_pos h3, if_pos (Or.inr (Or.inr (Or.inr h3)))]
      · have hc : ¬ (r.serialCfg.devIdx = NPI_SERVER_DEVICE_INDEX_UART_USB ∨
            r.serialCfg.devIdx = NPI_SERVER_DEVICE_INDEX_UART ∨
            r.serialCfg.devIdx = NPI_SERVER_DEVICE_INDEX_SPI ∨
            r.serialCfg.devIdx = NPI_SERVER_DEVICE_INDEX_I2C) := by
          rintro (h | h | h | h)
          · exact h1 (Or.inl h)
          · exact h1 (Or.inr h)
          · exact h2 h
          · exact h3 h
        rw [if_neg h3, if_neg hc]

theorem serialResult_spi (K : Consts) (C : CfgConsts) (fd : Option (List Char)) (r : CfgRun)
    (hd : r.serialCfg.devIdx = NPI_SERVER_DEVICE_INDEX_SPI) (hS : C.NPI_SPI = true) :
    serialResult K C fd r = spiResult K C fd r := by
  unfold serialResult
  rw [if_neg (by rw [hd]; decide), if_pos hd, if_pos hS]

theorem deviceResult_core (K : Consts) (C : CfgConsts) (fd : Option (List Char)) (r : CfgRun) :
    cfgCore (deviceResult K C fd r) =
      (C.conv .devIdx (firstDigit ((cfgValue fd "DEVICE".toList "deviceKey".toList).getD
          ((cfgValue fd "STARTUP".toList "delaySeconds".toList).getD r.strBuf))),
        C.conv .debugSupported
          (if K.NPI_LNX_FAILURE = cfgRes K fd "DEBUG".toList "supported".toList then 0
          else firstDigit ((cfgValue fd "DEBUG".toList "supported".toList).getD
            ((cfgValue fd "LOG".toList "log".toList).getD
              ((cfgValue fd "DEVICE".toList "devPath".toList).getD
                ((cfgValue fd "DEVICE".toList "deviceKey".toList).getD
                  ((cfgValue fd "STARTUP".toList "delaySeconds".toList).getD r.strBuf)))))),
        r.serialCfg.port) := by
  have hs : ∀ res x, (set_delaySeconds K C res x).strBuf = x.strBuf ∧
      (set_delaySeconds K C res x).serialCfg = x.serialCfg := by
    intro res x; unfold set_delaySeconds; split <;> exact ⟨rfl, rfl⟩
  have hd : ∀ res x, (set_devIdx K C res x).strBuf = x.strBuf ∧
      (set_devIdx K C res x).serialCfg =
        { x.serialCfg with devIdx := C.conv .devIdx (firstDigit x.strBuf) } := by
    intro res x; unfold set_devIdx; dsimp only; split <;> exact ⟨rfl, rfl⟩
  have hp : ∀ res x, (set_devPath K C res x).strBuf = x.strBuf ∧
      (set_devPath K C res x).serialCfg =
        { x.serialCfg with devPath := memcpyStr x.serialCfg.devPath x.strBuf } := by
    intro res x; unfold set_devPath; dsimp only; split <;> exact ⟨rfl, rfl⟩
  have hl : ∀ res x, (set_logPath K C res x).strBuf = x.strBuf ∧
      (set_logPath K C res x).serialCfg = { x.serialCfg with logPath := x.strBuf } := by
    intro res x; unfold set_logPath; dsimp only; split <;> exact ⟨rfl, rfl⟩
  unfold deviceResult cfgCore cfgApply
  simp only [set_debugSupported, (hs _ _).1, (hs _ _).2, (hd _ _).1, (hd _ _).2, (hp _ _).1,
    (hp _ _).2, (hl _ _).1, (hl _ _).2, cfgIn]

theorem deviceResult_retVal (K : Consts) (C : CfgConsts) (fd : Option (List Char)) (r : CfgRun) :
    (deviceResult K C fd r).retVal =
      if K.NPI_LNX_FAILURE = cfgRes K fd "LOG".toList "log".toList then K.NPI_LNX_FAILURE
      else if K.NPI_LNX_FAILURE = cfgRes K fd "DEVICE".toList "devPath".toList then
        K.NPI_LNX_FAILURE
      else if K.NPI_LNX_FAILURE = cfgRes K fd "DEVICE".toList "deviceKey".toList then
        K.NPI_LNX_FAILURE
      else r.retVal := by
  unfold deviceResult
  rw [cfgApply_retVal _ _ _ _ _ _ _ (keepsRetVal_debugSupported K C)]
  unfold cfgApply
  rw [set_logPath_retVal, show ∀ x : CfgRun, (cfgIn C fd "LOG".toList "log".toList x).retVal =
    x.retVal from fun _ => rfl, set_devPath_retVal,
    show ∀ x : CfgRun, (cfgIn C fd "DEVICE".toList "devPath".toList x).retVal =
    x.retVal from fun _ => rfl, set_devIdx_retVal,
    show ∀ x : CfgRun, (cfgIn C fd "DEVICE".toList "deviceKey".toList x).retVal =
    x.retVal from fun _ => rfl, keepsRetVal_delaySeconds K C]
  rfl
theorem cfgFaultFree_spec (file : List Char) (h : cfgFaultFree file = true) :
    ∀ p ∈ cfgLookups, cfgNoFault (some file) p.1 p.2 := by
  intro p hp f hf
  simp only [Option.some.injEq] at hf
  subst hf
  unfold cfgFaultFree at h
  have := List.all_eq_true.1 h p hp
  simpa using this

theorem cfgResult_retVal (K : Consts) (C : CfgConsts) (fd : Option (List Char))
    (serialCfg : npiSerialCfg_t) (e : Int) :
    (cfgResult K C fd serialCfg e).retVal =
      (serialResult K C fd (gpioPartResult K C fd
        (deviceResult K C fd (getSerialConfiguration_init K C fd serialCfg e)))).retVal := rfl

theorem cfgResult_core (K : Consts) (C : CfgConsts) (fd : Option (List Char))
    (serialCfg : npiSerialCfg_t) (e : Int) :
    (cfgResult K C fd serialCfg e).serialCfg.devIdx =
      (deviceResult K C fd (getSerialConfiguration_init K C fd serialCfg e)).serialCfg.devIdx ∧
    (cfgResult K C fd serialCfg e).serialCfg.debugSupported =
      (deviceResult K C fd
        (getSerialConfiguration_init K C fd serialCfg e)).serialCfg.debugSupported := by
  have h := (serialResult_core K C fd (gpioPartResult K C fd
    (deviceResult K C fd (getSerialConfiguration_init K C fd serialCfg e)))).trans
    (gpioPartResult_core K C fd
      (deviceResult K C fd (getSerialConfiguration_init K C fd serialCfg e)))
  unfold cfgCore at h
  simp only [Prod.mk.injEq] at h
  exact ⟨h.1, h.2.1⟩

theorem cfgResult_port (K : Consts) (C : CfgConsts) (fd : Option (List Char))
    (serialCfg : npiSerialCfg_t) (e : Int)
    (hp : cfgValue fd "PORT".toList "port".toList = none)
    (hs : C.NPI_PORT.length < C.sizeof_port - 1) :
    (cfgResult K C fd serialCfg e).serialCfg.port = C.NPI_PORT := by
  unfold cfgResult cfgApply set_port
  dsimp only
  rw [cfgRes_of_none K fd _ _ hp, if_pos rfl]
  unfold strncpy
  rw [if_pos hs]

theorem cfgResult_failure (K : Consts) (C : CfgConsts) (fd : Option (List Char))
    (serialCfg : npiSerialCfg_t) (e : Int)
    (h : cfgValue fd "DEVICE".toList "deviceKey".toList = none ∨
      cfgValue fd "DEVICE".toList "devPath".toList = none ∨
      cfgValue fd "LOG".toList "log".toList = none ∨
      ¬ (0 ≤ (cfgResult K C fd serialCfg e).serialCfg.devIdx ∧
        (cfgResult K C fd serialCfg e).serialCfg.devIdx ≤ 3)) :
    (cfgResult K C fd serialCfg e).retVal = K.NPI_LNX_FAILURE := by
  rw [cfgResult_retVal, serialResult_retVal]
  have hc := gpioPartResult_core K C fd
    (deviceResult K C fd (getSerialConfiguration_init K C fd serialCfg e))
  unfold cfgCore at hc
  simp only [Prod.mk.injEq] at hc
  rw [hc.1]
  split
  · rename_i hd
    have hdev : (deviceResult K C fd (getSerialConfiguration_init K C fd serialCfg e)).retVal =
        K.NPI_LNX_FAILURE := by
      rw [deviceResult_retVal]
      rcases h with h | h | h | h
      · rw [cfgRes_of_none K fd _ _ h]; split_ifs <;> first | rfl | exact absurd rfl ‹_›
      · rw [cfgRes_of_none K fd _ _ h]; split_ifs <;> first | rfl | exact absurd rfl ‹_›
      · rw [cfgRes_of_none K fd _ _ h]; split_ifs <;> first | rfl | exact absurd rfl ‹_›
      · exfalso
        apply h
        rw [(cfgResult_core K C fd serialCfg e).1]
        simp only [NPI_SERVER_DEVICE_INDEX_UART_USB, NPI_SERVER_DEVICE_INDEX_UART,
          NPI_SERVER_DEVICE_INDEX_SPI, NPI_SERVER_DEVICE_INDEX_I2C] at hd
        omega
    exact gpioPartResult_failure K C fd _ hdev
  · rfl

theorem cfgResult_spi (K : Consts) (C : CfgConsts) (fd : Option (List Char))
    (serialCfg : npiSerialCfg_t) (e : Int) (hK : K.NPI_LNX_SUCCESS ≠ K.NPI_LNX_FAILURE)
    (hS : C.NPI_SPI = true)
    (hd : (cfgResult K C fd serialCfg e).serialCfg.devIdx = NPI_SERVER_DEVICE_INDEX_SPI) :
    (cfgResult K C fd serialCfg e).serialCfg.spiCfg_speed =
      C.conv .spi_speed (cfgNumber C fd "SPI".toList "speed".toList 10 500000) ∧
    (cfgResult K C fd serialCfg e).serialCfg.spiCfg_mode =
      C.conv .spi_mode (cfgNumber C fd "SPI".toList "mode".toList 16 0) ∧
    (cfgResult K C fd serialCfg e).serialCfg.spiCfg_bitsPerWord =
      C.conv .spi_bitsPerWord (cfgNumber C fd "SPI".toList "bitsPerWord".toList 10 8) ∧
    (cfgResult K C fd serialCfg e).serialCfg.forceRunOnReset =
      toUint8 (cfgNumber C fd "SPI".toList "forceRunOnReset".toList 16 C.NPI_LNX_UINT8_ERROR) ∧
    (cfgResult K C fd serialCfg e).serialCfg.spiCfg_useFullDuplexAPI =
      C.conv .spi_useFullDuplexAPI
        (cfgNumber C fd "MRDY_SRDY".toList "useFullDuplexAPI".toList 10 TRUE) ∧
    (cfgResult K C fd serialCfg e).serialCfg.earlyMrdyDeAssert =
      toUint8 (cfgNumber C fd "MRDY_SRDY".toList "earlyMrdyDeAssert".toList 10 TRUE) ∧
    (cfgResult K C fd serialCfg e).serialCfg.detectResetFromSlowSrdyAssert =
      toUint8 (cfgNumber C fd "MRDY_SRDY".toList "detectResetFromSlowSrdyAssert".toList 10
        TRUE) ∧
    (cfgResult K C fd serialCfg e).serialCfg.srdyMrdyHandshakeSupport =
      toUint8 (cfgNumber C fd "MRDY_SRDY".toList "srdyMrdyHandshakeSupport".toList 10 TRUE) := by
  have hc := gpioPartResult_core K C fd
    (deviceResult K C fd (getSerialConfiguration_init K C fd serialCfg e))
  unfold cfgCore at hc
  simp only [Prod.mk.injEq] at hc
  have h2 : (gpioPartResult K C fd (deviceResult K C fd
      (getSerialConfiguration_init K C fd serialCfg e))).serialCfg.devIdx =
      NPI_SERVER_DEVICE_INDEX_SPI := by
    rw [hc.1, ← (cfgResult_core K C fd serialCfg e).1]; exact hd
  have hf := spiResult_fields K C fd (gpioPartResult K C fd (deviceResult K C fd
      (getSerialConfiguration_init K C fd serialCfg e))) hK
  rw [← serialResult_spi K C fd _ h2 hS] at hf
  exact hf

/-! ## `NPI_SPI_SendSynchData` does not read the clock -/

theorem OnlyCalls_refl (p : Call → Bool) (s : State) : OnlyCalls p s s :=
  ⟨[], by simp, by simp⟩

theorem OnlyCalls_congr {p : Call → Bool} {s t u : State} (h : u.trace = t.trace)
    (ht : OnlyCalls p s t) : OnlyCalls p s u := by
  obtain ⟨evs, h1, h2⟩ := ht
  exact ⟨evs, h.trans h1, h2⟩

theorem OnlyCalls_trans {p : Call → Bool} {s t u : State} (h1 : OnlyCalls p s t)
    (h2 : OnlyCalls p t u) : OnlyCalls p s u := by
  obtain ⟨a, ha, hpa⟩ := h1
  obtain ⟨b, hb, hpb⟩ := h2
  exact ⟨a ++ b, by rw [hb, ha, List.append_assoc], by simp [hpa, hpb]⟩

theorem OnlyCalls_record {p : Call → Bool} {s t : State} (c : Call) (r : Resp)
    (hc : p c = true) (h : OnlyCalls p s t) : OnlyCalls p s (record t c r) := by
  obtain ⟨a, ha, hpa⟩ := h
  exact ⟨a ++ [⟨c, r⟩], by simp [ha], by simp [hpa, hc]⟩

theorem OnlyCalls_lock {p : Call → Bool} {s t : State} (env : Env) (m : Mutex)
    (hc : p (.pthread_mutex_lock m) = true) (h : OnlyCalls p s t) :
    OnlyCalls p s (mutex_lock env m t).2 := by
  obtain ⟨a, ha, hpa⟩ := h
  exact ⟨a ++ [⟨.pthread_mutex_lock m, env t.trace (.pthread_mutex_lock m)⟩],
    by simp [ha], by simp [hpa, hc]⟩

theorem OnlyCalls_unlock {p : Call → Bool} {s t : State} (env : Env) (m : Mutex)
    (hc : p (.pthread_mutex_unlock m) = true) (h : OnlyCalls p s t) :
    OnlyCalls p s (mutex_unlock env m t).2 := by
  obtain ⟨a, ha, hpa⟩ := h
  exact ⟨a ++ [⟨.pthread_mutex_unlock m, env t.trace (.pthread_mutex_unlock m)⟩],
    by simp [ha], by simp [hpa, hc]⟩

theorem clockReadings_of_noClock (evs : List Event)
    (h : allCalls (fun c => !c.isClock) evs) : clockReadings evs = [] := by
  induction evs with
  | nil => rfl
  | cons e l ih =>
    simp only [allCalls_cons] at h
    have he : e.monotonic = none := by
      unfold Event.monotonic
      cases hc : e.call <;> simp_all [Call.isClock]
    simp [clockReadings, he] at ih ⊢
    exact ih h.2

theorem sendSynch_srdySet_noClock (K : Consts) (env : Env) (pMsg : Buf) (s0 s : State)
    (h : OnlyCalls (fun c => !c.isClock) s0 s) :
    OnlyCalls (fun c => !c.isClock) s0 (NPI_SPI_SendSynchData_srdySet K env pMsg s).st := by
  unfold NPI_SPI_SendSynchData_srdySet
  simp only [halCall_fst, halCall_snd, perform_snd]
  split_ifs <;>
    repeat (first | exact h | refine OnlyCalls_record _ _ rfl ?_)

theorem sendSynch_frame_noClock (K : Consts) (env : Env) (s0 : State) (x : Xfer)
    (h : OnlyCalls (fun c => !c.isClock) s0 x.st) :
    OnlyCalls (fun c => !c.isClock) s0 (NPI_SPI_SendSynchData_frame K env x).st := by
  unfold NPI_SPI_SendSynchData_frame
  simp only [HalSpiRead_fst, HalSpiRead_buf, HalSpiRead_st]
  split_ifs <;>
    repeat (first | exact h | refine OnlyCalls_record _ _ rfl ?_)

theorem sendSynch_xfer_noClock (K : Consts) (env : Env) (pMsg : Buf) (s0 s : State)
    (h : OnlyCalls (fun c => !c.isClock) s0 s) :
    OnlyCalls (fun c => !c.isClock) s0 (NPI_SPI_SendSynchData_xfer K env pMsg s).st := by
  unfold NPI_SPI_SendSynchData_xfer
  simp only [halCall_fst, halCall_snd, HalSpiWrite_fst, HalSpiWrite_snd]
  split_ifs
  · exact OnlyCalls_record _ _ rfl h
  · exact OnlyCalls_record _ _ rfl (OnlyCalls_record _ _ rfl h)
  · exact sendSynch_frame_noClock K env s0 _
      (sendSynch_srdySet_noClock K env _ s0 _ (OnlyCalls_record _ _ rfl (OnlyCalls_record _ _ rfl h)))

theorem endOfTransaction_noClock (K : Consts) (env : Env) (s0 : State) (x : Xfer)
    (h : OnlyCalls (fun c => !c.isClock) s0 x.st) :
    OnlyCalls (fun c => !c.isClock) s0 (endOfTransaction K env x).2.2 := by
  unfold endOfTransaction
  simp only [halCall_fst, halCall_snd]
  split
  · exact OnlyCalls_record _ _ rfl h
  · exact h

theorem sendSynch_body_noClock (K : Consts) (env : Env) (ret : Int) (pMsg : Buf) (s0 s : State)
    (h : OnlyCalls (fun c => !c.isClock) s0 s) :
    OnlyCalls (fun c => !c.isClock) s0 (NPI_SPI_SendSynchData_body K env ret pMsg s).2.2 := by
  unfold NPI_SPI_SendSynchData_body
  simp only [halCall_fst, halCall_snd]
  have hp : OnlyCalls (fun c => !c.isClock) s0
      (if ret = K.NPI_LNX_SUCCESS then pollLockVarSet K ret s else (ret, s)).2 := by
    split_ifs
    · exact OnlyCalls_congr (pollLockVarSet_trace K ret s) h
    · exact h
  generalize (if ret = K.NPI_LNX_SUCCESS then pollLockVarSet K ret s else (ret, s)) = p at hp ⊢
  split_ifs
  · exact endOfTransaction_noClock K env s0 _
      (sendSynch_xfer_noClock K env _ s0 _ (OnlyCalls_record _ _ rfl hp))
  · exact OnlyCalls_record _ _ rfl hp
  · exact hp

theorem sendSynch_lock_noClock (K : Consts) (env : Env) (s : State) :
    OnlyCalls (fun c => !c.isClock) s (NPI_SPI_SendSynchData_lock K env s).st := by
  unfold NPI_SPI_SendSynchData_lock
  simp only [mutex_lock_fst]
  split_ifs
  · exact OnlyCalls_lock env _ rfl (OnlyCalls_refl _ s)
  · exact OnlyCalls_lock env _ rfl (OnlyCalls_lock env _ rfl (OnlyCalls_refl _ s))
  · exact OnlyCalls_lock env _ rfl (OnlyCalls_lock env _ rfl (OnlyCalls_refl _ s))
  · exact OnlyCalls_lock env _ rfl (OnlyCalls_refl _ s)

theorem sendSynch_noClock (K : Consts) (env : Env) (pMsg : Buf) (s : State) :
    clockReadings (eventsSince s (NPI_SPI_SendSynchData K env pMsg s).2.2) = [] := by
  have h1 := sendSynch_body_noClock K env (NPI_SPI_SendSynchData_lock K env s).ret pMsg s _
    (sendSynch_lock_noClock K env s)
  have h2 : OnlyCalls (fun c => !c.isClock) s (NPI_SPI_SendSynchData K env pMsg s).2.2 := by
    unfold NPI_SPI_SendSynchData
    simp only []
    have hq := OnlyCalls_congr (pollLockVarClear_trace K
      (NPI_SPI_SendSynchData_body K env (NPI_SPI_SendSynchData_lock K env s).ret pMsg
        (NPI_SPI_SendSynchData_lock K env s).st).1
      (NPI_SPI_SendSynchData_body K env (NPI_SPI_SendSynchData_lock K env s).ret pMsg
        (NPI_SPI_SendSynchData_lock K env s).st).2.2) h1
    split_ifs
    · exact OnlyCalls_unlock env _ rfl (OnlyCalls_unlock env _ rfl hq)
    · exact OnlyCalls_unlock env _ rfl hq
    · exact OnlyCalls_unlock env _ rfl hq
    · exact hq
  obtain ⟨evs, he, hp⟩ := h2
  rw [eventsSince_ext s _ evs he]
  exact clockReadings_of_noClock evs hp

/-- C1, counterexample: with `PollLockVar` 0 on entry, every HAL call succeeding
and the slave ready to answer `01 61 0A 00`, but `pthread_mutex_lock(&npiPollLock)`
returning an error, `NPI_SPI_SendSynchData` returns `NPI_LNX_FAILURE`, makes no HAL
call at all and leaves the request in the buffer. -/
theorem C1_counterexample :
    (idleState 1 1).PollLockVar = 0 ∧
    HalSucceeds specConsts (answering (slaveEnv specConsts [0x01, 0x61, 0x0A] [0x00] 0)
      (.pthread_mutex_lock .npiPollLock) failResp) ∧
    (NPI_SPI_SendSynchData specConsts
      (answering (slaveEnv specConsts [0x01, 0x61, 0x0A] [0x00] 0)
        (.pthread_mutex_lock .npiPollLock) failResp)
      (bufOfList [0x02, 0x21, 0x0A, 0x01, 0x02]) (idleState 1 1)).1 =
      specConsts.NPI_LNX_FAILURE ∧
    halCalls (eventsSince (idleState 1 1) (NPI_SPI_SendSynchData specConsts
      (answering (slaveEnv specConsts [0x01, 0x61, 0x0A] [0x00] 0)
        (.pthread_mutex_lock .npiPollLock) failResp)
      (bufOfList [0x02, 0x21, 0x0A, 0x01, 0x02]) (idleState 1 1)).2.2) = [] ∧
    bufBytes (NPI_SPI_SendSynchData specConsts
      (answering (slaveEnv specConsts [0x01, 0x61, 0x0A] [0x00] 0)
        (.pthread_mutex_lock .npiPollLock) failResp)
      (bufOfList [0x02, 0x21, 0x0A, 0x01, 0x02]) (idleState 1 1)).2.1 0 5 =
      [0x02, 0x21, 0x0A, 0x01, 0x02] :=
  ⟨rfl, answering_succeeds _ _ _ _ (slaveEnv_succeeds _ _ _ _) rfl, rfl, rfl, rfl⟩

/-- C1, amended: with `PollLockVar` 0 on entry, every HAL call succeeding, every
call of `pthread_mutex_lock` returning 0, and the slave answering with a header
`h0 h1 h2` other than `FF FF FF` followed by `h0` payload bytes `p`,
`NPI_SPI_SendSynchData` returns success, issues exactly one SPI write, of the
`3 + len` request bytes with second byte `(subsys & RPC_SUBSYSTEM_MASK) |
RPC_CMD_SREQ`, and leaves the header in bytes 0..2 and the payload in bytes 3.. of
the caller's buffer. -/
theorem C1_sendSynch_roundtrip (K : Consts) (env : Env) (pMsg : Buf) (s : State)
    (h0 h1 h2 : uint8) (p : List uint8)
    (hP : s.PollLockVar = 0) (hal : HalSucceeds K env)
    (hlock : ∀ tr m, (env tr (.pthread_mutex_lock m)).ret = 0)
    (hhdr : ∀ tr, (env tr (.HalSpiRead 0 3)).data = [h0, h1, h2])
    (hpay : ∀ tr, (env tr (.HalSpiRead 3 h0.val)).data = p)
    (hlen : p.length = h0.val)
    (hlegal : ¬ (h0 = 0xFF ∧ h1 = 0xFF ∧ h2 = 0xFF)) :
    (NPI_SPI_SendSynchData K env pMsg s).1 = K.NPI_LNX_SUCCESS ∧
    (spiCalls (eventsSince s (NPI_SPI_SendSynchData K env pMsg s).2.2)).filter Call.isSpiWrite =
      [.HalSpiWrite ([pMsg 0, (pMsg 1 &&& K.RPC_SUBSYSTEM_MASK) ||| K.RPC_CMD_SREQ, pMsg 2]
          ++ bufBytes pMsg 3 (pMsg 0).val)] ∧
    bufBytes (NPI_SPI_SendSynchData K env pMsg s).2.1 0 (h0.val + 3) = [h0, h1, h2] ++ p := by
  have e1 : ∀ tr, (env tr .HAL_RNP_MRDY_CLR).ret = K.NPI_LNX_SUCCESS :=
    fun tr => hs_ret hal tr _ rfl
  have e2 : ∀ tr, (env tr .HAL_RNP_MRDY_SET).ret = K.NPI_LNX_SUCCESS :=
    fun tr => hs_ret hal tr _ rfl
  have e3 : ∀ tr, (env tr .HalGpioWaitSrdyClr).ret = K.NPI_LNX_SUCCESS :=
    fun tr => hs_ret hal tr _ rfl
  have e4 : ∀ tr d, (env tr (.HalSpiWrite d)).ret = K.NPI_LNX_SUCCESS :=
    fun tr d => hs_ret hal tr _ rfl
  have e5 : ∀ tr, (env tr .HalGpioWaitSrdySet).ret = K.NPI_LNX_SUCCESS :=
    fun tr => hs_ret hal tr _ rfl
  have e6 : ∀ tr a b, (env tr (.HalSpiRead a b)).ret = K.NPI_LNX_SUCCESS :=
    fun tr a b => hs_ret hal tr _ rfl
  have hill : ∀ b : Buf, illegalHeader (bufStore b 0 [h0, h1, h2]) = false := by
    intro b
    simp [illegalHeader]
    tauto
  have hx : xferBytes 3 [h0, h1, h2] = [h0, h1, h2] := xferBytes_eq _ _ rfl
  have hxp : xferBytes h0.val p = p := xferBytes_eq _ _ hlen
  cases hI : K.SRDY_INTERRUPT <;> cases (Decidable.em (s.earlyMrdyDeAssert = 1)) <;>
    cases (Nat.eq_zero_or_pos h0.val) <;>
  simp [NPI_SPI_SendSynchData, NPI_SPI_SendSynchData_lock, NPI_SPI_SendSynchData_body,
    NPI_SPI_SendSynchData_xfer, NPI_SPI_SendSynchData_srdySet, NPI_SPI_SendSynchData_frame,
    endOfTransaction, pollLockVarSet, pollLockVarClear, hI, hP, e1, e2, e3, e4, e5, e6, hlock,
    hhdr, hx, hill, eventsSince, spiCalls, Call.isSpi, Call.isSpiWrite, bufBytes_frame, bufSet,
    bufBytes_bufSet, PollLockVarError, RPC_FRAME_HDR_SZ, RPC_POS_CMD0, bufStore_low,
    memset0_low, *]
  all_goals first
    | (have hp0 : p = [] := List.length_eq_zero.mp (by omega)
       exact (by simp [hp0, bufBytes]))
    | (have hb := bufBytes_bufStore (memset0 (bufStore (memset0 (bufSet pMsg 1
          (pMsg 1 &&& K.RPC_SUBSYSTEM_MASK ||| K.RPC_CMD_SREQ)) 0 3) 0 [h0, h1, h2]) 3 h0.val) 3 p
       rw [hlen] at hb
       exact hb)

/-- Witness for C1: the request `02 21 0A 01 02` answered by `01 61 0A 00` leaves
`01 61 0A 00` in the buffer. -/
theorem C1_sendSynch_roundtrip_witness :
    (NPI_SPI_SendSynchData specConsts (slaveEnv specConsts [0x01, 0x61, 0x0A] [0x00] 0)
      (bufOfList [0x02, 0x21, 0x0A, 0x01, 0x02]) (idleState 1 1)).1 = 0 ∧
    (spiCalls (eventsSince (idleState 1 1)
      (NPI_SPI_SendSynchData specConsts (slaveEnv specConsts [0x01, 0x61, 0x0A] [0x00] 0)
        (bufOfList [0x02, 0x21, 0x0A, 0x01, 0x02]) (idleState 1 1)).2.2)).filter
        Call.isSpiWrite = [.HalSpiWrite [0x02, 0x21, 0x0A, 0x01, 0x02]] ∧
    bufBytes (NPI_SPI_SendSynchData specConsts (slaveEnv specConsts [0x01, 0x61, 0x0A] [0x00] 0)
      (bufOfList [0x02, 0x21, 0x0A, 0x01, 0x02]) (idleState 1 1)).2.1 0 4 =
      [0x01, 0x61, 0x0A, 0x00] :=
  C1_sendSynch_roundtrip specConsts (slaveEnv specConsts [0x01, 0x61, 0x0A] [0x00] 0)
    (bufOfList [0x02, 0x21, 0x0A, 0x01, 0x02]) (idleState 1 1) 0x01 0x61 0x0A [0x00]
    rfl (slaveEnv_succeeds _ _ _ _) (fun _ _ => rfl) (fun _ => rfl) (fun _ => rfl) rfl
    (by decide)

/-- C2: with `PollLockVar` 0 on entry and every HAL call succeeding,
`NPI_SPI_SendAsynchData` issues exactly the HAL calls assert MRDY, wait for SRDY
low, one SPI write of the `3 + len` bytes `len, (subsys & RPC_SUBSYSTEM_MASK) |
RPC_CMD_AREQ, cmd` followed by the payload, deassert MRDY, in this order; it
issues no SPI read and returns success. -/
theorem C2_sendAsynch_trace (K : Consts) (env : Env) (pMsg : Buf) (s : State)
    (hP : s.PollLockVar = 0) (hal : HalSucceeds K env) :
    halCalls (eventsSince s (NPI_SPI_SendAsynchData K env pMsg s).2.2) =
      [.HAL_RNP_MRDY_CLR, .HalGpioWaitSrdyClr,
       .HalSpiWrite ([pMsg 0, (pMsg 1 &&& K.RPC_SUBSYSTEM_MASK) ||| K.RPC_CMD_AREQ, pMsg 2]
          ++ bufBytes pMsg 3 (pMsg 0).val),
       .HAL_RNP_MRDY_SET] ∧
    ((bufBytes pMsg 3 (pMsg 0).val).length = (pMsg 0).val) ∧
    (halCalls (eventsSince s (NPI_SPI_SendAsynchData K env pMsg s).2.2)).filter Call.isSpiRead
      = [] ∧
    (NPI_SPI_SendAsynchData K env pMsg s).1 = K.NPI_LNX_SUCCESS := by
  have h1 : ∀ tr, (env tr .HAL_RNP_MRDY_CLR).ret = K.NPI_LNX_SUCCESS :=
    fun tr => hs_ret hal tr _ rfl
  have h2 : ∀ tr, (env tr .HAL_RNP_MRDY_SET).ret = K.NPI_LNX_SUCCESS :=
    fun tr => hs_ret hal tr _ rfl
  have h3 : ∀ tr, (env tr .HalGpioWaitSrdyClr).ret = K.NPI_LNX_SUCCESS :=
    fun tr => hs_ret hal tr _ rfl
  have h4 : ∀ tr d, (env tr (.HalSpiWrite d)).ret = K.NPI_LNX_SUCCESS :=
    fun tr d => hs_ret hal tr _ rfl
  cases hI : K.SRDY_INTERRUPT <;>
  simp [NPI_SPI_SendAsynchData, NPI_SPI_SendAsynchData_tail, pollLockVarSet, pollLockVarClear,
    hI, hP, h1, h2, h3, h4, eventsSince, halCalls, Call.isHal, Call.isSpiRead, bufBytes_frame,
    bufSet, bufBytes_bufSet, PollLockVarError]

/-- Witness for C2: the frame `len = 0, subsys = 0x41, cmd = 0x07` puts exactly
`[0x00, 0x41, 0x07]` on the wire. -/
theorem C2_sendAsynch_trace_witness :
    (idleState 1 1).PollLockVar = 0 ∧ HalSucceeds specConsts (slaveEnv specConsts [] [] 0) ∧
    halCalls (eventsSince (idleState 1 1)
      (NPI_SPI_SendAsynchData specConsts (slaveEnv specConsts [] [] 0)
        (bufOfList [0x00, 0x41, 0x07]) (idleState 1 1)).2.2) =
      [.HAL_RNP_MRDY_CLR, .HalGpioWaitSrdyClr, .HalSpiWrite [0x00, 0x41, 0x07],
       .HAL_RNP_MRDY_SET] ∧
    (NPI_SPI_SendAsynchData specConsts (slaveEnv specConsts [] [] 0)
        (bufOfList [0x00, 0x41, 0x07]) (idleState 1 1)).1 = 0 :=
  ⟨rfl, slaveEnv_succeeds _ _ _ _,
   (C2_sendAsynch_trace specConsts (slaveEnv specConsts [] [] 0) (bufOfList [0x00, 0x41, 0x07])
      (idleState 1 1) rfl (slaveEnv_succeeds _ _ _ _)).1,
   (C2_sendAsynch_trace specConsts (slaveEnv specConsts [] [] 0) (bufOfList [0x00, 0x41, 0x07])
      (idleState 1 1) rfl (slaveEnv_succeeds _ _ _ _)).2.2.2⟩

set_option maxRecDepth 100000 in
/-- C3, failing input: a pass of the poll thread in which SRDY is found asserted and
the slave answers the poll with the AREQ frame of header `7E 41 15` and 126 payload
bytes, a frame the protocol allows.  `npi_spi_pollData` returns success and the type
bits of the second byte are AREQ, but the payload read stores 126 bytes from offset 3
of `readbuf`, up to index 128, behind the 128 bytes of the array: the pass has no
defined result and so does not hand the callback the bytes read.  With 125 payload
bytes the pass hands the callback exactly the 128 bytes read. -/
theorem C3_long_frame_overruns_readbuf :
    (npi_poll_entry_begin specConsts
      (slaveEnv specConsts [0x7E, 0x41, 0x15] (List.replicate 126 0xAA) 0)
      freshLocals (idleState 1 0)).2.1 = TRUE ∧
    (npi_spi_pollData specConsts
      (slaveEnv specConsts [0x7E, 0x41, 0x15] (List.replicate 126 0xAA) 0)
      (pollFrame specConsts freshLocals.readbuf.mem)
      (npi_poll_entry_begin specConsts
        (slaveEnv specConsts [0x7E, 0x41, 0x15] (List.replicate 126 0xAA) 0)
        freshLocals (idleState 1 0)).2.2).1 = specConsts.NPI_LNX_SUCCESS ∧
    pollMemory specConsts (slaveEnv specConsts [0x7E, 0x41, 0x15] (List.replicate 126 0xAA) 0)
      freshLocals (idleState 1 0) 1 &&& specConsts.RPC_CMD_TYPE_MASK = specConsts.RPC_CMD_AREQ ∧
    spiCalls (pollEvents specConsts
      (slaveEnv specConsts [0x7E, 0x41, 0x15] (List.replicate 126 0xAA) 0)
      freshLocals (idleState 1 0)) =
      [.HalSpiWrite [0x00, 0x80, 0x00], .HalSpiRead 0 3, .HalSpiRead 3 126] ∧
    readbuf_size < (Call.HalSpiRead 3 126).storeEnd ∧
    npi_poll_entry_iter specConsts
      (slaveEnv specConsts [0x7E, 0x41, 0x15] (List.replicate 126 0xAA) 0)
      freshLocals (idleState 1 0) = none ∧
    (npi_poll_entry_iter specConsts
      (slaveEnv specConsts [0x7D, 0x41, 0x15] (List.replicate 125 0xAA) 0)
      freshLocals (idleState 1 0)).map (fun r => cbackCalls (eventsSince (idleState 1 0) r.st)) =
      some [.NPI_AsynchMsgCback ([0x7D, 0x41, 0x15] ++ List.replicate 125 0xAA)] :=
  ⟨rfl, rfl, by decide, rfl, by decide, rfl, rfl⟩

/-- C5: in every run of `NPI_SPI_SendSynchData` in which the header read
delivers `FF FF FF`, the call does not return success and the header read is its
only SPI read (the failure and success codes are taken to differ). -/
theorem C5_sendSynch_rejects_ff_header (K : Consts) (env : Env) (pMsg : Buf) (s : State)
    (hK : K.NPI_LNX_FAILURE ≠ K.NPI_LNX_SUCCESS) (e : Event)
    (he : e ∈ eventsSince s (NPI_SPI_SendSynchData K env pMsg s).2.2)
    (hc : e.call = .HalSpiRead 0 3) (hb : e.readBytes = [0xFF, 0xFF, 0xFF]) :
    (NPI_SPI_SendSynchData K env pMsg s).1 ≠ K.NPI_LNX_SUCCESS ∧
    readCalls (eventsSince s (NPI_SPI_SendSynchData K env pMsg s).2.2) = [.HalSpiRead 0 3] :=
  sendSynch_hdrFF K env pMsg s hK e he hc hb

/-- Witness for C5: the request `00 21 0A` answered by `FF FF FF`. -/
theorem C5_sendSynch_rejects_ff_header_witness :
    (NPI_SPI_SendSynchData specConsts (slaveEnv specConsts [0xFF, 0xFF, 0xFF] [] 0)
      (bufOfList [0x00, 0x21, 0x0A]) (idleState 1 1)).1 ≠ 0 ∧
    readCalls (eventsSince (idleState 1 1)
      (NPI_SPI_SendSynchData specConsts (slaveEnv specConsts [0xFF, 0xFF, 0xFF] [] 0)
        (bufOfList [0x00, 0x21, 0x0A]) (idleState 1 1)).2.2) = [.HalSpiRead 0 3] :=
  C5_sendSynch_rejects_ff_header specConsts (slaveEnv specConsts [0xFF, 0xFF, 0xFF] [] 0)
    (bufOfList [0x00, 0x21, 0x0A]) (idleState 1 1) (by decide)
    ⟨.HalSpiRead 0 3, okResp 0 [0xFF, 0xFF, 0xFF] ⟨0, 0⟩⟩ (by decide) rfl rfl

/-- C7, counterexample: with `detectResetFromSlowSrdyAssert` set, every HAL call
succeeding and SRDY going high 800 ms after the request write (the threshold of
the spec is 500 ms), `NPI_SPI_SendSynchData` returns success and `npi_ipc_errno`
stays 0. -/
theorem C7_counterexample :
    (idleState 1 1).detectResetFromSlowSrdyAssert = 1 ∧
    HalSucceeds specConsts (slaveEnv specConsts [0x01, 0x61, 0x0A] [0x00] 800000000) ∧
    halTimes (eventsSince (idleState 1 1)
      (NPI_SPI_SendSynchData specConsts (slaveEnv specConsts [0x01, 0x61, 0x0A] [0x00] 800000000)
        (bufOfList [0x02, 0x21, 0x0A, 0x01, 0x02]) (idleState 1 1)).2.2) =
      [(.HAL_RNP_MRDY_CLR, ⟨0, 0⟩), (.HalGpioWaitSrdyClr, ⟨0, 0⟩),
       (.HalSpiWrite [0x02, 0x21, 0x0A, 0x01, 0x02], ⟨0, 0⟩),
       (.HalGpioWaitSrdySet, ⟨0, 800000000⟩), (.HAL_RNP_MRDY_SET, ⟨0, 800000000⟩),
       (.HalSpiRead 0 3, ⟨0, 800000000⟩), (.HalSpiRead 3 1, ⟨0, 800000000⟩)] ∧
    (NPI_SPI_SendSynchData specConsts (slaveEnv specConsts [0x01, 0x61, 0x0A] [0x00] 800000000)
      (bufOfList [0x02, 0x21, 0x0A, 0x01, 0x02]) (idleState 1 1)).1 = 0 ∧
    (NPI_SPI_SendSynchData specConsts (slaveEnv specConsts [0x01, 0x61, 0x0A] [0x00] 800000000)
      (bufOfList [0x02, 0x21, 0x0A, 0x01, 0x02]) (idleState 1 1)).2.2.npi_ipc_errno = 0 :=
  ⟨rfl, slaveEnv_succeeds _ _ _ _, rfl, rfl, rfl⟩

/-- C7, amended: on no run of `NPI_SPI_SendSynchData`, whatever the HAL and the
mutex calls return, is the clock read, so that the function cannot measure the wait
for SRDY high.  With `PollLockVar` 0 on entry, every HAL call succeeding, every call
of `pthread_mutex_lock` returning 0 and the slave answering with a header other than
`FF FF FF`, the call returns success and leaves `npi_ipc_errno` as it was, whatever
`detectResetFromSlowSrdyAssert` is and however long the wait for SRDY high takes. -/
theorem C7_sendSynch_no_reset_detection (K : Consts) (env : Env) (pMsg : Buf) (s : State)
    (h0 h1 h2 : uint8) :
    clockReadings (eventsSince s (NPI_SPI_SendSynchData K env pMsg s).2.2) = [] ∧
    (s.PollLockVar = 0 → HalSucceeds K env →
      (∀ tr m, (env tr (.pthread_mutex_lock m)).ret = 0) →
      (∀ tr, (env tr (.HalSpiRead 0 3)).data = [h0, h1, h2]) →
      ¬ (h0 = 0xFF ∧ h1 = 0xFF ∧ h2 = 0xFF) →
      (NPI_SPI_SendSynchData K env pMsg s).1 = K.NPI_LNX_SUCCESS ∧
      (NPI_SPI_SendSynchData K env pMsg s).2.2.npi_ipc_errno = s.npi_ipc_errno) := by
  refine ⟨sendSynch_noClock K env pMsg s, fun hP hal hlock hhdr hlegal => ?_⟩
  have e1 : ∀ tr, (env tr .HAL_RNP_MRDY_CLR).ret = K.NPI_LNX_SUCCESS :=
    fun tr => hs_ret hal tr _ rfl
  have e2 : ∀ tr, (env tr .HAL_RNP_MRDY_SET).ret = K.NPI_LNX_SUCCESS :=
    fun tr => hs_ret hal tr _ rfl
  have e3 : ∀ tr, (env tr .HalGpioWaitSrdyClr).ret = K.NPI_LNX_SUCCESS :=
    fun tr => hs_ret hal tr _ rfl
  have e4 : ∀ tr d, (env tr (.HalSpiWrite d)).ret = K.NPI_LNX_SUCCESS :=
    fun tr d => hs_ret hal tr _ rfl
  have e5 : ∀ tr, (env tr .HalGpioWaitSrdySet).ret = K.NPI_LNX_SUCCESS :=
    fun tr => hs_ret hal tr _ rfl
  have e6 : ∀ tr a b, (env tr (.HalSpiRead a b)).ret = K.NPI_LNX_SUCCESS :=
    fun tr a b => hs_ret hal tr _ rfl
  have n1 : ∀ tr, (env tr .HAL_RNP_MRDY_CLR).errno = none := fun tr => hs_errno hal tr _ rfl
  have n2 : ∀ tr, (env tr .HAL_RNP_MRDY_SET).errno = none := fun tr => hs_errno hal tr _ rfl
  have n3 : ∀ tr, (env tr .HalGpioWaitSrdyClr).errno = none := fun tr => hs_errno hal tr _ rfl
  have n4 : ∀ tr d, (env tr (.HalSpiWrite d)).errno = none := fun tr d => hs_errno hal tr _ rfl
  have n5 : ∀ tr, (env tr .HalGpioWaitSrdySet).errno = none := fun tr => hs_errno hal tr _ rfl
  have n6 : ∀ tr a b, (env tr (.HalSpiRead a b)).errno = none :=
    fun tr a b => hs_errno hal tr _ rfl
  have hill : ∀ b : Buf, illegalHeader (bufStore b 0 [h0, h1, h2]) = false := by
    intro b
    simp [illegalHeader]
    tauto
  have hx : xferBytes 3 [h0, h1, h2] = [h0, h1, h2] := xferBytes_eq _ _ rfl
  cases hI : K.SRDY_INTERRUPT <;> cases (Decidable.em (s.earlyMrdyDeAssert = 1)) <;>
    cases (Nat.eq_zero_or_pos h0.val) <;>
  simp [NPI_SPI_SendSynchData, NPI_SPI_SendSynchData_lock, NPI_SPI_SendSynchData_body,
    NPI_SPI_SendSynchData_xfer, NPI_SPI_SendSynchData_srdySet, NPI_SPI_SendSynchData_frame,
    endOfTransaction, pollLockVarSet, pollLockVarClear, hI, hP, e1, e2, e3, e4, e5, e6, hlock,
    n1, n2, n3, n4, n5, n6, record_errno, Call.setsErrno,
    hhdr, hx, hill, PollLockVarError, RPC_FRAME_HDR_SZ, RPC_POS_CMD0, bufStore_low,
    memset0_low, *]

/-- Witness for the amended C7: the request `02 21 0A 01 02`, answered by
`01 61 0A 00` after SRDY took 800 ms to go high, with the detection flag set. -/
theorem C7_sendSynch_no_reset_detection_witness :
    clockReadings (eventsSince (idleState 1 1)
      (NPI_SPI_SendSynchData specConsts (slaveEnv specConsts [0x01, 0x61, 0x0A] [0x00] 800000000)
        (bufOfList [0x02, 0x21, 0x0A, 0x01, 0x02]) (idleState 1 1)).2.2) = [] ∧
    (NPI_SPI_SendSynchData specConsts (slaveEnv specConsts [0x01, 0x61, 0x0A] [0x00] 800000000)
      (bufOfList [0x02, 0x21, 0x0A, 0x01, 0x02]) (idleState 1 1)).1 = 0 ∧
    (NPI_SPI_SendSynchData specConsts (slaveEnv specConsts [0x01, 0x61, 0x0A] [0x00] 800000000)
      (bufOfList [0x02, 0x21, 0x0A, 0x01, 0x02]) (idleState 1 1)).2.2.npi_ipc_errno = 0 :=
  ⟨(C7_sendSynch_no_reset_detection specConsts
      (slaveEnv specConsts [0x01, 0x61, 0x0A] [0x00] 800000000)
      (bufOfList [0x02, 0x21, 0x0A, 0x01, 0x02]) (idleState 1 1) 0x01 0x61 0x0A).1,
   (C7_sendSynch_no_reset_detection specConsts
      (slaveEnv specConsts [0x01, 0x61, 0x0A] [0x00] 800000000)
      (bufOfList [0x02, 0x21, 0x0A, 0x01, 0x02]) (idleState 1 1) 0x01 0x61 0x0A).2
      rfl (slaveEnv_succeeds _ _ _ _) (fun _ _ => rfl) (fun _ => rfl) (by decide)⟩

/-- C10: in `NPI_SPI_SendSynchData` and in `npi_spi_pollData`, whatever the HAL
calls return, every `HAL_RNP_MRDY_CLR` call that returned success is followed,
before the function returns, by a `HAL_RNP_MRDY_SET` call. -/
theorem C10_mrdy_deasserted_on_every_path (K : Consts) (env : Env) (pMsg : Buf) (s : State) :
    (∀ pre e post, eventsSince s (NPI_SPI_SendSynchData K env pMsg s).2.2 = pre ++ e :: post →
      e.call = .HAL_RNP_MRDY_CLR → e.resp.ret = K.NPI_LNX_SUCCESS →
      ∃ e2 ∈ post, e2.call = .HAL_RNP_MRDY_SET) ∧
    (∀ pre e post, eventsSince s (npi_spi_pollData K env pMsg s).2.2 = pre ++ e :: post →
      e.call = .HAL_RNP_MRDY_CLR → e.resp.ret = K.NPI_LNX_SUCCESS →
      ∃ e2 ∈ post, e2.call = .HAL_RNP_MRDY_SET) :=
  ⟨mrdyReleased_spec K _ (sendSynch_mrdy K env pMsg s),
   mrdyReleased_spec K _ (pollData_mrdy K env pMsg s)⟩

/-- Witness for C10: a poll answered by `FF FF FF`, whose first call is the
successful MRDY assert. -/
theorem C10_mrdy_deasserted_on_every_path_witness :
    ∃ e2 ∈ (eventsSince (idleState 0 0)
        (npi_spi_pollData specConsts (slaveEnv specConsts [0xFF, 0xFF, 0xFF] [] 0)
          (bufOfList [0x00, 0x80, 0x00]) (idleState 0 0)).2.2).drop 1,
      e2.call = .HAL_RNP_MRDY_SET :=
  (C10_mrdy_deasserted_on_every_path specConsts (slaveEnv specConsts [0xFF, 0xFF, 0xFF] [] 0)
    (bufOfList [0x00, 0x80, 0x00]) (idleState 0 0)).2 []
    ⟨.HAL_RNP_MRDY_CLR, okResp 0 [] ⟨0, 0⟩⟩ _ rfl rfl rfl

/-- C11, failing run: `NPI_SPI_OpenDevice` succeeds at program start with
`srdyMrdyHandshakeSupport` off, `NPI_SPI_SynchSlave` returns success, and the
first `NPI_SPI_SendAsynchData` then writes its frame on the SPI bus without any
MRDY assert in the call: its HAL calls are the wait for SRDY low, the write and
the MRDY deassert. -/
theorem C11_write_without_mrdy_assert :
    (NPI_SPI_OpenDevice specConsts quietEnv (cfgWith 0) startState).1 = 0 ∧
    (NPI_SPI_SynchSlave specConsts quietEnv (openedState 0)).1 = 0 ∧
    (synchedState 0).PollLockVar = 1 ∧
    halCalls (eventsSince (synchedState 0)
      (NPI_SPI_SendAsynchData specConsts quietEnv (bufOfList [0x00, 0x41, 0x07])
        (synchedState 0)).2.2) =
      [.HalGpioWaitSrdyClr, .HalSpiWrite [0x00, 0x41, 0x07], .HAL_RNP_MRDY_SET] :=
  ⟨rfl, rfl, rfl, rfl⟩

/-- C12, failing run: `NPI_SPI_SendAsynchData` entered with `PollLockVar` 0 and
`HAL_RNP_MRDY_CLR` failing returns the error at once: the MRDY assert is its
last call, so no deassert and no unlock follows, `PollLockVar` stays 1 and both
mutexes stay held. -/
theorem C12_failed_assert_returns_early :
    (idleState 1 1).PollLockVar = 0 ∧
    (NPI_SPI_SendAsynchData specConsts (answering quietEnv .HAL_RNP_MRDY_CLR failResp)
      (bufOfList [0x00, 0x41, 0x07]) (idleState 1 1)).1 = -1 ∧
    (eventsSince (idleState 1 1)
      (NPI_SPI_SendAsynchData specConsts (answering quietEnv .HAL_RNP_MRDY_CLR failResp)
        (bufOfList [0x00, 0x41, 0x07]) (idleState 1 1)).2.2).map Event.call =
      [.pthread_mutex_lock .npiPollLock, .pthread_mutex_lock .npiSrdyLock,
       .HAL_RNP_MRDY_CLR] ∧
    (NPI_SPI_SendAsynchData specConsts (answering quietEnv .HAL_RNP_MRDY_CLR failResp)
      (bufOfList [0x00, 0x41, 0x07]) (idleState 1 1)).2.2.PollLockVar = 1 ∧
    (NPI_SPI_SendAsynchData specConsts (answering quietEnv .HAL_RNP_MRDY_CLR failResp)
      (bufOfList [0x00, 0x41, 0x07]) (idleState 1 1)).2.2.held .npiPollLock = true ∧
    (NPI_SPI_SendAsynchData specConsts (answering quietEnv .HAL_RNP_MRDY_CLR failResp)
      (bufOfList [0x00, 0x41, 0x07]) (idleState 1 1)).2.2.held .npiSrdyLock = true :=
  ⟨rfl, rfl, rfl, rfl, rfl, rfl⟩

/-- C13, failing runs: entered as after a successful open (`npiPollLock` held,
`PollLockVar` 1), `NPI_SPI_SynchSlave` with the handshake support off releases
the mutex but returns with `PollLockVar` still 1; with the handshake support on
and `HAL_RNP_MRDY_CLR` failing it returns the error with `npiPollLock` still held
and `PollLockVar` still 1. -/
theorem C13_synchSlave_keeps_PollLockVar :
    ((openedState 0).held .npiPollLock = true ∧ (openedState 0).PollLockVar = 1 ∧
      (NPI_SPI_SynchSlave specConsts quietEnv (openedState 0)).2.held .npiPollLock = false ∧
      (NPI_SPI_SynchSlave specConsts quietEnv (openedState 0)).2.PollLockVar = 1) ∧
    ((openedState 1).held .npiPollLock = true ∧ (openedState 1).PollLockVar = 1 ∧
      (NPI_SPI_SynchSlave specConsts (answering quietEnv .HAL_RNP_MRDY_CLR failResp)
        (openedState 1)).1 = -1 ∧
      (NPI_SPI_SynchSlave specConsts (answering quietEnv .HAL_RNP_MRDY_CLR failResp)
        (openedState 1)).2.held .npiPollLock = true ∧
      (NPI_SPI_SynchSlave specConsts (answering quietEnv .HAL_RNP_MRDY_CLR failResp)
        (openedState 1)).2.PollLockVar = 1) :=
  ⟨⟨rfl, rfl, rfl, rfl⟩, ⟨rfl, rfl, rfl, rfl, rfl⟩⟩

/-- C14, failing runs: entered with `PollLockVar` already 1 and nothing failing,
`NPI_SPI_SendAsynchData` stores the lock-variable error code but then waits for
SRDY, writes its frame, deasserts MRDY and returns success; a pass of the poll
thread stores the code and then polls the slave, with MRDY assert, SPI write and
SPI reads. -/
theorem C14_transfer_after_PollLockVarError :
    ((NPI_SPI_SendAsynchData specConsts quietEnv (bufOfList [0x00, 0x41, 0x07])
        busyState).2.2.npi_ipc_errno = specConsts.NPI_LNX_ERROR_SPI_POLL_LOCK_VAR_ERROR ∧
      halCalls (eventsSince busyState
        (NPI_SPI_SendAsynchData specConsts quietEnv (bufOfList [0x00, 0x41, 0x07])
          busyState).2.2) =
        [.HalGpioWaitSrdyClr, .HalSpiWrite [0x00, 0x41, 0x07], .HAL_RNP_MRDY_SET] ∧
      (NPI_SPI_SendAsynchData specConsts quietEnv (bufOfList [0x00, 0x41, 0x07])
        busyState).1 = specConsts.NPI_LNX_SUCCESS) ∧
    ((npi_poll_entry_iter specConsts (slaveEnv specConsts [0x03, 0x41, 0x15] [0xAA, 0xBB, 0xCC] 0)
        freshLocals busyState).map (fun r => r.st.npi_ipc_errno) =
        some specConsts.NPI_LNX_ERROR_SPI_POLL_LOCK_VAR_ERROR ∧
      (npi_poll_entry_iter specConsts
          (slaveEnv specConsts [0x03, 0x41, 0x15] [0xAA, 0xBB, 0xCC] 0)
          freshLocals busyState).map (fun r => halCalls (eventsSince busyState r.st)) =
        some [.HalGpioSrdyCheck 0, .HAL_RNP_MRDY_CLR, .HalSpiWrite [0x00, 0x80, 0x00],
         .HalGpioWaitSrdySet, .HAL_RNP_MRDY_SET, .HalSpiRead 0 3, .HalSpiRead 3 3]) :=
  ⟨⟨rfl, rfl, rfl⟩, ⟨rfl, rfl⟩⟩
/-- C15: on every run of `NPI_SPI_SendSynchData` and of `npi_spi_pollData` in
which every HAL call succeeds and the function returns success, the HAL calls
are exactly: MRDY assert, (for the send: wait for SRDY low,) the write, the wait
for SRDY high, then, when `earlyMrdyDeAssert` is TRUE, the MRDY deassert, then the
3-byte header read, the payload read if there is one, and, when
`earlyMrdyDeAssert` is not TRUE, the MRDY deassert as last call; so MRDY is
deasserted exactly once (the failure and success codes are taken to differ). -/
theorem C15_mrdy_deasserted_once (K : Consts) (env : Env) (pMsg : Buf) (s : State)
    (hal : HalSucceeds K env) (hK : K.NPI_LNX_FAILURE ≠ K.NPI_LNX_SUCCESS) :
    ((NPI_SPI_SendSynchData K env pMsg s).1 = K.NPI_LNX_SUCCESS →
      halCalls (eventsSince s (NPI_SPI_SendSynchData K env pMsg s).2.2) =
        [.HAL_RNP_MRDY_CLR, .HalGpioWaitSrdyClr,
         .HalSpiWrite ([pMsg 0, (pMsg 1 &&& K.RPC_SUBSYSTEM_MASK) ||| K.RPC_CMD_SREQ, pMsg 2]
            ++ bufBytes pMsg 3 (pMsg 0).val),
         .HalGpioWaitSrdySet] ++
        (if s.earlyMrdyDeAssert = 1 then [.HAL_RNP_MRDY_SET] else []) ++
        [.HalSpiRead 0 3] ++
        (if 0 < ((NPI_SPI_SendSynchData K env pMsg s).2.1 0).val
         then [.HalSpiRead 3 ((NPI_SPI_SendSynchData K env pMsg s).2.1 0).val] else []) ++
        (if s.earlyMrdyDeAssert = 1 then [] else [.HAL_RNP_MRDY_SET]) ∧
      mrdySetCalls (eventsSince s (NPI_SPI_SendSynchData K env pMsg s).2.2) =
        [.HAL_RNP_MRDY_SET]) ∧
    ((npi_spi_pollData K env pMsg s).1 = K.NPI_LNX_SUCCESS →
      halCalls (eventsSince s (npi_spi_pollData K env pMsg s).2.2) =
        [.HAL_RNP_MRDY_CLR, .HalSpiWrite (bufBytes pMsg 0 ((pMsg 0).val + 3)),
         .HalGpioWaitSrdySet] ++
        (if s.earlyMrdyDeAssert = 1 then [.HAL_RNP_MRDY_SET] else []) ++
        [.HalSpiRead 0 3] ++
        (if illegalHeader (npi_spi_pollData K env pMsg s).2.1 = false ∧
            0 < ((npi_spi_pollData K env pMsg s).2.1 0).val
         then [.HalSpiRead 3 ((npi_spi_pollData K env pMsg s).2.1 0).val] else []) ++
        (if s.earlyMrdyDeAssert = 1 then [] else [.HAL_RNP_MRDY_SET]) ∧
      mrdySetCalls (eventsSince s (npi_spi_pollData K env pMsg s).2.2) =
        [.HAL_RNP_MRDY_SET]) := by
  refine ⟨fun h => ?_, fun h => ?_⟩
  · have hc := sendSynch_halCalls K env pMsg s hal hK h
    refine ⟨hc, ?_⟩
    rw [mrdySetCalls_eq, hc]
    apply mrdySetCalls_once
    · rfl
    · rfl
    · split_ifs <;> rfl
  · have hc := pollData_halCalls K env pMsg s hal hK h
    refine ⟨hc, ?_⟩
    rw [mrdySetCalls_eq, hc]
    apply mrdySetCalls_once
    · rfl
    · rfl
    · split_ifs <;> rfl

/-- Witness for C15: the request `02 21 0A 01 02` answered by `01 61 0A 00`, with
`earlyMrdyDeAssert` FALSE: the deassert is the last HAL call. -/
theorem C15_mrdy_deasserted_once_witness :
    halCalls (eventsSince (idleState 0 1)
      (NPI_SPI_SendSynchData specConsts (slaveEnv specConsts [0x01, 0x61, 0x0A] [0x00] 0)
        (bufOfList [0x02, 0x21, 0x0A, 0x01, 0x02]) (idleState 0 1)).2.2) =
      [.HAL_RNP_MRDY_CLR, .HalGpioWaitSrdyClr, .HalSpiWrite [0x02, 0x21, 0x0A, 0x01, 0x02],
       .HalGpioWaitSrdySet, .HalSpiRead 0 3, .HalSpiRead 3 1, .HAL_RNP_MRDY_SET] :=
  (((C15_mrdy_deasserted_once specConsts (slaveEnv specConsts [0x01, 0x61, 0x0A] [0x00] 0)
    (bufOfList [0x02, 0x21, 0x0A, 0x01, 0x02]) (idleState 0 1) (slaveEnv_succeeds _ _ _ _)
    (by decide)).1 rfl).1).trans rfl

set_option maxRecDepth 100000 in
/-- C16, failing run: a pass of the poll thread in which the slave's header
announces `len = 250` reads 250 payload bytes to offset 3 of `readbuf`, that is
up to index 252, although `readbuf` has 128 bytes; the byte at index 252, behind
the array, is stored, and the pass has no defined result. -/
theorem C16_poll_reads_past_readbuf :
    spiCalls (pollEvents specConsts
        (slaveEnv specConsts [0xFA, 0x41, 0x15] (List.replicate 250 0xAA) 0)
        freshLocals (idleState 1 1)) =
      [.HalSpiWrite [0x00, 0x80, 0x00], .HalSpiRead 0 3, .HalSpiRead 3 250] ∧
    readbuf_size < (Call.HalSpiRead 3 250).storeEnd ∧
    pollMemory specConsts
      (slaveEnv specConsts [0xFA, 0x41, 0x15] (List.replicate 250 0xAA) 0)
      freshLocals (idleState 1 1) 252 = 0xAA ∧
    npi_poll_entry_iter specConsts
      (slaveEnv specConsts [0xFA, 0x41, 0x15] (List.replicate 250 0xAA) 0)
      freshLocals (idleState 1 1) = none :=
  ⟨rfl, by decide, rfl, rfl⟩

/-- C17: when `npiOpenFlag` is set, `NPI_SPI_OpenDevice` returns
`NPI_LNX_FAILURE` with `npi_ipc_errno = NPI_LNX_ERROR_SPI_OPEN_ALREADY_OPEN`, makes
no call at all, and leaves the open flag, the four configuration flags and
`PollLockVar` as they were. -/
theorem C17_open_when_already_open (K : Consts) (env : Env) (pCfg : npiSpiCfg_t) (s : State)
    (h : s.npiOpenFlag ≠ 0) :
    (NPI_SPI_OpenDevice K env pCfg s).1 = K.NPI_LNX_FAILURE ∧
    (NPI_SPI_OpenDevice K env pCfg s).2.npi_ipc_errno = K.NPI_LNX_ERROR_SPI_OPEN_ALREADY_OPEN ∧
    (NPI_SPI_OpenDevice K env pCfg s).2.trace = s.trace ∧
    (NPI_SPI_OpenDevice K env pCfg s).2.npiOpenFlag = s.npiOpenFlag ∧
    (NPI_SPI_OpenDevice K env pCfg s).2.earlyMrdyDeAssert = s.earlyMrdyDeAssert ∧
    (NPI_SPI_OpenDevice K env pCfg s).2.detectResetFromSlowSrdyAssert =
      s.detectResetFromSlowSrdyAssert ∧
    (NPI_SPI_OpenDevice K env pCfg s).2.forceRun = s.forceRun ∧
    (NPI_SPI_OpenDevice K env pCfg s).2.srdyMrdyHandshakeSupport = s.srdyMrdyHandshakeSupport ∧
    (NPI_SPI_OpenDevice K env pCfg s).2.PollLockVar = s.PollLockVar := by
  rw [openDevice_already_open K env pCfg s h]
  exact ⟨rfl, rfl, rfl, rfl, rfl, rfl, rfl, rfl, rfl⟩

/-- Witness for C17: a second open of the opened device, with other flags. -/
theorem C17_open_when_already_open_witness :
    (NPI_SPI_OpenDevice specConsts quietEnv ⟨0, 0, 0x07, 0⟩ (openedState 1)).1 = -1 ∧
    (NPI_SPI_OpenDevice specConsts quietEnv ⟨0, 0, 0x07, 0⟩ (openedState 1)).2.trace =
      (openedState 1).trace :=
  ⟨(C17_open_when_already_open specConsts quietEnv ⟨0, 0, 0x07, 0⟩ (openedState 1)
      (by decide)).1,
   (C17_open_when_already_open specConsts quietEnv ⟨0, 0, 0x07, 0⟩ (openedState 1)
      (by decide)).2.2.1⟩
/-- C18, failing run: `NPI_SPI_OpenDevice` called at program start with
`HalGpioResetInit` failing returns `NPI_LNX_FAILURE`, but the open flag is now set
and the flags of the configuration have been stored, so the state is not the one
before the call, and an open that follows is rejected as already open. -/
theorem C18_failed_open_keeps_open_flag :
    startState.npiOpenFlag = 0 ∧ startState.earlyMrdyDeAssert = 1 ∧
    (NPI_SPI_OpenDevice specConsts (answering quietEnv .HalGpioResetInit failResp)
      ⟨0, 0, 0x07, 0⟩ startState).1 = specConsts.NPI_LNX_FAILURE ∧
    (NPI_SPI_OpenDevice specConsts (answering quietEnv .HalGpioResetInit failResp)
      ⟨0, 0, 0x07, 0⟩ startState).2.npiOpenFlag = 1 ∧
    (NPI_SPI_OpenDevice specConsts (answering quietEnv .HalGpioResetInit failResp)
      ⟨0, 0, 0x07, 0⟩ startState).2.earlyMrdyDeAssert = 0 ∧
    (NPI_SPI_OpenDevice specConsts quietEnv ⟨0, 0, 0x07, 0⟩
      (NPI_SPI_OpenDevice specConsts (answering quietEnv .HalGpioResetInit failResp)
        ⟨0, 0, 0x07, 0⟩ startState).2).1 = specConsts.NPI_LNX_FAILURE ∧
    (NPI_SPI_OpenDevice specConsts quietEnv ⟨0, 0, 0x07, 0⟩
      (NPI_SPI_OpenDevice specConsts (answering quietEnv .HalGpioResetInit failResp)
        ⟨0, 0, 0x07, 0⟩ startState).2).2.npi_ipc_errno =
      specConsts.NPI_LNX_ERROR_SPI_OPEN_ALREADY_OPEN :=
  ⟨rfl, rfl, rfl, rfl, rfl, rfl, rfl⟩

/-- C19, what the code does: with `srdyMrdyHandshakeSupport` set, `PollLockVar` 1
on entry and every HAL call succeeding, `NPI_SPI_SynchSlave` makes exactly the HAL
calls wait for SRDY low, assert MRDY, wait for SRDY high, deassert MRDY, read
SRDY, in this order, and returns the value that the read of SRDY,
`HalGpioSrdyCheck(1)`, returned. -/
theorem C19_synchSlave_returns_srdy_read (K : Consts) (env : Env) (s : State)
    (hH : s.srdyMrdyHandshakeSupport = 1) (hP : s.PollLockVar = 1)
    (hal : HalSucceeds K env) :
    halCalls (eventsSince s (NPI_SPI_SynchSlave K env s).2) =
      [.HalGpioWaitSrdyClr, .HAL_RNP_MRDY_CLR, .HalGpioWaitSrdySet, .HAL_RNP_MRDY_SET,
       .HalGpioSrdyCheck 1] ∧
    ∃ e ∈ eventsSince s (NPI_SPI_SynchSlave K env s).2,
      e.call = .HalGpioSrdyCheck 1 ∧ (NPI_SPI_SynchSlave K env s).1 = e.resp.ret :=
  synchSlave_handshake K env s hH hP hal

/-- Witness for C19, the failing run: after a successful open, with the final read
answering `TRUE` (SRDY high), `NPI_SPI_SynchSlave` returns 1, which is `TRUE` and
not the success code 0; with the read answering `FALSE` (SRDY low) it returns
0. -/
theorem C19_synchSlave_returns_srdy_read_witness :
    halCalls (eventsSince (openedState 1)
      (NPI_SPI_SynchSlave specConsts
        (answering quietEnv (.HalGpioSrdyCheck 1) (okResp TRUE [] ⟨0, 0⟩))
        (openedState 1)).2) =
      [.HalGpioWaitSrdyClr, .HAL_RNP_MRDY_CLR, .HalGpioWaitSrdySet, .HAL_RNP_MRDY_SET,
       .HalGpioSrdyCheck 1] ∧
    (NPI_SPI_SynchSlave specConsts
      (answering quietEnv (.HalGpioSrdyCheck 1) (okResp TRUE [] ⟨0, 0⟩))
      (openedState 1)).1 = 1 ∧
    specConsts.NPI_LNX_SUCCESS = 0 ∧
    (NPI_SPI_SynchSlave specConsts
      (answering quietEnv (.HalGpioSrdyCheck 1) (okResp FALSE [] ⟨0, 0⟩))
      (openedState 1)).1 = 0 :=
  ⟨(C19_synchSlave_returns_srdy_read specConsts
      (answering quietEnv (.HalGpioSrdyCheck 1) (okResp TRUE [] ⟨0, 0⟩)) (openedState 1)
      rfl rfl (answering_succeeds _ _ _ _ (slaveEnv_succeeds _ _ _ _) rfl)).1,
   rfl, rfl, rfl⟩

/-- C20, failing input: with the previous SRDY assert stamped 10 s and the current
one 11.05 s, an inter-arrival of 1050 ms, the event thread sets the poll timeout
to 50 ms, where the clamp of the full elapsed time is 100 ms: the code takes the
difference of the nanosecond fields alone.  The three inter-arrivals of the
claim, 1 ms, 50 ms and 500 ms, give 3, 50 and 100. -/
theorem C20_timeout_ignores_seconds :
    (npi_event_entry_adjust
      (answering quietEnv (.clock_gettime .CLOCK_MONOTONIC) (okResp 0 [] ⟨11, 50000000⟩))
      100 ⟨10, 0⟩ (idleState 1 1)).1 = 50 ∧
    specTimeout ⟨11, 50000000⟩ ⟨10, 0⟩ = 100 ∧
    npi_event_entry_timeout ⟨10, 1000000⟩ ⟨10, 0⟩ 100 = 3 ∧
    npi_event_entry_timeout ⟨10, 50000000⟩ ⟨10, 0⟩ 100 = 50 ∧
    npi_event_entry_timeout ⟨10, 500000000⟩ ⟨10, 0⟩ 3 = 100 :=
  ⟨by decide, by decide, by decide, by decide, by decide⟩

set_option maxRecDepth 1000000 in
/-- C21, failing input: the event thread in rapid-poll mode (`timeout` 3 ms,
`consecutiveTimeout` 0) runs 100 passes on each of which `poll` times out, the
try-lock of `npiSrdyLock` succeeds and SRDY is read high.  After these 100
consecutive timeouts `timeout` is still 3 and the counter stands at 100: the test
of lines 1619-1620 is `consecutiveTimeout > 100`, so the reset to 100 ms happens on
the 101st timeout, where the comments of lines 1615-1623 speak of 100 timeouts. -/
theorem C21_timeout_reset_after_101 :
    ((npi_event_entry_loop specConsts timeoutEnv false 100 rapidPoll
        (idleState 1 1)).2.trace.map Event.call =
      (List.replicate 100 [Call.poll 0 3, .pthread_mutex_trylock .npiSrdyLock,
        .HalGpioSrdyCheck 1, .pthread_mutex_unlock .npiSrdyLock]).flatten) ∧
    (∀ tr fd t, (timeoutEnv tr (.poll fd t)).ret = 0) ∧
    (∀ tr, (timeoutEnv tr (.HalGpioSrdyCheck 1)).ret = TRUE) ∧
    rapidPoll.timeout = 3 ∧ rapidPoll.consecutiveTimeout = 0 ∧
    (npi_event_entry_loop specConsts timeoutEnv false 100 rapidPoll
      (idleState 1 1)).1.timeout = 3 ∧
    (npi_event_entry_loop specConsts timeoutEnv false 100 rapidPoll
      (idleState 1 1)).1.consecutiveTimeout = 100 ∧
    (npi_event_entry_loop specConsts timeoutEnv false 101 rapidPoll
      (idleState 1 1)).1.timeout = 100 ∧
    (npi_event_entry_loop specConsts timeoutEnv false 101 rapidPoll
      (idleState 1 1)).1.consecutiveTimeout = 0 :=
  ⟨rfl, fun _ _ _ => rfl, fun _ => rfl, rfl, rfl, rfl, rfl, rfl, rfl⟩

set_option maxRecDepth 100000 in
/-- C22, counterexample: the file `cfgFile "1" ..` followed by the line
`forceRunOnReset=1FF` of its section `SPI`.  The value of the key is `1FF`, which
`strtol` reads in base 16 as 511, but the field `forceRunOnReset` is a `uint8` and
holds 255, the number that stands for an absent key. -/
theorem C22_counterexample :
    cfgValue (some (cfgFile "1" "log=\x22/tmp/npi.log\x22" ++ "forceRunOnReset=1FF\n".toList))
      "SPI".toList "forceRunOnReset".toList = some "1FF".toList ∧
    strtol specCfgConsts "1FF".toList 16 = 511 ∧
    (getSerialConfiguration specConsts specCfgConsts
      (some (cfgFile "1" "log=\x22/tmp/npi.log\x22" ++ "forceRunOnReset=1FF\n".toList))
      blankCfg 0).map (fun r => (r.retVal, r.serialCfg.devIdx, r.serialCfg.forceRunOnReset)) =
      some (specConsts.NPI_LNX_SUCCESS, NPI_SERVER_DEVICE_INDEX_SPI, 255) :=
  ⟨rfl, rfl, rfl⟩

/-- C22, amended: in a build with `NPI_SPI`, when the device index stored for the
value of `DEVICE.deviceKey` (its first character minus the digit 0) is that of SPI,
`getSerialConfiguration` returns on every file on which none of its searches runs
into undefined behaviour, and whenever it returns each SPI field holds the number
of its key (`cfgNumber`: the value of the key converted by `strtol` in the given
base, clamped to the range of `long`, when `SerialConfigParser` finds the key, the
default when it does not) after the conversion to the type of the field, which for
the `uint8` fields `forceRunOnReset`, `earlyMrdyDeAssert`,
`detectResetFromSlowSrdyAssert` and `srdyMrdyHandshakeSupport` is the number modulo
256.  The keys, bases and defaults are `SPI.speed` (10, 500000), `SPI.mode` (16, 0),
`SPI.bitsPerWord` (10, 8), `SPI.forceRunOnReset` (16, `NPI_LNX_UINT8_ERROR`) and
`MRDY_SRDY.useFullDuplexAPI`, `earlyMrdyDeAssert`, `detectResetFromSlowSrdyAssert`,
`srdyMrdyHandshakeSupport` (10, `TRUE`). -/
theorem C22_spi_fields (K : Consts) (C : CfgConsts) (fd : Option (List Char))
    (serialCfg : npiSerialCfg_t) (e : Int) (v : List Char)
    (hK : K.NPI_LNX_SUCCESS ≠ K.NPI_LNX_FAILURE) (hS : C.NPI_SPI = true)
    (hkey : cfgValue fd "DEVICE".toList "deviceKey".toList = some v)
    (hv : C.conv .devIdx (firstDigit v) = NPI_SERVER_DEVICE_INDEX_SPI) :
    ((∀ p ∈ cfgLookups, cfgNoFault fd p.1 p.2) →
      ∃ r, getSerialConfiguration K C fd serialCfg e = some r) ∧
    ∀ r, getSerialConfiguration K C fd serialCfg e = some r →
      r.serialCfg.devIdx = NPI_SERVER_DEVICE_INDEX_SPI ∧
      r.serialCfg.spiCfg_speed =
        C.conv .spi_speed (cfgNumber C fd "SPI".toList "speed".toList 10 500000) ∧
      r.serialCfg.spiCfg_mode =
        C.conv .spi_mode (cfgNumber C fd "SPI".toList "mode".toList 16 0) ∧
      r.serialCfg.spiCfg_bitsPerWord =
        C.conv .spi_bitsPerWord (cfgNumber C fd "SPI".toList "bitsPerWord".toList 10 8) ∧
      r.serialCfg.forceRunOnReset =
        toUint8
          (cfgNumber C fd "SPI".toList "forceRunOnReset".toList 16 C.NPI_LNX_UINT8_ERROR) ∧
      r.serialCfg.spiCfg_useFullDuplexAPI =
        C.conv .spi_useFullDuplexAPI
          (cfgNumber C fd "MRDY_SRDY".toList "useFullDuplexAPI".toList 10 TRUE) ∧
      r.serialCfg.earlyMrdyDeAssert =
        toUint8 (cfgNumber C fd "MRDY_SRDY".toList "earlyMrdyDeAssert".toList 10 TRUE) ∧
      r.serialCfg.detectResetFromSlowSrdyAssert =
        toUint8
          (cfgNumber C fd "MRDY_SRDY".toList "detectResetFromSlowSrdyAssert".toList 10 TRUE) ∧
      r.serialCfg.srdyMrdyHandshakeSupport =
        toUint8
          (cfgNumber C fd "MRDY_SRDY".toList "srdyMrdyHandshakeSupport".toList 10 TRUE) := by
  refine ⟨fun hf => ⟨_, getSerialConfiguration_eq K C fd serialCfg e hf⟩, fun r h => ?_⟩
  have hr := getSerialConfiguration_some K C fd serialCfg e r h
  subst hr
  have hd : (cfgResult K C fd serialCfg e).serialCfg.devIdx = NPI_SERVER_DEVICE_INDEX_SPI := by
    have hc := deviceResult_core K C fd (getSerialConfiguration_init K C fd serialCfg e)
    rw [hkey] at hc
    unfold cfgCore at hc
    simp only [Option.getD_some, Prod.mk.injEq] at hc
    rw [(cfgResult_core K C fd serialCfg e).1, hc.1, hv]
  exact ⟨hd, cfgResult_spi K C fd serialCfg e hK hS hd⟩

set_option maxRecDepth 100000 in
/-- Witness for C22: the file `cfgFile "1" ..` has `deviceKey=1`, `speed=2000000`,
`mode="10"`, `bitsPerWord="10"` and none of the other SPI keys.  The function returns
with device index 1, speed 2000000, mode 16 (the value "10" read in base 16),
bitsPerWord 10 (read in base 10), `forceRunOnReset` at its default
`NPI_LNX_UINT8_ERROR` (255) and `earlyMrdyDeAssert` at its default `TRUE`. -/
theorem C22_spi_fields_witness :
    ∃ r, getSerialConfiguration specConsts specCfgConsts
        (some (cfgFile "1" "log=\x22/tmp/npi.log\x22")) blankCfg 0 = some r ∧
      r.serialCfg.devIdx = NPI_SERVER_DEVICE_INDEX_SPI ∧
      r.serialCfg.spiCfg_speed = 2000000 ∧ r.serialCfg.spiCfg_mode = 16 ∧
      r.serialCfg.spiCfg_bitsPerWord = 10 ∧
      r.serialCfg.forceRunOnReset = 255 ∧
      r.serialCfg.earlyMrdyDeAssert = 1 :=
  ⟨cfgResult specConsts specCfgConsts (some (cfgFile "1" "log=\x22/tmp/npi.log\x22")) blankCfg 0,
    getSerialConfiguration_eq _ _ _ _ _ (cfgFaultFree_spec _ rfl),
    ((C22_spi_fields specConsts specCfgConsts (some (cfgFile "1" "log=\x22/tmp/npi.log\x22"))
      blankCfg 0 "1".toList (by decide) rfl rfl rfl).2 _
      (getSerialConfiguration_eq _ _ _ _ _ (cfgFaultFree_spec _ rfl))).1,
    ((C22_spi_fields specConsts specCfgConsts (some (cfgFile "1" "log=\x22/tmp/npi.log\x22"))
      blankCfg 0 "1".toList (by decide) rfl rfl rfl).2 _
      (getSerialConfiguration_eq _ _ _ _ _ (cfgFaultFree_spec _ rfl))).2.1.trans rfl,
    ((C22_spi_fields specConsts specCfgConsts (some (cfgFile "1" "log=\x22/tmp/npi.log\x22"))
      blankCfg 0 "1".toList (by decide) rfl rfl rfl).2 _
      (getSerialConfiguration_eq _ _ _ _ _ (cfgFaultFree_spec _ rfl))).2.2.1.trans rfl,
    ((C22_spi_fields specConsts specCfgConsts (some (cfgFile "1" "log=\x22/tmp/npi.log\x22"))
      blankCfg 0 "1".toList (by decide) rfl rfl rfl).2 _
      (getSerialConfiguration_eq _ _ _ _ _ (cfgFaultFree_spec _ rfl))).2.2.2.1.trans rfl,
    ((C22_spi_fields specConsts specCfgConsts (some (cfgFile "1" "log=\x22/tmp/npi.log\x22"))
      blankCfg 0 "1".toList (by decide) rfl rfl rfl).2 _
      (getSerialConfiguration_eq _ _ _ _ _ (cfgFaultFree_spec _ rfl))).2.2.2.2.1.trans rfl,
    ((C22_spi_fields specConsts specCfgConsts (some (cfgFile "1" "log=\x22/tmp/npi.log\x22"))
      blankCfg 0 "1".toList (by decide) rfl rfl rfl).2 _
      (getSerialConfiguration_eq _ _ _ _ _ (cfgFaultFree_spec _ rfl))).2.2.2.2.2.2.1.trans rfl⟩

set_option maxRecDepth 100000 in
/-- C23, failing input: the file `cfgFile "12" ..` has `deviceKey=12`, a device key
outside 0 .. 3, and every other required key.  `getSerialConfiguration` looks at the
first character of the value only: it stores the device index `strBuf[0] - '0'`,
which is 1, configures SPI and returns `NPI_LNX_SUCCESS`; with `deviceKey=4` the
`default` of the `switch` (lines 487-489) makes it return `NPI_LNX_FAILURE`. -/
theorem C23_deviceKey_12_accepted :
    cfgValue (some (cfgFile "12" "log=\x22/tmp/npi.log\x22")) "DEVICE".toList
      "deviceKey".toList = some "12".toList ∧
    (getSerialConfiguration specConsts specCfgConsts
      (some (cfgFile "12" "log=\x22/tmp/npi.log\x22")) blankCfg 0).map
        (fun r => (r.retVal, r.serialCfg.devIdx, r.serialCfg.spiCfg_speed)) =
      some (specConsts.NPI_LNX_SUCCESS, NPI_SERVER_DEVICE_INDEX_SPI, 2000000) ∧
    (getSerialConfiguration specConsts specCfgConsts
      (some (cfgFile "4" "log=\x22/tmp/npi.log\x22")) blankCfg 0).map
        (fun r => (r.retVal, r.serialCfg.devIdx)) =
      some (specConsts.NPI_LNX_FAILURE, 4) :=
  ⟨rfl, rfl, rfl⟩

set_option maxRecDepth 100000 in
/-- C24, counterexamples to the claim as stated.  The wanted section is recognised
by `strstr` on a line starting with `[`: in the file `[SPI_B]`, `mode="1"`, `[SPI]`,
`mode="2"` the first line holding `mode` inside section `SPI` is `mode="2"`, but the
header `[SPI_B]` is taken for the section and `1` is returned.  After the header
`[SPI]` the line buffer handed to `fgets` starts at the letter `S` and has 127
bytes left, while `fgets` is still told 128: a key line of 127 bytes with its
newline, here `mode="x..x"` with 119 letters, is stored one byte past the block and
the function has no defined result.  The claim also speaks of every key: for the
key `#k` the line `#k=""` is taken as a comment and nothing is found; for the key
`a=b` the line `a=b=""` returns `b`; for the key `[k` the line `[k=""` is taken as
a section header. -/
theorem C24_counterexample :
    SerialConfigParser specConsts specCfgConsts
      (some "[SPI_B]\nmode=\x221\x22\n[SPI]\nmode=\x222\x22\n".toList)
      "SPI".toList "mode".toList [] 0 = some (specConsts.NPI_LNX_SUCCESS, ['1'], 0) ∧
    ("mode=\x22".toList ++ List.replicate 119 'x' ++ "\x22\n".toList).length = 127 ∧
    SerialConfigParser specConsts specCfgConsts
      (some ("[SPI]\n".toList ++
        ("mode=\x22".toList ++ List.replicate 119 'x' ++ "\x22\n".toList)))
      "SPI".toList "mode".toList [] 0 = none ∧
    SerialConfigParser specConsts specCfgConsts (some "[SPI]\n#k=\x22\x22\n".toList)
      "SPI".toList "#k".toList [] 0 = some (specConsts.NPI_LNX_FAILURE, [], 0) ∧
    SerialConfigParser specConsts specCfgConsts (some "[SPI]\na=b=\x22\x22\n".toList)
      "SPI".toList "a=b".toList [] 0 = some (specConsts.NPI_LNX_SUCCESS, ['b'], 0) ∧
    SerialConfigParser specConsts specCfgConsts (some "[SPI]\n[k=\x22\x22\n".toList)
      "SPI".toList "[k".toList [] 0 = some (specConsts.NPI_LNX_FAILURE, [], 0) :=
  ⟨rfl, rfl, rfl, rfl, rfl, rfl⟩

/-- C24, amended: let `k` be a key (not empty, free of `=`, NUL and newline, not
starting with `[` or `#`), let the search for `k` in section `section_` through the
lines before (`pre` and its newline) go on behind them with `sectionFound` set, that
is inside what the parser takes for the section and without a line that holds `k`,
the matched headers having moved `resString` to the offset `off` of the line buffer
(1 after a header `[S]`), and let the key line `k="v"` with its newline and its
terminator fit into the 128 bytes of the buffer behind that offset.  If the line
that follows is `k=""`, `SerialConfigParser` returns `NPI_LNX_SUCCESS` and writes
the empty string; if it is `k="v"` with `v` not empty and free of `=`, `;`, double
quote, NUL and newline, it returns `NPI_LNX_SUCCESS` and writes `v`. -/
theorem C24_value_of_key_line (K : Consts) (C : CfgConsts)
    (section_ k v pre post resultString : List Char) (npi_ipc_errno : Int) (off : Nat)
    (hk : isKey k) (hv : isValue v) (hfit : off + k.length + v.length + 5 ≤ 128)
    (hpre : SerialConfigParser_search (pre ++ ['\n']) section_ k = .next true false off) :
    SerialConfigParser K C
      (some (pre ++ '\n' :: (k ++ '=' :: [DQUOTE, DQUOTE] ++ '\n' :: post)))
      section_ k resultString npi_ipc_errno = some (K.NPI_LNX_SUCCESS, [], npi_ipc_errno) ∧
    (v ≠ [] →
      SerialConfigParser K C
        (some (pre ++ '\n' :: (k ++ '=' :: (DQUOTE :: (v ++ [DQUOTE])) ++ '\n' :: post)))
        section_ k resultString npi_ipc_errno = some (K.NPI_LNX_SUCCESS, v, npi_ipc_errno)) := by
  obtain ⟨v1, v2, v3, v4, v5⟩ := hv
  refine ⟨?_, ?_⟩
  · unfold SerialConfigParser
    simp only
    rw [SerialConfigParser_search_line section_ k pre [DQUOTE, DQUOTE] post off hk (by decide)
      (by decide) (by simp only [List.length_append, List.length_cons, List.length_nil]; omega)
      hpre]
    rfl
  · intro hne
    unfold SerialConfigParser
    simp only
    rw [SerialConfigParser_search_line section_ k pre (DQUOTE :: (v ++ [DQUOTE])) post off hk
      (by simp only [List.mem_cons, List.mem_append, List.mem_singleton, List.not_mem_nil,
            or_false, not_or]; exact ⟨by decide, v4, by decide⟩)
      (by simp only [List.mem_cons, List.mem_append, List.mem_singleton, List.not_mem_nil,
            or_false, not_or]; exact ⟨by decide, v5, by decide⟩)
      (by simp only [List.length_append, List.length_cons, List.length_nil]; omega)
      hpre]
    have ht : ¬ (DQUOTE :: (v ++ [DQUOTE])).take 2 = [DQUOTE, DQUOTE] := by
      cases v with
      | nil => exact absurd rfl hne
      | cons c cs =>
        simp only [List.cons_append, List.take_succ_cons, List.take_zero, List.cons.injEq,
          and_true, true_and]
        intro hc; exact v3 (by simp [hc])
    rw [if_neg ht, strtok_quoted v hne v1 v2 v3]

/-- Witness for C24: the file `[SPI]`, `mode="10"`, `bits=8`, section `SPI`, key
`mode`, the header leaving `resString` at offset 1; with the line `mode=""` instead
the empty string is written. -/
theorem C24_value_of_key_line_witness :
    SerialConfigParser specConsts specCfgConsts
      (some ("[SPI]".toList ++ '\n' :: ("mode".toList ++ '=' :: [DQUOTE, DQUOTE] ++
        '\n' :: "bits=8\n".toList)))
      "SPI".toList "mode".toList "old".toList 0 = some (specConsts.NPI_LNX_SUCCESS, [], 0) ∧
    ("10".toList ≠ [] →
      SerialConfigParser specConsts specCfgConsts
        (some ("[SPI]".toList ++ '\n' :: ("mode".toList ++
          '=' :: (DQUOTE :: ("10".toList ++ [DQUOTE])) ++ '\n' :: "bits=8\n".toList)))
        "SPI".toList "mode".toList "old".toList 0 =
        some (specConsts.NPI_LNX_SUCCESS, "10".toList, 0)) :=
  C24_value_of_key_line specConsts specCfgConsts "SPI".toList "mode".toList "10".toList
    "[SPI]".toList "bits=8\n".toList "old".toList 0 1 (by decide) (by decide) (by decide)
    (by decide)

/-- C25: `NPI_SPI_SendSynchData` entered with `npiPollLock` free and `PollLockVar`
0, for every environment (every combination of outcomes of the HAL calls and of the
lock calls) in which unlocking `npiPollLock` succeeds: every GPIO or SPI call the
function makes is made while `PollLockVar` is 1, and it returns with `PollLockVar`
0 and `npiPollLock` released. -/
theorem C25_sendSynch_PollLockVar (K : Consts) (env : Env) (pMsg : Buf) (s : State)
    (hfree : s.held .npiPollLock = false) (h0 : s.PollLockVar = 0)
    (hu : ∀ tr, (env tr (.pthread_mutex_unlock .npiPollLock)).ret = 0) :
    (∀ p ∈ callsWithLockVar s (NPI_SPI_SendSynchData K env pMsg s).2.2,
      p.1.isHal = true → p.2 = 1) ∧
    (NPI_SPI_SendSynchData K env pMsg s).2.2.PollLockVar = 0 ∧
    (NPI_SPI_SendSynchData K env pMsg s).2.2.held .npiPollLock = false :=
  ⟨LockedCalls_spec (sendSynch_locked K env pMsg s hfree h0 hu).1,
    (sendSynch_locked K env pMsg s hfree h0 hu).2⟩

/-- Witness for C25: a request sent from the idle state while the SPI write fails.
The calls with the value of `PollLockVar` at each are as listed, and the function
returns the failure with `PollLockVar` 0 and `npiPollLock` released. -/
theorem C25_sendSynch_PollLockVar_witness :
    callsWithLockVar (idleState 1 1)
      (NPI_SPI_SendSynchData specConsts
        (answering quietEnv (.HalSpiWrite [0, 0x21, 0]) failResp)
        (bufOfList [0, 0x21, 0]) (idleState 1 1)).2.2 =
      [(.pthread_mutex_lock .npiPollLock, 0), (.pthread_mutex_lock .npiSrdyLock, 0),
       (.HAL_RNP_MRDY_CLR, 1), (.HalGpioWaitSrdyClr, 1), (.HalSpiWrite [0, 0x21, 0], 1),
       (.HAL_RNP_MRDY_SET, 1), (.pthread_mutex_unlock .npiPollLock, 0),
       (.pthread_mutex_unlock .npiSrdyLock, 0)] ∧
    (NPI_SPI_SendSynchData specConsts
      (answering quietEnv (.HalSpiWrite [0, 0x21, 0]) failResp)
      (bufOfList [0, 0x21, 0]) (idleState 1 1)).1 = specConsts.NPI_LNX_FAILURE ∧
    (∀ p ∈ callsWithLockVar (idleState 1 1)
        (NPI_SPI_SendSynchData specConsts
          (answering quietEnv (.HalSpiWrite [0, 0x21, 0]) failResp)
          (bufOfList [0, 0x21, 0]) (idleState 1 1)).2.2,
      p.1.isHal = true → p.2 = 1) ∧
    (NPI_SPI_SendSynchData specConsts
      (answering quietEnv (.HalSpiWrite [0, 0x21, 0]) failResp)
      (bufOfList [0, 0x21, 0]) (idleState 1 1)).2.2.PollLockVar = 0 ∧
    (NPI_SPI_SendSynchData specConsts
      (answering quietEnv (.HalSpiWrite [0, 0x21, 0]) failResp)
      (bufOfList [0, 0x21, 0]) (idleState 1 1)).2.2.held .npiPollLock = false :=
  ⟨rfl, rfl,
    C25_sendSynch_PollLockVar specConsts
      (answering quietEnv (.HalSpiWrite [0, 0x21, 0]) failResp)
      (bufOfList [0, 0x21, 0]) (idleState 1 1) rfl rfl (fun _ => rfl)⟩

/-- C26, failing input: entered as after a successful open with
`srdyMrdyHandshakeSupport` set, the initial `HalGpioWaitSrdyClr` answering
`NPI_LNX_FAILURE` (-1) and every later call succeeding, `NPI_SPI_SynchSlave` skips
the MRDY assert, goes on to `ret = HalGpioWaitSrdySet()`, which overwrites the
failure, and returns what the final `HalGpioSrdyCheck(1)` returned: 0 with SRDY
read low, 1 with SRDY read high, in neither case the failure of the first wait. -/
theorem C26_synchSlave_loses_first_failure :
    halCalls (eventsSince (openedState 1)
      (NPI_SPI_SynchSlave specConsts (answering quietEnv .HalGpioWaitSrdyClr failResp)
        (openedState 1)).2) =
      [.HalGpioWaitSrdyClr, .HalGpioWaitSrdySet, .HAL_RNP_MRDY_SET, .HalGpioSrdyCheck 1] ∧
    failResp.ret = specConsts.NPI_LNX_FAILURE ∧
    (NPI_SPI_SynchSlave specConsts (answering quietEnv .HalGpioWaitSrdyClr failResp)
      (openedState 1)).1 = 0 ∧
    specConsts.NPI_LNX_SUCCESS = 0 ∧
    (NPI_SPI_SynchSlave specConsts
      (answering (answering quietEnv .HalGpioWaitSrdyClr failResp)
        (.HalGpioSrdyCheck 1) (okResp TRUE [] ⟨0, 0⟩))
      (openedState 1)).1 = 1 :=
  ⟨rfl, rfl, rfl, rfl, rfl⟩

/-- C27: for every environment, that is for every sequence of results of `poll`,
of readings of SRDY and MRDY, of clock values and of outcomes of the mutex calls,
with or without debug tracing, and for every number `n` of passes: the event
thread, started by `npi_event_entry_start` (which sets `timeout` to 100), has
`timeout` within 3 .. 100 at the start of pass `n + 1` (or at the exit of the loop
if it has ended before), and every timeout it has handed to `poll` since its
start lies within 3 .. 100. -/
theorem C27_event_timeout_in_range (K : Consts) (env : Env) (bigDebug : Bool) (n : Nat)
    (srdy : Int) (prev : Timespec) (s : State) :
    (npi_event_entry_start K env srdy prev s).1.timeout = 100 ∧
    3 ≤ (npi_event_entry_loop K env bigDebug n (npi_event_entry_start K env srdy prev s).1
          (npi_event_entry_start K env srdy prev s).2).1.timeout ∧
    (npi_event_entry_loop K env bigDebug n (npi_event_entry_start K env srdy prev s).1
          (npi_event_entry_start K env srdy prev s).2).1.timeout ≤ 100 ∧
    ∀ t ∈ pollTimeouts (eventsSince s
        (npi_event_entry_loop K env bigDebug n (npi_event_entry_start K env srdy prev s).1
          (npi_event_entry_start K env srdy prev s).2).2),
      3 ≤ t ∧ t ≤ 100 := by
  obtain ⟨h1, h2, new, h3, h4⟩ := npi_event_entry_loop_polls K env bigDebug n
    (npi_event_entry_start K env srdy prev s).1 (npi_event_entry_start K env srdy prev s).2
    ⟨(by decide : (3 : Int) ≤ 100), (by decide : (100 : Int) ≤ 100)⟩
  have hs : s.trace <+: (npi_event_entry_start K env srdy prev s).2.trace := by
    simp [npi_event_entry_start, List.append_assoc]
  have hq : pollTimeouts (npi_event_entry_start K env srdy prev s).2.trace =
      pollTimeouts s.trace := by
    simp [npi_event_entry_start, Call.pollTimeout]
  refine ⟨rfl, h1.1, h1.2, ?_⟩
  rw [pollTimeouts_eventsSince s _ new (hs.trans h2) (by rw [h3, hq])]
  exact h4

set_option maxRecDepth 100000 in
/-- C28, failing inputs: `fgets(resString, 128, fd)` stores at most 127 characters,
so the test `strlen(resString) == 128` of line 559 never holds and no line is ever
held back.  One physical line of 134 bytes, `[SPI]` followed by 122 letters and
`speed=7`, selects the section `SPI` with its first 127 characters and supplies the
value 7 of `speed` with the rest; and the tail `[SPI]` of a comment line of 132
bytes selects the section `SPI`. -/
theorem C28_long_line_is_parsed :
    (∀ file buf, buf ∈ fgetsLines 128 127 file → (cstr buf).length ≠ 128) ∧
    ("[SPI]".toList ++ List.replicate 122 'x' ++ "speed=7".toList).length = 134 ∧
    SerialConfigParser specConsts specCfgConsts
      (some (("[SPI]".toList ++ List.replicate 122 'x' ++ "speed=7".toList) ++ ['\n']))
      "SPI".toList "speed".toList [] 0 = some (specConsts.NPI_LNX_SUCCESS, ['7'], 0) ∧
    ('#' :: List.replicate 126 'x' ++ "[SPI]".toList).length = 132 ∧
    SerialConfigParser specConsts specCfgConsts
      (some (('#' :: List.replicate 126 'x' ++ "[SPI]".toList) ++ "\nspeed=7\n".toList))
      "SPI".toList "speed".toList [] 0 = some (specConsts.NPI_LNX_SUCCESS, ['7'], 0) :=
  ⟨fgets_never_128, rfl, rfl, rfl, rfl⟩

set_option maxRecDepth 100000 in
/-- C29, counterexamples to the claim as stated, for section `SPI` and key `speed`.
With the final line `speed=a;b` (no newline) the value returned is `a`, not `a;`;
with the final line `speed=""` it is a null pointer that is dereferenced, and with
a newline after it the empty string is returned, not the two quotes.  After the
header `[SPI]` the line buffer handed to `fgets` starts at the letter `S` and has 127
bytes left: the final line `speed=x..x` of 126 bytes returns its 120 letters but the
last, while with a newline after it the line is stored one byte past the block and
the search has no defined result. -/
theorem C29_counterexample :
    SerialConfigParser_search "[SPI]\nspeed=a;b".toList "SPI".toList "speed".toList =
      .found ['a'] ∧
    SerialConfigParser_search "[SPI]\nspeed=\x22\x22".toList "SPI".toList "speed".toList =
      .fault ∧
    SerialConfigParser_search "[SPI]\nspeed=\x22\x22\n".toList "SPI".toList "speed".toList =
      .found [] ∧
    ("speed=".toList ++ List.replicate 120 'x').length = 126 ∧
    SerialConfigParser_search ("[SPI]\n".toList ++ ("speed=".toList ++ List.replicate 120 'x'))
      "SPI".toList "speed".toList = .found (List.replicate 119 'x') ∧
    SerialConfigParser_search
      ("[SPI]\n".toList ++ ("speed=".toList ++ List.replicate 120 'x') ++ ['\n'])
      "SPI".toList "speed".toList = .fault :=
  ⟨rfl, rfl, rfl, rfl, rfl, rfl⟩

/-- C29, amended: let `k` be a key (not empty, free of `=`, NUL and newline, not
starting with `[` or `#`), `v` a value of at least two characters free of `=`, `;`,
double quote, NUL and newline, let the search for `k` in section `section_` through
the lines before go on behind them with `sectionFound` set, that is inside what the
parser takes for the section and without a line that holds `k`, the matched headers
having moved `resString` to the offset `off` of the line buffer (1 after a header
`[S]`), and let the line `k=v` with a newline and its terminator fit into the 128
bytes of the buffer behind that offset.  If `k=v` is the final line and no newline
follows it, `SerialConfigParser` returns `NPI_LNX_SUCCESS` with `v` without its
last character; if a newline follows it, with `v`. -/
theorem C29_last_line_loses_a_character (K : Consts) (C : CfgConsts)
    (section_ k v pre resultString : List Char) (npi_ipc_errno : Int) (off : Nat)
    (hk : isKey k) (hv : isValue v) (h2 : 2 ≤ v.length)
    (hfit : off + k.length + v.length + 3 ≤ 128)
    (hpre : SerialConfigParser_search (pre ++ ['\n']) section_ k = .next true false off) :
    SerialConfigParser K C (some (pre ++ '\n' :: (k ++ '=' :: v))) section_ k resultString
      npi_ipc_errno = some (K.NPI_LNX_SUCCESS, v.dropLast, npi_ipc_errno) ∧
    SerialConfigParser K C (some (pre ++ '\n' :: (k ++ '=' :: v ++ ['\n']))) section_ k
      resultString npi_ipc_errno = some (K.NPI_LNX_SUCCESS, v, npi_ipc_errno) := by
  obtain ⟨v1, v2, v3, v4, v5⟩ := hv
  have hne : v ≠ [] := by intro h; rw [h] at h2; simp at h2
  have hd : v = v.dropLast ++ [v.getLast hne] := (List.dropLast_append_getLast hne).symm
  have hm : ∀ c, c ∉ v → c ∉ v.dropLast := fun c hc h => hc (List.mem_of_mem_dropLast h)
  have hdl : v.dropLast ≠ [] := by
    intro h
    have := List.length_dropLast v
    rw [h] at this; simp at this; omega
  refine ⟨?_, ?_⟩
  · have h := SerialConfigParser_search_last section_ k pre v.dropLast (v.getLast hne) off hk
      (hm _ v4) (hm _ v5) (fun h => v4 (h ▸ List.getLast_mem hne))
      (fun h => v5 (h ▸ List.getLast_mem hne))
      (by simp only [List.length_append, List.length_cons, List.length_dropLast]; omega) hpre
    rw [List.append_assoc, List.cons_append, ← hd] at h
    have ht : ¬ v.dropLast.take 2 = [DQUOTE, DQUOTE] := by
      intro hc
      have : DQUOTE ∈ v.dropLast.take 2 := by rw [hc]; simp
      exact hm _ v3 (List.mem_of_mem_take this)
    rw [if_neg ht, strtok_value v.dropLast hdl (hm _ v1) (hm _ v2) (hm _ v3)] at h
    unfold SerialConfigParser
    simp only
    rw [h]
  · have h := SerialConfigParser_search_line section_ k pre v [] off hk v4 v5
      (by simp only [List.length_append, List.length_cons]; omega) hpre
    have ht : ¬ v.take 2 = [DQUOTE, DQUOTE] := by
      intro hc
      have : DQUOTE ∈ v.take 2 := by rw [hc]; simp
      exact v3 (List.mem_of_mem_take this)
    rw [if_neg ht, strtok_value v hne v1 v2 v3] at h
    unfold SerialConfigParser
    simp only
    rw [h]

/-- Witness for C29: the file `[SPI]`, `speed=500000` without a final newline
gives 50000, with the newline 500000. -/
theorem C29_last_line_loses_a_character_witness :
    SerialConfigParser specConsts specCfgConsts
      (some ("[SPI]".toList ++ '\n' :: ("speed".toList ++ '=' :: "500000".toList)))
      "SPI".toList "speed".toList [] 0 =
      some (specConsts.NPI_LNX_SUCCESS, "50000".toList, 0) ∧
    SerialConfigParser specConsts specCfgConsts
      (some ("[SPI]".toList ++ '\n' :: ("speed".toList ++ '=' :: "500000".toList ++ ['\n'])))
      "SPI".toList "speed".toList [] 0 =
      some (specConsts.NPI_LNX_SUCCESS, "500000".toList, 0) :=
  C29_last_line_loses_a_character specConsts specCfgConsts "SPI".toList "speed".toList
    "500000".toList "[SPI]".toList [] 0 1 (by decide) (by decide) (by decide) (by decide)
    (by decide)

/-- C30, failing inputs: in section `SPI`, on the line `speed=` as on the line
`speed` the second call of `strtok` (line 622) finds no token and returns a
null pointer, which line 628 hands to `strcpy`: the search ends in the
dereference of a null pointer and `SerialConfigParser` does not return. -/
theorem C30_null_token :
    SerialConfigParser_value "speed=".toList = none ∧
    SerialConfigParser_value "speed".toList = none ∧
    SerialConfigParser_search "[SPI]\nspeed=\n".toList "SPI".toList "speed".toList = .fault ∧
    SerialConfigParser_search "[SPI]\nspeed\n".toList "SPI".toList "speed".toList = .fault ∧
    SerialConfigParser specConsts specCfgConsts (some "[SPI]\nspeed=\n".toList)
      "SPI".toList "speed".toList [] 0 = none ∧
    SerialConfigParser specConsts specCfgConsts (some "[SPI]\nspeed\n".toList)
      "SPI".toList "speed".toList [] 0 = none :=
  ⟨rfl, rfl, rfl, rfl, rfl, rfl⟩

end RemoTI
